import Mathlib

/-!
# Shallow embedding of `libacryl/acrylic_g2d9810.cpp`

The G2D compositor back end of libacryl turns abstract image layers into the
register commands of the 2D accelerator.  This development embeds the parts of
`acrylic_g2d9810.cpp` that the specification talks about and proves or refutes
the specification's statements about them.

Conventions of the embedding

* `uint32_t` / `unsigned int` values are natural numbers; every operation that
  can leave the 32-bit range is reduced with `u32` (`% 2^32`).
* `int`, `int16_t` values (coordinates, fences, the `index` argument) are
  integers; a conversion to `unsigned` is `toU32`.
* The constants, enumerators and macros that the translation unit takes from
  headers that are not part of the sources (`system/graphics.h`,
  `hardware/hwcomposer2.h`, `exynos_format.h`, `acrylic_g2d9810.h` and the
  G2D uapi header) are the fields of the structures `HalHeader` and
  `G2DHeader`.  Every definition takes them as parameters, so every theorem
  holds for all values of these constants unless a hypothesis says otherwise.
* A C array that is written and read through an index is a function from the
  index to the cell content; a store is `Function.update`.
-/

namespace Acryl

/-! ## Machine integers -/

/-- Reduction of a natural number to the range of a `uint32_t`. -/
def u32 (n : Nat) : Nat := n % 2 ^ 32

/-- Conversion of a C `int` to `unsigned int` (value modulo `2^32`). -/
def toU32 (x : Int) : Nat := (x % 2 ^ 32).toNat

/-- Bitwise complement of a 32-bit unsigned value (the C operator `~`). -/
def not32 (n : Nat) : Nat := 2 ^ 32 - 1 - u32 n

/-! ## Constants of the absent headers -/

/-- Constants of `system/graphics.h`, `hardware/hwcomposer*.h` and
`exynos_format.h` that the translation unit uses.  The headers are not part of
the sources, so the values are parameters. -/
structure HalHeader where
  HAL_PIXEL_FORMAT_RGBA_8888 : Nat
  HAL_PIXEL_FORMAT_BGRA_8888 : Nat
  HAL_PIXEL_FORMAT_RGBX_8888 : Nat
  HAL_PIXEL_FORMAT_RGBA_1010102 : Nat
  HAL_PIXEL_FORMAT_RGB_888 : Nat
  HAL_PIXEL_FORMAT_RGB_565 : Nat
  HAL_PIXEL_FORMAT_YV12 : Nat
  HAL_PIXEL_FORMAT_EXYNOS_YV12_M : Nat
  HAL_PIXEL_FORMAT_YCrCb_420_SP : Nat
  HAL_PIXEL_FORMAT_EXYNOS_YCrCb_420_SP_M : Nat
  HAL_PIXEL_FORMAT_EXYNOS_YCrCb_420_SP_M_FULL : Nat
  HAL_PIXEL_FORMAT_EXYNOS_YCbCr_420_SP : Nat
  HAL_PIXEL_FORMAT_EXYNOS_YCbCr_420_SP_M : Nat
  HAL_PIXEL_FORMAT_EXYNOS_YCbCr_420_SPN : Nat
  HAL_PIXEL_FORMAT_EXYNOS_YCbCr_420_SPN_S10B : Nat
  HAL_PIXEL_FORMAT_EXYNOS_YCbCr_420_SP_M_S10B : Nat
  HAL_PIXEL_FORMAT_YCBCR_P010 : Nat
  HAL_PIXEL_FORMAT_EXYNOS_YCbCr_P010_M : Nat
  HAL_PIXEL_FORMAT_YCbCr_422_I : Nat
  HAL_PIXEL_FORMAT_EXYNOS_YCrCb_422_I : Nat
  HAL_PIXEL_FORMAT_YCbCr_422_SP : Nat
  HAL_PIXEL_FORMAT_EXYNOS_YCbCr_420_SP_M_SBWC : Nat
  HAL_PIXEL_FORMAT_EXYNOS_YCbCr_420_SPN_SBWC : Nat
  HAL_PIXEL_FORMAT_EXYNOS_YCbCr_420_SP_M_10B_SBWC : Nat
  HAL_PIXEL_FORMAT_EXYNOS_YCbCr_420_SPN_10B_SBWC : Nat
  HAL_PIXEL_FORMAT_EXYNOS_YCrCb_420_SP_M_SBWC : Nat
  HAL_PIXEL_FORMAT_EXYNOS_YCrCb_420_SP_M_10B_SBWC : Nat
  HAL_PIXEL_FORMAT_EXYNOS_YCbCr_420_SP_M_SBWC_L50 : Nat
  HAL_PIXEL_FORMAT_EXYNOS_YCbCr_420_SP_M_10B_SBWC_L40 : Nat
  HAL_PIXEL_FORMAT_EXYNOS_YCbCr_420_SP_M_10B_SBWC_L80 : Nat
  HAL_DATASPACE_STANDARD_MASK : Nat
  HAL_DATASPACE_STANDARD_SHIFT : Nat
  HAL_DATASPACE_RANGE_FULL : Nat
  HAL_TRANSFORM_FLIP_H : Nat
  HAL_TRANSFORM_FLIP_V : Nat
  HAL_TRANSFORM_ROT_90 : Nat
  HWC_BLENDING_PREMULT : Nat
  HWC_BLENDING_COVERAGE : Nat
  HWC2_BLEND_MODE_PREMULTIPLIED : Nat
  HWC2_BLEND_MODE_COVERAGE : Nat

/-- Constants of `acrylic_g2d9810.h` and of the G2D uapi header that the
translation unit uses.  The headers are not part of the sources, so the values
are parameters. -/
structure G2DHeader where
  G2D_FMT_ABGR8888 : Nat
  G2D_FMT_ARGB8888 : Nat
  G2D_FMT_XBGR8888 : Nat
  G2D_FMT_ABGR2101010 : Nat
  G2D_FMT_RGB888 : Nat
  G2D_FMT_RGB565 : Nat
  G2D_FMT_BGR565 : Nat
  G2D_FMT_YV12 : Nat
  G2D_FMT_NV21 : Nat
  G2D_FMT_NV12 : Nat
  G2D_FMT_NV12_82_9810 : Nat
  G2D_FMT_NV12_P010_9810 : Nat
  G2D_FMT_NV12_82_9820 : Nat
  G2D_FMT_NV12_P010_9820 : Nat
  G2D_FMT_YUYV : Nat
  G2D_FMT_YVYU : Nat
  G2D_FMT_NV16 : Nat
  G2D_FMT_NV12_SBWC : Nat
  G2D_FMT_NV12_SBWC_10B : Nat
  G2D_FMT_NV21_SBWC : Nat
  G2D_FMT_NV21_SBWC_10B : Nat
  G2D_DATAFMT_MASK : Nat
  G2D_DATAFMT_YUV_MIN : Nat
  G2D_DATAFMT_YUV_MAX : Nat
  G2D_DATAFMT_YUV420SP82_9810 : Nat
  G2D_DATAFORMAT_UORDER : Nat
  G2D_DATAFORMAT_AFBC : Nat
  G2D_DATAFORMAT_SBWC : Nat
  G2D_FMT_YCBCR_10BIT : Nat
  G2D_SWZ_ALPHA_MASK : Nat
  G2D_SWZ_ALPHA_ONE : Nat
  G2D_LAYER_YCBCRMODE_WIDE : Nat
  G2D_YCBCRMODE_DITHER : Nat
  G2D_LAYERFLAG_ACQUIRE_FENCE : Nat
  G2D_LAYERFLAG_SECURE : Nat
  G2D_LAYERFLAG_COLORFILL : Nat
  G2D_LAYERFLAG_MFC_STRIDE : Nat
  G2D_BUFTYPE_EMPTY : Nat
  G2D_BUFTYPE_DMABUF : Nat
  G2D_BUFTYPE_USERPTR : Nat
  G2D_LAYERSEL_COLORFILL : Nat
  G2D_LAYERCMD_VALID : Nat
  G2D_LAYERCMD_OPAQUE : Nat
  G2D_LAYERCMD_PREMULT_GLOBALALPHA : Nat
  G2D_LAYERCMD_ALPHABLEND : Nat
  G2D_ROTATEDIR_ROT90CCW : Nat
  G2D_ROTATEDIR_FLIP_SHIFT : Nat
  G2D_SCALECONTROL_BILINEAR : Nat
  G2D_SCALEFACTOR_FRACBITS : Nat
  G2D_BLEND_SRCOVER : Nat
  G2D_BLEND_NONE : Nat
  G2D_BLEND_SRCCOPY : Nat
  MAX_HDR_SET : Nat

/-! ## Format catalog -/

/-- The `struct g2d_fmt` of the source: one row of a format table. -/
structure g2d_fmt where
  halfmt : Nat
  g2dfmt : Nat
  num_bufs : Nat
  rgb_bpp : Nat
deriving DecidableEq, Repr

/-- The table `__halfmt_to_g2dfmt_9810` of the source. -/
def __halfmt_to_g2dfmt_9810 (H : HalHeader) (G : G2DHeader) : List g2d_fmt := [
  ⟨H.HAL_PIXEL_FORMAT_RGBA_8888,                  G.G2D_FMT_ABGR8888,  1, 4⟩,
  ⟨H.HAL_PIXEL_FORMAT_BGRA_8888,                  G.G2D_FMT_ARGB8888,  1, 4⟩,
  ⟨H.HAL_PIXEL_FORMAT_RGBX_8888,                  G.G2D_FMT_XBGR8888,  1, 4⟩,
  ⟨H.HAL_PIXEL_FORMAT_RGBA_1010102,               G.G2D_FMT_ABGR2101010, 1, 4⟩,
  ⟨H.HAL_PIXEL_FORMAT_RGB_888,                    G.G2D_FMT_RGB888,    1, 3⟩,
  ⟨H.HAL_PIXEL_FORMAT_RGB_565,                    G.G2D_FMT_RGB565,    1, 2⟩,
  ⟨H.HAL_PIXEL_FORMAT_YV12,                       G.G2D_FMT_YV12,      1, 0⟩,
  ⟨H.HAL_PIXEL_FORMAT_EXYNOS_YV12_M,              G.G2D_FMT_YV12,      3, 0⟩,
  ⟨H.HAL_PIXEL_FORMAT_YCrCb_420_SP,               G.G2D_FMT_NV21,      1, 0⟩,
  ⟨H.HAL_PIXEL_FORMAT_EXYNOS_YCrCb_420_SP_M,      G.G2D_FMT_NV21,      2, 0⟩,
  ⟨H.HAL_PIXEL_FORMAT_EXYNOS_YCrCb_420_SP_M_FULL, G.G2D_FMT_NV21,      2, 0⟩,
  ⟨H.HAL_PIXEL_FORMAT_EXYNOS_YCbCr_420_SP,        G.G2D_FMT_NV12,      1, 0⟩,
  ⟨H.HAL_PIXEL_FORMAT_EXYNOS_YCbCr_420_SP_M,      G.G2D_FMT_NV12,      2, 0⟩,
  ⟨H.HAL_PIXEL_FORMAT_EXYNOS_YCbCr_420_SPN,       G.G2D_FMT_NV12,      1, 0⟩,
  ⟨H.HAL_PIXEL_FORMAT_EXYNOS_YCbCr_420_SPN_S10B,  G.G2D_FMT_NV12_82_9810,   1, 0⟩,
  ⟨H.HAL_PIXEL_FORMAT_EXYNOS_YCbCr_420_SP_M_S10B, G.G2D_FMT_NV12_82_9810,   2, 0⟩,
  ⟨H.HAL_PIXEL_FORMAT_YCBCR_P010,                 G.G2D_FMT_NV12_P010_9810, 1, 0⟩,
  ⟨H.HAL_PIXEL_FORMAT_EXYNOS_YCbCr_P010_M,        G.G2D_FMT_NV12_P010_9810, 2, 0⟩,
  ⟨H.HAL_PIXEL_FORMAT_YCbCr_422_I,                G.G2D_FMT_YUYV,      1, 0⟩,
  ⟨H.HAL_PIXEL_FORMAT_EXYNOS_YCrCb_422_I,         G.G2D_FMT_YVYU,      1, 0⟩,
  ⟨H.HAL_PIXEL_FORMAT_YCbCr_422_SP,               G.G2D_FMT_NV16,      1, 0⟩ ]

/-- The table `__halfmt_to_g2dfmt_9820` of the source. -/
def __halfmt_to_g2dfmt_9820 (H : HalHeader) (G : G2DHeader) : List g2d_fmt := [
  ⟨H.HAL_PIXEL_FORMAT_RGBA_8888,                  G.G2D_FMT_ABGR8888,  1, 4⟩,
  ⟨H.HAL_PIXEL_FORMAT_BGRA_8888,                  G.G2D_FMT_ARGB8888,  1, 4⟩,
  ⟨H.HAL_PIXEL_FORMAT_RGBX_8888,                  G.G2D_FMT_XBGR8888,  1, 4⟩,
  ⟨H.HAL_PIXEL_FORMAT_RGBA_1010102,               G.G2D_FMT_ABGR2101010, 1, 4⟩,
  ⟨H.HAL_PIXEL_FORMAT_RGB_888,                    G.G2D_FMT_RGB888,    1, 3⟩,
  ⟨H.HAL_PIXEL_FORMAT_RGB_565,                    G.G2D_FMT_RGB565,    1, 2⟩,
  ⟨H.HAL_PIXEL_FORMAT_YV12,                       G.G2D_FMT_YV12,      1, 0⟩,
  ⟨H.HAL_PIXEL_FORMAT_EXYNOS_YV12_M,              G.G2D_FMT_YV12,      3, 0⟩,
  ⟨H.HAL_PIXEL_FORMAT_YCrCb_420_SP,               G.G2D_FMT_NV21,      1, 0⟩,
  ⟨H.HAL_PIXEL_FORMAT_EXYNOS_YCrCb_420_SP_M,      G.G2D_FMT_NV21,      2, 0⟩,
  ⟨H.HAL_PIXEL_FORMAT_EXYNOS_YCrCb_420_SP_M_FULL, G.G2D_FMT_NV21,      2, 0⟩,
  ⟨H.HAL_PIXEL_FORMAT_EXYNOS_YCbCr_420_SP,        G.G2D_FMT_NV12,      1, 0⟩,
  ⟨H.HAL_PIXEL_FORMAT_EXYNOS_YCbCr_420_SP_M,      G.G2D_FMT_NV12,      2, 0⟩,
  ⟨H.HAL_PIXEL_FORMAT_EXYNOS_YCbCr_420_SPN,       G.G2D_FMT_NV12,      1, 0⟩,
  ⟨H.HAL_PIXEL_FORMAT_EXYNOS_YCbCr_420_SPN_S10B,  G.G2D_FMT_NV12_82_9820,   1, 0⟩,
  ⟨H.HAL_PIXEL_FORMAT_EXYNOS_YCbCr_420_SP_M_S10B, G.G2D_FMT_NV12_82_9820,   2, 0⟩,
  ⟨H.HAL_PIXEL_FORMAT_YCBCR_P010,                 G.G2D_FMT_NV12_P010_9820, 1, 0⟩,
  ⟨H.HAL_PIXEL_FORMAT_EXYNOS_YCbCr_P010_M,        G.G2D_FMT_NV12_P010_9820, 2, 0⟩,
  ⟨H.HAL_PIXEL_FORMAT_YCbCr_422_I,                G.G2D_FMT_YUYV,      1, 0⟩,
  ⟨H.HAL_PIXEL_FORMAT_EXYNOS_YCrCb_422_I,         G.G2D_FMT_YVYU,      1, 0⟩,
  ⟨H.HAL_PIXEL_FORMAT_YCbCr_422_SP,               G.G2D_FMT_NV16,      1, 0⟩,
  ⟨H.HAL_PIXEL_FORMAT_EXYNOS_YCbCr_420_SP_M_SBWC,     G.G2D_FMT_NV12_SBWC, 2, 0⟩,
  ⟨H.HAL_PIXEL_FORMAT_EXYNOS_YCbCr_420_SPN_SBWC,      G.G2D_FMT_NV12_SBWC, 1, 0⟩,
  ⟨H.HAL_PIXEL_FORMAT_EXYNOS_YCbCr_420_SP_M_10B_SBWC, G.G2D_FMT_NV12_SBWC_10B, 2, 0⟩,
  ⟨H.HAL_PIXEL_FORMAT_EXYNOS_YCbCr_420_SPN_10B_SBWC,  G.G2D_FMT_NV12_SBWC_10B, 1, 0⟩,
  ⟨H.HAL_PIXEL_FORMAT_EXYNOS_YCrCb_420_SP_M_SBWC,     G.G2D_FMT_NV21_SBWC, 2, 0⟩,
  ⟨H.HAL_PIXEL_FORMAT_EXYNOS_YCrCb_420_SP_M_10B_SBWC, G.G2D_FMT_NV21_SBWC_10B, 2, 0⟩,
  ⟨H.HAL_PIXEL_FORMAT_EXYNOS_YCbCr_420_SP_M_SBWC_L50, G.G2D_FMT_NV12_SBWC, 2, 0⟩,
  ⟨H.HAL_PIXEL_FORMAT_EXYNOS_YCbCr_420_SP_M_10B_SBWC_L40, G.G2D_FMT_NV12_SBWC_10B, 2, 0⟩,
  ⟨H.HAL_PIXEL_FORMAT_EXYNOS_YCbCr_420_SP_M_10B_SBWC_L80, G.G2D_FMT_NV12_SBWC_10B, 2, 0⟩ ]

/-- The function `halfmt_to_g2dfmt` of the source: linear search of the first
`tbl_len` rows of `tbl` for the row whose `halfmt` is the requested one.  The
returned pointer is the row itself, `NULL` is `none`. -/
def halfmt_to_g2dfmt (tbl : List g2d_fmt) (tbl_len : Nat) (halfmt : Nat) : Option g2d_fmt :=
  (tbl.take tbl_len).find? (fun e => e.halfmt == halfmt)

/-- The table the constructor selects: `halfmt_to_g2dfmt_tbl`. -/
def halfmt_to_g2dfmt_tbl (H : HalHeader) (G : G2DHeader) (newcolormode : Bool) : List g2d_fmt :=
  if newcolormode then __halfmt_to_g2dfmt_9820 H G else __halfmt_to_g2dfmt_9810 H G

/-- The length the constructor selects: `len_halfmt_to_g2dfmt_tbl` (`ARRSIZE` of the table). -/
def len_halfmt_to_g2dfmt_tbl (H : HalHeader) (G : G2DHeader) (newcolormode : Bool) : Nat :=
  if newcolormode then (__halfmt_to_g2dfmt_9820 H G).length else (__halfmt_to_g2dfmt_9810 H G).length

/-! ## Colour-space conversion: tables and `CSCMatrixWriter` -/

/-- Enumerator `G2D_CSC_STD_UNDEFINED`. -/
def G2D_CSC_STD_UNDEFINED : Int := -1
/-- Enumerator `G2D_CSC_STD_601`. -/
def G2D_CSC_STD_601 : Int := 0
/-- Enumerator `G2D_CSC_STD_709`. -/
def G2D_CSC_STD_709 : Int := 1
/-- Enumerator `G2D_CSC_STD_2020`. -/
def G2D_CSC_STD_2020 : Int := 2
/-- Enumerator `G2D_CSC_STD_P3`. -/
def G2D_CSC_STD_P3 : Int := 3
/-- Enumerator `G2D_CSC_STD_COUNT`. -/
def G2D_CSC_STD_COUNT : Nat := 4
/-- Enumerator `G2D_CSC_RANGE_LIMITED`. -/
def G2D_CSC_RANGE_LIMITED : Nat := 0
/-- Enumerator `G2D_CSC_RANGE_FULL`. -/
def G2D_CSC_RANGE_FULL : Nat := 1
/-- Enumerator `G2D_CSC_RANGE_COUNT`. -/
def G2D_CSC_RANGE_COUNT : Nat := 2

/-- The value a plain `char` holds after `static_cast<char>(v)`.  Whether plain
`char` is signed is fixed by the target ABI, so it is the parameter
`charIsSigned`. -/
def castChar (charIsSigned : Bool) (v : Int) : Int :=
  if charIsSigned then (v + 128) % 256 - 128 else v % 256

/-- The table `csc_std_to_matrix_index` of the source (a `char` array indexed by
the colour standard of the dataspace). -/
def csc_std_to_matrix_index (charIsSigned : Bool) : List Int := [
  castChar charIsSigned G2D_CSC_STD_709,        -- HAL_DATASPACE_STANDARD_UNSPECIFIED
  castChar charIsSigned G2D_CSC_STD_709,        -- HAL_DATASPACE_STANDARD_BT709
  castChar charIsSigned G2D_CSC_STD_601,        -- HAL_DATASPACE_STANDARD_BT601_625
  castChar charIsSigned G2D_CSC_STD_601,        -- HAL_DATASPACE_STANDARD_BT601_625_UNADJUSTED
  castChar charIsSigned G2D_CSC_STD_601,        -- HAL_DATASPACE_STANDARD_BT601_525
  castChar charIsSigned G2D_CSC_STD_601,        -- HAL_DATASPACE_STANDARD_BT601_525_UNADJUSTED
  castChar charIsSigned G2D_CSC_STD_2020,       -- HAL_DATASPACE_STANDARD_BT2020
  castChar charIsSigned G2D_CSC_STD_2020,       -- HAL_DATASPACE_STANDARD_BT2020_CONSTANT_LUMINANCE
  castChar charIsSigned G2D_CSC_STD_UNDEFINED,  -- HAL_DATASPACE_STANDARD_BT470M
  castChar charIsSigned G2D_CSC_STD_709,        -- HAL_DATASPACE_STANDARD_FILM
  castChar charIsSigned G2D_CSC_STD_P3,         -- HAL_DATASPACE_STANDARD_DCI_P3
  castChar charIsSigned G2D_CSC_STD_UNDEFINED ] -- HAL_DATASPACE_STANDARD_ADOBE_RGB

/-- The table `YCbCr2sRGBCoefficients` of the source. -/
def YCbCr2sRGBCoefficients : List (List Nat) := [
  [0x0254, 0x0000, 0x0331, 0x0254, 0xFF37, 0xFE60, 0x0254, 0x0409, 0x0000], -- 601 limited
  [0x0200, 0x0000, 0x02BE, 0x0200, 0xFF54, 0xFE9B, 0x0200, 0x0377, 0x0000], -- 601 full
  [0x0254, 0x0000, 0x0396, 0x0254, 0xFF93, 0xFEEF, 0x0254, 0x043A, 0x0000], -- 709 limited
  [0x0200, 0x0000, 0x0314, 0x0200, 0xFFA2, 0xFF16, 0x0200, 0x03A1, 0x0000], -- 709 full
  [0x0254, 0x0000, 0x035B, 0x0254, 0xFFA0, 0xFEB3, 0x0254, 0x0449, 0x0000], -- 2020 limited
  [0x0200, 0x0000, 0x02E2, 0x0200, 0xFFAE, 0xFEE2, 0x0200, 0x03AE, 0x0000], -- 2020 full
  [0x0254, 0x0000, 0x03AE, 0x0254, 0xFF96, 0xFEEE, 0x0254, 0x0456, 0x0000], -- DCI-P3 limited
  [0x0200, 0x0000, 0x0329, 0x0200, 0xFFA5, 0xFF15, 0x0200, 0x03B9, 0x0000] ] -- DCI-P3 full

/-- The table `sRGB2YCbCrCoefficients` of the source. -/
def sRGB2YCbCrCoefficients : List (List Nat) := [
  [0x0083, 0x0102, 0x0032, 0xFFB4, 0xFF6B, 0x00E1, 0x00E1, 0xFF44, 0xFFDB], -- 601 limited
  [0x0099, 0x012D, 0x003A, 0xFFA8, 0xFF53, 0x0106, 0x0106, 0xFF25, 0xFFD5], -- 601 full
  [0x005D, 0x013A, 0x0020, 0xFFCC, 0xFF53, 0x00E1, 0x00E1, 0xFF34, 0xFFEB], -- 709 limited
  [0x006D, 0x016E, 0x0025, 0xFFC4, 0xFF36, 0x0106, 0x0106, 0xFF12, 0xFFE8], -- 709 full
  [0x0074, 0x012A, 0x001A, 0xFFC1, 0xFF5A, 0x00E1, 0x00E1, 0xFF31, 0xFFEE], -- 2020 limited
  [0x0087, 0x015B, 0x001E, 0xFFB7, 0xFF43, 0x0106, 0x0106, 0xFF0F, 0xFFEB], -- 2020 full
  [0x006B, 0x0171, 0x0023, 0xFFC6, 0xFF3A, 0x0100, 0x0100, 0xFF16, 0xFFEA], -- DCI-P3 limited(full)
  [0x006B, 0x0171, 0x0023, 0xFFC6, 0xFF3A, 0x0100, 0x0100, 0xFF16, 0xFFEA] ] -- DCI-P3 full

/-- Macro `CSC_MATRIX_REGISTER_COUNT`. -/
def CSC_MATRIX_REGISTER_COUNT : Nat := 9
/-- Macro `CSC_MATRIX_REGISTER_SIZE` (`9 * sizeof(uint32_t)`). -/
def CSC_MATRIX_REGISTER_SIZE : Nat := CSC_MATRIX_REGISTER_COUNT * 4

/-- The function `g2dfmt_is_ycbcr` of the source. -/
def g2dfmt_is_ycbcr (G : G2DHeader) (g2dfmt : Nat) : Bool :=
  decide (G.G2D_DATAFMT_YUV_MIN ≤ g2dfmt &&& G.G2D_DATAFMT_MASK) &&
    decide (g2dfmt &&& G.G2D_DATAFMT_MASK ≤ G.G2D_DATAFMT_YUV_MAX)

/-- Enumerator `CSCMatrixWriter::CSC_MATRIX_MAX_COUNT`. -/
def CSC_MATRIX_MAX_COUNT : Nat := 4
/-- Enumerator `CSCMatrixWriter::CSC_MATRIX_INVALID_INDEX`. -/
def CSC_MATRIX_INVALID_INDEX : Nat := 200
/-- Enumerator `CSCMatrixWriter::CSC_MATRIX_SRC_BASE`. -/
def CSC_MATRIX_SRC_BASE : Nat := 0x2000
/-- Enumerator `CSCMatrixWriter::CSC_MATRIX_DST_BASE`. -/
def CSC_MATRIX_DST_BASE : Nat := 0x2100

/-- The `struct g2d_reg` of the uapi header: one extra register write. -/
structure g2d_reg where
  offset : Nat
  value : Nat
deriving DecidableEq, Repr

/-- The data members of `class CSCMatrixWriter`.  `mMatrixIndex` is the array
`unsigned int mMatrixIndex[CSC_MATRIX_MAX_COUNT]` as a map from the cell number
to its content; `mMatrixCount` only takes the values `0 .. 4`. -/
structure CSCMatrixWriter where
  mMatrixIndex : Nat → Nat
  mMatrixCount : Nat
  mMatrixTargetIndex : Nat

namespace CSCMatrixWriter

/-- The method `CSCMatrixWriter::findMatrixIndex`.  The `char` table entry is
promoted to `int`, multiplied by `G2D_CSC_RANGE_COUNT` and converted to
`unsigned int`; the increment is an `unsigned int` increment. -/
def findMatrixIndex (H : HalHeader) (charIsSigned : Bool) (dataspace : Nat) : Nat :=
  let colorspace := (dataspace &&& H.HAL_DATASPACE_STANDARD_MASK) >>> H.HAL_DATASPACE_STANDARD_SHIFT
  if colorspace ≥ (csc_std_to_matrix_index charIsSigned).length then
    CSC_MATRIX_INVALID_INDEX
  else
    let index := toU32 ((csc_std_to_matrix_index charIsSigned).getD colorspace 0 * G2D_CSC_RANGE_COUNT)
    if dataspace &&& H.HAL_DATASPACE_RANGE_FULL ≠ 0 then u32 (index + 1) else index

/-- The constructor of `CSCMatrixWriter`.  The array `mMatrixIndex` is not
initialised by the constructor; its initial content is `uninit`.  The second
component is the value of `*command` after the constructor. -/
def new (H : HalHeader) (G : G2DHeader) (charIsSigned : Bool) (uninit : Nat → Nat)
    (g2dfmt dataspace command : Nat) : CSCMatrixWriter × Nat :=
  if g2dfmt_is_ycbcr G g2dfmt then
    (⟨uninit, 0, findMatrixIndex H charIsSigned dataspace⟩,
      if dataspace &&& H.HAL_DATASPACE_RANGE_FULL ≠ 0 then G.G2D_LAYER_YCBCRMODE_WIDE else command)
  else
    (⟨uninit, 0, CSC_MATRIX_INVALID_INDEX⟩, command)

/-- The search loop of `CSCMatrixWriter::configure`
(`for (int i = 0; i < mMatrixCount; i++) if (mMatrixIndex[i] == spcidx) ...`):
the first cell number below `mMatrixCount` that holds `spcidx`. -/
def findSlot (w : CSCMatrixWriter) (spcidx : Nat) : Option Nat :=
  (List.range w.mMatrixCount).find? (fun i => w.mMatrixIndex i == spcidx)

/-- The method `CSCMatrixWriter::configure`.  The result is the returned
`bool`, the writer after the call and the value of `*command` after the call. -/
def configure (H : HalHeader) (G : G2DHeader) (charIsSigned : Bool) (w : CSCMatrixWriter)
    (g2dfmt dataspace command : Nat) : Bool × CSCMatrixWriter × Nat :=
  if !g2dfmt_is_ycbcr G g2dfmt then
    (true, w, command)
  else
    let spcidx := findMatrixIndex H charIsSigned dataspace
    if spcidx = CSC_MATRIX_INVALID_INDEX then
      (false, w, command)
    else
      let command1 :=
        if dataspace &&& H.HAL_DATASPACE_RANGE_FULL ≠ 0 then G.G2D_LAYER_YCBCRMODE_WIDE else command
      match w.findSlot spcidx with
      | some i => (true, w, command1 ||| i)
      | none =>
        if w.mMatrixCount = CSC_MATRIX_MAX_COUNT then
          (false, w, command1)
        else
          let w1 : CSCMatrixWriter :=
            { w with mMatrixIndex := Function.update w.mMatrixIndex w.mMatrixCount spcidx }
          let command2 := command1 ||| w1.mMatrixCount
          let w2 : CSCMatrixWriter := { w1 with mMatrixCount := w1.mMatrixCount + 1 }
          -- 8-bit part data are always dithered by MFC
          if g2dfmt &&& G.G2D_DATAFMT_YUV420SP82_9810 ≠ 0 then
            (true, w2, command2 ||| G.G2D_YCBCRMODE_DITHER)
          else
            (true, w2, command2)

/-- The method `CSCMatrixWriter::getRegisterCount`. -/
def getRegisterCount (w : CSCMatrixWriter) : Nat :=
  let count := CSC_MATRIX_REGISTER_COUNT * w.mMatrixCount
  if w.mMatrixTargetIndex ≠ CSC_MATRIX_INVALID_INDEX then count + CSC_MATRIX_REGISTER_COUNT else count

/-- The method `CSCMatrixWriter::writeSingle`, writing into `regs[start ..]`
(the call sites pass `&regs[start]`).  `matrix` is a row of a coefficient
table; every row has `CSC_MATRIX_REGISTER_COUNT` entries. -/
def writeSingle (base : Nat) (regs : Nat → g2d_reg) (start : Nat) (matrix : List Nat) :
    Nat → g2d_reg :=
  (List.range CSC_MATRIX_REGISTER_COUNT).foldl
    (fun r idx => Function.update r (start + idx) ⟨base + 4 * idx, matrix.getD idx 0⟩) regs

/-- The method `CSCMatrixWriter::write`: the register array after the call and
the returned count.  The call is `none` where it reads a row outside a
coefficient table (`sRGB2YCbCrCoefficients[mMatrixTargetIndex]` or
`YCbCr2sRGBCoefficients[mMatrixIndex[m]]` with an index that is not below the
8 rows of the table): that read is undefined behaviour in C and has no
result. -/
def write (w : CSCMatrixWriter) (regs : Nat → g2d_reg) : Option ((Nat → g2d_reg) × Nat) :=
  let s0 : Option ((Nat → g2d_reg) × Nat) :=
    if w.mMatrixTargetIndex ≠ CSC_MATRIX_INVALID_INDEX then
      match sRGB2YCbCrCoefficients[w.mMatrixTargetIndex]? with
      | some row => some (writeSingle CSC_MATRIX_DST_BASE regs 0 row, CSC_MATRIX_REGISTER_COUNT)
      | none => none
    else some (regs, 0)
  (List.range w.mMatrixCount).foldl
    (fun s m =>
      match s, YCbCr2sRGBCoefficients[w.mMatrixIndex m]? with
      | some s, some row =>
        some (writeSingle (CSC_MATRIX_SRC_BASE + m * CSC_MATRIX_REGISTER_SIZE) s.1 s.2 row,
          s.2 + CSC_MATRIX_REGISTER_COUNT)
      | _, _ => none)
    s0

end CSCMatrixWriter

/-- A run of `configure` calls on one writer, each call given as
`(g2dfmt, dataspace, incoming value of *command)`: the list of
`(returned bool, value of *command after the call)` and the final writer. -/
def configureAll (H : HalHeader) (G : G2DHeader) (charIsSigned : Bool) :
    CSCMatrixWriter → List (Nat × Nat × Nat) → List (Bool × Nat) × CSCMatrixWriter
  | w, [] => ([], w)
  | w, c :: rest =>
    let r := w.configure H G charIsSigned c.1 c.2.1 c.2.2
    let t := configureAll H G charIsSigned r.2.1 rest
    ((r.1, r.2.2) :: t.1, t.2)

/-- Scanning `xs` from the left and appending to `acc` every element that is not
yet in the accumulated list. -/
def firstSeenFrom (acc : List Nat) : List Nat → List Nat
  | [] => acc
  | x :: xs => firstSeenFrom (if x ∈ acc then acc else acc ++ [x]) xs

/-- The distinct elements of a list in the order of their first occurrence. -/
def firstSeen (xs : List Nat) : List Nat := firstSeenFrom [] xs

/-- The coefficient-row index a `configure` call `(g2dfmt, dataspace, command)`
asks for. -/
def rowOf (H : HalHeader) (charIsSigned : Bool) (c : Nat × Nat × Nat) : Nat :=
  CSCMatrixWriter.findMatrixIndex H charIsSigned c.2.1

/-- The value of `*command` of a `configure` call `(g2dfmt, dataspace, command)`
before the slot number is OR-ed in: the wide flag for a full-range dataspace,
the incoming value otherwise. -/
def rangeCommand (H : HalHeader) (G : G2DHeader) (c : Nat × Nat × Nat) : Nat :=
  if c.2.1 &&& H.HAL_DATASPACE_RANGE_FULL ≠ 0 then G.G2D_LAYER_YCBCRMODE_WIDE else c.2.2

/-- The YCbCr-mode register value that carries slot number `slot` for the call
`c`; `fresh` tells whether the call caches a new matrix (only then the dither
flag of the 8+2-bit formats is OR-ed in). -/
def slotRegister (H : HalHeader) (G : G2DHeader) (c : Nat × Nat × Nat) (slot : Nat)
    (fresh : Bool) : Nat :=
  if fresh && decide (c.1 &&& G.G2D_DATAFMT_YUV420SP82_9810 ≠ 0) then
    (rangeCommand H G c ||| slot) ||| G.G2D_YCBCRMODE_DITHER
  else
    rangeCommand H G c ||| slot

/-- The cached row indices of a writer: cells `0 .. mMatrixCount - 1`. -/
def CSCMatrixWriter.cached (w : CSCMatrixWriter) : List Nat :=
  (List.range w.mMatrixCount).map w.mMatrixIndex

/-! ## Geometry and layer encoder -/

/-- The type `hw2d_coord_t` of the libacryl interface (declared in a header that
is not part of the sources): a pair of `int16_t`, modelled with integers. -/
structure hw2d_coord_t where
  hori : Int
  vert : Int
deriving DecidableEq, Repr

/-- The method `hw2d_coord_t::swap`. -/
def hw2d_coord_t.swap (c : hw2d_coord_t) : hw2d_coord_t := ⟨c.vert, c.hori⟩

/-- The type `hw2d_rect_t` of the libacryl interface. -/
structure hw2d_rect_t where
  pos : hw2d_coord_t
  size : hw2d_coord_t
deriving DecidableEq, Repr

/-- Modelled from the spec: the helper `area_is_zero` is declared in a header
that is not part of the sources; the spec calls its argument a "zero-area
target", so it holds when the product of the two extents is zero. -/
def area_is_zero (r : hw2d_rect_t) : Bool := r.size.hori * r.size.vert == 0

/-- Modelled from the spec: the macro `ALIGN` is defined in a header that is not
part of the sources; the spec says "aligned to fixed boundaries", so it rounds
`x` up to the next multiple of `a`. -/
def ALIGN (x a : Int) : Int := (x + a - 1) / a * a

/-- The register enumerators `G2DSFR_*` that the encoder uses (the enumerations
`g2dsfr_img_register`, `g2dsfr_src_register` and `g2dsfr_dst_register` of the
absent header).  A command buffer `cmd[]` is a map from the enumerator to the
register value.  The source enumerators are only used on source buffers (index
not negative), the destination enumerators only on the target buffer. -/
inductive g2dsfr
  | G2DSFR_IMG_STRIDE | G2DSFR_IMG_COLORMODE | G2DSFR_IMG_LEFT | G2DSFR_IMG_TOP
  | G2DSFR_IMG_RIGHT | G2DSFR_IMG_BOTTOM | G2DSFR_IMG_WIDTH | G2DSFR_IMG_HEIGHT
  | G2DSFR_SRC_COMMAND | G2DSFR_SRC_SELECT | G2DSFR_SRC_ROTATE
  | G2DSFR_SRC_DSTLEFT | G2DSFR_SRC_DSTTOP | G2DSFR_SRC_DSTRIGHT | G2DSFR_SRC_DSTBOTTOM
  | G2DSFR_SRC_SCALECONTROL | G2DSFR_SRC_XSCALE | G2DSFR_SRC_YSCALE
  | G2DSFR_SRC_XPHASE | G2DSFR_SRC_YPHASE | G2DSFR_SRC_COLOR | G2DSFR_SRC_ALPHA
  | G2DSFR_SRC_BLEND | G2DSFR_SRC_YCBCRMODE | G2DSFR_SRC_HDRMODE
  | G2DSFR_SRC_Y_HEADER_STRIDE | G2DSFR_SRC_C_HEADER_STRIDE
  | G2DSFR_SRC_Y_PAYLOAD_STRIDE | G2DSFR_SRC_C_PAYLOAD_STRIDE | G2DSFR_SRC_SBWCINFO
  | G2DSFR_DST_YCBCRMODE
  | G2DSFR_DST_Y_HEADER_STRIDE | G2DSFR_DST_C_HEADER_STRIDE
  | G2DSFR_DST_Y_PAYLOAD_STRIDE | G2DSFR_DST_C_PAYLOAD_STRIDE | G2DSFR_DST_SBWCINFO
deriving DecidableEq, Repr

open g2dsfr

/-- The enumeration `AcrylicCanvas::memory_type`. -/
inductive memory_type
  | MT_DMABUF | MT_USERPTR | MT_EMPTY
deriving DecidableEq, Repr

/-- The state of an `AcrylicCanvas` object as the compositor sees it; each field
is the result of the getter of the same name (`setFence` writes `getFence`). -/
structure AcrylicCanvas where
  getFence : Int
  isProtected : Bool
  getFormat : Nat
  getBufferType : memory_type
  getBufferCount : Nat
  getDmabuf : Nat → Int
  getOffset : Nat → Nat
  getBufferLength : Nat → Nat
  getUserptr : Nat → Nat
  getImageDimension : hw2d_coord_t
  isUOrder : Bool
  isCompressed : Bool
  isOTF : Bool
  getDataspace : Nat
  -- the settings-modified flag of the object, which `clearSettingModified()` clears
  settingModified : Bool := true

/-- The read interface of `AcrylicLayer` (a canvas with placement and blending
attributes); each field is the result of the getter of the same name. -/
structure AcrylicLayer extends AcrylicCanvas where
  isSolidColor : Bool
  getSolidColor : Nat
  getImageRect : hw2d_rect_t
  getTargetRect : hw2d_rect_t
  getTransform : Nat
  getPlaneAlpha : Nat
  getCompositingMode : Nat

/-- One entry of `g2d_layer::buffer` (the uapi union of `userptr` and
`dmabuf {fd, offset}` together with `length`). -/
structure g2d_buffer where
  userptr : Nat
  fd : Int
  offset : Nat
  length : Nat
deriving DecidableEq, Repr

/-- The `struct g2d_layer` of the uapi header. -/
structure g2d_layer where
  flags : Nat
  fence : Int
  buffer_type : Nat
  num_buffers : Nat
  buffer : Nat → g2d_buffer

/-- Macro `SBWC_BLOCK_WIDTH`. -/
def SBWC_BLOCK_WIDTH : Int := 32
/-- Macro `SBWC_BLOCK_HEIGHT`. -/
def SBWC_BLOCK_HEIGHT : Int := 4
/-- Macro `SBWC_BLOCK_SIZE`. -/
def SBWC_BLOCK_SIZE (bit : Int) : Int := (SBWC_BLOCK_WIDTH * SBWC_BLOCK_HEIGHT * bit).tdiv 8
/-- Macro `SBWC_HEADER_ALIGN`. -/
def SBWC_HEADER_ALIGN : Int := 16
/-- Macro `SBWC_PAYLOAD_ALIGN`. -/
def SBWC_PAYLOAD_ALIGN : Int := 32
/-- Macro `SBWC_HEADER_STRIDE`. -/
def SBWC_HEADER_STRIDE (w : Int) : Int := ALIGN ((w.tdiv SBWC_BLOCK_WIDTH).tdiv 2) SBWC_HEADER_ALIGN
/-- Macro `SBWC_PAYLOAD_STRIDE`. -/
def SBWC_PAYLOAD_STRIDE (w dep : Int) : Int :=
  ALIGN (w.tdiv SBWC_BLOCK_WIDTH * SBWC_BLOCK_SIZE dep) SBWC_PAYLOAD_ALIGN
/-- Macro `SBWC_LOSSY_PAYLOAD_STRIDE`; `block_byte` is an `unsigned int`, so the
product is taken modulo `2^32`. -/
def SBWC_LOSSY_PAYLOAD_STRIDE (w : Int) (block_byte : Nat) : Int :=
  ALIGN ((u32 (toU32 (w.tdiv SBWC_BLOCK_WIDTH) * block_byte) : Nat) : Int) SBWC_PAYLOAD_ALIGN

/-- The table `mfc_stride_formats` of the source. -/
def mfc_stride_formats (H : HalHeader) : List Nat := [
  H.HAL_PIXEL_FORMAT_EXYNOS_YCbCr_420_SPN,
  H.HAL_PIXEL_FORMAT_EXYNOS_YCbCr_420_SPN_S10B,
  H.HAL_PIXEL_FORMAT_EXYNOS_YCbCr_420_SP_M_S10B,
  H.HAL_PIXEL_FORMAT_EXYNOS_YCbCr_420_SP_M_SBWC,
  H.HAL_PIXEL_FORMAT_EXYNOS_YCbCr_420_SPN_SBWC,
  H.HAL_PIXEL_FORMAT_EXYNOS_YCbCr_420_SP_M_10B_SBWC,
  H.HAL_PIXEL_FORMAT_EXYNOS_YCbCr_420_SPN_10B_SBWC,
  H.HAL_PIXEL_FORMAT_EXYNOS_YCrCb_420_SP_M_SBWC,
  H.HAL_PIXEL_FORMAT_EXYNOS_YCrCb_420_SP_M_10B_SBWC ]

/-- The table `sbwc_lossy_formats` of the source. -/
def sbwc_lossy_formats (H : HalHeader) : List Nat := [
  H.HAL_PIXEL_FORMAT_EXYNOS_YCbCr_420_SP_M_SBWC_L50,
  H.HAL_PIXEL_FORMAT_EXYNOS_YCbCr_420_SP_M_10B_SBWC_L40,
  H.HAL_PIXEL_FORMAT_EXYNOS_YCbCr_420_SP_M_10B_SBWC_L80 ]

/-- The lossy-format loop of `prepareImage`: the first position `i` of
`sbwc_lossy_formats` that holds `format` (then `isLossy = 1` and
`blocksize = (i < 2) ? 64 : 128`), or `none` (then `isLossy = 0`). -/
def sbwcLossyIndex (H : HalHeader) (format : Nat) : Option Nat :=
  (List.range (sbwc_lossy_formats H).length).find?
    (fun i => format == (sbwc_lossy_formats H).getD i 0)

/-- The method `AcrylicCompositorG2D9810::prepareImage`.  `tbl` and `tbl_len`
are the members `halfmt_to_g2dfmt_tbl` and `len_halfmt_to_g2dfmt_tbl`.  The
result is the returned `bool`, `image` after the call and `cmd[]` after the
call. -/
def prepareImage (H : HalHeader) (G : G2DHeader) (tbl : List g2d_fmt) (tbl_len : Nat)
    (layer : AcrylicCanvas) (image : g2d_layer) (cmd : g2dsfr → Nat) (index : Int) :
    Bool × g2d_layer × (g2dsfr → Nat) :=
  let image := { image with flags := 0 }
  let image :=
    if layer.getFence ≥ 0 then
      { image with flags := image.flags ||| G.G2D_LAYERFLAG_ACQUIRE_FENCE, fence := layer.getFence }
    else image
  let image :=
    if layer.isProtected then { image with flags := image.flags ||| G.G2D_LAYERFLAG_SECURE }
    else image
  match halfmt_to_g2dfmt tbl tbl_len layer.getFormat with
  | none => (false, image, cmd)
  | some g2dfmt =>
    let image := { image with flags := image.flags &&& not32 G.G2D_LAYERFLAG_MFC_STRIDE }
    let image :=
      if (mfc_stride_formats H).any (fun f => layer.getFormat == f) then
        { image with flags := image.flags ||| G.G2D_LAYERFLAG_MFC_STRIDE }
      else image
    if layer.getBufferType ≠ memory_type.MT_EMPTY ∧ layer.getBufferCount < g2dfmt.num_bufs then
      (false, image, cmd)
    else
      let image :=
        match layer.getBufferType with
        | memory_type.MT_EMPTY => { image with buffer_type := G.G2D_BUFTYPE_EMPTY }
        | memory_type.MT_DMABUF =>
          { image with
            buffer_type := G.G2D_BUFTYPE_DMABUF,
            buffer := fun i =>
              if i < g2dfmt.num_bufs then
                { image.buffer i with
                  fd := layer.getDmabuf i, offset := layer.getOffset i,
                  length := layer.getBufferLength i }
              else image.buffer i }
        | memory_type.MT_USERPTR =>
          { image with
            buffer_type := G.G2D_BUFTYPE_USERPTR,
            buffer := fun i =>
              if i < g2dfmt.num_bufs then
                { image.buffer i with
                  userptr := layer.getUserptr i, length := layer.getBufferLength i }
              else image.buffer i }
      let image := { image with num_buffers := g2dfmt.num_bufs }
      let xy := layer.getImageDimension
      let cmd := Function.update cmd G2DSFR_IMG_COLORMODE g2dfmt.g2dfmt
      let cmd :=
        if layer.isUOrder then
          Function.update cmd G2DSFR_IMG_COLORMODE
            (cmd G2DSFR_IMG_COLORMODE ||| G.G2D_DATAFORMAT_UORDER)
        else cmd
      let cmd :=
        if layer.isCompressed then
          -- AFBC forces RGB swizzling order to BGR for RGB565
          let cmd :=
            if g2dfmt.g2dfmt = G.G2D_FMT_RGB565 then
              Function.update cmd G2DSFR_IMG_COLORMODE G.G2D_FMT_BGR565
            else cmd
          let cmd := Function.update cmd G2DSFR_IMG_COLORMODE
            (cmd G2DSFR_IMG_COLORMODE ||| G.G2D_DATAFORMAT_AFBC)
          Function.update cmd G2DSFR_IMG_STRIDE 0
        else if g2dfmt.g2dfmt &&& G.G2D_DATAFORMAT_SBWC ≠ 0 then
          Function.update cmd G2DSFR_IMG_STRIDE 0
        else
          Function.update cmd G2DSFR_IMG_STRIDE (toU32 ((g2dfmt.rgb_bpp : Int) * xy.hori))
      -- (payload, header, lossyByteNum)
      let phl : Nat × Nat × Nat :=
        if g2dfmt.g2dfmt &&& G.G2D_DATAFORMAT_SBWC ≠ 0 then
          match sbwcLossyIndex H layer.getFormat with
          | some i =>
            let blocksize : Nat := if i < 2 then 64 else 128
            (toU32 (SBWC_LOSSY_PAYLOAD_STRIDE xy.hori blocksize), 0, (blocksize >>> 1) ||| 1)
          | none =>
            (toU32 (SBWC_PAYLOAD_STRIDE xy.hori
                (if g2dfmt.g2dfmt &&& G.G2D_FMT_YCBCR_10BIT ≠ 0 then 10 else 8)),
              toU32 (SBWC_HEADER_STRIDE xy.hori), 0)
        else (0, 0, 0)
      let payload := phl.1
      let header := phl.2.1
      let lossyByteNum := phl.2.2
      let cmd :=
        if index < 0 then
          let cmd := Function.update cmd G2DSFR_DST_Y_HEADER_STRIDE header
          let cmd := Function.update cmd G2DSFR_DST_C_HEADER_STRIDE header
          let cmd := Function.update cmd G2DSFR_DST_Y_PAYLOAD_STRIDE payload
          let cmd := Function.update cmd G2DSFR_DST_C_PAYLOAD_STRIDE payload
          Function.update cmd G2DSFR_DST_SBWCINFO lossyByteNum
        else
          let cmd := Function.update cmd G2DSFR_SRC_Y_HEADER_STRIDE header
          let cmd := Function.update cmd G2DSFR_SRC_C_HEADER_STRIDE header
          let cmd := Function.update cmd G2DSFR_SRC_Y_PAYLOAD_STRIDE payload
          let cmd := Function.update cmd G2DSFR_SRC_C_PAYLOAD_STRIDE payload
          Function.update cmd G2DSFR_SRC_SBWCINFO lossyByteNum
      let cmd := Function.update cmd G2DSFR_IMG_LEFT 0
      let cmd := Function.update cmd G2DSFR_IMG_TOP 0
      let cmd := Function.update cmd G2DSFR_IMG_RIGHT (toU32 xy.hori)
      let cmd := Function.update cmd G2DSFR_IMG_BOTTOM (toU32 xy.vert)
      let cmd := Function.update cmd G2DSFR_IMG_WIDTH (toU32 xy.hori)
      let cmd := Function.update cmd G2DSFR_IMG_HEIGHT (toU32 xy.vert)
      (true, image, cmd)

/-- Macro `G2D_SCALE_FACTOR(from, to)`: `from` is cast to `uint32_t` and shifted in 32
bits; the divisor is converted to `unsigned int` by the usual arithmetic
conversions.  (A zero divisor is undefined in C; the model yields 0.) -/
def G2D_SCALE_FACTOR (G : G2DHeader) (from_ to_ : Int) : Nat :=
  u32 (toU32 from_ <<< G.G2D_SCALEFACTOR_FRACBITS) / toU32 to_

/-- The function `setSolidLayer` of the source. -/
def setSolidLayer (G : G2DHeader) (image : g2d_layer) (cmd : g2dsfr → Nat) (xy : hw2d_coord_t) :
    g2d_layer × (g2dsfr → Nat) :=
  let image := { image with
    flags := G.G2D_LAYERFLAG_COLORFILL, buffer_type := G.G2D_BUFTYPE_EMPTY, num_buffers := 0 }
  let cmd := Function.update cmd G2DSFR_IMG_COLORMODE G.G2D_FMT_ARGB8888
  let cmd := Function.update cmd G2DSFR_IMG_STRIDE (toU32 (4 * xy.hori))
  let cmd := Function.update cmd G2DSFR_IMG_WIDTH (toU32 xy.hori)
  let cmd := Function.update cmd G2DSFR_IMG_HEIGHT (toU32 xy.vert)
  let cmd := Function.update cmd G2DSFR_SRC_SELECT G.G2D_LAYERSEL_COLORFILL
  let cmd := Function.update cmd G2DSFR_SRC_COMMAND G.G2D_LAYERCMD_VALID
  let cmd := Function.update cmd G2DSFR_SRC_ROTATE 0
  let cmd := Function.update cmd G2DSFR_SRC_SCALECONTROL 0
  let cmd := Function.update cmd G2DSFR_SRC_XSCALE (G2D_SCALE_FACTOR G 1 1)
  let cmd := Function.update cmd G2DSFR_SRC_YSCALE (G2D_SCALE_FACTOR G 1 1)
  let cmd := Function.update cmd G2DSFR_SRC_XPHASE 0
  let cmd := Function.update cmd G2DSFR_SRC_YPHASE 0
  let cmd := Function.update cmd G2DSFR_SRC_YCBCRMODE 0
  let cmd := Function.update cmd G2DSFR_SRC_HDRMODE 0
  let cmd := Function.update cmd G2DSFR_SRC_Y_HEADER_STRIDE 0
  let cmd := Function.update cmd G2DSFR_SRC_C_HEADER_STRIDE 0
  let cmd := Function.update cmd G2DSFR_SRC_Y_PAYLOAD_STRIDE 0
  let cmd := Function.update cmd G2DSFR_SRC_C_PAYLOAD_STRIDE 0
  let cmd := Function.update cmd G2DSFR_SRC_SBWCINFO 0
  (image, cmd)

/-- The background colour of the compositor as `getBackgroundColor` returns it:
four `uint16_t` components. -/
structure BackgroundColor where
  r : Nat
  g : Nat
  b : Nat
  a : Nat
deriving DecidableEq, Repr

/-- The method `AcrylicCompositorG2D9810::prepareSolidLayer(AcrylicCanvas &, ...)`
(the synthesized background layer). -/
def prepareSolidLayerCanvas (G : G2DHeader) (bg : BackgroundColor) (canvas : AcrylicCanvas)
    (image : g2d_layer) (cmd : g2dsfr → Nat) : Bool × g2d_layer × (g2dsfr → Nat) :=
  let xy := canvas.getImageDimension
  let s := setSolidLayer G image cmd xy
  let image := s.1
  let cmd := s.2
  let cmd := Function.update cmd G2DSFR_SRC_COLOR (u32 ((bg.a &&& 0xFF00) <<< 16))
  let cmd := Function.update cmd G2DSFR_SRC_COLOR
    (cmd G2DSFR_SRC_COLOR ||| u32 ((bg.r &&& 0xFF00) <<< 8))
  let cmd := Function.update cmd G2DSFR_SRC_COLOR
    (cmd G2DSFR_SRC_COLOR ||| u32 ((bg.g &&& 0xFF00) <<< 0))
  let cmd := Function.update cmd G2DSFR_SRC_COLOR
    (cmd G2DSFR_SRC_COLOR ||| ((bg.b &&& 0xFF00) >>> 8))
  let cmd := Function.update cmd G2DSFR_IMG_LEFT 0
  let cmd := Function.update cmd G2DSFR_IMG_TOP 0
  let cmd := Function.update cmd G2DSFR_IMG_RIGHT (toU32 xy.hori)
  let cmd := Function.update cmd G2DSFR_IMG_BOTTOM (toU32 xy.vert)
  let cmd := Function.update cmd G2DSFR_SRC_DSTLEFT 0
  let cmd := Function.update cmd G2DSFR_SRC_DSTTOP 0
  let cmd := Function.update cmd G2DSFR_SRC_DSTRIGHT (toU32 xy.hori)
  let cmd := Function.update cmd G2DSFR_SRC_DSTBOTTOM (toU32 xy.vert)
  let cmd := Function.update cmd G2DSFR_SRC_ALPHA 0
  let cmd := Function.update cmd G2DSFR_SRC_BLEND 0
  (true, image, cmd)

/-- The blend-mode selection shared by `prepareSolidLayer` and `prepareSource`:
the value written to `G2DSFR_SRC_BLEND`. -/
def blendOf (H : HalHeader) (G : G2DHeader) (compositingMode : Nat) : Nat :=
  if compositingMode = H.HWC_BLENDING_PREMULT ∨
      compositingMode = H.HWC2_BLEND_MODE_PREMULTIPLIED then
    G.G2D_BLEND_SRCOVER
  else if compositingMode = H.HWC_BLENDING_COVERAGE ∨
      compositingMode = H.HWC2_BLEND_MODE_COVERAGE then
    G.G2D_BLEND_NONE
  else
    G.G2D_BLEND_SRCCOPY

/-- The value `(alpha << 24) | (alpha << 16) | (alpha << 8) | alpha` written to
`G2DSFR_SRC_ALPHA` for the `uint8_t alpha`. -/
def alphaOf (alpha : Nat) : Nat :=
  u32 (alpha <<< 24) ||| (alpha <<< 16) ||| (alpha <<< 8) ||| alpha

/-- The tail shared by `prepareSolidLayer` and `prepareSource`
("bottom layer always is opaque"): the update of `G2DSFR_SRC_COMMAND`. -/
def commandOf (G : G2DHeader) (command : Nat) (alpha : Nat) (index : Int) : Nat :=
  if index = 0 then
    if alpha < 255 then
      (command ||| G.G2D_LAYERCMD_OPAQUE) ||| G.G2D_LAYERCMD_PREMULT_GLOBALALPHA
    else command ||| G.G2D_LAYERCMD_OPAQUE
  else command ||| G.G2D_LAYERCMD_ALPHABLEND

/-- The method `AcrylicCompositorG2D9810::prepareSolidLayer(AcrylicLayer &, ...)`. -/
def prepareSolidLayer (H : HalHeader) (G : G2DHeader) (layer : AcrylicLayer) (image : g2d_layer)
    (cmd : g2dsfr → Nat) (target_size : hw2d_coord_t) (index : Int) :
    Bool × g2d_layer × (g2dsfr → Nat) :=
  let xy := layer.getImageDimension
  let s := setSolidLayer G image cmd xy
  let image := s.1
  let cmd := s.2
  let cmd := Function.update cmd G2DSFR_SRC_COLOR layer.getSolidColor
  let crop := layer.getImageRect
  let cmd := Function.update cmd G2DSFR_IMG_LEFT (toU32 crop.pos.hori)
  let cmd := Function.update cmd G2DSFR_IMG_TOP (toU32 crop.pos.vert)
  let cmd := Function.update cmd G2DSFR_IMG_RIGHT (toU32 (crop.size.hori + crop.pos.hori))
  let cmd := Function.update cmd G2DSFR_IMG_BOTTOM (toU32 (crop.size.vert + crop.pos.vert))
  let window := layer.getTargetRect
  let window : hw2d_rect_t :=
    if area_is_zero window then { window with size := target_size } else window
  let cmd := Function.update cmd G2DSFR_SRC_DSTLEFT (toU32 window.pos.hori)
  let cmd := Function.update cmd G2DSFR_SRC_DSTTOP (toU32 window.pos.vert)
  let cmd := Function.update cmd G2DSFR_SRC_DSTRIGHT (toU32 (window.size.hori + window.pos.hori))
  let cmd := Function.update cmd G2DSFR_SRC_DSTBOTTOM (toU32 (window.size.vert + window.pos.vert))
  let alpha := layer.getPlaneAlpha % 256
  let cmd := Function.update cmd G2DSFR_SRC_ALPHA (alphaOf alpha)
  let cmd := Function.update cmd G2DSFR_SRC_BLEND (blendOf H G layer.getCompositingMode)
  /- bottom layer always is opaque -/
  let cmd := Function.update cmd G2DSFR_SRC_COMMAND (commandOf G (cmd G2DSFR_SRC_COMMAND) alpha index)
  (true, image, cmd)

/-- The method `AcrylicCompositorG2D9810::prepareSource`. -/
def prepareSource (H : HalHeader) (G : G2DHeader) (tbl : List g2d_fmt) (tbl_len : Nat)
    (layer : AcrylicLayer) (image : g2d_layer) (cmd : g2dsfr → Nat)
    (target_size : hw2d_coord_t) (index : Int) : Bool × g2d_layer × (g2dsfr → Nat) :=
  if layer.isSolidColor then
    let r := prepareSolidLayer H G layer image cmd target_size index
    (true, r.2.1, r.2.2)
  else
    let r := prepareImage H G tbl tbl_len layer.toAcrylicCanvas image cmd index
    if !r.1 then (false, r.2.1, r.2.2)
    else
      let image := r.2.1
      let cmd := r.2.2
      let cmd := Function.update cmd G2DSFR_SRC_SELECT 0
      let crop := layer.getImageRect
      let cmd := Function.update cmd G2DSFR_IMG_LEFT (toU32 crop.pos.hori)
      let cmd := Function.update cmd G2DSFR_IMG_TOP (toU32 crop.pos.vert)
      let cmd := Function.update cmd G2DSFR_IMG_RIGHT (toU32 (crop.size.hori + crop.pos.hori))
      let cmd := Function.update cmd G2DSFR_IMG_BOTTOM (toU32 (crop.size.vert + crop.pos.vert))
      let window := layer.getTargetRect
      let window : hw2d_rect_t :=
        if area_is_zero window then { window with size := target_size } else window
      let cmd := Function.update cmd G2DSFR_SRC_DSTLEFT (toU32 window.pos.hori)
      let cmd := Function.update cmd G2DSFR_SRC_DSTTOP (toU32 window.pos.vert)
      let cmd := Function.update cmd G2DSFR_SRC_DSTRIGHT (toU32 (window.size.hori + window.pos.hori))
      let cmd := Function.update cmd G2DSFR_SRC_DSTBOTTOM
        (toU32 (window.size.vert + window.pos.vert))
      let cmd :=
        if layer.isCompressed then
          let cmd := Function.update cmd G2DSFR_IMG_WIDTH (u32 (cmd G2DSFR_IMG_WIDTH + (2 ^ 32 - 1)))
          Function.update cmd G2DSFR_IMG_HEIGHT (u32 (cmd G2DSFR_IMG_HEIGHT + (2 ^ 32 - 1)))
        else cmd
      let cmd := Function.update cmd G2DSFR_SRC_ROTATE 0
      -- HAL FLIP value: FLIP_H=0x01, FLIP_V=0x02
      -- G2D FLIP value: FLIP_Y=0x05, FLIP_X=0x04
      let flip := layer.getTransform &&& (H.HAL_TRANSFORM_FLIP_H ||| H.HAL_TRANSFORM_FLIP_V)
      let rot90 : Bool := decide (layer.getTransform &&& H.HAL_TRANSFORM_ROT_90 ≠ 0)
      let window : hw2d_rect_t := if rot90 then { window with size := window.size.swap } else window
      let cmd :=
        if rot90 then
          Function.update cmd G2DSFR_SRC_ROTATE (cmd G2DSFR_SRC_ROTATE ||| G.G2D_ROTATEDIR_ROT90CCW)
        else cmd
      let flip :=
        if rot90 ∧ (flip = 0 ∨ flip = (H.HAL_TRANSFORM_FLIP_H ||| H.HAL_TRANSFORM_FLIP_V)) then
          not32 flip &&& (H.HAL_TRANSFORM_FLIP_H ||| H.HAL_TRANSFORM_FLIP_V)
        else flip
      let cmd := Function.update cmd G2DSFR_SRC_ROTATE
        (cmd G2DSFR_SRC_ROTATE ||| u32 (flip <<< G.G2D_ROTATEDIR_FLIP_SHIFT))
      let cmd := Function.update cmd G2DSFR_SRC_XSCALE
        (G2D_SCALE_FACTOR G crop.size.hori window.size.hori)
      let cmd := Function.update cmd G2DSFR_SRC_YSCALE
        (G2D_SCALE_FACTOR G crop.size.vert window.size.vert)
      -- Configure bilinear interpolation only if it is required.
      let cmd :=
        if (cmd G2DSFR_SRC_XSCALE ||| cmd G2DSFR_SRC_YSCALE) ≠ G2D_SCALE_FACTOR G 1 1 then
          Function.update cmd G2DSFR_SRC_SCALECONTROL G.G2D_SCALECONTROL_BILINEAR
        else
          Function.update cmd G2DSFR_SRC_SCALECONTROL 0
      -- TODO: Configure initial phases according to the scale factors
      let cmd := Function.update cmd G2DSFR_SRC_XPHASE 0
      let cmd := Function.update cmd G2DSFR_SRC_YPHASE 0
      let alpha := layer.getPlaneAlpha % 256
      let cmd := Function.update cmd G2DSFR_SRC_ALPHA (alphaOf alpha)
      let cmd := Function.update cmd G2DSFR_SRC_BLEND (blendOf H G layer.getCompositingMode)
      let cmd :=
        if (layer.getCompositingMode = H.HWC_BLENDING_PREMULT ∨
              layer.getCompositingMode = H.HWC2_BLEND_MODE_PREMULTIPLIED) ∨
            (layer.getCompositingMode = H.HWC_BLENDING_COVERAGE ∨
              layer.getCompositingMode = H.HWC2_BLEND_MODE_COVERAGE) then cmd
        else if cmd G2DSFR_IMG_COLORMODE = G.G2D_FMT_ABGR8888 ∨
            cmd G2DSFR_IMG_COLORMODE = G.G2D_FMT_ARGB8888 ∨
            cmd G2DSFR_IMG_COLORMODE = G.G2D_FMT_ABGR2101010 then
          let cmd := Function.update cmd G2DSFR_IMG_COLORMODE
            (cmd G2DSFR_IMG_COLORMODE &&& not32 G.G2D_SWZ_ALPHA_MASK)
          Function.update cmd G2DSFR_IMG_COLORMODE
            (cmd G2DSFR_IMG_COLORMODE ||| G.G2D_SWZ_ALPHA_ONE)
        else cmd
      let cmd := Function.update cmd G2DSFR_SRC_COMMAND G.G2D_LAYERCMD_VALID
      /- bottom layer always is opaque -/
      let cmd := Function.update cmd G2DSFR_SRC_COMMAND
        (commandOf G (cmd G2DSFR_SRC_COMMAND) alpha index)
      let cmd := Function.update cmd G2DSFR_SRC_YCBCRMODE 0
      let cmd := Function.update cmd G2DSFR_SRC_HDRMODE 0
      (true, image, cmd)

/-- The target window `prepareSource` computes the scale factors against: the
declared target rectangle, with the canvas size for a zero-area rectangle, and
with swapped extents under a 90-degree rotation. -/
def scaleWindow (H : HalHeader) (layer : AcrylicLayer) (target_size : hw2d_coord_t) :
    hw2d_coord_t :=
  let size := if area_is_zero layer.getTargetRect then target_size else layer.getTargetRect.size
  if layer.getTransform &&& H.HAL_TRANSFORM_ROT_90 ≠ 0 then size.swap else size

/-- The flip bits `prepareSource` encodes: the flip bits of the transform,
replaced by their complement within the two flip bits when the layer is rotated
by 90 degrees and has none or both of them. -/
def encodedFlip (H : HalHeader) (transform : Nat) : Nat :=
  let flip := transform &&& (H.HAL_TRANSFORM_FLIP_H ||| H.HAL_TRANSFORM_FLIP_V)
  if transform &&& H.HAL_TRANSFORM_ROT_90 ≠ 0 ∧
      (flip = 0 ∨ flip = (H.HAL_TRANSFORM_FLIP_H ||| H.HAL_TRANSFORM_FLIP_V)) then
    not32 flip &&& (H.HAL_TRANSFORM_FLIP_H ||| H.HAL_TRANSFORM_FLIP_V)
  else flip

/-- The header stride the specification states for an image of width `w`:
`(w div 32) div 2` rounded up to a multiple of 16. -/
def sbwcHeaderStride (w : Nat) : Nat := (w / 32 / 2 + 15) / 16 * 16

/-- The payload stride the specification states for an image of width `w` and a
bit depth `bits`: `(w div 32) * 16 * bits` rounded up to a multiple of 32. -/
def sbwcPayloadStride (w bits : Nat) : Nat := (w / 32 * 16 * bits + 31) / 32 * 32

/-! ## The source-layer loop of `executeG2D` -/

/-- The part of the compositor state that the source-layer loop of `executeG2D`
works on: the descriptors `mTask.source[]`, the command buffers
`mTask.commands.source[]`, the local `cscMatrixWriter` and the local
`layer_premult`. -/
structure EncodeState where
  source : Nat → g2d_layer
  commands_source : Nat → g2dsfr → Nat
  cscMatrixWriter : CSCMatrixWriter
  layer_premult : Nat

/-- One iteration of the source-layer loop of `executeG2D` for the descriptor
index `i = baseidx + k` and the user layer `layer = *getLayer(k)`: `prepareSource`
with index `k`, then `cscMatrixWriter.configure` on the layer's colour mode and
YCbCr-mode register, then the update of `layer_premult`.  The calls into the
external `mHdrWriter` only change that object and are left out.  The result is
`false` where the source returns `false`. -/
def executeG2D_sourceStep (H : HalHeader) (G : G2DHeader) (charIsSigned : Bool)
    (tbl : List g2d_fmt) (tbl_len : Nat) (canvasDimension : hw2d_coord_t) (baseidx : Nat)
    (k : Nat) (layer : AcrylicLayer) (st : EncodeState) : Bool × EncodeState :=
  let i := baseidx + k
  let r := prepareSource H G tbl tbl_len layer (st.source i) (st.commands_source i)
    canvasDimension (k : Int)
  let st := { st with
    source := Function.update st.source i r.2.1,
    commands_source := Function.update st.commands_source i r.2.2 }
  if !r.1 then (false, st)
  else
    let c := st.cscMatrixWriter.configure H G charIsSigned
      (st.commands_source i G2DSFR_IMG_COLORMODE) layer.getDataspace
      (st.commands_source i G2DSFR_SRC_YCBCRMODE)
    let st := { st with
      cscMatrixWriter := c.2.1,
      commands_source := Function.update st.commands_source i
        (Function.update (st.commands_source i) G2DSFR_SRC_YCBCRMODE c.2.2) }
    if !c.1 then (false, st)
    else
      let alpha_premult : Bool :=
        decide (layer.getCompositingMode = H.HWC_BLENDING_PREMULT ∨
          layer.getCompositingMode = H.HWC2_BLEND_MODE_PREMULTIPLIED)
      let st :=
        if alpha_premult then { st with layer_premult := st.layer_premult ||| u32 (1 <<< i) }
        else st
      (true, st)

/-- The source-layer loop of `executeG2D`
(`for (unsigned int i = baseidx; i < layercount; i++)`), run over the user
layers `layers` starting with layer number `k`; it stops with `false` at the
first failing layer. -/
def executeG2D_sourceLoop (H : HalHeader) (G : G2DHeader) (charIsSigned : Bool)
    (tbl : List g2d_fmt) (tbl_len : Nat) (canvasDimension : hw2d_coord_t) (baseidx : Nat) :
    Nat → List AcrylicLayer → EncodeState → Bool × EncodeState
  | _, [], st => (true, st)
  | k, layer :: rest, st =>
    let r := executeG2D_sourceStep H G charIsSigned tbl tbl_len canvasDimension baseidx k layer st
    if !r.1 then (false, r.2)
    else executeG2D_sourceLoop H G charIsSigned tbl tbl_len canvasDimension baseidx (k + 1) rest r.2

/-! ## HDR coefficient packer -/

/-- Constant `EOTF_LUT_VALUES`. -/
def EOTF_LUT_VALUES : Nat := 129
/-- Constant `OETF_LUT_VALUES`. -/
def OETF_LUT_VALUES : Nat := 33
/-- Constant `GM_LUT_VALUES`. -/
def GM_LUT_VALUES : Nat := 9
/-- Constant `TM_LUT_VALUES`. -/
def TM_LUT_VALUES : Nat := 33

/-- Constant `EOTF_COEF_X_COUNT`. -/
def EOTF_COEF_X_COUNT : Nat := EOTF_LUT_VALUES / 2 + EOTF_LUT_VALUES % 2
/-- Constant `EOTF_COEF_Y_COUNT`. -/
def EOTF_COEF_Y_COUNT : Nat := EOTF_LUT_VALUES
/-- Constant `EOTF_COEF_COUNT`. -/
def EOTF_COEF_COUNT : Nat := EOTF_COEF_X_COUNT + EOTF_COEF_Y_COUNT

/-- Constant `OETF_COEF_X_COUNT`. -/
def OETF_COEF_X_COUNT : Nat := OETF_LUT_VALUES / 2 + OETF_LUT_VALUES % 2
/-- Constant `OETF_COEF_Y_COUNT`. -/
def OETF_COEF_Y_COUNT : Nat := OETF_LUT_VALUES / 2 + OETF_LUT_VALUES % 2
/-- Constant `OETF_COEF_COUNT`. -/
def OETF_COEF_COUNT : Nat := OETF_COEF_X_COUNT + OETF_COEF_Y_COUNT

/-- Constant `TM_COEF_X_COUNT`. -/
def TM_COEF_X_COUNT : Nat := TM_LUT_VALUES / 2 + TM_LUT_VALUES % 2
/-- Constant `TM_COEF_Y_COUNT`. -/
def TM_COEF_Y_COUNT : Nat := TM_LUT_VALUES
/-- Constant `TM_COEF_COUNT` (the LUT registers and `TM_COEF`, `TM_RNGX`, `TM_RNGY`). -/
def TM_COEF_COUNT : Nat := TM_COEF_X_COUNT + TM_COEF_Y_COUNT + 3

/-- Constant `EOTF_X_BITS`. -/
def EOTF_X_BITS : Nat := 10
/-- Constant `EOTF_Y_BITS`. -/
def EOTF_Y_BITS : Nat := 16
/-- Constant `OETF_X_BITS`. -/
def OETF_X_BITS : Nat := 16
/-- Constant `OETF_Y_BITS`. -/
def OETF_Y_BITS : Nat := 10
/-- Constant `GM_BITS`. -/
def GM_BITS : Nat := 19
/-- Constant `TM_X_BITS`. -/
def TM_X_BITS : Nat := 16
/-- Constant `TM_Y_BITS`. -/
def TM_Y_BITS : Nat := 20

/-- Constant `MOD_CTRL_EEN`. -/
def MOD_CTRL_EEN : Nat := 1
/-- Constant `MOD_CTRL_GEN`. -/
def MOD_CTRL_GEN : Nat := 2
/-- Constant `MOD_CTRL_OEN`. -/
def MOD_CTRL_OEN : Nat := 0
/-- Constant `MOD_CTRL_TEN`. -/
def MOD_CTRL_TEN : Nat := 5

/-- Macro `NUM_HDR_CTRL` (`COM_CTRL` and one `MOD_CTRL` per set). -/
def NUM_HDR_CTRL (G : G2DHeader) : Nat := 1 + G.MAX_HDR_SET
/-- Macro `NUM_HDR_COEF`. -/
def NUM_HDR_COEF (G : G2DHeader) : Nat :=
  G.MAX_HDR_SET * (OETF_COEF_COUNT + EOTF_COEF_COUNT + TM_COEF_COUNT + GM_LUT_VALUES)
/-- Macro `NUM_HDR_REGS`. -/
def NUM_HDR_REGS (G : G2DHeader) : Nat := NUM_HDR_COEF G + NUM_HDR_CTRL G

/-- Enumerator `HDR_PROC_OETF`. -/
def HDR_PROC_OETF : Nat := 0
/-- Enumerator `HDR_PROC_EOTF`. -/
def HDR_PROC_EOTF : Nat := 1
/-- Enumerator `HDR_PROC_GM`. -/
def HDR_PROC_GM : Nat := 2
/-- Enumerator `HDR_PROC_TM`. -/
def HDR_PROC_TM : Nat := 3
/-- Enumerator `NUM_HDR_PROC`. -/
def NUM_HDR_PROC : Nat := 4

/-- The `struct hdr_reg_info` of the source. -/
structure hdr_reg_info where
  count : Nat
  bits : Nat
  pair : Bool
deriving DecidableEq, Repr

/-- Macro `BITMASK`. -/
def BITMASK (bits : Nat) : Nat := (1 <<< bits) - 1
/-- Macro `COEF`. -/
def COEF (val bits : Nat) : Nat := val &&& BITMASK bits
/-- Macro `COEF_COUPLE_VALUE` (the shift is a 32-bit shift). -/
def COEF_COUPLE_VALUE (val0 val1 bits : Nat) : Nat := u32 (COEF val1 bits <<< 16) ||| COEF val0 bits

/-- Macro `TM_COEF_BITS`. -/
def TM_COEF_BITS : Nat := 10
/-- Macro `TM_RNGX_BITS`. -/
def TM_RNGX_BITS : Nat := 16
/-- Macro `TM_RNGY_BITS`. -/
def TM_RNGY_BITS : Nat := 9

/-- Macro `TM_COEF_VALUE`. -/
def TM_COEF_VALUE (val0 val1 val2 : Nat) : Nat :=
  (u32 (COEF val2 TM_COEF_BITS <<< (2 * TM_COEF_BITS)) |||
    u32 (COEF val1 TM_COEF_BITS <<< TM_COEF_BITS)) ||| COEF val0 TM_COEF_BITS
/-- Macro `TM_RNGX_VALUE`. -/
def TM_RNGX_VALUE (val0 val1 : Nat) : Nat := COEF_COUPLE_VALUE val0 val1 TM_RNGX_BITS
/-- Macro `TM_RNGY_VALUE`. -/
def TM_RNGY_VALUE (val0 val1 : Nat) : Nat :=
  u32 (COEF val1 TM_RNGY_BITS <<< TM_RNGY_BITS) ||| COEF val0 TM_RNGY_BITS

/-- Macro `G2D_HDR_TM_COEF`. -/
def G2D_HDR_TM_COEF : Nat := 0x3434
/-- Macro `G2D_HDR_TM_RNGX`. -/
def G2D_HDR_TM_RNGX : Nat := 0x3438
/-- Macro `G2D_HDR_TM_RNGY`. -/
def G2D_HDR_TM_RNGY : Nat := 0x343C
/-- Macro `G2D_HDR_COM_CTRL`. -/
def G2D_HDR_COM_CTRL : Nat := 0x3004
/-- Macro `G2D_HDR_MOD_CTRL`. -/
def G2D_HDR_MOD_CTRL : Nat := 0x3008
/-- Macro `G2D_BASE_HDR_COEF`. -/
def G2D_BASE_HDR_COEF (base i : Nat) : Nat := base + i * 0x800

/-- One row of the table `hdr_proc_info`. -/
structure hdr_proc where
  ctrl_bit : Nat
  x : hdr_reg_info
  y : hdr_reg_info
deriving DecidableEq, Repr

/-- The table `hdr_proc_info` of the source. -/
def hdr_proc_info : List hdr_proc := [
  ⟨MOD_CTRL_OEN, ⟨OETF_COEF_X_COUNT, OETF_X_BITS, true⟩, ⟨OETF_COEF_Y_COUNT, OETF_Y_BITS, true⟩⟩,  -- OETF
  ⟨MOD_CTRL_EEN, ⟨EOTF_COEF_X_COUNT, EOTF_X_BITS, true⟩, ⟨EOTF_COEF_Y_COUNT, EOTF_Y_BITS, false⟩⟩, -- EOTF
  ⟨MOD_CTRL_GEN, ⟨GM_LUT_VALUES, GM_BITS, false⟩, ⟨0, 0, false⟩⟩,                                  -- GM
  ⟨MOD_CTRL_TEN, ⟨TM_COEF_X_COUNT, TM_X_BITS, true⟩, ⟨TM_COEF_Y_COUNT, TM_Y_BITS, false⟩⟩ ]        -- TM

/-- The table `hdr_reg_base` of the source, rows `{X, Y}`. -/
def hdr_reg_base : List (Nat × Nat) := [
  (0x300C, 0x3050),
  (0x3094, 0x3198),
  (0x339C, 0x0),
  (0x344C, 0x3490) ]

/-- The function `getRegBaseX` of the source. -/
def getRegBaseX (hdr proc : Nat) : Nat := (hdr_reg_base.getD proc (0, 0)).1 + hdr * 0x800
/-- The function `getRegBaseY` of the source. -/
def getRegBaseY (hdr proc : Nat) : Nat := (hdr_reg_base.getD proc (0, 0)).2 + hdr * 0x800

/-- The members of `struct hdrCoef` (declared in a header that is not part of
the sources) that `setHdrLibCommand` reads.  The enable members are integers
tested against zero.  A coefficient array is a map from the element number to
the element; `none` is a null pointer. -/
structure hdrCoef where
  hdr_en : Nat
  oetf_en : Nat
  eotf_en : Nat
  gm_en : Nat
  tm_en : Nat
  oetf_x : Option (Nat → Nat)
  oetf_y : Option (Nat → Nat)
  eotf_x : Option (Nat → Nat)
  eotf_y : Option (Nat → Nat)
  gm_coef : Option (Nat → Nat)
  tm_x : Option (Nat → Nat)
  tm_y : Option (Nat → Nat)
  tm_coef : Nat → Nat
  tm_rngx : Nat → Nat
  tm_rngy : Nat → Nat

/-- The static function `write` of the source, writing into `regs[start ..]`
(the call sites pass `regs + start`): the register array after the call and the
returned count. -/
def write (regs : Nat → g2d_reg) (start : Nat) (data : Option (Nat → Nat)) (offset : Nat)
    (info : hdr_reg_info) : (Nat → g2d_reg) × Nat :=
  match data with
  | none => (regs, 0)
  | some d =>
    ((List.range info.count).foldl
      (fun r i =>
        Function.update r (start + i)
          { offset := offset + 4 * i,
            value :=
              if info.pair then
                if i = info.count - 1 then COEF (d (i * 2)) info.bits
                else COEF_COUPLE_VALUE (d (i * 2)) (d (i * 2 + 1)) info.bits
              else COEF (d i) info.bits })
      regs,
     info.count)

/-- The C idiom `!!(v)`: 1 when `v` is non-zero, else 0. -/
def notNot (v : Nat) : Nat := if v ≠ 0 then 1 else 0

/-- The body of the slot loop of `setHdrLibCommand` for a slot `i` whose
`hdr_en` is set: the state is the register array and `count`. -/
def setHdrLibCommand_slot (i : Nat) (c : hdrCoef) (st : (Nat → g2d_reg) × Nat) :
    (Nat → g2d_reg) × Nat :=
  let x : List (Option (Nat → Nat)) := [c.oetf_x, c.eotf_x, c.gm_coef, c.tm_x]
  let y : List (Option (Nat → Nat)) := [c.oetf_y, c.eotf_y, none, c.tm_y]
  let proc_en := (notNot c.oetf_en <<< HDR_PROC_OETF) ||| (notNot c.eotf_en <<< HDR_PROC_EOTF) |||
    (notNot c.gm_en <<< HDR_PROC_GM) ||| (notNot c.tm_en <<< HDR_PROC_TM)
  -- state of the stage loop: registers, count, mod_ctrl_bit
  let s1 : (Nat → g2d_reg) × Nat × Nat :=
    (List.range NUM_HDR_PROC).foldl
      (fun s j =>
        if proc_en &&& (1 <<< j) = 0 then s
        else
          let info := hdr_proc_info.getD j ⟨0, ⟨0, 0, false⟩, ⟨0, 0, false⟩⟩
          let wx := write s.1 s.2.1 (x.getD j none) (getRegBaseX i j) info.x
          let wy := write wx.1 (s.2.1 + wx.2) (y.getD j none) (getRegBaseY i j) info.y
          (wy.1, s.2.1 + wx.2 + wy.2, s.2.2 ||| (1 <<< info.ctrl_bit)))
      (st.1, st.2, 0)
  -- TM_RNGX, TM_RNGY, TM_COEF
  let s2 : (Nat → g2d_reg) × Nat :=
    if c.tm_en ≠ 0 then
      let r1 := Function.update s1.1 s1.2.1
        ⟨G2D_BASE_HDR_COEF G2D_HDR_TM_RNGX i, TM_RNGX_VALUE (c.tm_rngx 0) (c.tm_rngx 1)⟩
      let r2 := Function.update r1 (s1.2.1 + 1)
        ⟨G2D_BASE_HDR_COEF G2D_HDR_TM_RNGY i, TM_RNGY_VALUE (c.tm_rngy 0) (c.tm_rngy 1)⟩
      let r3 := Function.update r2 (s1.2.1 + 2)
        ⟨G2D_BASE_HDR_COEF G2D_HDR_TM_COEF i, TM_COEF_VALUE (c.tm_coef 0) (c.tm_coef 1) (c.tm_coef 2)⟩
      (r3, s1.2.1 + 3)
    else (s1.1, s1.2.1)
  (Function.update s2.1 s2.2 ⟨G2D_BASE_HDR_COEF G2D_HDR_MOD_CTRL i, s1.2.2⟩, s2.2 + 1)

/-- The slot loop of `setHdrLibCommand` over the slots in `slots`
(the source runs it over `0 .. MAX_HDR_SET - 1`). -/
def setHdrLibCommand_loop (mHdrLibCoef : Nat → hdrCoef) (slots : List Nat)
    (st : (Nat → g2d_reg) × Nat) : (Nat → g2d_reg) × Nat :=
  slots.foldl
    (fun s i => if (mHdrLibCoef i).hdr_en = 0 then s else setHdrLibCommand_slot i (mHdrLibCoef i) s)
    st

/-- The method `AcrylicCompositorG2D9810::setHdrLibCommand`: the register array
after the call and the returned count.  `mHdrLibCoef` is the member array of
`MAX_HDR_SET` coefficient sets. -/
def setHdrLibCommand (G : G2DHeader) (mHdrLibCoef : Nat → hdrCoef) (regs : Nat → g2d_reg) :
    (Nat → g2d_reg) × Nat :=
  let s := setHdrLibCommand_loop mHdrLibCoef (List.range G.MAX_HDR_SET) (regs, 0)
  if s.2 = 0 then (s.1, 0)
  else (Function.update s.1 s.2 ⟨G2D_HDR_COM_CTRL, 1⟩, s.2 + 1)

/-- The registers one enabled slot contributes: the mode-control register and
the registers of its enabled stages (34 for OETF, 194 for EOTF, 9 for gamut,
53 for tone mapping). -/
def slotRegisterCount (c : hdrCoef) : Nat :=
  1 + (if c.oetf_en ≠ 0 then 34 else 0) + (if c.eotf_en ≠ 0 then 194 else 0) +
    (if c.gm_en ≠ 0 then 9 else 0) + (if c.tm_en ≠ 0 then 53 else 0)

/-- All coefficient arrays of a set are present (no null pointer). -/
def hdrCoef.arraysPresent (c : hdrCoef) : Prop :=
  c.oetf_x.isSome ∧ c.oetf_y.isSome ∧ c.eotf_x.isSome ∧ c.eotf_y.isSome ∧
    c.gm_coef.isSome ∧ c.tm_x.isSome ∧ c.tm_y.isSome

/-! ## A concrete valuation of the header constants

The theorems below hold for every value of the header constants; the
following valuation instantiates them on concrete inputs.  The `HAL_*` and
`HWC*` values are the ones of the Android platform headers, the G2D values are
distinct format codes and single-bit flags. -/

/-- Sample values of the platform constants. -/
def sampleHal : HalHeader where
  HAL_PIXEL_FORMAT_RGBA_8888 := 0x1
  HAL_PIXEL_FORMAT_BGRA_8888 := 0x5
  HAL_PIXEL_FORMAT_RGBX_8888 := 0x2
  HAL_PIXEL_FORMAT_RGBA_1010102 := 0x2B
  HAL_PIXEL_FORMAT_RGB_888 := 0x3
  HAL_PIXEL_FORMAT_RGB_565 := 0x4
  HAL_PIXEL_FORMAT_YV12 := 0x32315659
  HAL_PIXEL_FORMAT_EXYNOS_YV12_M := 0x11C
  HAL_PIXEL_FORMAT_YCrCb_420_SP := 0x11
  HAL_PIXEL_FORMAT_EXYNOS_YCrCb_420_SP_M := 0x11D
  HAL_PIXEL_FORMAT_EXYNOS_YCrCb_420_SP_M_FULL := 0x11E
  HAL_PIXEL_FORMAT_EXYNOS_YCbCr_420_SP := 0x120
  HAL_PIXEL_FORMAT_EXYNOS_YCbCr_420_SP_M := 0x105
  HAL_PIXEL_FORMAT_EXYNOS_YCbCr_420_SPN := 0x123
  HAL_PIXEL_FORMAT_EXYNOS_YCbCr_420_SPN_S10B := 0x126
  HAL_PIXEL_FORMAT_EXYNOS_YCbCr_420_SP_M_S10B := 0x125
  HAL_PIXEL_FORMAT_YCBCR_P010 := 0x36
  HAL_PIXEL_FORMAT_EXYNOS_YCbCr_P010_M := 0x127
  HAL_PIXEL_FORMAT_YCbCr_422_I := 0x14
  HAL_PIXEL_FORMAT_EXYNOS_YCrCb_422_I := 0x116
  HAL_PIXEL_FORMAT_YCbCr_422_SP := 0x10
  HAL_PIXEL_FORMAT_EXYNOS_YCbCr_420_SP_M_SBWC := 0x130
  HAL_PIXEL_FORMAT_EXYNOS_YCbCr_420_SPN_SBWC := 0x131
  HAL_PIXEL_FORMAT_EXYNOS_YCbCr_420_SP_M_10B_SBWC := 0x132
  HAL_PIXEL_FORMAT_EXYNOS_YCbCr_420_SPN_10B_SBWC := 0x133
  HAL_PIXEL_FORMAT_EXYNOS_YCrCb_420_SP_M_SBWC := 0x134
  HAL_PIXEL_FORMAT_EXYNOS_YCrCb_420_SP_M_10B_SBWC := 0x135
  HAL_PIXEL_FORMAT_EXYNOS_YCbCr_420_SP_M_SBWC_L50 := 0x140
  HAL_PIXEL_FORMAT_EXYNOS_YCbCr_420_SP_M_10B_SBWC_L40 := 0x150
  HAL_PIXEL_FORMAT_EXYNOS_YCbCr_420_SP_M_10B_SBWC_L80 := 0x152
  HAL_DATASPACE_STANDARD_MASK := 0x3F0000
  HAL_DATASPACE_STANDARD_SHIFT := 16
  HAL_DATASPACE_RANGE_FULL := 0x8000000
  HAL_TRANSFORM_FLIP_H := 0x1
  HAL_TRANSFORM_FLIP_V := 0x2
  HAL_TRANSFORM_ROT_90 := 0x4
  HWC_BLENDING_PREMULT := 0x105
  HWC_BLENDING_COVERAGE := 0x405
  HWC2_BLEND_MODE_PREMULTIPLIED := 2
  HWC2_BLEND_MODE_COVERAGE := 3

/-- Sample values of the G2D constants: data-format code in bits 16-19, swizzle
in bits 0-15, one bit per flag. -/
def sampleG2D : G2DHeader where
  G2D_FMT_ABGR8888 := 0x03012
  G2D_FMT_ARGB8888 := 0x03210
  G2D_FMT_XBGR8888 := 0x05012
  G2D_FMT_ABGR2101010 := 0xE3012
  G2D_FMT_RGB888 := 0x35210
  G2D_FMT_RGB565 := 0x15210
  G2D_FMT_BGR565 := 0x15012
  G2D_FMT_YV12 := 0x90000
  G2D_FMT_NV21 := 0x1080000
  G2D_FMT_NV12 := 0x80000
  G2D_FMT_NV12_82_9810 := 0xD0000
  G2D_FMT_NV12_P010_9810 := 0xC0000
  G2D_FMT_NV12_82_9820 := 0x4080000
  G2D_FMT_NV12_P010_9820 := 0x40C0000
  G2D_FMT_YUYV := 0xA0000
  G2D_FMT_YVYU := 0x10A0000
  G2D_FMT_NV16 := 0xB0000
  G2D_FMT_NV12_SBWC := 0x480000
  G2D_FMT_NV12_SBWC_10B := 0x4480000
  G2D_FMT_NV21_SBWC := 0x1480000
  G2D_FMT_NV21_SBWC_10B := 0x5480000
  G2D_DATAFMT_MASK := 0xF0000
  G2D_DATAFMT_YUV_MIN := 0x80000
  G2D_DATAFMT_YUV_MAX := 0xD0000
  G2D_DATAFMT_YUV420SP82_9810 := 0xD0000
  G2D_DATAFORMAT_UORDER := 0x200000
  G2D_DATAFORMAT_AFBC := 0x100000
  G2D_DATAFORMAT_SBWC := 0x400000
  G2D_FMT_YCBCR_10BIT := 0x4000000
  G2D_SWZ_ALPHA_MASK := 0xF000
  G2D_SWZ_ALPHA_ONE := 0x5000
  G2D_LAYER_YCBCRMODE_WIDE := 0x10
  G2D_YCBCRMODE_DITHER := 0x4
  G2D_LAYERFLAG_ACQUIRE_FENCE := 0x2
  G2D_LAYERFLAG_SECURE := 0x4
  G2D_LAYERFLAG_COLORFILL := 0x8
  G2D_LAYERFLAG_MFC_STRIDE := 0x10
  G2D_BUFTYPE_EMPTY := 1
  G2D_BUFTYPE_DMABUF := 3
  G2D_BUFTYPE_USERPTR := 2
  G2D_LAYERSEL_COLORFILL := 0x1
  G2D_LAYERCMD_VALID := 0x1000000
  G2D_LAYERCMD_OPAQUE := 0x20000
  G2D_LAYERCMD_PREMULT_GLOBALALPHA := 0x40000
  G2D_LAYERCMD_ALPHABLEND := 0x100000
  G2D_ROTATEDIR_ROT90CCW := 0x1
  G2D_ROTATEDIR_FLIP_SHIFT := 4
  G2D_SCALECONTROL_BILINEAR := 0x1
  G2D_SCALEFACTOR_FRACBITS := 16
  G2D_BLEND_SRCOVER := 0x3
  G2D_BLEND_NONE := 0x1
  G2D_BLEND_SRCCOPY := 0x2
  MAX_HDR_SET := 4

/-- Three sample `configure` calls on NV12 layers: BT.709 limited, BT.601 full,
BT.709 limited again; each with a zero YCbCr-mode register. -/
def sampleCalls : List (Nat × Nat × Nat) :=
  [(0x80000, 0x10000, 0), (0x80000, 0x8020000, 0), (0x80000, 0x10000, 0)]

/-- A writer whose four cells hold the rows 0, 1, 2, 3 (BT.601 and BT.709, both
ranges) and which has no target matrix. -/
def sampleFullWriter : CSCMatrixWriter :=
  { mMatrixIndex := fun i => i, mMatrixCount := 4, mMatrixTargetIndex := CSC_MATRIX_INVALID_INDEX }

/-- Sample HDR library state: slot 0 is active with only the gamut stage
enabled, the other slots are inactive; every coefficient array is present. -/
def sampleHdrCoef : Nat → hdrCoef := fun i =>
  { hdr_en := if i = 0 then 1 else 0, oetf_en := 0, eotf_en := 0, gm_en := 1, tm_en := 0,
    oetf_x := some (fun _ => 0), oetf_y := some (fun _ => 0),
    eotf_x := some (fun _ => 0), eotf_y := some (fun _ => 0),
    gm_coef := some (fun k => k + 1),
    tm_x := some (fun _ => 0), tm_y := some (fun _ => 0),
    tm_coef := fun _ => 0, tm_rngx := fun _ => 0, tm_rngy := fun _ => 0 }

/-- A sample buffer-backed canvas: RGBA_8888, 100x50, one DMA buffer. -/
def sampleCanvas : AcrylicCanvas :=
  { getFence := -1, isProtected := false, getFormat := 0x1,
    getBufferType := memory_type.MT_DMABUF, getBufferCount := 1,
    getDmabuf := fun _ => 3, getOffset := fun _ => 0, getBufferLength := fun _ => 20000,
    getUserptr := fun _ => 0, getImageDimension := ⟨100, 50⟩,
    isUOrder := false, isCompressed := false, isOTF := false, getDataspace := 0 }

/-- Sample bottom layer: opaque RGBA_8888 layer (plane alpha 255), crop 100x50
placed in a 50x50 window, no transform, premultiplied blending. -/
def sampleBottom : AcrylicLayer :=
  { sampleCanvas with
    isSolidColor := false, getSolidColor := 0,
    getImageRect := ⟨⟨0, 0⟩, ⟨100, 50⟩⟩, getTargetRect := ⟨⟨0, 0⟩, ⟨50, 50⟩⟩,
    getTransform := 0, getPlaneAlpha := 255, getCompositingMode := 0x105 }

/-- Sample top layer: as `sampleBottom` with plane alpha 128 (50%). -/
def sampleTop : AcrylicLayer := { sampleBottom with getPlaneAlpha := 128 }

/-- Sample rotated layer: as `sampleBottom` with the transform `ROT_90`. -/
def sampleRotated : AcrylicLayer := { sampleBottom with getTransform := 0x4 }

/-- Sample block-compressed canvas: 10-bit SBWC NV12 (two planes), width 1920. -/
def sampleSbwcCanvas : AcrylicCanvas :=
  { sampleCanvas with
    getFormat := 0x132, getBufferCount := 2, getImageDimension := ⟨1920, 1080⟩ }

/-- An empty layer descriptor. -/
def sampleImage : g2d_layer :=
  { flags := 0, fence := -1, buffer_type := 0, num_buffers := 0, buffer := fun _ => ⟨0, 0, 0, 0⟩ }

/-- A zero-initialised command buffer. -/
def sampleCmd : g2dsfr → Nat := fun _ => 0

/-- Sample state before the source-layer loop: zeroed buffers and a writer
constructed for an RGB target. -/
def sampleEncodeState : EncodeState :=
  { source := fun _ => sampleImage, commands_source := fun _ => sampleCmd,
    cscMatrixWriter := (CSCMatrixWriter.new sampleHal sampleG2D true (fun _ => 0) 0x03012 0 0).1,
    layer_premult := 0 }

/-- Sample canvas without buffers: RGBA_8888, buffer type `MT_EMPTY`, buffer count 0. -/
def sampleEmptyCanvas : AcrylicCanvas :=
  { sampleCanvas with getBufferType := memory_type.MT_EMPTY, getBufferCount := 0 }

/-- Sample canvas with too few buffers: two-plane NV12 (`YCbCr_420_SP_M`) with one DMA buffer. -/
def sampleShortCanvas : AcrylicCanvas :=
  { sampleCanvas with getFormat := 0x105, getBufferCount := 1 }

/-- The register entry `write` puts at position `i` of the source-matrix area
that starts at entry `c0`: slot `(i - c0) / 9`, coefficient `(i - c0) % 9`. -/
def cscSourceEntry (w : CSCMatrixWriter) (c0 i : Nat) : g2d_reg :=
  ⟨CSC_MATRIX_SRC_BASE + (i - c0) / 9 * CSC_MATRIX_REGISTER_SIZE + 4 * ((i - c0) % 9),
    (YCbCr2sRGBCoefficients.getD (w.mMatrixIndex ((i - c0) / 9)) []).getD ((i - c0) % 9) 0⟩

/-- The number of register entries the target matrix occupies ahead of the
source matrices: 9 when a target matrix is reserved, else 0. -/
def cscTargetEntries (w : CSCMatrixWriter) : Nat :=
  if w.mMatrixTargetIndex ≠ CSC_MATRIX_INVALID_INDEX then 9 else 0

/-! ## The task descriptor and its buffers -/

/-- A C pointer to a heap array of the element type `α`: the null pointer, a
pointer whose array was released with `delete []` (the pointer keeps its
address), or a pointer to a live array at address `addr` with content `val`. -/
inductive heap_ptr (α : Type) where
  | null : heap_ptr α
  | dangling (addr : Nat) : heap_ptr α
  | live (addr : Nat) (val : α) : heap_ptr α

/-- The C test `p != NULL`. -/
def heap_ptr.nonNull {α : Type} : heap_ptr α → Bool
  | heap_ptr.null => false
  | _ => true

/-- Whether the pointer refers to a live array. -/
def heap_ptr.isLive {α : Type} : heap_ptr α → Bool
  | heap_ptr.live _ _ => true
  | _ => false

/-- The address held by the pointer (`none` for the null pointer). -/
def heap_ptr.address {α : Type} : heap_ptr α → Option Nat
  | heap_ptr.null => none
  | heap_ptr.dangling a => some a
  | heap_ptr.live a _ => some a

/-- The C statement `delete [] p`: a live array is released, deleting the null
pointer does nothing. -/
def heap_ptr.delete {α : Type} : heap_ptr α → heap_ptr α
  | heap_ptr.live a _ => heap_ptr.dangling a
  | p => p

/-- Read through the pointer; `d` stands for what a read through a pointer
without a live array yields (undefined in C). -/
def heap_ptr.get {α : Type} (d : α) : heap_ptr α → α
  | heap_ptr.live _ v => v
  | _ => d

/-- Store through the pointer: the content of the live array is replaced (a
store through a pointer without a live array is undefined in C and dropped). -/
def heap_ptr.set {α : Type} (v : α) : heap_ptr α → heap_ptr α
  | heap_ptr.live a _ => heap_ptr.live a v
  | p => p

/-- The member `commands` of `struct g2d_task` (uapi header): the target
register array, the per-layer register arrays (an array of `G2D_MAX_IMAGES`
pointers), and the extra registers with their count. -/
structure g2d_commands where
  target : heap_ptr (g2dsfr → Nat)
  source : Nat → heap_ptr (g2dsfr → Nat)
  extra : Nat → g2d_reg
  num_extra_regs : Nat

/-- The `struct g2d_task` of the uapi header (the members this file uses). -/
structure g2d_task where
  flags : Nat
  laptime_in_usec : Nat
  num_source : Nat
  num_release_fences : Nat
  release_fence : Nat → Int
  target : g2d_layer
  source : heap_ptr (Nat → g2d_layer)
  commands : g2d_commands

/-- A `g2d_layer` of zero bytes. -/
def g2d_layer.zero : g2d_layer :=
  { flags := 0, fence := 0, buffer_type := 0, num_buffers := 0,
    buffer := fun _ => { userptr := 0, fd := 0, offset := 0, length := 0 } }

/-- The task after `memset(&mTask, 0, sizeof(mTask))` in the constructor. -/
def g2d_task.zero : g2d_task :=
  { flags := 0, laptime_in_usec := 0, num_source := 0, num_release_fences := 0,
    release_fence := fun _ => 0, target := g2d_layer.zero, source := heap_ptr.null,
    commands := { target := heap_ptr.null, source := fun _ => heap_ptr.null,
                  extra := fun _ => ⟨0, 0⟩, num_extra_regs := 0 } }

/-- The state of an `AcrylicCompositorG2D9810` object: what the base class
`Acrylic` answers (`getCanvas()`, `getLayer(i)` and `layerCount()` as the list
`mLayers`, `hasBackgroundColor()`, the background colour,
`getCapabilities().maxLayerCount()`) and the members of the class itself. -/
structure AcrylicCompositorG2D9810 where
  mCanvas : AcrylicCanvas
  mLayers : List AcrylicLayer
  hasBackgroundColor : Bool
  mBackgroundColor : BackgroundColor
  maxLayerCount : Nat
  mMaxSourceCount : Nat
  mTask : g2d_task
  mVersion : Nat
  halfmt_to_g2dfmt_tbl : List g2d_fmt
  len_halfmt_to_g2dfmt_tbl : Nat
  mHdrLibCoef : Nat → hdrCoef
  mHdrLibLayerMap : Nat → Nat

/-- The outcome of the `new` expressions of one `reallocLayer` call: for each
of them the address of the new array, or `none` where `new` yields a null
pointer, the failure that the null tests of `reallocLayer` check for (an
allocation function that throws instead never yields `none`, and a call in
which it throws does not return).  `layers` is the (indeterminate) content of
the new descriptor array. -/
structure AllocOracle where
  target : Option Nat
  source : Option Nat
  layers : Nat → g2d_layer
  command : Nat → Option Nat

/-- The allocation loop of `reallocLayer`
(`for (i = 0; i < layercount; i++) commands.source[i] = new uint32_t[...]`),
with `n` iterations left at index `i`: `none` when every allocation succeeds,
else the index whose `new` failed.  A new array is zero-filled by `memset`. -/
def reallocLayer_allocLoop (alloc : AllocOracle) :
    Nat → Nat → (Nat → heap_ptr (g2dsfr → Nat)) → Option Nat × (Nat → heap_ptr (g2dsfr → Nat))
  | 0, _, src => (none, src)
  | n + 1, i, src =>
    match alloc.command i with
    | none => (some i, Function.update src i heap_ptr.null)
    | some a =>
      reallocLayer_allocLoop alloc n (i + 1)
        (Function.update src i (heap_ptr.live a (fun _ => 0)))

/-- The method `AcrylicCompositorG2D9810::reallocLayer`: the returned `bool`
and the object after the call. -/
def reallocLayer (alloc : AllocOracle) (c : AcrylicCompositorG2D9810) (layercount : Nat) :
    Bool × AcrylicCompositorG2D9810 :=
  if c.mMaxSourceCount ≥ layercount then (true, c)
  else
    -- if (!mTask.commands.target) { target = new ...; if (!target) return false; memset }
    let target : heap_ptr (g2dsfr → Nat) :=
      if c.mTask.commands.target.nonNull then c.mTask.commands.target
      else
        match alloc.target with
        | none => heap_ptr.null
        | some a => heap_ptr.live a (fun _ => 0)
    if !target.nonNull then
      (false, { c with mTask := { c.mTask with commands := { c.mTask.commands with target := target } } })
    else
      -- delete [] mTask.source (the pointer is overwritten next);
      -- delete [] commands.source[i] for i < mMaxSourceCount; mMaxSourceCount = 0
      let cmds : Nat → heap_ptr (g2dsfr → Nat) :=
        fun i => if i < c.mMaxSourceCount then (c.mTask.commands.source i).delete
                 else c.mTask.commands.source i
      -- mTask.source = new g2d_layer[layercount]
      match alloc.source with
      | none =>
        (false, { c with
          mMaxSourceCount := 0,
          mTask := { c.mTask with
            source := heap_ptr.null,
            commands := { c.mTask.commands with target := target, source := cmds } } })
      | some a =>
        let r := reallocLayer_allocLoop alloc layercount 0 cmds
        match r.1 with
        | some i =>
          -- while (i-- > 0) delete [] commands.source[i]; delete [] source; source = NULL
          (false, { c with
            mMaxSourceCount := 0,
            mTask := { c.mTask with
              source := heap_ptr.null,
              commands := { c.mTask.commands with
                target := target,
                source := fun k => if k < i then (r.2 k).delete else r.2 k } } })
        | none =>
          (true, { c with
            mMaxSourceCount := layercount,
            mTask := { c.mTask with
              source := heap_ptr.live a alloc.layers,
              commands := { c.mTask.commands with target := target, source := r.2 } } })

/-- A run of `reallocLayer` calls, each with the outcome of its allocations and
its layer count; the run stops at the first call that returns `false`. -/
def reallocLayer_calls : AcrylicCompositorG2D9810 → List (AllocOracle × Nat) →
    Bool × AcrylicCompositorG2D9810
  | c, [] => (true, c)
  | c, (alloc, n) :: rest =>
    let r := reallocLayer alloc c n
    if r.1 then reallocLayer_calls r.2 rest else (false, r.2)

/-- An allocator for which every `new` succeeds: the target array at address
1, the descriptor array at address 2, the register array of layer `i` at
address `10 + i`. -/
def sampleAlloc : AllocOracle :=
  { target := some 1, source := some 2, layers := fun _ => g2d_layer.zero,
    command := fun i => some (10 + i) }

/-- A freshly constructed compositor (9810 colour table, device version 1, at
most four layers) holding the sample canvas and the two sample layers. -/
def sampleCompositor : AcrylicCompositorG2D9810 :=
  { mCanvas := sampleCanvas, mLayers := [sampleBottom, sampleTop],
    hasBackgroundColor := false, mBackgroundColor := ⟨0, 0, 0, 0⟩, maxLayerCount := 4,
    mMaxSourceCount := 0, mTask := g2d_task.zero, mVersion := 1,
    halfmt_to_g2dfmt_tbl := halfmt_to_g2dfmt_tbl sampleHal sampleG2D false,
    len_halfmt_to_g2dfmt_tbl := len_halfmt_to_g2dfmt_tbl sampleHal sampleG2D false,
    mHdrLibCoef := fun _ =>
      { hdr_en := 0, oetf_en := 0, eotf_en := 0, gm_en := 0, tm_en := 0,
        oetf_x := none, oetf_y := none, eotf_x := none, eotf_y := none, gm_coef := none,
        tm_x := none, tm_y := none, tm_coef := fun _ => 0, tm_rngx := fun _ => 0,
        tm_rngy := fun _ => 0 },
    mHdrLibLayerMap := fun _ => 0 }

/-- Reduction of a value to the range of `uint64_t`. -/
def u64 (n : Nat) : Nat := n % 2 ^ 64

/-- Conversion of a C `int` to `uint64_t` (value modulo `2^64`). -/
def toU64 (x : Int) : Nat := (x % 2 ^ 64).toNat

/-- Conversion of an `unsigned int` to `int32_t` (two's complement). -/
def toI32 (n : Nat) : Int := if u32 n < 2 ^ 31 then (u32 n : Int) else (u32 n : Int) - 2 ^ 32

/-- Constants of the G2D uapi header and of `acrylic.h` that
`requestPerformanceQoS` uses, and the helper `halfmt_bpp` (bits per pixel of a
HAL pixel format).  The headers are not part of the sources, so they are
parameters. -/
structure G2DPerfHeader where
  G2D_PERF_LAYER_ROTATE : Nat
  G2D_PERF_LAYER_SCALING : Nat
  G2D_PERF_LAYER_YUV2P : Nat
  G2D_PERF_LAYER_YUV2P_82 : Nat
  G2D_PERF_LAYER_COMPRESSED : Nat
  G2D_PERF_FRAME_SOLIDCOLORFILL : Nat
  G2D_PERF_FRAME_YUV2P : Nat
  ATTR_COMPRESSED : Nat
  halfmt_bpp : Nat → Nat

/-- The members of `AcrylicPerformanceRequestLayer` (declared in a header that
is not part of the sources) that `requestPerformanceQoS` computes with. -/
structure AcrylicPerformanceRequestLayer where
  mSourceRect : hw2d_rect_t
  mTargetRect : hw2d_rect_t
  mPixFormat : Nat
  mTransform : Nat
  mAttribute : Nat

/-- The members of `AcrylicPerformanceRequestFrame` that `requestPerformanceQoS`
reads; `getLayerCount()` is the length of `mLayers`, `mFrameRate` is a C `int`. -/
structure AcrylicPerformanceRequestFrame where
  mLayers : List AcrylicPerformanceRequestLayer
  mTargetDimension : hw2d_coord_t
  mTargetPixFormat : Nat
  mFrameRate : Int
  mHasBackgroundLayer : Bool

/-- The `struct g2d_performance_layer_data` of the uapi header. -/
structure g2d_performance_layer_data where
  window_width : Nat
  window_height : Nat
  crop_width : Nat
  crop_height : Nat
  layer_attr : Nat
deriving DecidableEq, Repr

/-- The `struct g2d_performance_frame_data` of the uapi header. -/
structure g2d_performance_frame_data where
  layer : List g2d_performance_layer_data
  bandwidth_read : Nat
  bandwidth_write : Nat
  target_pixelcount : Nat
  frame_rate : Nat
  frame_attr : Nat
  num_layers : Nat
deriving DecidableEq, Repr

/-- The `struct g2d_performance` of the uapi header. -/
structure g2d_performance where
  frame : List g2d_performance_frame_data
  num_frame : Nat
deriving DecidableEq, Repr

/-- What one iteration of the layer loop of `requestPerformanceQoS` computes:
the local `layer_bw`, the entry `data.frame[i].layer[idx]`, and whether the
iteration sets `src_yuv420` and `src_rotate`. -/
structure PerfLayer where
  layer_bw : Nat
  data : g2d_performance_layer_data
  src_yuv420 : Bool
  src_rotate : Bool
deriving DecidableEq, Repr

/-- The body of the layer loop of `requestPerformanceQoS` for one layer. -/
def requestPerformanceQoS_layer (H : HalHeader) (P : G2DPerfHeader)
    (layer : AcrylicPerformanceRequestLayer) : PerfLayer :=
  let src_hori := toU32 layer.mSourceRect.size.hori
  let src_vert := toU32 layer.mSourceRect.size.vert
  let dst_hori := toU32 layer.mTargetRect.size.hori
  let dst_vert := toU32 layer.mTargetRect.size.vert
  let pixelcount := max (u32 (src_hori * src_vert)) (u32 (dst_hori * dst_vert))
  let layer_attr : Nat := 0
  let bpp := u32 (P.halfmt_bpp layer.mPixFormat)
  let layer_attr :=
    if bpp = 12 then layer_attr ||| P.G2D_PERF_LAYER_YUV2P
    else if bpp = 15 then layer_attr ||| P.G2D_PERF_LAYER_YUV2P_82
    else layer_attr
  let src_yuv420 : Bool := decide (bpp = 12 ∨ bpp = 15)
  let layer_bw := u64 (pixelcount * bpp)
  let rot : Bool := decide (layer.mTransform &&& H.HAL_TRANSFORM_ROT_90 ≠ 0)
  let layer_attr := if rot then layer_attr ||| P.G2D_PERF_LAYER_ROTATE else layer_attr
  -- is_scaling = src_hori - dst_vert; is_scaling += src_vert - dst_hori  (or unrotated)
  let is_scaling : Int :=
    if rot then toI32 (u32 (src_hori + 2 ^ 32 - dst_vert))
    else toI32 (u32 (src_hori + 2 ^ 32 - dst_hori))
  let is_scaling : Int :=
    if rot then toI32 (u32 (toU32 is_scaling + u32 (src_vert + 2 ^ 32 - dst_hori)))
    else toI32 (u32 (toU32 is_scaling + u32 (src_vert + 2 ^ 32 - dst_vert)))
  let layer_bw :=
    if is_scaling = 0 then u64 (layer_bw <<< 4)
    else u64 (u64 (layer_bw <<< 4) + u64 (layer_bw <<< 1))
  let layer_attr :=
    if is_scaling = 0 then layer_attr else layer_attr ||| P.G2D_PERF_LAYER_SCALING
  let layer_attr :=
    if layer.mAttribute &&& P.ATTR_COMPRESSED ≠ 0 then layer_attr ||| P.G2D_PERF_LAYER_COMPRESSED
    else layer_attr
  { layer_bw := layer_bw,
    data := { window_width := dst_hori, window_height := dst_vert, crop_width := src_hori,
              crop_height := src_vert, layer_attr := layer_attr },
    src_yuv420 := src_yuv420, src_rotate := rot }

/-- The state of the layer loop: `bandwidth`, `src_yuv420`, `src_rotate` and the
entries `data.frame[i].layer[]` written so far. -/
structure PerfLoop where
  bandwidth : Nat
  src_yuv420 : Bool
  src_rotate : Bool
  layer : List g2d_performance_layer_data
deriving DecidableEq, Repr

/-- The layer loop of `requestPerformanceQoS` over the layers of one frame. -/
def requestPerformanceQoS_layers (H : HalHeader) (P : G2DPerfHeader)
    (layers : List AcrylicPerformanceRequestLayer) (st : PerfLoop) : PerfLoop :=
  layers.foldl
    (fun st layer =>
      let r := requestPerformanceQoS_layer H P layer
      { bandwidth := u64 (st.bandwidth + r.layer_bw),
        src_yuv420 := st.src_yuv420 || r.src_yuv420,
        src_rotate := st.src_rotate || r.src_rotate,
        layer := st.layer ++ [r.data] })
    st

/-- The body of the frame loop of `requestPerformanceQoS`: the entry
`data.frame[i]` for one frame. -/
def requestPerformanceQoS_frame (H : HalHeader) (P : G2DPerfHeader)
    (frame : AcrylicPerformanceRequestFrame) : g2d_performance_frame_data :=
  let st := requestPerformanceQoS_layers H P frame.mLayers
    { bandwidth := 0, src_yuv420 := false, src_rotate := false, layer := [] }
  let bandwidth := u64 (st.bandwidth * toU64 frame.mFrameRate)
  let bandwidth := bandwidth >>> 17
  let bandwidth_read := u32 bandwidth
  let bpp := u32 (P.halfmt_bpp frame.mTargetPixFormat)
  let frame_attr : Nat := 0
  let frame_attr := if bpp = 12 then frame_attr ||| P.G2D_PERF_FRAME_YUV2P else frame_attr
  let bandwidth := toU64 (frame.mTargetDimension.hori * frame.mTargetDimension.vert)
  let bandwidth := u64 (bandwidth * u64 (toU64 frame.mFrameRate * bpp))
  let bandwidth :=
    bandwidth >>> (if bpp = 12 ∧ st.src_yuv420 = true ∧ st.src_rotate = true then 12 else 13)
  let bandwidth_write := u32 bandwidth
  let frame_attr :=
    if frame.mHasBackgroundLayer then frame_attr ||| P.G2D_PERF_FRAME_SOLIDCOLORFILL
    else frame_attr
  { layer := st.layer, bandwidth_read := bandwidth_read, bandwidth_write := bandwidth_write,
    target_pixelcount := toU32 (frame.mTargetDimension.vert * frame.mTargetDimension.hori),
    frame_rate := toU32 frame.mFrameRate, frame_attr := frame_attr,
    num_layers := frame.mLayers.length }

/-- The method `AcrylicCompositorG2D9810::requestPerformanceQoS`.  `request` is
`none` for a null pointer, else the frames of the request; `ioctl` is the
result of `mDev.ioctl(G2D_IOC_PERFORMANCE, &data)` for the data passed.  The
result is the returned `bool` and the data handed to the device. -/
def requestPerformanceQoS (H : HalHeader) (P : G2DPerfHeader) (ioctl : g2d_performance → Int)
    (request : Option (List AcrylicPerformanceRequestFrame)) : Bool × g2d_performance :=
  let zero : g2d_performance := { frame := [], num_frame := 0 }
  match request with
  | none => (decide (¬ ioctl zero < 0), zero)
  | some [] => (decide (¬ ioctl zero < 0), zero)
  | some frames =>
    let data : g2d_performance :=
      { frame := frames.map (requestPerformanceQoS_frame H P), num_frame := frames.length }
    (decide (¬ ioctl data < 0), data)

/-- Sample values for the performance constants (one bit each) with
`halfmt_bpp` 12 for NV12 (`0x105`), 15 for the 8+2 bit format (`0x125`) and 32
otherwise. -/
def samplePerf : G2DPerfHeader :=
  { G2D_PERF_LAYER_ROTATE := 1, G2D_PERF_LAYER_SCALING := 2, G2D_PERF_LAYER_YUV2P := 8,
    G2D_PERF_LAYER_YUV2P_82 := 16, G2D_PERF_LAYER_COMPRESSED := 32,
    G2D_PERF_FRAME_SOLIDCOLORFILL := 1, G2D_PERF_FRAME_YUV2P := 2, ATTR_COMPRESSED := 2,
    halfmt_bpp := fun f => if f = 0x105 then 12 else if f = 0x125 then 15 else 32 }

/-- A layer whose 100x50 source is shown in a 50x100 window without rotation. -/
def sampleCrossScaledLayer : AcrylicPerformanceRequestLayer :=
  { mSourceRect := ⟨⟨0, 0⟩, ⟨100, 50⟩⟩, mTargetRect := ⟨⟨0, 0⟩, ⟨50, 100⟩⟩,
    mPixFormat := 0x1, mTransform := 0, mAttribute := 0 }

/-- A rotated NV12 layer: 100x50 source shown rotated in a 50x100 window. -/
def sampleRotatedNV12Layer : AcrylicPerformanceRequestLayer :=
  { mSourceRect := ⟨⟨0, 0⟩, ⟨100, 50⟩⟩, mTargetRect := ⟨⟨0, 0⟩, ⟨50, 100⟩⟩,
    mPixFormat := 0x105, mTransform := 0x4, mAttribute := 0 }

/-- A frame with an RGBA 1920x1080 target at 60 frames per second and the
rotated NV12 layer. -/
def sampleRgbTargetFrame : AcrylicPerformanceRequestFrame :=
  { mLayers := [sampleRotatedNV12Layer], mTargetDimension := ⟨1920, 1080⟩,
    mTargetPixFormat := 0x1, mFrameRate := 60, mHasBackgroundLayer := false }

/-- The same frame with an NV12 target. -/
def sampleYuvTargetFrame : AcrylicPerformanceRequestFrame :=
  { sampleRgbTargetFrame with mTargetPixFormat := 0x105 }

/-! ## Task submission (`executeG2D`, `ioctlG2D`, `execute`) -/

/-- Further constants of the G2D uapi header and of `acrylic_g2d9810.h` that
the submission path uses.  The headers are not part of the sources, so the
values are parameters. -/
structure G2DTaskHeader where
  G2D_FLAG_HWFC : Nat
  G2D_FLAG_NONBLOCK : Nat
  G2D_FLAG_ERROR : Nat
  G2D_LAYER_YCBCRMODE_OFFX : Nat
  G2D_LAYER_YCBCRMODE_OFFY : Nat
  G2D_LAYERCMD_PREMULT_ALPHA : Nat
  G2D_LAYER_HDRMODE_DEMULT_ALPHA : Nat

/-- Modelled from the spec: `AcrylicCanvas::setFence` is defined in a header
that is not part of the sources; the spec says the acquire fence of a layer is
"invalidated (set to none)" by it, so the setter stores its argument as the
fence that `getFence` returns. -/
def AcrylicCanvas.setFence (canvas : AcrylicCanvas) (fence : Int) : AcrylicCanvas :=
  { canvas with getFence := fence }

/-- Modelled from the spec: `AcrylicCanvas::clearSettingModified` is defined in
a header that is not part of the sources; the spec lists a "dirty-flag clear"
as the produced side effect, so it clears the settings-modified flag. -/
def AcrylicCanvas.clearSettingModified (canvas : AcrylicCanvas) : AcrylicCanvas :=
  { canvas with settingModified := false }

/-- The method `setFence` on a layer (inherited from `AcrylicCanvas`). -/
def AcrylicLayer.setFence (layer : AcrylicLayer) (fence : Int) : AcrylicLayer :=
  { layer with toAcrylicCanvas := layer.toAcrylicCanvas.setFence fence }

/-- The method `clearSettingModified` on a layer (inherited from `AcrylicCanvas`). -/
def AcrylicLayer.clearSettingModified (layer : AcrylicLayer) : AcrylicLayer :=
  { layer with toAcrylicCanvas := layer.toAcrylicCanvas.clearSettingModified }

/-- What the device leaves behind after one `ioctl` on a task: the returned
value, `errno`, and the task members the driver writes (`flags`,
`laptime_in_usec` and the release fences). -/
structure DeviceResponse where
  ret : Int
  errno : Int
  flags : Nat
  laptime_in_usec : Nat
  release_fence : Nat → Int

/-- What lies outside the translation unit during one `executeG2D` call: the
base-class methods `validateAllLayers()` and `sortLayers()`, the outcome of the
`new` expressions, the signedness of `char`, the indeterminate content of the
local `cscMatrixWriter.mMatrixIndex` and of the two `alloca` arrays, the HDR
writer `mHdrWriter` (its command count, `getLayerHdrMode(mTask)` and
`write(regs)`), and the device (`compat` tells `G2D_IOC_COMPAT_PROCESS` from
`G2D_IOC_PROCESS`).  `undefinedWrite` stands for what a call of
`cscMatrixWriter.write` that reads outside a coefficient table (undefined
behaviour in C, the call has no result in the model) leaves in the
extra-register array and returns, in an execution that goes on after it; the C
semantics fixes nothing about it. -/
structure ExecEnv where
  validateAllLayers : AcrylicCompositorG2D9810 → Bool
  sortLayers : List AcrylicLayer → List AcrylicLayer
  alloc : AllocOracle
  charIsSigned : Bool
  uninit : Nat → Nat
  allocaReleaseFence : Nat → Int
  allocaExtra : Nat → g2d_reg
  undefinedWrite : CSCMatrixWriter → (Nat → g2d_reg) × Nat
  hdrCommandCount : Nat
  hdrGetLayerHdrMode : g2d_task → g2d_task
  hdrWrite : (Nat → g2d_reg) → (Nat → g2d_reg)
  ioctl : Bool → g2d_task → DeviceResponse

/-- The method `AcrylicCompositorG2D9810::setHdrLayerCommand`: the task after
the call.  `mHdrLibLayerMap[j]` is given as its 32-bit pattern. -/
def setHdrLayerCommand (G : G2DHeader) (T : G2DTaskHeader) (mHdrLibLayerMap : Nat → Nat)
    (task : g2d_task) (layer_premult : Nat) : g2d_task :=
  (List.range task.num_source).foldl
    (fun task i =>
      match (List.range G.MAX_HDR_SET).find? (fun j => mHdrLibLayerMap j &&& u32 (1 <<< i) != 0) with
      | none => task
      | some j =>
        let cmd := (task.commands.source i).get (fun _ => 0)
        let cmd := Function.update cmd G2DSFR_SRC_HDRMODE j
        let cmd :=
          if layer_premult &&& u32 (1 <<< i) ≠ 0 then
            let cmd := Function.update cmd G2DSFR_SRC_COMMAND
              (cmd G2DSFR_SRC_COMMAND ||| T.G2D_LAYERCMD_PREMULT_ALPHA)
            Function.update cmd G2DSFR_SRC_HDRMODE
              (cmd G2DSFR_SRC_HDRMODE ||| T.G2D_LAYER_HDRMODE_DEMULT_ALPHA)
          else cmd
        { task with commands := { task.commands with
            source := Function.update task.commands.source i
              ((task.commands.source i).set cmd) } })
    task

/-- The result of `ioctlG2D`: the returned `int`, the object after the call and
the task handed to the device. -/
structure IoctlResult where
  ret : Int
  self : AcrylicCompositorG2D9810
  submitted : g2d_task

/-- The method `AcrylicCompositorG2D9810::ioctlG2D`.  With `mVersion == 1` the
device works on `mTask` itself; otherwise on a `g2d_compat_task` that carries
the same members (the per-layer register pointers only below
`mMaxSourceCount`), and `flags`, `laptime_in_usec` and the release fences are
copied back after a successful call. -/
def ioctlG2D (env : ExecEnv) (c : AcrylicCompositorG2D9810) : IoctlResult :=
  if c.mVersion = 1 then
    let resp := env.ioctl false c.mTask
    let c1 := { c with mTask := { c.mTask with
      flags := resp.flags, laptime_in_usec := resp.laptime_in_usec,
      release_fence := fun i =>
        if i < c.mTask.num_release_fences then resp.release_fence i
        else c.mTask.release_fence i } }
    if resp.ret < 0 then { ret := -resp.errno, self := c1, submitted := c.mTask }
    else { ret := 0, self := c1, submitted := c.mTask }
  else
    let task : g2d_task := { c.mTask with commands := { c.mTask.commands with
      source := fun i => if i < c.mMaxSourceCount then c.mTask.commands.source i
                         else heap_ptr.null } }
    let resp := env.ioctl true task
    if resp.ret < 0 then { ret := -resp.errno, self := c, submitted := task }
    else
      { ret := 0,
        self := { c with mTask := { c.mTask with
          flags := resp.flags, laptime_in_usec := resp.laptime_in_usec,
          release_fence := fun i =>
            if i < c.mTask.num_release_fences then resp.release_fence i
            else c.mTask.release_fence i } },
        submitted := task }

/-- The local `hasBackground` of `executeG2D`: a background colour is
configured or the canvas format is block-compressed (SBWC). -/
def executeG2D_hasBackground (G : G2DHeader) (c : AcrylicCompositorG2D9810) : Bool :=
  c.hasBackgroundColor ||
    (match halfmt_to_g2dfmt c.halfmt_to_g2dfmt_tbl c.len_halfmt_to_g2dfmt_tbl
        c.mCanvas.getFormat with
     | some e => decide (e.g2dfmt &&& G.G2D_DATAFORMAT_SBWC ≠ 0)
     | none => false)

/-- The state of `executeG2D` after its first part: `ok` is `false` where the
function has returned `false`; `fence` is the caller array, `num_fences`,
`layercount` and `hasBackground` are the locals. -/
structure ExecSetup where
  ok : Bool
  self : AcrylicCompositorG2D9810
  fence : Nat → Int
  num_fences : Nat
  layercount : Nat
  hasBackground : Bool

/-- The first part of `executeG2D`: layer validation, padding of the caller
fence array, the layer count with the synthesized background, `reallocLayer`,
`sortLayers` and `mTask.flags = 0`. -/
def executeG2D_setup (G : G2DHeader) (env : ExecEnv) (c : AcrylicCompositorG2D9810)
    (fence : Nat → Int) (num_fences : Nat) : ExecSetup :=
  let layercount := c.mLayers.length
  let hasBackground := executeG2D_hasBackground G c
  if !env.validateAllLayers c then
    { ok := false, self := c, fence := fence, num_fences := num_fences,
      layercount := layercount, hasBackground := hasBackground }
  else
    let fence : Nat → Int := fun i => if layercount ≤ i ∧ i < num_fences then -1 else fence i
    let num_fences := if num_fences > layercount + 1 then layercount + 1 else num_fences
    let layercount := if hasBackground then layercount + 1 else layercount
    if hasBackground && decide (layercount > c.maxLayerCount) then
      { ok := false, self := c, fence := fence, num_fences := num_fences,
        layercount := layercount, hasBackground := hasBackground }
    else
      let r := reallocLayer env.alloc c layercount
      if !r.1 then
        { ok := false, self := r.2, fence := fence, num_fences := num_fences,
          layercount := layercount, hasBackground := hasBackground }
      else
        { ok := true,
          self := { r.2 with
            mLayers := env.sortLayers r.2.mLayers,
            mTask := { r.2.mTask with flags := 0 } },
          fence := fence, num_fences := num_fences,
          layercount := layercount, hasBackground := hasBackground }

/-- The state of `executeG2D` after the encoding part: the object and, unless
the function has returned `false`, the locals `cscMatrixWriter` and
`layer_premult`. -/
structure ExecEncoded where
  self : AcrylicCompositorG2D9810
  locals : Option (CSCMatrixWriter × Nat)

/-- The state of the source loop at its start: the descriptors and register
arrays as read through the pointers of `task` (after the background layer was
written), the constructed writer and `layer_premult = 0`. -/
def executeG2D_loopStart (task : g2d_task) (w : CSCMatrixWriter) : EncodeState :=
  { source := task.source.get (fun _ => g2d_layer.zero),
    commands_source := fun i => (task.commands.source i).get (fun _ => 0),
    cscMatrixWriter := w, layer_premult := 0 }

/-- The task with the descriptors and register arrays of the source loop
stored through its pointers. -/
def executeG2D_loopStore (task : g2d_task) (st : EncodeState) : g2d_task :=
  { task with
    source := task.source.set st.source,
    commands := { task.commands with
      source := fun i => (task.commands.source i).set (st.commands_source i) } }

/-- The task after `prepareImage(getCanvas(), mTask.target, mTask.commands.target, -1)`
together with the returned `bool`. -/
def executeG2D_target (H : HalHeader) (G : G2DHeader) (c : AcrylicCompositorG2D9810) :
    Bool × g2d_task :=
  let r := prepareImage H G c.halfmt_to_g2dfmt_tbl c.len_halfmt_to_g2dfmt_tbl c.mCanvas
    c.mTask.target (c.mTask.commands.target.get (fun _ => 0)) (-1)
  (r.1, { c.mTask with
    target := r.2.1,
    commands := { c.mTask.commands with target := c.mTask.commands.target.set r.2.2 } })

/-- The part of `executeG2D` between the target `prepareImage` and the source
loop: the hardware-flow-control flag, the synthesized background layer at
descriptor 0, the target YCbCr-mode register and the construction of
`cscMatrixWriter`.  The result is the task and the writer. -/
def executeG2D_beforeLoop (H : HalHeader) (G : G2DHeader) (T : G2DTaskHeader) (env : ExecEnv)
    (c : AcrylicCompositorG2D9810) (hasBackground : Bool) (task : g2d_task) :
    g2d_task × CSCMatrixWriter :=
  let task := if c.mCanvas.isOTF then { task with flags := task.flags ||| T.G2D_FLAG_HWFC } else task
  let task :=
    if hasBackground then
      let r := prepareSolidLayerCanvas G c.mBackgroundColor c.mCanvas
        (task.source.get (fun _ => g2d_layer.zero) 0)
        ((task.commands.source 0).get (fun _ => 0))
      { task with
        source := task.source.set
          (Function.update (task.source.get (fun _ => g2d_layer.zero)) 0 r.2.1),
        commands := { task.commands with
          source := Function.update task.commands.source 0
            ((task.commands.source 0).set r.2.2) } }
    else task
  let tcmd := Function.update (task.commands.target.get (fun _ => 0)) G2DSFR_DST_YCBCRMODE 0
  let w := CSCMatrixWriter.new H G env.charIsSigned env.uninit (tcmd G2DSFR_IMG_COLORMODE)
    c.mCanvas.getDataspace (tcmd G2DSFR_DST_YCBCRMODE)
  let tcmd := Function.update tcmd G2DSFR_DST_YCBCRMODE
    (w.2 ||| (T.G2D_LAYER_YCBCRMODE_OFFX ||| T.G2D_LAYER_YCBCRMODE_OFFY))
  ({ task with commands := { task.commands with target := task.commands.target.set tcmd } }, w.1)

/-- The source loop of `executeG2D` as it runs in the call whose first part
ended in `s`, on the task `task` left by the target `prepareImage`: the layers
`getLayer(0) .. getLayer(layercount - baseidx - 1)` are encoded into the
descriptors from `baseidx` on. -/
def executeG2D_sources (H : HalHeader) (G : G2DHeader) (T : G2DTaskHeader) (env : ExecEnv)
    (s : ExecSetup) (task : g2d_task) : Bool × EncodeState :=
  let baseidx := if s.hasBackground then 1 else 0
  let b := executeG2D_beforeLoop H G T env s.self s.hasBackground task
  executeG2D_sourceLoop H G env.charIsSigned s.self.halfmt_to_g2dfmt_tbl
    s.self.len_halfmt_to_g2dfmt_tbl s.self.mCanvas.getImageDimension baseidx 0
    (s.self.mLayers.take (s.layercount - baseidx)) (executeG2D_loopStart b.1 b.2)

/-- The encoding part of `executeG2D`, from the target `prepareImage` to the
end of the source loop. -/
def executeG2D_encode (H : HalHeader) (G : G2DHeader) (T : G2DTaskHeader) (env : ExecEnv)
    (s : ExecSetup) : ExecEncoded :=
  let c := s.self
  let t := executeG2D_target H G c
  if !t.1 then { self := { c with mTask := t.2 }, locals := none }
  else
    let b := executeG2D_beforeLoop H G T env c s.hasBackground t.2
    let r := executeG2D_sources H G T env s t.2
    let c := { c with mTask := executeG2D_loopStore b.1 r.2 }
    if !r.1 then { self := c, locals := none }
    else { self := c, locals := some (r.2.cscMatrixWriter, r.2.layer_premult) }

/-- The part of `executeG2D` between the source loop and the device call: the
HDR mode of the layers, `num_source`, the non-blocking flag, the release-fence
array and the extra registers (colour-conversion matrices, then either the
registers of `mHdrWriter` or those of the HDR library). -/
def executeG2D_finish (G : G2DHeader) (T : G2DTaskHeader) (env : ExecEnv)
    (c : AcrylicCompositorG2D9810) (w : CSCMatrixWriter) (layer_premult : Nat)
    (layercount num_fences : Nat) (nonblocking : Bool) : AcrylicCompositorG2D9810 :=
  let task := env.hdrGetLayerHdrMode c.mTask
  let task := { task with num_source := layercount }
  let task := if nonblocking then { task with flags := task.flags ||| T.G2D_FLAG_NONBLOCK } else task
  let task := { task with num_release_fences := num_fences, release_fence := env.allocaReleaseFence }
  let num_extra_regs := w.getRegisterCount + env.hdrCommandCount
  let num_hdrlib_coef :=
    if env.hdrCommandCount = 0 ∧
        (List.range G.MAX_HDR_SET).any (fun i => (c.mHdrLibCoef i).hdr_en != 0) = true then
      NUM_HDR_REGS G
    else 0
  let wr :=
    match w.write env.allocaExtra with
    | some r => r
    | none => env.undefinedWrite w
  let task := { task with commands := { task.commands with
    extra := wr.1, num_extra_regs := num_extra_regs } }
  let task :=
    if env.hdrCommandCount ≠ 0 then
      let h := env.hdrWrite (fun k => wr.1 (wr.2 + k))
      { task with commands := { task.commands with
        extra := fun i => if i < wr.2 then wr.1 i else h (i - wr.2) } }
    else if num_hdrlib_coef ≠ 0 then
      let h := setHdrLibCommand G c.mHdrLibCoef (fun k => wr.1 (wr.2 + k))
      let task := { task with commands := { task.commands with
        extra := fun i => if i < wr.2 then wr.1 i else h.1 (i - wr.2),
        num_extra_regs := num_extra_regs + h.2 } }
      setHdrLayerCommand G T c.mHdrLibLayerMap task layer_premult
    else task
  { c with mTask := task }

/-- The result of `executeG2D`: the returned `bool`, the object and the caller
array `fence[]` after the call, and the task handed to the device (`none`
where the device was not called). -/
structure ExecResult where
  ok : Bool
  self : AcrylicCompositorG2D9810
  fence : Nat → Int
  submitted : Option g2d_task

/-- The method `AcrylicCompositorG2D9810::executeG2D`. -/
def executeG2D (H : HalHeader) (G : G2DHeader) (T : G2DTaskHeader) (env : ExecEnv)
    (c : AcrylicCompositorG2D9810) (fence : Nat → Int) (num_fences : Nat) (nonblocking : Bool) :
    ExecResult :=
  let s := executeG2D_setup G env c fence num_fences
  if !s.ok then { ok := false, self := s.self, fence := s.fence, submitted := none }
  else
    let e := executeG2D_encode H G T env s
    match e.locals with
    | none => { ok := false, self := e.self, fence := s.fence, submitted := none }
    | some (w, layer_premult) =>
      let c := executeG2D_finish G T env e.self w layer_premult s.layercount s.num_fences
        nonblocking
      let io := ioctlG2D env c
      if io.ret < 0 then
        { ok := false, self := io.self, fence := s.fence, submitted := some io.submitted }
      else if io.self.mTask.flags &&& T.G2D_FLAG_ERROR ≠ 0 then
        { ok := false, self := io.self, fence := s.fence, submitted := some io.submitted }
      else
        let c := io.self
        let c := { c with
          mCanvas := c.mCanvas.clearSettingModified.setFence (-1),
          mLayers := c.mLayers.map (fun l => l.clearSettingModified.setFence (-1)) }
        { ok := true, self := c,
          fence := fun i => if i < s.num_fences then c.mTask.release_fence i else s.fence i,
          submitted := some io.submitted }

/-- The failure path shared by the two `execute` methods: `setFence(-1)` on
every layer and on the canvas. -/
def execute_clearFences (c : AcrylicCompositorG2D9810) : AcrylicCompositorG2D9810 :=
  { c with
    mLayers := c.mLayers.map (fun l => l.setFence (-1)),
    mCanvas := c.mCanvas.setFence (-1) }

/-- The method `AcrylicCompositorG2D9810::execute(int fence[], unsigned int num_fences)`. -/
def execute (H : HalHeader) (G : G2DHeader) (T : G2DTaskHeader) (env : ExecEnv)
    (c : AcrylicCompositorG2D9810) (fence : Nat → Int) (num_fences : Nat) : ExecResult :=
  let r := executeG2D H G T env c fence num_fences true
  if !r.ok then { r with ok := false, self := execute_clearFences r.self }
  else r

/-- The method `AcrylicCompositorG2D9810::execute(int *handle)`; `handle` is
`none` for a null pointer, else the value `*handle`.  The result carries the
value of `*handle` after the call. -/
def execute_handle (H : HalHeader) (G : G2DHeader) (T : G2DTaskHeader) (env : ExecEnv)
    (c : AcrylicCompositorG2D9810) (handle : Option Int) : ExecResult × Option Int :=
  let r := executeG2D H G T env c (fun _ => 0) 0 handle.isSome
  if !r.ok then ({ r with ok := false, self := execute_clearFences r.self }, handle)
  else (r, handle.map (fun _ => 1))

/-- The members of the object other than `mTask` and `mMaxSourceCount`. -/
def AcrylicCompositorG2D9810.sameSettings (a b : AcrylicCompositorG2D9810) : Prop :=
  a.mCanvas = b.mCanvas ∧ a.mLayers = b.mLayers ∧ a.hasBackgroundColor = b.hasBackgroundColor ∧
  a.mBackgroundColor = b.mBackgroundColor ∧ a.maxLayerCount = b.maxLayerCount ∧
  a.mVersion = b.mVersion ∧ a.halfmt_to_g2dfmt_tbl = b.halfmt_to_g2dfmt_tbl ∧
  a.len_halfmt_to_g2dfmt_tbl = b.len_halfmt_to_g2dfmt_tbl ∧ a.mHdrLibCoef = b.mHdrLibCoef ∧
  a.mHdrLibLayerMap = b.mHdrLibLayerMap

/-- Sample values for the task constants (one bit each). -/
def sampleTaskHeader : G2DTaskHeader :=
  { G2D_FLAG_HWFC := 1, G2D_FLAG_NONBLOCK := 2, G2D_FLAG_ERROR := 4,
    G2D_LAYER_YCBCRMODE_OFFX := 0x1000, G2D_LAYER_YCBCRMODE_OFFY := 0x2000,
    G2D_LAYERCMD_PREMULT_ALPHA := 0x100, G2D_LAYER_HDRMODE_DEMULT_ALPHA := 0x100 }

/-- A sample surrounding: validation passes, `sortLayers` keeps the order,
every allocation succeeds, `mHdrWriter` is idle, and the device accepts the
task, leaves the flags as they are and returns the release fences 20, 21, ... -/
def sampleEnv : ExecEnv :=
  { validateAllLayers := fun _ => true, sortLayers := fun l => l, alloc := sampleAlloc,
    charIsSigned := true, uninit := fun _ => 0, allocaReleaseFence := fun _ => 0,
    allocaExtra := fun _ => ⟨0, 0⟩, undefinedWrite := fun _ => (fun _ => ⟨0, 0⟩, 0),
    hdrCommandCount := 0, hdrGetLayerHdrMode := fun t => t,
    hdrWrite := fun r => r,
    ioctl := fun _ t =>
      { ret := 0, errno := 0, flags := t.flags, laptime_in_usec := 0,
        release_fence := fun i => 20 + (i : Int) } }

/-- The sample surrounding with a device that accepts the task (return value
0) but sets the error flag in the task flags. -/
def sampleEnvDeviceError : ExecEnv :=
  { sampleEnv with
    ioctl := fun _ t =>
      { ret := 0, errno := 0, flags := t.flags ||| 4, laptime_in_usec := 0,
        release_fence := fun i => 20 + (i : Int) } }

/-- The sample compositor with acquire fences set: 5 on the canvas, 7 and 8 on
the two layers. -/
def sampleFencedCompositor : AcrylicCompositorG2D9810 :=
  { sampleCompositor with
    mCanvas := { sampleCanvas with getFence := 5 },
    mLayers := [{ sampleBottom with getFence := 7 }, { sampleTop with getFence := 8 }] }

/-- A sample layer without buffers: RGBA_8888 (one plane), not a solid colour,
buffer type `MT_EMPTY`, buffer count 0. -/
def sampleEmptyLayer : AcrylicLayer :=
  { sampleBottom with getBufferType := memory_type.MT_EMPTY, getBufferCount := 0 }

/-- The sample compositor with `sampleEmptyLayer` as its only layer. -/
def sampleEmptyLayerCompositor : AcrylicCompositorG2D9810 :=
  { sampleCompositor with mLayers := [sampleEmptyLayer] }

/-- A sample layer whose pixel format `0x999` is not in the catalog. -/
def sampleUnmappedLayer : AcrylicLayer := { sampleBottom with getFormat := 0x999 }

/-- The sample compositor with `sampleUnmappedLayer` as its only layer. -/
def sampleUnmappedCompositor : AcrylicCompositorG2D9810 :=
  { sampleCompositor with mLayers := [sampleUnmappedLayer] }

/-- The destination window `prepareSource` and `prepareSolidLayer` encode: the
declared target rectangle, with its size replaced by the canvas size when it
has zero area. -/
def encodedWindow (layer : AcrylicLayer) (target_size : hw2d_coord_t) : hw2d_rect_t :=
  if area_is_zero layer.getTargetRect then { layer.getTargetRect with size := target_size }
  else layer.getTargetRect

/-- A sample layer with a crop rectangle of width 0: crop 0x50 shown in a 50x50
window. -/
def sampleZeroWidthCrop : AcrylicLayer :=
  { sampleBottom with
    getImageRect := ⟨⟨0, 0⟩, ⟨0, 50⟩⟩, getTargetRect := ⟨⟨0, 0⟩, ⟨50, 50⟩⟩ }

/-- A sample compressed (AFBC) layer: RGBA_8888, crop 100x50 at (10, 20). -/
def sampleCompressedLayer : AcrylicLayer :=
  { sampleBottom with isCompressed := true, getImageRect := ⟨⟨10, 20⟩, ⟨100, 50⟩⟩ }

/-- A sample layer whose target rectangle has zero area and lies at (10, 20). -/
def sampleUnsizedLayer : AcrylicLayer :=
  { sampleBottom with getTargetRect := ⟨⟨10, 20⟩, ⟨0, 0⟩⟩ }

/-- A sample solid-colour layer: colour `0xFF112233`, a pixel format outside the
catalog, no buffers, transform `ROT_90`, plane alpha 128, target rectangle of
zero area at the origin. -/
def sampleSolidLayer : AcrylicLayer :=
  { sampleBottom with
    isSolidColor := true, getSolidColor := 0xFF112233, getFormat := 0x999, getBufferCount := 0,
    getTransform := 0x4, getPlaneAlpha := 128, getTargetRect := ⟨⟨0, 0⟩, ⟨0, 0⟩⟩ }

/-- The colour mode `prepareImage` writes for the table entry `e`: the mapped
value, with the U-order flag for a U-ordered image, and for a compressed image
with RGB565 replaced by BGR565 and the AFBC flag added. -/
def mappedColorMode (G : G2DHeader) (layer : AcrylicCanvas) (e : g2d_fmt) : Nat :=
  let c := if layer.isUOrder then e.g2dfmt ||| G.G2D_DATAFORMAT_UORDER else e.g2dfmt
  if layer.isCompressed then
    (if e.g2dfmt = G.G2D_FMT_RGB565 then G.G2D_FMT_BGR565 else c) ||| G.G2D_DATAFORMAT_AFBC
  else c

/-- A sample solid-colour layer whose target rectangle has zero area and lies
at (10, 20). -/
def sampleUnsizedSolidLayer : AcrylicLayer :=
  { sampleSolidLayer with getTargetRect := ⟨⟨10, 20⟩, ⟨0, 0⟩⟩ }

/-- A writer for an RGB target after one successful `configure` call for the
8+2-bit format `G2D_FMT_NV12_82_9810` with the BT.709 limited-range dataspace
`0x10000` and a zero YCbCr-mode register: the matrix is cached in slot 0. -/
def sampleWriterAfter82 : CSCMatrixWriter :=
  ((CSCMatrixWriter.new sampleHal sampleG2D true (fun _ => 0) 0x03012 0 0).1.configure
    sampleHal sampleG2D true 0xD0000 0x10000 0).2.1

/-- A sample layer with an alpha format and neither premultiplied nor coverage
blending: RGBA_8888, compositing mode `HWC_BLENDING_NONE` (`0x100`). -/
def sampleBlendNoneLayer : AcrylicLayer := { sampleBottom with getCompositingMode := 0x100 }

/-- The layer `sampleBlendNoneLayer`, frame-buffer compressed. -/
def sampleBlendNoneCompressed : AcrylicLayer := { sampleBlendNoneLayer with isCompressed := true }

/-- The layer `sampleBlendNoneLayer`, U-ordered. -/
def sampleBlendNoneUOrder : AcrylicLayer := { sampleBlendNoneLayer with isUOrder := true }

/-- The value `write` puts into register `i` of a stage. -/
def packedValue (d : Nat → Nat) (info : hdr_reg_info) (i : Nat) : Nat :=
  if info.pair then
    if i = info.count - 1 then COEF (d (i * 2)) info.bits
    else COEF_COUPLE_VALUE (d (i * 2)) (d (i * 2 + 1)) info.bits
  else COEF (d i) info.bits

/-- The `x` and `y` register descriptions of `hdr_proc_info` that are marked
as paired, in table order, each with the LUT size of its stage. -/
def pairedStages : List (hdr_reg_info × Nat) :=
  ((hdr_proc_info.zip [OETF_LUT_VALUES, EOTF_LUT_VALUES, GM_LUT_VALUES, TM_LUT_VALUES]).flatMap
    (fun p => [(p.1.x, p.2), (p.1.y, p.2)])).filter (fun q => q.1.pair)

/-- The sample compositor (fences 5, 7, 8) with a background colour configured:
components `r = 0x1234`, `g = 0x5678`, `b = 0x9ABC`, `a = 0xFFEE`. -/
def sampleBackgroundCompositor : AcrylicCompositorG2D9810 :=
  { sampleFencedCompositor with
    hasBackgroundColor := true, mBackgroundColor := ⟨0x1234, 0x5678, 0x9ABC, 0xFFEE⟩ }

/-- Descriptor number `i` of a task, read through `task.source`. -/
def g2d_task.sourceLayer (task : g2d_task) (i : Nat) : g2d_layer :=
  task.source.get (fun _ => g2d_layer.zero) i

/-- The register array of source number `i` of a task, read through
`task.commands.source[i]`. -/
def g2d_task.sourceRegs (task : g2d_task) (i : Nat) : g2dsfr → Nat :=
  (task.commands.source i).get (fun _ => 0)

/-- The descriptor `image` with the registers `regs` is what `prepareSource`
produces for `layer` as source number `index` (from some earlier content of the
descriptor and of the register array): `prepareSource` returns `true`, the
descriptor is its descriptor, every register other than `SRC_YCBCRMODE`,
`SRC_HDRMODE` and `SRC_COMMAND` has its value, and `SRC_COMMAND` has its value
with or without the flag `G2D_LAYERCMD_PREMULT_ALPHA` that `setHdrLayerCommand`
adds.  (`SRC_YCBCRMODE` is written by `CSCMatrixWriter::configure` and
`SRC_HDRMODE` by the HDR steps after `prepareSource`.) -/
def encodesLayer (H : HalHeader) (G : G2DHeader) (T : G2DTaskHeader) (tbl : List g2d_fmt)
    (tbl_len : Nat) (dim : hw2d_coord_t) (layer : AcrylicLayer) (index : Nat) (image : g2d_layer)
    (regs : g2dsfr → Nat) : Prop :=
  ∃ (image0 : g2d_layer) (cmd0 : g2dsfr → Nat),
    (prepareSource H G tbl tbl_len layer image0 cmd0 dim (index : Int)).1 = true ∧
    image = (prepareSource H G tbl tbl_len layer image0 cmd0 dim (index : Int)).2.1 ∧
    (∀ r, r ≠ G2DSFR_SRC_YCBCRMODE → r ≠ G2DSFR_SRC_HDRMODE → r ≠ G2DSFR_SRC_COMMAND →
      regs r = (prepareSource H G tbl tbl_len layer image0 cmd0 dim (index : Int)).2.2 r) ∧
    (regs G2DSFR_SRC_COMMAND =
        (prepareSource H G tbl tbl_len layer image0 cmd0 dim (index : Int)).2.2
          G2DSFR_SRC_COMMAND ∨
      regs G2DSFR_SRC_COMMAND =
        (prepareSource H G tbl tbl_len layer image0 cmd0 dim (index : Int)).2.2
          G2DSFR_SRC_COMMAND ||| T.G2D_LAYERCMD_PREMULT_ALPHA)

/-- The invariant of the buffer manager between calls: with a non-zero
capacity the descriptor array is live, and the register arrays below the
capacity are live. -/
def AcrylicCompositorG2D9810.buffersValid (c : AcrylicCompositorG2D9810) : Prop :=
  (0 < c.mMaxSourceCount → c.mTask.source.isLive = true) ∧
  ∀ i, i < c.mMaxSourceCount → (c.mTask.commands.source i).isLive = true

/-- What `setHdrLayerCommand` keeps of a task `t` in the task `after`: the
source count, the descriptor array, every source register other than
`SRC_HDRMODE` and `SRC_COMMAND`; `SRC_COMMAND` is kept or gets the flag
`G2D_LAYERCMD_PREMULT_ALPHA` added. -/
def hdrLayerFrame (T : G2DTaskHeader) (t after : g2d_task) : Prop :=
  after.num_source = t.num_source ∧ after.source = t.source ∧
  (∀ i r, r ≠ G2DSFR_SRC_HDRMODE → r ≠ G2DSFR_SRC_COMMAND →
    after.sourceRegs i r = t.sourceRegs i r) ∧
  ∀ i, after.sourceRegs i G2DSFR_SRC_COMMAND = t.sourceRegs i G2DSFR_SRC_COMMAND ∨
    after.sourceRegs i G2DSFR_SRC_COMMAND =
      t.sourceRegs i G2DSFR_SRC_COMMAND ||| T.G2D_LAYERCMD_PREMULT_ALPHA

/-- The ARGB colour `prepareSolidLayer` forms from the background components:
the high byte of each 16-bit component, alpha in the top byte. -/
def backgroundARGB (bg : BackgroundColor) : Nat :=
  ((bg.a >>> 8) <<< 24) ||| ((bg.r >>> 8) <<< 16) ||| ((bg.g >>> 8) <<< 8) ||| (bg.b >>> 8)

/-- The first `r.2` entries of the register array `r.1`: what a writer whose
state is the array and its count has emitted so far, in order. -/
def emitted (r : (Nat → g2d_reg) × Nat) : List g2d_reg := (List.range r.2).map r.1

/-- The registers one `write` call emits, in order: none for a null array,
else `info.count` registers at `offset, offset + 4, ...`. -/
def stageRegs (data : Option (Nat → Nat)) (offset : Nat) (info : hdr_reg_info) : List g2d_reg :=
  match data with
  | none => []
  | some d => (List.range info.count).map (fun k => ⟨offset + 4 * k, packedValue d info k⟩)

/-- The value of the mode-control register of a coefficient set: bit 0 for
OETF, bit 1 for EOTF, bit 2 for gamut mapping, bit 5 for tone mapping. -/
def modCtrlValue (c : hdrCoef) : Nat :=
  (if c.oetf_en ≠ 0 then 1 else 0) ||| (if c.eotf_en ≠ 0 then 2 else 0) |||
    (if c.gm_en ≠ 0 then 4 else 0) ||| (if c.tm_en ≠ 0 then 32 else 0)

/-- The three combined tone-mapping registers of slot `i`, in the order they
are emitted: range X, range Y, coefficients. -/
def tmRegs (i : Nat) (c : hdrCoef) : List g2d_reg :=
  [⟨0x3438 + 0x800 * i, TM_RNGX_VALUE (c.tm_rngx 0) (c.tm_rngx 1)⟩,
   ⟨0x343C + 0x800 * i, TM_RNGY_VALUE (c.tm_rngy 0) (c.tm_rngy 1)⟩,
   ⟨0x3434 + 0x800 * i, TM_COEF_VALUE (c.tm_coef 0) (c.tm_coef 1) (c.tm_coef 2)⟩]

/-- The registers slot `i` contributes, in order: the LUT registers of the
enabled stages (OETF X, Y; EOTF X, Y; gamut; tone mapping X, Y), the three
combined tone-mapping registers, and the mode-control register. -/
def slotRegs (i : Nat) (c : hdrCoef) : List g2d_reg :=
  (if c.oetf_en ≠ 0 then
    stageRegs c.oetf_x (0x300C + 0x800 * i) ⟨17, 16, true⟩ ++
      stageRegs c.oetf_y (0x3050 + 0x800 * i) ⟨17, 10, true⟩ else []) ++
  (if c.eotf_en ≠ 0 then
    stageRegs c.eotf_x (0x3094 + 0x800 * i) ⟨65, 10, true⟩ ++
      stageRegs c.eotf_y (0x3198 + 0x800 * i) ⟨129, 16, false⟩ else []) ++
  (if c.gm_en ≠ 0 then stageRegs c.gm_coef (0x339C + 0x800 * i) ⟨9, 19, false⟩ else []) ++
  (if c.tm_en ≠ 0 then
    stageRegs c.tm_x (0x344C + 0x800 * i) ⟨17, 16, true⟩ ++
      stageRegs c.tm_y (0x3490 + 0x800 * i) ⟨33, 20, false⟩ ++ tmRegs i c else []) ++
  [⟨0x3008 + 0x800 * i, modCtrlValue c⟩]

/-- The body of the stage loop of `setHdrLibCommand` for slot `i` and stage
`j`, as it stands in `setHdrLibCommand_slot`; the state is the register array,
`count` and `mod_ctrl_bit`. -/
def setHdrLibCommand_stage (i : Nat) (c : hdrCoef) (s : (Nat → g2d_reg) × Nat × Nat) (j : Nat) :
    (Nat → g2d_reg) × Nat × Nat :=
  let x : List (Option (Nat → Nat)) := [c.oetf_x, c.eotf_x, c.gm_coef, c.tm_x]
  let y : List (Option (Nat → Nat)) := [c.oetf_y, c.eotf_y, none, c.tm_y]
  let proc_en := (notNot c.oetf_en <<< HDR_PROC_OETF) ||| (notNot c.eotf_en <<< HDR_PROC_EOTF) |||
    (notNot c.gm_en <<< HDR_PROC_GM) ||| (notNot c.tm_en <<< HDR_PROC_TM)
  if proc_en &&& (1 <<< j) = 0 then s
  else
    let info := hdr_proc_info.getD j ⟨0, ⟨0, 0, false⟩, ⟨0, 0, false⟩⟩
    let wx := write s.1 s.2.1 (x.getD j none) (getRegBaseX i j) info.x
    let wy := write wx.1 (s.2.1 + wx.2) (y.getD j none) (getRegBaseY i j) info.y
    (wy.1, s.2.1 + wx.2 + wy.2, s.2.2 ||| (1 <<< info.ctrl_bit))

/-- A coefficient set that contributes the largest number of registers: the
set and its four stages are enabled and none of its arrays is null. -/
def hdrCoef.full (c : hdrCoef) : Prop :=
  c.hdr_en ≠ 0 ∧ c.oetf_en ≠ 0 ∧ c.eotf_en ≠ 0 ∧ c.gm_en ≠ 0 ∧ c.tm_en ≠ 0 ∧ c.arraysPresent

/-- Sample HDR library state: every slot and every stage is enabled, but the
OETF X array of each set is a null pointer. -/
def sampleHdrCoefNullArray : Nat → hdrCoef := fun _ =>
  { hdr_en := 1, oetf_en := 1, eotf_en := 1, gm_en := 1, tm_en := 1,
    oetf_x := none, oetf_y := some (fun _ => 0),
    eotf_x := some (fun _ => 0), eotf_y := some (fun _ => 0),
    gm_coef := some (fun k => k + 1),
    tm_x := some (fun _ => 0), tm_y := some (fun _ => 0),
    tm_coef := fun _ => 0, tm_rngx := fun _ => 0, tm_rngy := fun _ => 0 }

/-- Sample HDR library state: every slot and every stage is enabled and every
array is present. -/
def sampleHdrCoefFull : Nat → hdrCoef := fun _ =>
  { hdr_en := 1, oetf_en := 1, eotf_en := 1, gm_en := 1, tm_en := 1,
    oetf_x := some (fun k => k), oetf_y := some (fun k => k),
    eotf_x := some (fun k => k), eotf_y := some (fun k => k),
    gm_coef := some (fun k => k + 1),
    tm_x := some (fun k => k), tm_y := some (fun k => k),
    tm_coef := fun k => k + 1, tm_rngx := fun k => k + 1, tm_rngy := fun k => k + 1 }

/-- The list `l` of register offsets has no repetition and lies in `[lo, hi)`. -/
def offsetsWithin (lo hi : Nat) (l : List Nat) : Prop :=
  l.Nodup ∧ ∀ a ∈ l, lo ≤ a ∧ a < hi

/-- The registers the slot loop contributes over the slots in `slots`. -/
def loopRegs (mHdrLibCoef : Nat → hdrCoef) (slots : List Nat) : List g2d_reg :=
  slots.flatMap (fun i => if (mHdrLibCoef i).hdr_en = 0 then [] else slotRegs i (mHdrLibCoef i))

/-- What `setHdrLayerCommand` does to the register array `cmd` of source `i`:
the body of its loop over the sources, on the registers alone. -/
def setHdrLayerCommand_source (G : G2DHeader) (T : G2DTaskHeader) (mHdrLibLayerMap : Nat → Nat)
    (layer_premult : Nat) (i : Nat) (cmd : g2dsfr → Nat) : g2dsfr → Nat :=
  match (List.range G.MAX_HDR_SET).find? (fun j => mHdrLibLayerMap j &&& u32 (1 <<< i) != 0) with
  | none => cmd
  | some j =>
    let cmd := Function.update cmd G2DSFR_SRC_HDRMODE j
    if layer_premult &&& u32 (1 <<< i) ≠ 0 then
      let cmd := Function.update cmd G2DSFR_SRC_COMMAND
        (cmd G2DSFR_SRC_COMMAND ||| T.G2D_LAYERCMD_PREMULT_ALPHA)
      Function.update cmd G2DSFR_SRC_HDRMODE
        (cmd G2DSFR_SRC_HDRMODE ||| T.G2D_LAYER_HDRMODE_DEMULT_ALPHA)
    else cmd

/-- The body of the source loop of `setHdrLayerCommand` for source `i`, as it
stands in `setHdrLayerCommand`. -/
def setHdrLayerCommand_step (G : G2DHeader) (T : G2DTaskHeader) (mHdrLibLayerMap : Nat → Nat)
    (layer_premult : Nat) (task : g2d_task) (i : Nat) : g2d_task :=
  match (List.range G.MAX_HDR_SET).find? (fun j => mHdrLibLayerMap j &&& u32 (1 <<< i) != 0) with
  | none => task
  | some j =>
    let cmd := (task.commands.source i).get (fun _ => 0)
    let cmd := Function.update cmd G2DSFR_SRC_HDRMODE j
    let cmd :=
      if layer_premult &&& u32 (1 <<< i) ≠ 0 then
        let cmd := Function.update cmd G2DSFR_SRC_COMMAND
          (cmd G2DSFR_SRC_COMMAND ||| T.G2D_LAYERCMD_PREMULT_ALPHA)
        Function.update cmd G2DSFR_SRC_HDRMODE
          (cmd G2DSFR_SRC_HDRMODE ||| T.G2D_LAYER_HDRMODE_DEMULT_ALPHA)
      else cmd
    { task with commands := { task.commands with
        source := Function.update task.commands.source i
          ((task.commands.source i).set cmd) } }

/-- The members of a task other than the register arrays of the sources. -/
def g2d_task.sameOutsideSourceRegs (a b : g2d_task) : Prop :=
  a.flags = b.flags ∧ a.laptime_in_usec = b.laptime_in_usec ∧ a.num_source = b.num_source ∧
  a.num_release_fences = b.num_release_fences ∧ a.release_fence = b.release_fence ∧
  a.target = b.target ∧ a.source = b.source ∧ a.commands.target = b.commands.target ∧
  a.commands.extra = b.commands.extra ∧ a.commands.num_extra_regs = b.commands.num_extra_regs

/-- A task with two live sources whose registers are zero, apart from
`SRC_COMMAND = 0x1000000` of source 1. -/
def sampleHdrTask : g2d_task :=
  { g2d_task.zero with
    num_source := 2,
    commands := { g2d_task.zero.commands with
      source := fun i =>
        if i = 0 then heap_ptr.live 100 (fun _ => 0)
        else if i = 1 then
          heap_ptr.live 101 (fun r => if r = G2DSFR_SRC_COMMAND then 0x1000000 else 0)
        else heap_ptr.null } }

/-- A sample layer map: configuration 1 and configuration 2 both name source 1,
no configuration names source 0. -/
def sampleHdrLayerMap : Nat → Nat := fun j => if j = 1 ∨ j = 2 then 2 else 0

/-- The source and target extents of a performance-request layer lie in
`0 .. 32767`. -/
def AcrylicPerformanceRequestLayer.extentsInRange (l : AcrylicPerformanceRequestLayer) : Prop :=
  (0 ≤ l.mSourceRect.size.hori ∧ l.mSourceRect.size.hori ≤ 32767) ∧
  (0 ≤ l.mSourceRect.size.vert ∧ l.mSourceRect.size.vert ≤ 32767) ∧
  (0 ≤ l.mTargetRect.size.hori ∧ l.mTargetRect.size.hori ≤ 32767) ∧
  (0 ≤ l.mTargetRect.size.vert ∧ l.mTargetRect.size.vert ≤ 32767)

/-- The pixel count of a layer: the larger of the source area and the target
area, as a natural number. -/
def perfPixelCount (l : AcrylicPerformanceRequestLayer) : Nat :=
  max (l.mSourceRect.size.hori.toNat * l.mSourceRect.size.vert.toNat)
    (l.mTargetRect.size.hori.toNat * l.mTargetRect.size.vert.toNat)

/-- The weight of a layer: 16 when the layer is treated as unscaled, which is
when the sum of its source extents equals the sum of its target extents (the
test `is_scaling == 0`, with or without rotation), else 18. -/
def perfWeight (l : AcrylicPerformanceRequestLayer) : Nat :=
  if l.mSourceRect.size.hori + l.mSourceRect.size.vert =
      l.mTargetRect.size.hori + l.mTargetRect.size.vert then 16 else 18

/-- The exact bandwidth sum of the layers of a frame:
`pixelcount * bpp * weight` added over the layers. -/
def perfBandwidthSum (P : G2DPerfHeader) (layers : List AcrylicPerformanceRequestLayer) : Nat :=
  (layers.map (fun l => perfPixelCount l * u32 (P.halfmt_bpp l.mPixFormat) * perfWeight l)).sum

/-- A frame with a 100x50 layer shown unscaled and a 100x50 layer shown in a
200x100 window, both RGBA, at 60 frames per second. -/
def samplePerfFrame : AcrylicPerformanceRequestFrame :=
  { mLayers :=
      [{ mSourceRect := ⟨⟨0, 0⟩, ⟨100, 50⟩⟩, mTargetRect := ⟨⟨0, 0⟩, ⟨100, 50⟩⟩,
         mPixFormat := 0x1, mTransform := 0, mAttribute := 0 },
       { mSourceRect := ⟨⟨0, 0⟩, ⟨100, 50⟩⟩, mTargetRect := ⟨⟨0, 0⟩, ⟨200, 100⟩⟩,
         mPixFormat := 0x1, mTransform := 0, mAttribute := 0 }],
    mTargetDimension := ⟨1920, 1080⟩, mTargetPixFormat := 0x1, mFrameRate := 60,
    mHasBackgroundLayer := false }

/-- Every row index `write` looks up is a row of its coefficient table: the
target index, unless it is the invalid sentinel, is a row of
`sRGB2YCbCrCoefficients`, and the index of every slot below `mMatrixCount` is a
row of `YCbCr2sRGBCoefficients`. -/
def CSCMatrixWriter.rowsInTable (w : CSCMatrixWriter) : Prop :=
  (w.mMatrixTargetIndex = CSC_MATRIX_INVALID_INDEX ∨
    w.mMatrixTargetIndex < sRGB2YCbCrCoefficients.length) ∧
  ∀ m, m < w.mMatrixCount → w.mMatrixIndex m < YCbCr2sRGBCoefficients.length

/-- The register array and the count that `write` produces when every row is a
row of its table, in closed form: the target matrix, when reserved, in entries
0..8, then the source matrices, 9 entries each. -/
def cscWritten (w : CSCMatrixWriter) (regs : Nat → g2d_reg) : (Nat → g2d_reg) × Nat :=
  if w.mMatrixTargetIndex ≠ CSC_MATRIX_INVALID_INDEX then
    (fun i =>
      if 9 ≤ i ∧ i < 9 + 9 * w.mMatrixCount then cscSourceEntry w 9 i
      else if i < 9 then
        ⟨CSC_MATRIX_DST_BASE + 4 * i, (sRGB2YCbCrCoefficients.getD w.mMatrixTargetIndex []).getD i 0⟩
      else regs i,
     9 + 9 * w.mMatrixCount)
  else
    (fun i => if i < 9 * w.mMatrixCount then cscSourceEntry w 0 i else regs i,
     9 * w.mMatrixCount)

/-- A writer with an RGB target on which `configure` has run once, for an NV12
layer with the dataspace BT470M (`8 << 16`). -/
def sampleUndefinedRowWriter (charIsSigned : Bool) : CSCMatrixWriter :=
  ((CSCMatrixWriter.new sampleHal sampleG2D charIsSigned (fun _ => 0) 0x03012 0 0).1.configure
    sampleHal sampleG2D charIsSigned 0x80000 0x80000 0).2.1

/-- The CSC configuration of the user layer number `k` fails in the source loop
of the `executeG2D` call whose first part ended in `s`: the loop reaches the
layer (the layers before it are encoded), `prepareSource` succeeds for it, and
`cscMatrixWriter.configure`, called on the writer the earlier layers left with
the colour mode and the YCbCr-mode register of the layer and with its
dataspace, returns `false` (the dataspace has no matrix, or the four slots
hold other matrices). -/
def executeG2D_cscFails (H : HalHeader) (G : G2DHeader) (T : G2DTaskHeader) (env : ExecEnv)
    (s : ExecSetup) (k : Nat) : Prop :=
  ∃ layer,
    (s.self.mLayers.take (s.layercount - (if s.hasBackground then 1 else 0)))[k]? = some layer ∧
    (executeG2D_sourceLoop H G env.charIsSigned s.self.halfmt_to_g2dfmt_tbl
      s.self.len_halfmt_to_g2dfmt_tbl s.self.mCanvas.getImageDimension
      (if s.hasBackground then 1 else 0) 0
      ((s.self.mLayers.take (s.layercount - (if s.hasBackground then 1 else 0))).take k)
      (executeG2D_loopStart
        (executeG2D_beforeLoop H G T env s.self s.hasBackground
          (executeG2D_target H G s.self).2).1
        (executeG2D_beforeLoop H G T env s.self s.hasBackground
          (executeG2D_target H G s.self).2).2)).1 = true ∧
    ∀ st, st = (executeG2D_sourceLoop H G env.charIsSigned s.self.halfmt_to_g2dfmt_tbl
      s.self.len_halfmt_to_g2dfmt_tbl s.self.mCanvas.getImageDimension
      (if s.hasBackground then 1 else 0) 0
      ((s.self.mLayers.take (s.layercount - (if s.hasBackground then 1 else 0))).take k)
      (executeG2D_loopStart
        (executeG2D_beforeLoop H G T env s.self s.hasBackground
          (executeG2D_target H G s.self).2).1
        (executeG2D_beforeLoop H G T env s.self s.hasBackground
          (executeG2D_target H G s.self).2).2)).2 →
      (prepareSource H G s.self.halfmt_to_g2dfmt_tbl s.self.len_halfmt_to_g2dfmt_tbl layer
        (st.source ((if s.hasBackground then 1 else 0) + k))
        (st.commands_source ((if s.hasBackground then 1 else 0) + k))
        s.self.mCanvas.getImageDimension (k : Int)).1 = true ∧
      (st.cscMatrixWriter.configure H G env.charIsSigned
        ((prepareSource H G s.self.halfmt_to_g2dfmt_tbl s.self.len_halfmt_to_g2dfmt_tbl layer
          (st.source ((if s.hasBackground then 1 else 0) + k))
          (st.commands_source ((if s.hasBackground then 1 else 0) + k))
          s.self.mCanvas.getImageDimension (k : Int)).2.2 G2DSFR_IMG_COLORMODE)
        layer.getDataspace
        ((prepareSource H G s.self.halfmt_to_g2dfmt_tbl s.self.len_halfmt_to_g2dfmt_tbl layer
          (st.source ((if s.hasBackground then 1 else 0) + k))
          (st.commands_source ((if s.hasBackground then 1 else 0) + k))
          s.self.mCanvas.getImageDimension (k : Int)).2.2 G2DSFR_SRC_YCBCRMODE)).1 = false

/-- A sample NV12 layer (two planes, two buffers) whose dataspace has the colour
standard 12, which lies beyond the table `csc_std_to_matrix_index`. -/
def sampleUnsupportedDataspaceLayer : AcrylicLayer :=
  { sampleBottom with getFormat := 0x105, getBufferCount := 2, getDataspace := 0xC0000 }

/-- The sample compositor with `sampleUnsupportedDataspaceLayer` as its only layer. -/
def sampleUnsupportedDataspaceCompositor : AcrylicCompositorG2D9810 :=
  { sampleCompositor with mLayers := [sampleUnsupportedDataspaceLayer] }

/-- The sample compositor with five NV12 layers whose dataspaces need five
different matrices: BT.709 limited, BT.601 full, BT.601 limited, BT.709 full and
BT.2020 limited. -/
def sampleFiveMatrixCompositor : AcrylicCompositorG2D9810 :=
  { sampleCompositor with
    maxLayerCount := 8,
    mLayers :=
      [{ sampleBottom with getFormat := 0x105, getBufferCount := 2, getDataspace := 0x10000 },
       { sampleBottom with getFormat := 0x105, getBufferCount := 2, getDataspace := 0x8020000 },
       { sampleBottom with getFormat := 0x105, getBufferCount := 2, getDataspace := 0x20000 },
       { sampleBottom with getFormat := 0x105, getBufferCount := 2, getDataspace := 0x8010000 },
       { sampleBottom with getFormat := 0x105, getBufferCount := 2, getDataspace := 0x60000 }] }

/-! ## Theorems -/

theorem take_len_halfmt_to_g2dfmt_tbl (H : HalHeader) (G : G2DHeader) (newcolormode : Bool) :
    (halfmt_to_g2dfmt_tbl H G newcolormode).take (len_halfmt_to_g2dfmt_tbl H G newcolormode)
      = halfmt_to_g2dfmt_tbl H G newcolormode := by
  cases newcolormode <;> simp [halfmt_to_g2dfmt_tbl, len_halfmt_to_g2dfmt_tbl]

theorem num_bufs_halfmt_to_g2dfmt_tbl (H : HalHeader) (G : G2DHeader) (newcolormode : Bool) :
    ∀ e ∈ halfmt_to_g2dfmt_tbl H G newcolormode, 1 ≤ e.num_bufs ∧ e.num_bufs ≤ 3 := by
  cases newcolormode <;>
    simp [halfmt_to_g2dfmt_tbl, __halfmt_to_g2dfmt_9810, __halfmt_to_g2dfmt_9820]

/-- C1: for both catalog variants (selected by `newcolormode`) and every generic
pixel format `f`, `halfmt_to_g2dfmt` returns the entry `e` exactly when `e` is
the first row of the table whose generic format is `f`; it returns NULL exactly
when no row has generic format `f`; every entry it returns has a plane count
between 1 and 3; and the result is determined by the table and `f`. -/
theorem halfmt_to_g2dfmt_first_match (H : HalHeader) (G : G2DHeader) (newcolormode : Bool)
    (f : Nat) :
    (∀ e, halfmt_to_g2dfmt (halfmt_to_g2dfmt_tbl H G newcolormode)
            (len_halfmt_to_g2dfmt_tbl H G newcolormode) f = some e ↔
          ∃ pre post, halfmt_to_g2dfmt_tbl H G newcolormode = pre ++ e :: post ∧
            e.halfmt = f ∧ ∀ x ∈ pre, x.halfmt ≠ f) ∧
    (halfmt_to_g2dfmt (halfmt_to_g2dfmt_tbl H G newcolormode)
            (len_halfmt_to_g2dfmt_tbl H G newcolormode) f = none ↔
          ∀ e ∈ halfmt_to_g2dfmt_tbl H G newcolormode, e.halfmt ≠ f) ∧
    (∀ e, halfmt_to_g2dfmt (halfmt_to_g2dfmt_tbl H G newcolormode)
            (len_halfmt_to_g2dfmt_tbl H G newcolormode) f = some e →
          1 ≤ e.num_bufs ∧ e.num_bufs ≤ 3) ∧
    (∀ f2, f2 = f →
          halfmt_to_g2dfmt (halfmt_to_g2dfmt_tbl H G newcolormode)
            (len_halfmt_to_g2dfmt_tbl H G newcolormode) f2 =
          halfmt_to_g2dfmt (halfmt_to_g2dfmt_tbl H G newcolormode)
            (len_halfmt_to_g2dfmt_tbl H G newcolormode) f) := by
  unfold halfmt_to_g2dfmt
  rw [take_len_halfmt_to_g2dfmt_tbl]
  refine ⟨?_, ?_, ?_, ?_⟩
  · intro e
    rw [List.find?_eq_some]
    constructor
    · rintro ⟨hp, pre, post, htbl, hpre⟩
      refine ⟨pre, post, htbl, by simpa using hp, ?_⟩
      intro x hx
      simpa using hpre x hx
    · rintro ⟨pre, post, htbl, hp, hpre⟩
      refine ⟨by simpa using hp, pre, post, htbl, ?_⟩
      intro x hx
      simpa using hpre x hx
  · simp
  · intro e he
    exact num_bufs_halfmt_to_g2dfmt_tbl H G newcolormode e (List.mem_of_find?_eq_some he)
  · intro f2 h
    rw [h]

/-! ### CSC matrix cache -/

theorem find?_range'_eq (f : Nat → Nat) (x : Nat) : ∀ (n s : Nat),
    (List.range' s n).find? (fun i => f i == x) =
      if x ∈ (List.range' s n).map f then some (s + ((List.range' s n).map f).indexOf x)
      else none
  | 0, s => by simp
  | n + 1, s => by
    have ih := find?_range'_eq f x n (s + 1)
    rw [List.range'_succ, List.find?_cons, List.map_cons]
    by_cases h : f s = x
    · simp [h]
    · have h2 : x ≠ f s := fun e => h e.symm
      have hb : (f s == x) = false := by simpa using h
      rw [ih, List.indexOf_cons_ne _ h, hb]
      simp only [List.mem_cons, h2, false_or, Nat.succ_eq_add_one]
      by_cases hm : x ∈ List.map f (List.range' (s + 1) n)
      · rw [if_pos hm, if_pos hm]; congr 1; omega
      · rw [if_neg hm, if_neg hm]

theorem CSCMatrixWriter.findSlot_eq (w : CSCMatrixWriter) (x : Nat) :
    w.findSlot x = if x ∈ w.cached then some (w.cached.indexOf x) else none := by
  unfold CSCMatrixWriter.findSlot CSCMatrixWriter.cached
  rw [List.range_eq_range', find?_range'_eq]
  simp

theorem CSCMatrixWriter.cached_length (w : CSCMatrixWriter) :
    w.cached.length = w.mMatrixCount := by
  simp [CSCMatrixWriter.cached]

theorem CSCMatrixWriter.cached_push (w : CSCMatrixWriter) (x : Nat) :
    CSCMatrixWriter.cached
      { mMatrixIndex := Function.update w.mMatrixIndex w.mMatrixCount x,
        mMatrixCount := w.mMatrixCount + 1,
        mMatrixTargetIndex := w.mMatrixTargetIndex } = w.cached ++ [x] := by
  unfold CSCMatrixWriter.cached
  simp only [List.range_succ, List.map_append, List.map_cons, List.map_nil,
    Function.update_same]
  congr 1
  apply List.map_congr_left
  intro i hi
  have : i ≠ w.mMatrixCount := by
    have := List.mem_range.mp hi
    omega
  simp [Function.update_noteq this]

theorem firstSeenFrom_extends : ∀ (xs acc : List Nat), ∃ t, firstSeenFrom acc xs = acc ++ t
  | [], acc => ⟨[], by simp [firstSeenFrom]⟩
  | x :: xs, acc => by
    obtain ⟨t, ht⟩ := firstSeenFrom_extends xs (if x ∈ acc then acc else acc ++ [x])
    rw [firstSeenFrom, ht]
    by_cases h : x ∈ acc
    · exact ⟨t, by rw [if_pos h]⟩
    · exact ⟨x :: t, by rw [if_neg h]; simp⟩

theorem mem_firstSeenFrom : ∀ (xs acc : List Nat) (y : Nat),
    y ∈ firstSeenFrom acc xs ↔ y ∈ acc ∨ y ∈ xs
  | [], acc, y => by simp [firstSeenFrom]
  | x :: xs, acc, y => by
    rw [firstSeenFrom, mem_firstSeenFrom xs]
    by_cases h : x ∈ acc
    · rw [if_pos h]
      constructor
      · rintro (h1 | h1)
        · exact Or.inl h1
        · exact Or.inr (List.mem_cons_of_mem _ h1)
      · rintro (h1 | h1)
        · exact Or.inl h1
        · rcases List.mem_cons.mp h1 with h2 | h2
          · exact Or.inl (h2 ▸ h)
          · exact Or.inr h2
    · rw [if_neg h]
      simp only [List.mem_append, List.mem_singleton, List.mem_cons]
      tauto

theorem CSCMatrixWriter.configure_hit (H : HalHeader) (G : G2DHeader) (charIsSigned : Bool)
    (w : CSCMatrixWriter) (c : Nat × Nat × Nat)
    (hy : g2dfmt_is_ycbcr G c.1 = true)
    (hv : rowOf H charIsSigned c ≠ CSC_MATRIX_INVALID_INDEX)
    (hm : rowOf H charIsSigned c ∈ w.cached) :
    w.configure H G charIsSigned c.1 c.2.1 c.2.2 =
      (true, w, slotRegister H G c (w.cached.indexOf (rowOf H charIsSigned c)) false) := by
  unfold rowOf at hv hm
  unfold CSCMatrixWriter.configure
  simp only [hy, Bool.not_true, Bool.false_eq_true, if_false, hv,
    CSCMatrixWriter.findSlot_eq, if_pos hm]
  simp [slotRegister, rangeCommand, rowOf]

theorem CSCMatrixWriter.configure_miss (H : HalHeader) (G : G2DHeader) (charIsSigned : Bool)
    (w : CSCMatrixWriter) (c : Nat × Nat × Nat)
    (hy : g2dfmt_is_ycbcr G c.1 = true)
    (hv : rowOf H charIsSigned c ≠ CSC_MATRIX_INVALID_INDEX)
    (hm : rowOf H charIsSigned c ∉ w.cached) (hlt : w.mMatrixCount < CSC_MATRIX_MAX_COUNT) :
    w.configure H G charIsSigned c.1 c.2.1 c.2.2 =
      (true,
        { mMatrixIndex := Function.update w.mMatrixIndex w.mMatrixCount (rowOf H charIsSigned c),
          mMatrixCount := w.mMatrixCount + 1,
          mMatrixTargetIndex := w.mMatrixTargetIndex },
        slotRegister H G c w.mMatrixCount true) := by
  unfold rowOf at hv hm
  have hne : w.mMatrixCount ≠ CSC_MATRIX_MAX_COUNT := Nat.ne_of_lt hlt
  unfold CSCMatrixWriter.configure
  simp only [hy, Bool.not_true, Bool.false_eq_true, if_false, hv,
    CSCMatrixWriter.findSlot_eq, if_neg hm, hne]
  by_cases hd : c.1 &&& G.G2D_DATAFMT_YUV420SP82_9810 ≠ 0
  · simp [slotRegister, rangeCommand, rowOf, hd]
  · simp [slotRegister, rangeCommand, rowOf, hd]

theorem CSCMatrixWriter.configure_full (H : HalHeader) (G : G2DHeader) (charIsSigned : Bool)
    (w : CSCMatrixWriter) (c : Nat × Nat × Nat)
    (hy : g2dfmt_is_ycbcr G c.1 = true)
    (hv : rowOf H charIsSigned c ≠ CSC_MATRIX_INVALID_INDEX)
    (hm : rowOf H charIsSigned c ∉ w.cached) (h4 : w.mMatrixCount = CSC_MATRIX_MAX_COUNT) :
    w.configure H G charIsSigned c.1 c.2.1 c.2.2 = (false, w, rangeCommand H G c) := by
  unfold rowOf at hv hm
  unfold CSCMatrixWriter.configure
  simp only [hy, Bool.not_true, Bool.false_eq_true, if_false, hv,
    CSCMatrixWriter.findSlot_eq, if_neg hm, h4, if_true]
  simp [rangeCommand]

theorem configureAll_spec (H : HalHeader) (G : G2DHeader) (charIsSigned : Bool) :
    ∀ (calls : List (Nat × Nat × Nat)) (w : CSCMatrixWriter),
    (∀ c ∈ calls, g2dfmt_is_ycbcr G c.1 = true) →
    (∀ c ∈ calls, rowOf H charIsSigned c ≠ CSC_MATRIX_INVALID_INDEX) →
    (firstSeenFrom w.cached (calls.map (rowOf H charIsSigned))).length ≤ CSC_MATRIX_MAX_COUNT →
    (configureAll H G charIsSigned w calls).2.cached
        = firstSeenFrom w.cached (calls.map (rowOf H charIsSigned)) ∧
    (∀ s, s < w.mMatrixCount →
        (configureAll H G charIsSigned w calls).2.mMatrixIndex s = w.mMatrixIndex s) ∧
    (configureAll H G charIsSigned w calls).2.mMatrixTargetIndex = w.mMatrixTargetIndex ∧
    ∀ k c, calls[k]? = some c →
      (configureAll H G charIsSigned w calls).1[k]? =
        some (true, slotRegister H G c
          ((firstSeenFrom w.cached (calls.map (rowOf H charIsSigned))).indexOf
            (rowOf H charIsSigned c))
          (decide (rowOf H charIsSigned c ∉ w.cached ∧
            rowOf H charIsSigned c ∉ (calls.map (rowOf H charIsSigned)).take k)))
  | [], w, _, _, _ => by simp [configureAll, firstSeenFrom]
  | c0 :: rest, w, hy, hv, h4 => by
    have hy0 := hy c0 (List.mem_cons_self _ _)
    have hv0 := hv c0 (List.mem_cons_self _ _)
    have hyr : ∀ c ∈ rest, g2dfmt_is_ycbcr G c.1 = true :=
      fun c hc => hy c (List.mem_cons_of_mem _ hc)
    have hvr : ∀ c ∈ rest, rowOf H charIsSigned c ≠ CSC_MATRIX_INVALID_INDEX :=
      fun c hc => hv c (List.mem_cons_of_mem _ hc)
    rw [List.map_cons, firstSeenFrom] at h4
    rw [List.map_cons, firstSeenFrom]
    by_cases hm : rowOf H charIsSigned c0 ∈ w.cached
    · rw [if_pos hm] at h4 ⊢
      obtain ⟨ih1, ih2, ih3, ih4⟩ := configureAll_spec H G charIsSigned rest w hyr hvr h4
      have hstep := CSCMatrixWriter.configure_hit H G charIsSigned w c0 hy0 hv0 hm
      simp only [configureAll, hstep]
      refine ⟨ih1, ih2, ih3, ?_⟩
      intro k c hk
      cases k with
      | zero =>
        simp only [List.getElem?_cons_zero, Option.some.injEq] at hk ⊢
        subst hk
        obtain ⟨t, ht⟩ := firstSeenFrom_extends (rest.map (rowOf H charIsSigned)) w.cached
        rw [ht, List.indexOf_append_of_mem hm]
        simp [hm]
      | succ k =>
        simp only [List.getElem?_cons_succ] at hk ⊢
        rw [ih4 k c hk]
        have : (rowOf H charIsSigned c ∉ w.cached ∧
            rowOf H charIsSigned c ∉ (rest.map (rowOf H charIsSigned)).take k) ↔
            (rowOf H charIsSigned c ∉ w.cached ∧
            rowOf H charIsSigned c ∉
              (rowOf H charIsSigned c0 :: rest.map (rowOf H charIsSigned)).take (k + 1)) := by
          simp only [List.take_succ_cons, List.mem_cons, not_or]
          constructor
          · rintro ⟨a, b⟩
            exact ⟨a, fun e => a (e ▸ hm), b⟩
          · rintro ⟨a, _, b⟩
            exact ⟨a, b⟩
        simp only [this]
    · rw [if_neg hm] at h4 ⊢
      have hlt : w.mMatrixCount < CSC_MATRIX_MAX_COUNT := by
        obtain ⟨t, ht⟩ := firstSeenFrom_extends (rest.map (rowOf H charIsSigned))
          (w.cached ++ [rowOf H charIsSigned c0])
        rw [ht] at h4
        simp only [List.length_append, List.length_singleton, w.cached_length] at h4
        omega
      have hstep := CSCMatrixWriter.configure_miss H G charIsSigned w c0 hy0 hv0 hm hlt
      have hpush := w.cached_push (rowOf H charIsSigned c0)
      rw [← hpush] at h4
      obtain ⟨ih1, ih2, ih3, ih4⟩ := configureAll_spec H G charIsSigned rest _ hyr hvr h4
      simp only [configureAll, hstep]
      rw [hpush] at ih1 ih4
      refine ⟨ih1, ?_, ih3, ?_⟩
      · intro s hs
        rw [ih2 s (by simp only; omega)]
        simp only
        exact Function.update_noteq (by omega) _ _
      · intro k c hk
        cases k with
        | zero =>
          simp only [List.getElem?_cons_zero, Option.some.injEq] at hk ⊢
          subst hk
          obtain ⟨t, ht⟩ := firstSeenFrom_extends (rest.map (rowOf H charIsSigned))
            (w.cached ++ [rowOf H charIsSigned c0])
          rw [ht, List.indexOf_append_of_mem (by simp),
            List.indexOf_append_of_not_mem hm]
          simp [hm, w.cached_length]
        | succ k =>
          simp only [List.getElem?_cons_succ] at hk ⊢
          rw [ih4 k c hk]
          have : (rowOf H charIsSigned c ∉ w.cached ++ [rowOf H charIsSigned c0] ∧
              rowOf H charIsSigned c ∉ (rest.map (rowOf H charIsSigned)).take k) ↔
              (rowOf H charIsSigned c ∉ w.cached ∧
              rowOf H charIsSigned c ∉
                (rowOf H charIsSigned c0 :: rest.map (rowOf H charIsSigned)).take (k + 1)) := by
            simp only [List.take_succ_cons, List.mem_cons, List.mem_append, List.mem_singleton,
              not_or]
            tauto
          simp only [this]

theorem configureAll_append (H : HalHeader) (G : G2DHeader) (charIsSigned : Bool) :
    ∀ (p q : List (Nat × Nat × Nat)) (w : CSCMatrixWriter),
    configureAll H G charIsSigned w (p ++ q) =
      ((configureAll H G charIsSigned w p).1 ++
          (configureAll H G charIsSigned (configureAll H G charIsSigned w p).2 q).1,
        (configureAll H G charIsSigned (configureAll H G charIsSigned w p).2 q).2)
  | [], q, w => by simp [configureAll]
  | c :: p, q, w => by
    have ih := configureAll_append H G charIsSigned p q
      (CSCMatrixWriter.configure H G charIsSigned w c.1 c.2.1 c.2.2).2.1
    rw [List.cons_append]
    simp only [configureAll]
    rw [ih]
    simp

theorem firstSeenFrom_append : ∀ (xs ys acc : List Nat),
    firstSeenFrom acc (xs ++ ys) = firstSeenFrom (firstSeenFrom acc xs) ys
  | [], _, _ => rfl
  | x :: xs, ys, acc => by
    rw [List.cons_append, firstSeenFrom, firstSeenFrom, firstSeenFrom_append xs]

theorem or_mod_two_pow (a b n : Nat) : (a ||| b) % 2 ^ n = a % 2 ^ n ||| b % 2 ^ n := by
  apply Nat.eq_of_testBit_eq
  intro i
  simp only [Nat.testBit_mod_two_pow, Nat.testBit_or]
  cases decide (i < n) <;> simp

theorem slotRegister_low_bits (H : HalHeader) (G : G2DHeader) (c : Nat × Nat × Nat)
    (slot : Nat) (fresh : Bool)
    (hw : G.G2D_LAYER_YCBCRMODE_WIDE % 4 = 0) (hd : G.G2D_YCBCRMODE_DITHER % 4 = 0)
    (hc : c.2.2 % 4 = 0) (hs : slot < 4) :
    slotRegister H G c slot fresh % 4 = slot := by
  have h4 : (4 : Nat) = 2 ^ 2 := by norm_num
  have hr : rangeCommand H G c % 4 = 0 := by
    unfold rangeCommand
    split <;> assumption
  unfold slotRegister
  split
  · rw [h4, or_mod_two_pow, or_mod_two_pow, ← h4, hr, hd, Nat.mod_eq_of_lt hs]
    simp
  · rw [h4, or_mod_two_pow, ← h4, hr, Nat.mod_eq_of_lt hs]
    simp

/-- C2: starting from a freshly constructed `CSCMatrixWriter`, for a sequence of
`configure` calls on YCbCr formats whose dataspaces map to valid row indices
with at most 4 distinct values: (1) every call returns true and the value left
in the YCbCr-mode register is the range part OR the slot number, where the slot
number is the position of the call's row index in first-seen order (the dither
flag is added when the call caches a new matrix of a dithered format);
(2) the slot number is below the number of cached matrices, and it is the low
two bits of the register whenever the flags and the incoming register value
have their low two bits clear; (3) two calls get the same slot if and only if
their row indices are equal; (4) after any prefix of the calls the cache holds
the first-seen order of the prefix, that order is a prefix of the final order,
the cells assigned so far are never changed by the later calls, and every call
of the prefix keeps its slot number. -/
theorem configure_slots_first_seen (H : HalHeader) (G : G2DHeader) (charIsSigned : Bool)
    (uninit : Nat → Nat) (g2dfmt dataspace command : Nat) (calls : List (Nat × Nat × Nat))
    (hy : ∀ c ∈ calls, g2dfmt_is_ycbcr G c.1 = true)
    (hv : ∀ c ∈ calls, rowOf H charIsSigned c ≠ CSC_MATRIX_INVALID_INDEX)
    (h4 : (firstSeen (calls.map (rowOf H charIsSigned))).length ≤ 4) :
    (∀ k c, calls[k]? = some c →
      (configureAll H G charIsSigned
          (CSCMatrixWriter.new H G charIsSigned uninit g2dfmt dataspace command).1 calls).1[k]? =
        some (true, slotRegister H G c
          ((firstSeen (calls.map (rowOf H charIsSigned))).indexOf (rowOf H charIsSigned c))
          (decide (rowOf H charIsSigned c ∉ (calls.map (rowOf H charIsSigned)).take k)))) ∧
    (∀ c ∈ calls,
      (firstSeen (calls.map (rowOf H charIsSigned))).indexOf (rowOf H charIsSigned c) <
          (firstSeen (calls.map (rowOf H charIsSigned))).length ∧
      (G.G2D_LAYER_YCBCRMODE_WIDE % 4 = 0 → G.G2D_YCBCRMODE_DITHER % 4 = 0 → c.2.2 % 4 = 0 →
        ∀ fresh, slotRegister H G c
          ((firstSeen (calls.map (rowOf H charIsSigned))).indexOf (rowOf H charIsSigned c))
          fresh % 4 =
        (firstSeen (calls.map (rowOf H charIsSigned))).indexOf (rowOf H charIsSigned c))) ∧
    (∀ c1 ∈ calls, ∀ c2 ∈ calls,
      ((firstSeen (calls.map (rowOf H charIsSigned))).indexOf (rowOf H charIsSigned c1) =
        (firstSeen (calls.map (rowOf H charIsSigned))).indexOf (rowOf H charIsSigned c2) ↔
        rowOf H charIsSigned c1 = rowOf H charIsSigned c2)) ∧
    (∀ p q, calls = p ++ q →
      (configureAll H G charIsSigned
          (CSCMatrixWriter.new H G charIsSigned uninit g2dfmt dataspace command).1 p).2.cached =
        firstSeen (p.map (rowOf H charIsSigned)) ∧
      (∃ t, firstSeen (calls.map (rowOf H charIsSigned)) =
        firstSeen (p.map (rowOf H charIsSigned)) ++ t) ∧
      (∀ s, s < (configureAll H G charIsSigned
            (CSCMatrixWriter.new H G charIsSigned uninit g2dfmt dataspace command).1 p).2.mMatrixCount →
        (configureAll H G charIsSigned
            (CSCMatrixWriter.new H G charIsSigned uninit g2dfmt dataspace command).1
            calls).2.mMatrixIndex s =
        (configureAll H G charIsSigned
            (CSCMatrixWriter.new H G charIsSigned uninit g2dfmt dataspace command).1
            p).2.mMatrixIndex s) ∧
      (∀ c ∈ p,
        (firstSeen (p.map (rowOf H charIsSigned))).indexOf (rowOf H charIsSigned c) =
        (firstSeen (calls.map (rowOf H charIsSigned))).indexOf (rowOf H charIsSigned c))) := by
  have hnew : (CSCMatrixWriter.new H G charIsSigned uninit g2dfmt dataspace command).1.cached
      = [] := by
    unfold CSCMatrixWriter.new CSCMatrixWriter.cached
    split <;> simp
  have hmem : ∀ c ∈ calls, rowOf H charIsSigned c ∈
      firstSeen (calls.map (rowOf H charIsSigned)) := by
    intro c hc
    exact (mem_firstSeenFrom _ _ _).mpr (Or.inr (List.mem_map_of_mem _ hc))
  have hsplit : ∀ p q, calls = p ++ q → ∃ t, firstSeen (calls.map (rowOf H charIsSigned)) =
      firstSeen (p.map (rowOf H charIsSigned)) ++ t := by
    intro p q hpq
    subst hpq
    rw [List.map_append]
    unfold firstSeen
    rw [firstSeenFrom_append]
    exact firstSeenFrom_extends _ _
  refine ⟨?_, ?_, ?_, ?_⟩
  · intro k c hk
    have h := (configureAll_spec H G charIsSigned calls _ hy hv (by rw [hnew]; exact h4)).2.2.2 k c hk
    rw [hnew] at h
    simpa [firstSeen] using h
  · intro c hc
    have hlt := List.indexOf_lt_length.mpr (hmem c hc)
    refine ⟨hlt, ?_⟩
    intro hw hd hcz fresh
    exact slotRegister_low_bits H G c _ fresh hw hd hcz (by omega)
  · intro c1 h1 c2 h2
    exact List.indexOf_inj (hmem c1 h1) (hmem c2 h2)
  · intro p q hpq
    have hyp : ∀ c ∈ p, g2dfmt_is_ycbcr G c.1 = true :=
      fun c hc => hy c (by rw [hpq]; exact List.mem_append_left _ hc)
    have hvp : ∀ c ∈ p, rowOf H charIsSigned c ≠ CSC_MATRIX_INVALID_INDEX :=
      fun c hc => hv c (by rw [hpq]; exact List.mem_append_left _ hc)
    have hyq : ∀ c ∈ q, g2dfmt_is_ycbcr G c.1 = true :=
      fun c hc => hy c (by rw [hpq]; exact List.mem_append_right _ hc)
    have hvq : ∀ c ∈ q, rowOf H charIsSigned c ≠ CSC_MATRIX_INVALID_INDEX :=
      fun c hc => hv c (by rw [hpq]; exact List.mem_append_right _ hc)
    obtain ⟨t, ht⟩ := hsplit p q hpq
    have h4p : (firstSeenFrom
        (CSCMatrixWriter.new H G charIsSigned uninit g2dfmt dataspace command).1.cached
        (p.map (rowOf H charIsSigned))).length ≤ CSC_MATRIX_MAX_COUNT := by
      rw [hnew]
      have : (firstSeen (p.map (rowOf H charIsSigned))).length ≤
          (firstSeen (calls.map (rowOf H charIsSigned))).length := by
        rw [ht]; simp
      exact le_trans this h4
    have hp := configureAll_spec H G charIsSigned p _ hyp hvp h4p
    rw [hnew] at hp
    have hcp : (configureAll H G charIsSigned
        (CSCMatrixWriter.new H G charIsSigned uninit g2dfmt dataspace command).1 p).2.cached =
        firstSeen (p.map (rowOf H charIsSigned)) := hp.1
    refine ⟨hcp, ⟨t, ht⟩, ?_, ?_⟩
    · intro s hs
      have h4q : (firstSeenFrom (configureAll H G charIsSigned
          (CSCMatrixWriter.new H G charIsSigned uninit g2dfmt dataspace command).1 p).2.cached
          (q.map (rowOf H charIsSigned))).length ≤ CSC_MATRIX_MAX_COUNT := by
        rw [hcp]
        unfold firstSeen
        rw [← firstSeenFrom_append, ← List.map_append, ← hpq]
        exact h4
      have hq := configureAll_spec H G charIsSigned q _ hyq hvq h4q
      have := hq.2.1 s hs
      rw [hpq, configureAll_append]
      exact this
    · intro c hc
      have hcm : rowOf H charIsSigned c ∈ firstSeen (p.map (rowOf H charIsSigned)) :=
        (mem_firstSeenFrom _ _ _).mpr (Or.inr (List.mem_map_of_mem _ hc))
      rw [ht, List.indexOf_append_of_mem hcm]

/-- Witness of C2 on `sampleCalls`: the hypotheses hold and the third call, which
repeats the row of the first one, is given slot 0 again. -/
theorem configure_slots_first_seen_witness :
    (∀ c ∈ sampleCalls, g2dfmt_is_ycbcr sampleG2D c.1 = true) ∧
    (∀ c ∈ sampleCalls, rowOf sampleHal true c ≠ CSC_MATRIX_INVALID_INDEX) ∧
    (firstSeen (sampleCalls.map (rowOf sampleHal true))).length ≤ 4 ∧
    (configureAll sampleHal sampleG2D true
        (CSCMatrixWriter.new sampleHal sampleG2D true (fun _ => 0) 0x03012 0 0).1
        sampleCalls).1[2]? =
      some (true, slotRegister sampleHal sampleG2D (0x80000, 0x10000, 0)
        ((firstSeen (sampleCalls.map (rowOf sampleHal true))).indexOf
          (rowOf sampleHal true (0x80000, 0x10000, 0)))
        (decide (rowOf sampleHal true (0x80000, 0x10000, 0) ∉
          (sampleCalls.map (rowOf sampleHal true)).take 2))) :=
  ⟨by decide, by decide, by decide,
    (configure_slots_first_seen sampleHal sampleG2D true (fun _ => 0) 0x03012 0 0 sampleCalls
      (by decide) (by decide) (by decide)).1 2 (0x80000, 0x10000, 0) rfl⟩

/-- C3: when 4 row indices are cached, `configure` on a YCbCr format whose
dataspace maps to a valid row index that is not cached returns false and leaves
the writer (cells, count and target index) unchanged; a following `configure`
for a cached row index returns true, leaves the writer unchanged and writes the
slot that holds the row index. -/
theorem configure_fifth_matrix_fails (H : HalHeader) (G : G2DHeader) (charIsSigned : Bool)
    (w : CSCMatrixWriter) (c : Nat × Nat × Nat)
    (hcount : w.mMatrixCount = 4)
    (hy : g2dfmt_is_ycbcr G c.1 = true)
    (hv : rowOf H charIsSigned c ≠ CSC_MATRIX_INVALID_INDEX)
    (hm : rowOf H charIsSigned c ∉ w.cached) :
    (w.configure H G charIsSigned c.1 c.2.1 c.2.2).1 = false ∧
    (w.configure H G charIsSigned c.1 c.2.1 c.2.2).2.1 = w ∧
    (w.configure H G charIsSigned c.1 c.2.1 c.2.2).2.1.cached = w.cached ∧
    (w.configure H G charIsSigned c.1 c.2.1 c.2.2).2.1.mMatrixCount = 4 ∧
    ∀ c2 : Nat × Nat × Nat, g2dfmt_is_ycbcr G c2.1 = true →
      rowOf H charIsSigned c2 ≠ CSC_MATRIX_INVALID_INDEX →
      rowOf H charIsSigned c2 ∈ w.cached →
      (w.configure H G charIsSigned c.1 c.2.1 c.2.2).2.1.configure H G charIsSigned
          c2.1 c2.2.1 c2.2.2 =
        (true, w, slotRegister H G c2 (w.cached.indexOf (rowOf H charIsSigned c2)) false) ∧
      w.cached.indexOf (rowOf H charIsSigned c2) < 4 ∧
      w.mMatrixIndex (w.cached.indexOf (rowOf H charIsSigned c2)) = rowOf H charIsSigned c2 := by
  have hfull := CSCMatrixWriter.configure_full H G charIsSigned w c hy hv hm hcount
  rw [hfull]
  refine ⟨rfl, rfl, rfl, hcount, ?_⟩
  intro c2 hy2 hv2 hm2
  refine ⟨CSCMatrixWriter.configure_hit H G charIsSigned w c2 hy2 hv2 hm2, ?_, ?_⟩
  · have := List.indexOf_lt_length.mpr hm2
    rw [w.cached_length, hcount] at this
    exact this
  · have hlt := List.indexOf_lt_length.mpr hm2
    have hget := List.getElem_indexOf hlt
    unfold CSCMatrixWriter.cached at hget
    rw [List.getElem_map, List.getElem_range] at hget
    exact hget

/-- Witness of C3 on `sampleFullWriter`: a BT.2020 limited layer (row 4) is
refused, the writer is unchanged. -/
theorem configure_fifth_matrix_fails_witness :
    sampleFullWriter.mMatrixCount = 4 ∧
    g2dfmt_is_ycbcr sampleG2D 0x80000 = true ∧
    rowOf sampleHal true (0x80000, 0x60000, 0) ≠ CSC_MATRIX_INVALID_INDEX ∧
    rowOf sampleHal true (0x80000, 0x60000, 0) ∉ sampleFullWriter.cached ∧
    (sampleFullWriter.configure sampleHal sampleG2D true 0x80000 0x60000 0).1 = false ∧
    (sampleFullWriter.configure sampleHal sampleG2D true 0x80000 0x60000 0).2.1
      = sampleFullWriter :=
  ⟨rfl, by decide, by decide, by decide,
    (configure_fifth_matrix_fails sampleHal sampleG2D true sampleFullWriter (0x80000, 0x60000, 0)
      rfl (by decide) (by decide) (by decide)).1,
    (configure_fifth_matrix_fails sampleHal sampleG2D true sampleFullWriter (0x80000, 0x60000, 0)
      rfl (by decide) (by decide) (by decide)).2.1⟩

/-- The part of C4 that the code implements: a colour standard beyond the
12-entry table makes `findMatrixIndex` return the sentinel, so `configure` on a
YCbCr format returns false and leaves the writer and the register unchanged. -/
theorem CSCMatrixWriter.configure_standard_out_of_table (H : HalHeader) (G : G2DHeader)
    (charIsSigned : Bool) (w : CSCMatrixWriter) (g2dfmt dataspace command : Nat)
    (hy : g2dfmt_is_ycbcr G g2dfmt = true)
    (hs : 12 ≤ (dataspace &&& H.HAL_DATASPACE_STANDARD_MASK) >>> H.HAL_DATASPACE_STANDARD_SHIFT) :
    w.configure H G charIsSigned g2dfmt dataspace command = (false, w, command) := by
  have hf : CSCMatrixWriter.findMatrixIndex H charIsSigned dataspace
      = CSC_MATRIX_INVALID_INDEX := by
    unfold CSCMatrixWriter.findMatrixIndex
    have hl : (csc_std_to_matrix_index charIsSigned).length = 12 := by
      simp [csc_std_to_matrix_index]
    simp only [hl, ge_iff_le, hs, if_true]
  unfold CSCMatrixWriter.configure
  simp [hy, hf]

/-- C4 (code defect): on the sample constants, for both signednesses of plain
`char`, a freshly constructed writer accepts a YCbCr (NV12) layer whose
dataspace has the colour standard BT470M (`8 << 16`), which
`csc_std_to_matrix_index` marks `G2D_CSC_STD_UNDEFINED`: `configure` returns
true, the slot count becomes 1 and the cached row index is `(char)(-1) * 2`
converted to `unsigned int`, which is no row of the 8-row coefficient tables. -/
theorem configure_undefined_standard_accepted :
    ∀ charIsSigned : Bool,
      ((CSCMatrixWriter.new sampleHal sampleG2D charIsSigned (fun _ => 0) 0x03012 0 0).1.configure
          sampleHal sampleG2D charIsSigned 0x80000 0x80000 0).1 = true ∧
      ((CSCMatrixWriter.new sampleHal sampleG2D charIsSigned (fun _ => 0) 0x03012 0 0).1.configure
          sampleHal sampleG2D charIsSigned 0x80000 0x80000 0).2.1.mMatrixCount = 1 ∧
      ((CSCMatrixWriter.new sampleHal sampleG2D charIsSigned (fun _ => 0) 0x03012 0 0).1.configure
          sampleHal sampleG2D charIsSigned 0x80000 0x80000 0).2.1.mMatrixIndex 0 =
        (if charIsSigned then 4294967294 else 510) ∧
      YCbCr2sRGBCoefficients.length = 8 := by
  intro charIsSigned
  cases charIsSigned <;> decide

/-! ### HDR coefficient packer -/

theorem write_count (regs : Nat → g2d_reg) (start : Nat) (d : Nat → Nat) (offset : Nat)
    (info : hdr_reg_info) : (write regs start (some d) offset info).2 = info.count := rfl

theorem setHdrLibCommand_slot_count (i : Nat) (c : hdrCoef) (st : (Nat → g2d_reg) × Nat)
    (hp : c.arraysPresent) :
    (setHdrLibCommand_slot i c st).2 = st.2 + slotRegisterCount c := by
  obtain ⟨h1, h2, h3, h4, h5, h6, h7⟩ := hp
  obtain ⟨ox, hox⟩ := Option.isSome_iff_exists.mp h1
  obtain ⟨oy, hoy⟩ := Option.isSome_iff_exists.mp h2
  obtain ⟨ex, hex⟩ := Option.isSome_iff_exists.mp h3
  obtain ⟨ey, hey⟩ := Option.isSome_iff_exists.mp h4
  obtain ⟨gc, hgc⟩ := Option.isSome_iff_exists.mp h5
  obtain ⟨tx, htx⟩ := Option.isSome_iff_exists.mp h6
  obtain ⟨ty, hty⟩ := Option.isSome_iff_exists.mp h7
  have hr : List.range NUM_HDR_PROC = [0, 1, 2, 3] := by decide
  unfold setHdrLibCommand_slot slotRegisterCount
  simp only [hox, hoy, hex, hey, hgc, htx, hty, hr, List.foldl_cons, List.foldl_nil]
  by_cases ho : c.oetf_en = 0 <;> by_cases he : c.eotf_en = 0 <;>
    by_cases hg : c.gm_en = 0 <;> by_cases ht : c.tm_en = 0 <;>
    simp +decide [ho, he, hg, ht, notNot, write, hdr_proc_info, HDR_PROC_OETF, HDR_PROC_EOTF,
      HDR_PROC_GM, HDR_PROC_TM, OETF_COEF_X_COUNT, OETF_COEF_Y_COUNT, EOTF_COEF_X_COUNT,
      EOTF_COEF_Y_COUNT, TM_COEF_X_COUNT, TM_COEF_Y_COUNT, GM_LUT_VALUES, OETF_LUT_VALUES,
      EOTF_LUT_VALUES, TM_LUT_VALUES]

theorem setHdrLibCommand_loop_disabled (mHdrLibCoef : Nat → hdrCoef) :
    ∀ (slots : List Nat) (st : (Nat → g2d_reg) × Nat),
    (∀ i ∈ slots, (mHdrLibCoef i).hdr_en = 0) →
    setHdrLibCommand_loop mHdrLibCoef slots st = st
  | [], st, _ => rfl
  | i :: slots, st, h => by
    have hi := h i (List.mem_cons_self _ _)
    have ih := setHdrLibCommand_loop_disabled mHdrLibCoef slots st
      (fun j hj => h j (List.mem_cons_of_mem _ hj))
    unfold setHdrLibCommand_loop at ih ⊢
    rw [List.foldl_cons, if_pos hi]
    exact ih

theorem setHdrLibCommand_loop_count (mHdrLibCoef : Nat → hdrCoef) (st : (Nat → g2d_reg) × Nat) :
    ∀ n : Nat, (∀ i, i < n → (mHdrLibCoef i).hdr_en ≠ 0 → (mHdrLibCoef i).arraysPresent) →
    (setHdrLibCommand_loop mHdrLibCoef (List.range n) st).2 =
      st.2 + ∑ i in (Finset.range n).filter (fun i => (mHdrLibCoef i).hdr_en ≠ 0),
        slotRegisterCount (mHdrLibCoef i)
  | 0, _ => by simp [setHdrLibCommand_loop]
  | n + 1, hp => by
    have ih := setHdrLibCommand_loop_count mHdrLibCoef st n (fun i hi => hp i (by omega))
    unfold setHdrLibCommand_loop at ih ⊢
    rw [List.range_succ, List.foldl_append, List.foldl_cons, List.foldl_nil,
      Finset.range_succ, Finset.filter_insert]
    by_cases hen : (mHdrLibCoef n).hdr_en = 0
    · rw [if_pos hen, ih, if_neg (by simpa using hen)]
    · rw [if_neg hen, setHdrLibCommand_slot_count _ _ _ (hp n (by omega) hen), ih,
        if_pos hen, Finset.sum_insert (by simp)]
      omega

/-- C5: with the coefficient arrays of every active slot present,
`setHdrLibCommand` (1) returns 0
and leaves the register array untouched when no slot has `hdr_en`; (2) when
some slot has `hdr_en`, returns 1 plus the sum over the slots with `hdr_en` of
`1 + 34 [OETF] + 194 [EOTF] + 9 [gamut] + 53 [tone mapping]`; (3) so a
configuration whose only active slot enables only the gamut stage yields
`GM_LUT_VALUES + 1 + 1 = 11` registers. -/
theorem setHdrLibCommand_register_count (G : G2DHeader) (mHdrLibCoef : Nat → hdrCoef)
    (regs : Nat → g2d_reg)
    (hp : ∀ i, i < G.MAX_HDR_SET → (mHdrLibCoef i).hdr_en ≠ 0 →
      (mHdrLibCoef i).arraysPresent) :
    ((∀ i, i < G.MAX_HDR_SET → (mHdrLibCoef i).hdr_en = 0) →
      setHdrLibCommand G mHdrLibCoef regs = (regs, 0)) ∧
    ((∃ i, i < G.MAX_HDR_SET ∧ (mHdrLibCoef i).hdr_en ≠ 0) →
      (setHdrLibCommand G mHdrLibCoef regs).2 =
        1 + ∑ i in (Finset.range G.MAX_HDR_SET).filter (fun i => (mHdrLibCoef i).hdr_en ≠ 0),
          slotRegisterCount (mHdrLibCoef i)) ∧
    (∀ i0, i0 < G.MAX_HDR_SET → (mHdrLibCoef i0).hdr_en ≠ 0 →
      (∀ i, i < G.MAX_HDR_SET → i ≠ i0 → (mHdrLibCoef i).hdr_en = 0) →
      (mHdrLibCoef i0).oetf_en = 0 → (mHdrLibCoef i0).eotf_en = 0 →
      (mHdrLibCoef i0).gm_en ≠ 0 → (mHdrLibCoef i0).tm_en = 0 →
      (setHdrLibCommand G mHdrLibCoef regs).2 = GM_LUT_VALUES + 1 + 1 ∧
      GM_LUT_VALUES + 1 + 1 = 11) := by
  have hcount := setHdrLibCommand_loop_count mHdrLibCoef (regs, 0) G.MAX_HDR_SET hp
  have hsome : (∃ i, i < G.MAX_HDR_SET ∧ (mHdrLibCoef i).hdr_en ≠ 0) →
      (setHdrLibCommand G mHdrLibCoef regs).2 =
        1 + ∑ i in (Finset.range G.MAX_HDR_SET).filter (fun i => (mHdrLibCoef i).hdr_en ≠ 0),
          slotRegisterCount (mHdrLibCoef i) := by
    rintro ⟨i, hi, hen⟩
    have hpos : 0 < ∑ i in (Finset.range G.MAX_HDR_SET).filter
        (fun i => (mHdrLibCoef i).hdr_en ≠ 0), slotRegisterCount (mHdrLibCoef i) := by
      apply Finset.sum_pos'
      · intro j _; exact Nat.zero_le _
      · refine ⟨i, by simp [hi, hen], ?_⟩
        unfold slotRegisterCount
        omega
    unfold setHdrLibCommand
    simp only [Nat.zero_add] at hcount
    simp only [hcount]
    rw [if_neg (by omega)]
    simp only
    omega
  refine ⟨?_, hsome, ?_⟩
  · intro h
    unfold setHdrLibCommand
    rw [setHdrLibCommand_loop_disabled mHdrLibCoef _ _
      (fun i hi => h i (List.mem_range.mp hi))]
    simp
  · intro i0 hi0 hen hothers ho he hg ht
    refine ⟨?_, by decide⟩
    rw [hsome ⟨i0, hi0, hen⟩]
    have hf : (Finset.range G.MAX_HDR_SET).filter (fun i => (mHdrLibCoef i).hdr_en ≠ 0)
        = {i0} := by
      ext j
      simp only [Finset.mem_filter, Finset.mem_range, Finset.mem_singleton]
      constructor
      · rintro ⟨hj, hjen⟩
        by_contra hne
        exact hjen (hothers j hj hne)
      · rintro rfl
        exact ⟨hi0, hen⟩
    rw [hf, Finset.sum_singleton]
    simp [slotRegisterCount, ho, he, hg, ht, GM_LUT_VALUES]

/-- Witness of C5 on `sampleHdrCoef`: all arrays are present and the packer
returns 11 registers. -/
theorem setHdrLibCommand_register_count_witness :
    (∀ i, i < sampleG2D.MAX_HDR_SET → (sampleHdrCoef i).hdr_en ≠ 0 →
      (sampleHdrCoef i).arraysPresent) ∧
    (setHdrLibCommand sampleG2D sampleHdrCoef (fun _ => ⟨0, 0⟩)).2 = GM_LUT_VALUES + 1 + 1 :=
  ⟨fun i _ _ => by simp [sampleHdrCoef, hdrCoef.arraysPresent],
    ((setHdrLibCommand_register_count sampleG2D sampleHdrCoef (fun _ => ⟨0, 0⟩)
      (fun i _ _ => by simp [sampleHdrCoef, hdrCoef.arraysPresent])).2.2 0 (by decide)
      (by simp [sampleHdrCoef]) (fun i _ hi => by simp [sampleHdrCoef, hi])
      rfl rfl (by simp [sampleHdrCoef]) rfl).1⟩

/-! ### Geometry and layer encoder -/

theorem toU32_of_nonneg_lt (x : Int) (h0 : 0 ≤ x) (h1 : x < 2 ^ 32) : toU32 x = x.toNat := by
  unfold toU32
  rw [Int.emod_eq_of_lt h0 h1]

theorem G2D_SCALE_FACTOR_eq (G : G2DHeader) (a b : Int) (hF : G.G2D_SCALEFACTOR_FRACBITS ≤ 16)
    (ha0 : 0 ≤ a) (ha : a < 2 ^ 16) (hb0 : 0 ≤ b) (hb : b < 2 ^ 16) :
    G2D_SCALE_FACTOR G a b = a.toNat * 2 ^ G.G2D_SCALEFACTOR_FRACBITS / b.toNat := by
  unfold G2D_SCALE_FACTOR
  rw [toU32_of_nonneg_lt a ha0 (by omega), toU32_of_nonneg_lt b hb0 (by omega),
    Nat.shiftLeft_eq]
  have h1 : a.toNat < 2 ^ 16 := by omega
  have h2 : 2 ^ G.G2D_SCALEFACTOR_FRACBITS ≤ 2 ^ 16 :=
    Nat.pow_le_pow_right (by norm_num) hF
  have h3 : a.toNat * 2 ^ G.G2D_SCALEFACTOR_FRACBITS < 2 ^ 32 := by
    calc a.toNat * 2 ^ G.G2D_SCALEFACTOR_FRACBITS
        ≤ a.toNat * 2 ^ 16 := Nat.mul_le_mul_left _ h2
      _ < 2 ^ 16 * 2 ^ 16 := Nat.mul_lt_mul_of_pos_right h1 (by norm_num)
      _ = 2 ^ 32 := by norm_num
  unfold u32
  rw [Nat.mod_eq_of_lt h3]

theorem G2D_SCALE_FACTOR_unity (G : G2DHeader) (hF : G.G2D_SCALEFACTOR_FRACBITS ≤ 16) :
    G2D_SCALE_FACTOR G 1 1 = 2 ^ G.G2D_SCALEFACTOR_FRACBITS := by
  rw [G2D_SCALE_FACTOR_eq G 1 1 hF (by norm_num) (by norm_num) (by norm_num) (by norm_num)]
  simp

theorem prepareImage_ok_of_prepareSource_ok (H : HalHeader) (G : G2DHeader) (tbl : List g2d_fmt)
    (tbl_len : Nat) (layer : AcrylicLayer) (image : g2d_layer) (cmd : g2dsfr → Nat)
    (target_size : hw2d_coord_t) (index : Int)
    (hs : layer.isSolidColor = false)
    (hok : (prepareSource H G tbl tbl_len layer image cmd target_size index).1 = true) :
    (prepareImage H G tbl tbl_len layer.toAcrylicCanvas image cmd index).1 = true := by
  unfold prepareSource at hok
  simp only [hs, Bool.false_eq_true, if_false] at hok
  by_contra hne
  simp [hne] at hok

set_option maxRecDepth 8000 in
theorem prepareSource_regs (H : HalHeader) (G : G2DHeader) (tbl : List g2d_fmt)
    (tbl_len : Nat) (layer : AcrylicLayer) (image : g2d_layer) (cmd : g2dsfr → Nat)
    (target_size : hw2d_coord_t) (index : Int)
    (hs : layer.isSolidColor = false)
    (hok : (prepareSource H G tbl tbl_len layer image cmd target_size index).1 = true) :
    (prepareSource H G tbl tbl_len layer image cmd target_size index).2.2 G2DSFR_SRC_XSCALE =
      G2D_SCALE_FACTOR G layer.getImageRect.size.hori (scaleWindow H layer target_size).hori ∧
    (prepareSource H G tbl tbl_len layer image cmd target_size index).2.2 G2DSFR_SRC_YSCALE =
      G2D_SCALE_FACTOR G layer.getImageRect.size.vert (scaleWindow H layer target_size).vert ∧
    (prepareSource H G tbl tbl_len layer image cmd target_size index).2.2 G2DSFR_SRC_SCALECONTROL =
      (if (G2D_SCALE_FACTOR G layer.getImageRect.size.hori (scaleWindow H layer target_size).hori |||
          G2D_SCALE_FACTOR G layer.getImageRect.size.vert (scaleWindow H layer target_size).vert)
          ≠ G2D_SCALE_FACTOR G 1 1
        then G.G2D_SCALECONTROL_BILINEAR else 0) ∧
    (prepareSource H G tbl tbl_len layer image cmd target_size index).2.2 G2DSFR_SRC_ROTATE =
      (if layer.getTransform &&& H.HAL_TRANSFORM_ROT_90 ≠ 0 then 0 ||| G.G2D_ROTATEDIR_ROT90CCW
        else 0) ||| u32 (encodedFlip H layer.getTransform <<< G.G2D_ROTATEDIR_FLIP_SHIFT) ∧
    (prepareSource H G tbl tbl_len layer image cmd target_size index).2.2 G2DSFR_SRC_COMMAND =
      commandOf G G.G2D_LAYERCMD_VALID (layer.getPlaneAlpha % 256) index := by
  have himg := prepareImage_ok_of_prepareSource_ok H G tbl tbl_len layer image cmd target_size
    index hs hok
  unfold prepareSource
  simp only [hs, himg, Bool.false_eq_true, if_false, Bool.not_true]
  refine ⟨?_, ?_, ?_, ?_, ?_⟩
  · by_cases hr : layer.getTransform &&& H.HAL_TRANSFORM_ROT_90 = 0 <;>
      by_cases hz : area_is_zero layer.getTargetRect = true <;>
      simp only [Function.update_apply, scaleWindow, hr, hz, ite_apply, reduceCtorEq, if_false,
        if_true, ite_self, ne_eq, not_true_eq_false, not_false_eq_true, decide_True, decide_False,
        Bool.false_eq_true]
  · by_cases hr : layer.getTransform &&& H.HAL_TRANSFORM_ROT_90 = 0 <;>
      by_cases hz : area_is_zero layer.getTargetRect = true <;>
      simp only [Function.update_apply, scaleWindow, hr, hz, ite_apply, reduceCtorEq, if_false,
        if_true, ite_self, ne_eq, not_true_eq_false, not_false_eq_true, decide_True, decide_False,
        Bool.false_eq_true]
  · by_cases hr : layer.getTransform &&& H.HAL_TRANSFORM_ROT_90 = 0 <;>
      by_cases hz : area_is_zero layer.getTargetRect = true <;>
      simp only [Function.update_apply, scaleWindow, hr, hz, ite_apply, reduceCtorEq, if_false,
        if_true, ite_self, ne_eq, not_true_eq_false, not_false_eq_true, decide_True, decide_False,
        Bool.false_eq_true]
  · by_cases hr : layer.getTransform &&& H.HAL_TRANSFORM_ROT_90 = 0 <;>
      simp only [Function.update_apply, encodedFlip, hr, ite_apply, reduceCtorEq, if_false,
        if_true, ite_self, ne_eq, not_true_eq_false, not_false_eq_true, decide_True, decide_False,
        Bool.false_eq_true, true_and, false_and]
  · simp only [Function.update_apply, ite_apply, reduceCtorEq, if_false, if_true, ite_self]

theorem two_pow_succ_or_ne (F : Nat) : 2 * 2 ^ F ||| 2 ^ F ≠ 2 ^ F := by
  intro h
  have h1 : (2 * 2 ^ F ||| 2 ^ F).testBit (F + 1) = (2 ^ F).testBit (F + 1) := by rw [h]
  have h2 : 2 * 2 ^ F = 2 ^ (F + 1) := by ring
  rw [h2, Nat.testBit_or, Nat.testBit_two_pow, Nat.testBit_two_pow] at h1
  simp at h1

/-- C6: for a buffer-backed source layer without the 90-degree rotation bit
whose crop and target extents are positive 16-bit values (with
`G2D_SCALEFACTOR_FRACBITS` at most 16, so that the shifted extent fits in 32
bits), a successful `prepareSource` writes
`XSCALE = floor(crop.width * 2^FRACBITS / target.width)`,
`YSCALE = floor(crop.height * 2^FRACBITS / target.height)`, and
`SCALECONTROL` is the bilinear value exactly when `XSCALE | YSCALE` differs from
unity.  Hence crop 100x50 to target 100x50 gives both factors unity
(`2^FRACBITS`) and `SCALECONTROL = 0`, and crop 100x50 to target 50x50 gives
`XSCALE = (100 << FRACBITS) / 50 = 2 * unity`, `YSCALE = unity` and the bilinear
value in `SCALECONTROL`. -/
theorem prepareSource_scale_factors (H : HalHeader) (G : G2DHeader) (tbl : List g2d_fmt)
    (tbl_len : Nat) (layer : AcrylicLayer) (image : g2d_layer) (cmd : g2dsfr → Nat)
    (target_size : hw2d_coord_t) (index : Int)
    (hs : layer.isSolidColor = false)
    (hok : (prepareSource H G tbl tbl_len layer image cmd target_size index).1 = true)
    (hrot : layer.getTransform &&& H.HAL_TRANSFORM_ROT_90 = 0)
    (hF : G.G2D_SCALEFACTOR_FRACBITS ≤ 16)
    (hcw : 0 < layer.getImageRect.size.hori ∧ layer.getImageRect.size.hori < 2 ^ 16)
    (hch : 0 < layer.getImageRect.size.vert ∧ layer.getImageRect.size.vert < 2 ^ 16)
    (htw : 0 < layer.getTargetRect.size.hori ∧ layer.getTargetRect.size.hori < 2 ^ 16)
    (hth : 0 < layer.getTargetRect.size.vert ∧ layer.getTargetRect.size.vert < 2 ^ 16) :
    (prepareSource H G tbl tbl_len layer image cmd target_size index).2.2 G2DSFR_SRC_XSCALE =
      layer.getImageRect.size.hori.toNat * 2 ^ G.G2D_SCALEFACTOR_FRACBITS /
        layer.getTargetRect.size.hori.toNat ∧
    (prepareSource H G tbl tbl_len layer image cmd target_size index).2.2 G2DSFR_SRC_YSCALE =
      layer.getImageRect.size.vert.toNat * 2 ^ G.G2D_SCALEFACTOR_FRACBITS /
        layer.getTargetRect.size.vert.toNat ∧
    (prepareSource H G tbl tbl_len layer image cmd target_size index).2.2 G2DSFR_SRC_SCALECONTROL =
      (if ((prepareSource H G tbl tbl_len layer image cmd target_size index).2.2 G2DSFR_SRC_XSCALE |||
            (prepareSource H G tbl tbl_len layer image cmd target_size index).2.2 G2DSFR_SRC_YSCALE)
          ≠ 2 ^ G.G2D_SCALEFACTOR_FRACBITS
        then G.G2D_SCALECONTROL_BILINEAR else 0) ∧
    (layer.getImageRect.size = ⟨100, 50⟩ → layer.getTargetRect.size = ⟨100, 50⟩ →
      (prepareSource H G tbl tbl_len layer image cmd target_size index).2.2 G2DSFR_SRC_XSCALE =
        1 <<< G.G2D_SCALEFACTOR_FRACBITS ∧
      (prepareSource H G tbl tbl_len layer image cmd target_size index).2.2 G2DSFR_SRC_YSCALE =
        1 <<< G.G2D_SCALEFACTOR_FRACBITS ∧
      (prepareSource H G tbl tbl_len layer image cmd target_size index).2.2
        G2DSFR_SRC_SCALECONTROL = 0) ∧
    (layer.getImageRect.size = ⟨100, 50⟩ → layer.getTargetRect.size = ⟨50, 50⟩ →
      (prepareSource H G tbl tbl_len layer image cmd target_size index).2.2 G2DSFR_SRC_XSCALE =
        (100 <<< G.G2D_SCALEFACTOR_FRACBITS) / 50 ∧
      (prepareSource H G tbl tbl_len layer image cmd target_size index).2.2 G2DSFR_SRC_XSCALE =
        2 * (1 <<< G.G2D_SCALEFACTOR_FRACBITS) ∧
      (prepareSource H G tbl tbl_len layer image cmd target_size index).2.2 G2DSFR_SRC_YSCALE =
        1 <<< G.G2D_SCALEFACTOR_FRACBITS ∧
      (prepareSource H G tbl tbl_len layer image cmd target_size index).2.2
        G2DSFR_SRC_SCALECONTROL = G.G2D_SCALECONTROL_BILINEAR) := by
  obtain ⟨hx, hy, hsc, _, _⟩ :=
    prepareSource_regs H G tbl tbl_len layer image cmd target_size index hs hok
  have hz : area_is_zero layer.getTargetRect = false := by
    unfold area_is_zero
    have : layer.getTargetRect.size.hori * layer.getTargetRect.size.vert ≠ 0 :=
      Int.mul_ne_zero (by omega) (by omega)
    simpa using this
  have hw : scaleWindow H layer target_size = layer.getTargetRect.size := by
    simp [scaleWindow, hz, hrot]
  rw [hw] at hx hy hsc
  have hx2 := G2D_SCALE_FACTOR_eq G _ _ hF (le_of_lt hcw.1) hcw.2 (le_of_lt htw.1) htw.2
  have hy2 := G2D_SCALE_FACTOR_eq G _ _ hF (le_of_lt hch.1) hch.2 (le_of_lt hth.1) hth.2
  have hu := G2D_SCALE_FACTOR_unity G hF
  rw [hx2, hy2, hu] at hsc
  rw [hx2] at hx
  rw [hy2] at hy
  refine ⟨hx, hy, ?_, ?_, ?_⟩
  · rw [hsc, hx, hy]
  · intro hc ht
    have e1 : layer.getImageRect.size.hori = 100 := by rw [hc]
    have e2 : layer.getImageRect.size.vert = 50 := by rw [hc]
    have e3 : layer.getTargetRect.size.hori = 100 := by rw [ht]
    have e4 : layer.getTargetRect.size.vert = 50 := by rw [ht]
    rw [e1, e3] at hx
    rw [e2, e4] at hy
    rw [e1, e2, e3, e4] at hsc
    have t100 : (100 : Int).toNat = 100 := rfl
    have t50 : (50 : Int).toNat = 50 := rfl
    rw [t100] at hx hsc
    rw [t50] at hy hsc
    have h1 : 100 * 2 ^ G.G2D_SCALEFACTOR_FRACBITS / 100 = 2 ^ G.G2D_SCALEFACTOR_FRACBITS :=
      Nat.mul_div_cancel_left _ (by norm_num)
    have h2 : 50 * 2 ^ G.G2D_SCALEFACTOR_FRACBITS / 50 = 2 ^ G.G2D_SCALEFACTOR_FRACBITS :=
      Nat.mul_div_cancel_left _ (by norm_num)
    rw [h1] at hx hsc
    rw [h2] at hy hsc
    refine ⟨by rw [hx, Nat.shiftLeft_eq, Nat.one_mul], by rw [hy, Nat.shiftLeft_eq, Nat.one_mul], ?_⟩
    rw [hsc, Nat.or_self]
    simp
  · intro hc ht
    have e1 : layer.getImageRect.size.hori = 100 := by rw [hc]
    have e2 : layer.getImageRect.size.vert = 50 := by rw [hc]
    have e3 : layer.getTargetRect.size.hori = 50 := by rw [ht]
    have e4 : layer.getTargetRect.size.vert = 50 := by rw [ht]
    rw [e1, e3] at hx
    rw [e2, e4] at hy
    rw [e1, e2, e3, e4] at hsc
    have t100 : (100 : Int).toNat = 100 := rfl
    have t50 : (50 : Int).toNat = 50 := rfl
    rw [t100, t50] at hx hsc
    rw [t50] at hy
    have h1 : 100 * 2 ^ G.G2D_SCALEFACTOR_FRACBITS / 50 = 2 * 2 ^ G.G2D_SCALEFACTOR_FRACBITS := by
      have : 100 * 2 ^ G.G2D_SCALEFACTOR_FRACBITS = 50 * (2 * 2 ^ G.G2D_SCALEFACTOR_FRACBITS) := by
        ring
      rw [this]
      exact Nat.mul_div_cancel_left _ (by norm_num)
    have h2 : 50 * 2 ^ G.G2D_SCALEFACTOR_FRACBITS / 50 = 2 ^ G.G2D_SCALEFACTOR_FRACBITS :=
      Nat.mul_div_cancel_left _ (by norm_num)
    rw [h2] at hy hsc
    refine ⟨by rw [hx, Nat.shiftLeft_eq], by rw [hx, h1, Nat.shiftLeft_eq, Nat.one_mul],
      by rw [hy, Nat.shiftLeft_eq, Nat.one_mul], ?_⟩
    rw [hsc, h1, if_pos (two_pow_succ_or_ne _)]

/-- Witness of C6 on `sampleBottom` (crop 100x50, target 50x50): the hypotheses
hold, `XSCALE` is twice unity, `YSCALE` is unity and filtering is enabled. -/
theorem prepareSource_scale_factors_witness :
    (prepareSource sampleHal sampleG2D (halfmt_to_g2dfmt_tbl sampleHal sampleG2D false)
      (len_halfmt_to_g2dfmt_tbl sampleHal sampleG2D false) sampleBottom sampleImage sampleCmd
      ⟨1920, 1080⟩ 0).1 = true ∧
    (prepareSource sampleHal sampleG2D (halfmt_to_g2dfmt_tbl sampleHal sampleG2D false)
      (len_halfmt_to_g2dfmt_tbl sampleHal sampleG2D false) sampleBottom sampleImage sampleCmd
      ⟨1920, 1080⟩ 0).2.2 G2DSFR_SRC_XSCALE = 2 * (1 <<< sampleG2D.G2D_SCALEFACTOR_FRACBITS) ∧
    (prepareSource sampleHal sampleG2D (halfmt_to_g2dfmt_tbl sampleHal sampleG2D false)
      (len_halfmt_to_g2dfmt_tbl sampleHal sampleG2D false) sampleBottom sampleImage sampleCmd
      ⟨1920, 1080⟩ 0).2.2 G2DSFR_SRC_YSCALE = 1 <<< sampleG2D.G2D_SCALEFACTOR_FRACBITS ∧
    (prepareSource sampleHal sampleG2D (halfmt_to_g2dfmt_tbl sampleHal sampleG2D false)
      (len_halfmt_to_g2dfmt_tbl sampleHal sampleG2D false) sampleBottom sampleImage sampleCmd
      ⟨1920, 1080⟩ 0).2.2 G2DSFR_SRC_SCALECONTROL = sampleG2D.G2D_SCALECONTROL_BILINEAR :=
  have h := (prepareSource_scale_factors sampleHal sampleG2D
    (halfmt_to_g2dfmt_tbl sampleHal sampleG2D false)
    (len_halfmt_to_g2dfmt_tbl sampleHal sampleG2D false) sampleBottom sampleImage sampleCmd
    ⟨1920, 1080⟩ 0 rfl (by decide) (by decide) (by decide) (by decide) (by decide) (by decide)
    (by decide)).2.2.2.2 rfl rfl
  ⟨by decide, h.2.1, h.2.2.1, h.2.2.2⟩

/-! ### Bit-level facts -/

theorem not32_zero_and (y : Nat) (hy : y < 2 ^ 32) : not32 0 &&& y = y := by
  unfold not32 u32
  rw [Nat.zero_mod, Nat.sub_zero, Nat.and_comm, Nat.and_pow_two_sub_one_eq_mod,
    Nat.mod_eq_of_lt hy]

theorem not32_and_self (x : Nat) (hx : x < 2 ^ 32) : not32 x &&& x = 0 := by
  unfold not32 u32
  rw [Nat.mod_eq_of_lt hx]
  apply Nat.eq_of_testBit_eq
  intro i
  have h : 2 ^ 32 - 1 - x = 2 ^ 32 - (x + 1) := by omega
  rw [h, Nat.testBit_and, Nat.testBit_two_pow_sub_succ hx]
  cases x.testBit i <;> simp

theorem or_and_left_self (a b : Nat) : (a ||| b) &&& a = a := by
  apply Nat.eq_of_testBit_eq
  intro i
  rw [Nat.testBit_and, Nat.testBit_or]
  cases a.testBit i <;> cases b.testBit i <;> rfl

theorem or_and_right_self (a b : Nat) : (a ||| b) &&& b = b := by
  rw [Nat.or_comm]
  exact or_and_left_self b a

theorem or3_and_first (a b c : Nat) : (a ||| b ||| c) &&& a = a := by
  apply Nat.eq_of_testBit_eq
  intro i
  rw [Nat.testBit_and, Nat.testBit_or, Nat.testBit_or]
  cases a.testBit i <;> cases b.testBit i <;> cases c.testBit i <;> rfl

theorem or3_and_second (a b c : Nat) : (a ||| b ||| c) &&& b = b := by
  apply Nat.eq_of_testBit_eq
  intro i
  rw [Nat.testBit_and, Nat.testBit_or, Nat.testBit_or]
  cases a.testBit i <;> cases b.testBit i <;> cases c.testBit i <;> rfl

theorem and_or_distrib_right (a b c : Nat) : (a ||| b) &&& c = (a &&& c) ||| (b &&& c) := by
  rw [Nat.and_comm, Nat.and_or_distrib_left, Nat.and_comm c a, Nat.and_comm c b]

theorem encodedFlip_rotated (H : HalHeader) (transform : Nat)
    (hHV : H.HAL_TRANSFORM_FLIP_H ||| H.HAL_TRANSFORM_FLIP_V < 2 ^ 32)
    (hrot : transform &&& H.HAL_TRANSFORM_ROT_90 ≠ 0) :
    (transform &&& (H.HAL_TRANSFORM_FLIP_H ||| H.HAL_TRANSFORM_FLIP_V) = 0 →
      encodedFlip H transform = H.HAL_TRANSFORM_FLIP_H ||| H.HAL_TRANSFORM_FLIP_V) ∧
    (transform &&& (H.HAL_TRANSFORM_FLIP_H ||| H.HAL_TRANSFORM_FLIP_V) =
        (H.HAL_TRANSFORM_FLIP_H ||| H.HAL_TRANSFORM_FLIP_V) →
      encodedFlip H transform = 0) ∧
    (transform &&& (H.HAL_TRANSFORM_FLIP_H ||| H.HAL_TRANSFORM_FLIP_V) ≠ 0 →
      transform &&& (H.HAL_TRANSFORM_FLIP_H ||| H.HAL_TRANSFORM_FLIP_V) ≠
        (H.HAL_TRANSFORM_FLIP_H ||| H.HAL_TRANSFORM_FLIP_V) →
      encodedFlip H transform =
        transform &&& (H.HAL_TRANSFORM_FLIP_H ||| H.HAL_TRANSFORM_FLIP_V)) := by
  refine ⟨?_, ?_, ?_⟩
  · intro h0
    unfold encodedFlip
    simp only [h0, hrot, ne_eq, not_false_eq_true, true_or, and_self, if_true]
    exact not32_zero_and _ hHV
  · intro hb
    unfold encodedFlip
    simp only [hb, hrot, ne_eq, not_false_eq_true, or_true, and_self, if_true]
    exact not32_and_self _ hHV
  · intro h0 hb
    unfold encodedFlip
    simp only [h0, hb, or_self, and_false, if_false]

/-- C7: for a buffer-backed source layer (with flip constants that fit in 32
bits) a successful `prepareSource` behaves as follows.  With the 90-degree
rotation bit set: `ROTATE` is the rotate-90 value OR the flip field shifted by
`G2D_ROTATEDIR_FLIP_SHIFT` (so the rotate-90 bits are set); the flip field is
both flip bits when the transform has no flip bit, zero when it has both, and
the transform's flip bits when it has exactly one; and `XSCALE` is computed
from crop.width and the target window's height, `YSCALE` from crop.height and
the target window's width (the window being the canvas size for a zero-area
target).  Without the rotation bit: `ROTATE` is the transform's flip bits
shifted, and the scale factors are computed against the unswapped window. -/
theorem prepareSource_rotation_flip (H : HalHeader) (G : G2DHeader) (tbl : List g2d_fmt)
    (tbl_len : Nat) (layer : AcrylicLayer) (image : g2d_layer) (cmd : g2dsfr → Nat)
    (target_size : hw2d_coord_t) (index : Int)
    (hs : layer.isSolidColor = false)
    (hok : (prepareSource H G tbl tbl_len layer image cmd target_size index).1 = true)
    (hHV : H.HAL_TRANSFORM_FLIP_H ||| H.HAL_TRANSFORM_FLIP_V < 2 ^ 32) :
    (layer.getTransform &&& H.HAL_TRANSFORM_ROT_90 ≠ 0 →
      (prepareSource H G tbl tbl_len layer image cmd target_size index).2.2 G2DSFR_SRC_ROTATE =
        G.G2D_ROTATEDIR_ROT90CCW |||
          u32 (encodedFlip H layer.getTransform <<< G.G2D_ROTATEDIR_FLIP_SHIFT) ∧
      (prepareSource H G tbl tbl_len layer image cmd target_size index).2.2 G2DSFR_SRC_ROTATE &&&
        G.G2D_ROTATEDIR_ROT90CCW = G.G2D_ROTATEDIR_ROT90CCW ∧
      (layer.getTransform &&& (H.HAL_TRANSFORM_FLIP_H ||| H.HAL_TRANSFORM_FLIP_V) = 0 →
        encodedFlip H layer.getTransform = H.HAL_TRANSFORM_FLIP_H ||| H.HAL_TRANSFORM_FLIP_V) ∧
      (layer.getTransform &&& (H.HAL_TRANSFORM_FLIP_H ||| H.HAL_TRANSFORM_FLIP_V) =
          (H.HAL_TRANSFORM_FLIP_H ||| H.HAL_TRANSFORM_FLIP_V) →
        encodedFlip H layer.getTransform = 0) ∧
      (layer.getTransform &&& (H.HAL_TRANSFORM_FLIP_H ||| H.HAL_TRANSFORM_FLIP_V) ≠ 0 →
        layer.getTransform &&& (H.HAL_TRANSFORM_FLIP_H ||| H.HAL_TRANSFORM_FLIP_V) ≠
          (H.HAL_TRANSFORM_FLIP_H ||| H.HAL_TRANSFORM_FLIP_V) →
        encodedFlip H layer.getTransform =
          layer.getTransform &&& (H.HAL_TRANSFORM_FLIP_H ||| H.HAL_TRANSFORM_FLIP_V)) ∧
      (prepareSource H G tbl tbl_len layer image cmd target_size index).2.2 G2DSFR_SRC_XSCALE =
        G2D_SCALE_FACTOR G layer.getImageRect.size.hori
          (if area_is_zero layer.getTargetRect then target_size
            else layer.getTargetRect.size).vert ∧
      (prepareSource H G tbl tbl_len layer image cmd target_size index).2.2 G2DSFR_SRC_YSCALE =
        G2D_SCALE_FACTOR G layer.getImageRect.size.vert
          (if area_is_zero layer.getTargetRect then target_size
            else layer.getTargetRect.size).hori) ∧
    (layer.getTransform &&& H.HAL_TRANSFORM_ROT_90 = 0 →
      (prepareSource H G tbl tbl_len layer image cmd target_size index).2.2 G2DSFR_SRC_ROTATE =
        u32 ((layer.getTransform &&& (H.HAL_TRANSFORM_FLIP_H ||| H.HAL_TRANSFORM_FLIP_V)) <<<
          G.G2D_ROTATEDIR_FLIP_SHIFT) ∧
      (prepareSource H G tbl tbl_len layer image cmd target_size index).2.2 G2DSFR_SRC_XSCALE =
        G2D_SCALE_FACTOR G layer.getImageRect.size.hori
          (if area_is_zero layer.getTargetRect then target_size
            else layer.getTargetRect.size).hori ∧
      (prepareSource H G tbl tbl_len layer image cmd target_size index).2.2 G2DSFR_SRC_YSCALE =
        G2D_SCALE_FACTOR G layer.getImageRect.size.vert
          (if area_is_zero layer.getTargetRect then target_size
            else layer.getTargetRect.size).vert) := by
  obtain ⟨hx, hy, _, hr, _⟩ :=
    prepareSource_regs H G tbl tbl_len layer image cmd target_size index hs hok
  constructor
  · intro hrot
    obtain ⟨f1, f2, f3⟩ := encodedFlip_rotated H layer.getTransform hHV hrot
    rw [if_pos hrot, Nat.zero_or] at hr
    refine ⟨hr, ?_, f1, f2, f3, ?_, ?_⟩
    · rw [hr]
      exact or_and_left_self _ _
    · rw [hx]
      simp [scaleWindow, hrot, hw2d_coord_t.swap]
    · rw [hy]
      simp [scaleWindow, hrot, hw2d_coord_t.swap]
  · intro hrot
    rw [if_neg (by simpa using hrot), Nat.zero_or] at hr
    refine ⟨?_, ?_, ?_⟩
    · rw [hr]
      simp [encodedFlip, hrot]
    · rw [hx]
      simp [scaleWindow, hrot]
    · rw [hy]
      simp [scaleWindow, hrot]

/-- Witness of C7 on `sampleRotated` (rotated by 90 degrees, no flip bit): the
hypotheses hold, the flip field holds both flip bits and `XSCALE` is computed
from the crop width 100 and the window height 50. -/
theorem prepareSource_rotation_flip_witness :
    (prepareSource sampleHal sampleG2D (halfmt_to_g2dfmt_tbl sampleHal sampleG2D false)
      (len_halfmt_to_g2dfmt_tbl sampleHal sampleG2D false) sampleRotated sampleImage sampleCmd
      ⟨1920, 1080⟩ 0).1 = true ∧
    sampleHal.HAL_TRANSFORM_FLIP_H ||| sampleHal.HAL_TRANSFORM_FLIP_V < 2 ^ 32 ∧
    sampleRotated.getTransform &&& sampleHal.HAL_TRANSFORM_ROT_90 ≠ 0 ∧
    (prepareSource sampleHal sampleG2D (halfmt_to_g2dfmt_tbl sampleHal sampleG2D false)
      (len_halfmt_to_g2dfmt_tbl sampleHal sampleG2D false) sampleRotated sampleImage sampleCmd
      ⟨1920, 1080⟩ 0).2.2 G2DSFR_SRC_ROTATE =
      sampleG2D.G2D_ROTATEDIR_ROT90CCW |||
        u32 (encodedFlip sampleHal sampleRotated.getTransform <<<
          sampleG2D.G2D_ROTATEDIR_FLIP_SHIFT) ∧
    encodedFlip sampleHal sampleRotated.getTransform =
      sampleHal.HAL_TRANSFORM_FLIP_H ||| sampleHal.HAL_TRANSFORM_FLIP_V :=
  have h := (prepareSource_rotation_flip sampleHal sampleG2D
    (halfmt_to_g2dfmt_tbl sampleHal sampleG2D false)
    (len_halfmt_to_g2dfmt_tbl sampleHal sampleG2D false) sampleRotated sampleImage sampleCmd
    ⟨1920, 1080⟩ 0 rfl (by decide) (by decide)).1 (by decide)
  ⟨by decide, by decide, by decide, h.1, h.2.2.1 (by decide)⟩

theorem sbwcLossyIndex_none (H : HalHeader) (format : Nat)
    (h : format ∉ sbwc_lossy_formats H) : sbwcLossyIndex H format = none := by
  unfold sbwcLossyIndex
  rw [List.find?_eq_none]
  intro i hi
  have hlen : (sbwc_lossy_formats H).length = 3 := rfl
  rw [hlen, List.mem_range] at hi
  simp only [sbwc_lossy_formats, List.mem_cons, List.mem_singleton, List.not_mem_nil,
    or_false, not_or] at h
  obtain ⟨h0, h1, h2⟩ := h
  have : i = 0 ∨ i = 1 ∨ i = 2 := by omega
  rcases this with rfl | rfl | rfl <;> simp [sbwc_lossy_formats, h0, h1, h2]

theorem SBWC_HEADER_STRIDE_eq (w : Int) (h0 : 0 ≤ w) (h1 : w < 2 ^ 16) :
    toU32 (SBWC_HEADER_STRIDE w) = sbwcHeaderStride w.toNat := by
  unfold SBWC_HEADER_STRIDE ALIGN SBWC_BLOCK_WIDTH SBWC_HEADER_ALIGN sbwcHeaderStride
  rw [Int.tdiv_eq_ediv h0 (by norm_num), Int.tdiv_eq_ediv (by omega) (by norm_num)]
  rw [toU32_of_nonneg_lt _ (by omega) (by omega)]
  omega

theorem SBWC_PAYLOAD_STRIDE_eq (w : Int) (h0 : 0 ≤ w) (h1 : w < 2 ^ 16) (tenBit : Prop)
    [Decidable tenBit] :
    toU32 (SBWC_PAYLOAD_STRIDE w (if tenBit then 10 else 8)) =
      sbwcPayloadStride w.toNat (if tenBit then 10 else 8) := by
  unfold SBWC_PAYLOAD_STRIDE ALIGN SBWC_BLOCK_SIZE SBWC_BLOCK_WIDTH SBWC_BLOCK_HEIGHT
    SBWC_PAYLOAD_ALIGN sbwcPayloadStride
  rw [Int.tdiv_eq_ediv h0 (by norm_num)]
  by_cases ht : tenBit
  · simp only [if_pos ht]
    have e : ((32 : Int) * 4 * 10).tdiv 8 = 160 := by decide
    rw [e, toU32_of_nonneg_lt _ (by omega) (by omega)]
    omega
  · simp only [if_neg ht]
    have e : ((32 : Int) * 4 * 8).tdiv 8 = 128 := by decide
    rw [e, toU32_of_nonneg_lt _ (by omega) (by omega)]
    omega

set_option maxRecDepth 8000 in
theorem prepareImage_sbwc_regs (H : HalHeader) (G : G2DHeader) (tbl : List g2d_fmt)
    (tbl_len : Nat) (layer : AcrylicCanvas) (image : g2d_layer) (cmd : g2dsfr → Nat)
    (index : Int) (e : g2d_fmt)
    (hfmt : halfmt_to_g2dfmt tbl tbl_len layer.getFormat = some e)
    (hsbwc : e.g2dfmt &&& G.G2D_DATAFORMAT_SBWC ≠ 0)
    (hlossless : layer.getFormat ∉ sbwc_lossy_formats H)
    (hok : (prepareImage H G tbl tbl_len layer image cmd index).1 = true) :
    (prepareImage H G tbl tbl_len layer image cmd index).2.2 G2DSFR_IMG_STRIDE = 0 ∧
    (index < 0 →
      (prepareImage H G tbl tbl_len layer image cmd index).2.2 G2DSFR_DST_Y_HEADER_STRIDE =
        toU32 (SBWC_HEADER_STRIDE layer.getImageDimension.hori) ∧
      (prepareImage H G tbl tbl_len layer image cmd index).2.2 G2DSFR_DST_C_HEADER_STRIDE =
        toU32 (SBWC_HEADER_STRIDE layer.getImageDimension.hori) ∧
      (prepareImage H G tbl tbl_len layer image cmd index).2.2 G2DSFR_DST_Y_PAYLOAD_STRIDE =
        toU32 (SBWC_PAYLOAD_STRIDE layer.getImageDimension.hori
          (if e.g2dfmt &&& G.G2D_FMT_YCBCR_10BIT ≠ 0 then 10 else 8)) ∧
      (prepareImage H G tbl tbl_len layer image cmd index).2.2 G2DSFR_DST_C_PAYLOAD_STRIDE =
        toU32 (SBWC_PAYLOAD_STRIDE layer.getImageDimension.hori
          (if e.g2dfmt &&& G.G2D_FMT_YCBCR_10BIT ≠ 0 then 10 else 8))) ∧
    (0 ≤ index →
      (prepareImage H G tbl tbl_len layer image cmd index).2.2 G2DSFR_SRC_Y_HEADER_STRIDE =
        toU32 (SBWC_HEADER_STRIDE layer.getImageDimension.hori) ∧
      (prepareImage H G tbl tbl_len layer image cmd index).2.2 G2DSFR_SRC_C_HEADER_STRIDE =
        toU32 (SBWC_HEADER_STRIDE layer.getImageDimension.hori) ∧
      (prepareImage H G tbl tbl_len layer image cmd index).2.2 G2DSFR_SRC_Y_PAYLOAD_STRIDE =
        toU32 (SBWC_PAYLOAD_STRIDE layer.getImageDimension.hori
          (if e.g2dfmt &&& G.G2D_FMT_YCBCR_10BIT ≠ 0 then 10 else 8)) ∧
      (prepareImage H G tbl tbl_len layer image cmd index).2.2 G2DSFR_SRC_C_PAYLOAD_STRIDE =
        toU32 (SBWC_PAYLOAD_STRIDE layer.getImageDimension.hori
          (if e.g2dfmt &&& G.G2D_FMT_YCBCR_10BIT ≠ 0 then 10 else 8))) := by
  have hl := sbwcLossyIndex_none H layer.getFormat hlossless
  unfold prepareImage at hok ⊢
  simp only [hfmt] at hok ⊢
  by_cases hb : layer.getBufferType ≠ memory_type.MT_EMPTY ∧ layer.getBufferCount < e.num_bufs
  · simp [hb] at hok
  · simp only [hb, if_false, hl, hsbwc, ne_eq, not_false_eq_true, if_true]
    refine ⟨?_, ?_, ?_⟩
    · by_cases hc : layer.isCompressed = true <;>
        simp only [Function.update_apply, ite_apply, reduceCtorEq, if_false, if_true, ite_self, hc,
          Bool.false_eq_true]
    · intro hi
      simp only [hi, if_true, Function.update_apply, ite_apply, reduceCtorEq, if_false, ite_self,
        and_self]
    · intro hi
      have hi2 : ¬ index < 0 := by omega
      simp only [hi2, if_true, Function.update_apply, ite_apply, reduceCtorEq, if_false, ite_self,
        and_self]

/-- C8: for a layer whose format maps to a block-compressed (SBWC) device format
and is not one of the lossy formats, and whose image width `w` is a
non-negative 16-bit value, a successful `prepareImage` writes `STRIDE = 0`,
the header stride `((w div 32) div 2)` rounded up to a multiple of 16 and the
payload stride `(w div 32) * 16 * bits` rounded up to a multiple of 32
(`bits = 10` when the device format has the 10-bit flag, otherwise 8), the same
value in the Y and the C field (the destination fields for the target,
`index < 0`, the source fields otherwise).  The header stride is a multiple of
16 and the payload stride a multiple of 32; for a 10-bit format at `w = 1920`
they are 32 and 9600. -/
theorem prepareImage_sbwc_strides (H : HalHeader) (G : G2DHeader) (tbl : List g2d_fmt)
    (tbl_len : Nat) (layer : AcrylicCanvas) (image : g2d_layer) (cmd : g2dsfr → Nat)
    (index : Int) (e : g2d_fmt)
    (hfmt : halfmt_to_g2dfmt tbl tbl_len layer.getFormat = some e)
    (hsbwc : e.g2dfmt &&& G.G2D_DATAFORMAT_SBWC ≠ 0)
    (hlossless : layer.getFormat ∉ sbwc_lossy_formats H)
    (hok : (prepareImage H G tbl tbl_len layer image cmd index).1 = true)
    (hw : 0 ≤ layer.getImageDimension.hori ∧ layer.getImageDimension.hori < 2 ^ 16) :
    (prepareImage H G tbl tbl_len layer image cmd index).2.2 G2DSFR_IMG_STRIDE = 0 ∧
    (index < 0 →
      (prepareImage H G tbl tbl_len layer image cmd index).2.2 G2DSFR_DST_Y_HEADER_STRIDE =
        sbwcHeaderStride layer.getImageDimension.hori.toNat ∧
      (prepareImage H G tbl tbl_len layer image cmd index).2.2 G2DSFR_DST_C_HEADER_STRIDE =
        sbwcHeaderStride layer.getImageDimension.hori.toNat ∧
      (prepareImage H G tbl tbl_len layer image cmd index).2.2 G2DSFR_DST_Y_PAYLOAD_STRIDE =
        sbwcPayloadStride layer.getImageDimension.hori.toNat
          (if e.g2dfmt &&& G.G2D_FMT_YCBCR_10BIT ≠ 0 then 10 else 8) ∧
      (prepareImage H G tbl tbl_len layer image cmd index).2.2 G2DSFR_DST_C_PAYLOAD_STRIDE =
        sbwcPayloadStride layer.getImageDimension.hori.toNat
          (if e.g2dfmt &&& G.G2D_FMT_YCBCR_10BIT ≠ 0 then 10 else 8)) ∧
    (0 ≤ index →
      (prepareImage H G tbl tbl_len layer image cmd index).2.2 G2DSFR_SRC_Y_HEADER_STRIDE =
        sbwcHeaderStride layer.getImageDimension.hori.toNat ∧
      (prepareImage H G tbl tbl_len layer image cmd index).2.2 G2DSFR_SRC_C_HEADER_STRIDE =
        sbwcHeaderStride layer.getImageDimension.hori.toNat ∧
      (prepareImage H G tbl tbl_len layer image cmd index).2.2 G2DSFR_SRC_Y_PAYLOAD_STRIDE =
        sbwcPayloadStride layer.getImageDimension.hori.toNat
          (if e.g2dfmt &&& G.G2D_FMT_YCBCR_10BIT ≠ 0 then 10 else 8) ∧
      (prepareImage H G tbl tbl_len layer image cmd index).2.2 G2DSFR_SRC_C_PAYLOAD_STRIDE =
        sbwcPayloadStride layer.getImageDimension.hori.toNat
          (if e.g2dfmt &&& G.G2D_FMT_YCBCR_10BIT ≠ 0 then 10 else 8)) ∧
    16 ∣ sbwcHeaderStride layer.getImageDimension.hori.toNat ∧
    32 ∣ sbwcPayloadStride layer.getImageDimension.hori.toNat
      (if e.g2dfmt &&& G.G2D_FMT_YCBCR_10BIT ≠ 0 then 10 else 8) ∧
    sbwcHeaderStride 1920 = 32 ∧ sbwcPayloadStride 1920 10 = 9600 := by
  obtain ⟨h1, h2, h3⟩ :=
    prepareImage_sbwc_regs H G tbl tbl_len layer image cmd index e hfmt hsbwc hlossless hok
  have eh := SBWC_HEADER_STRIDE_eq layer.getImageDimension.hori hw.1 hw.2
  have ep := SBWC_PAYLOAD_STRIDE_eq layer.getImageDimension.hori hw.1 hw.2
    (e.g2dfmt &&& G.G2D_FMT_YCBCR_10BIT ≠ 0)
  rw [eh, ep] at h2 h3
  refine ⟨h1, h2, h3, ?_, ?_, by decide, by decide⟩
  · exact Dvd.intro_left _ rfl
  · exact Dvd.intro_left _ rfl

/-- Witness of C8 on `sampleSbwcCanvas` (10-bit SBWC NV12, width 1920) encoded as
a source: the hypotheses hold, the stride is 0, the header stride 32 and the
payload stride 9600. -/
theorem prepareImage_sbwc_strides_witness :
    halfmt_to_g2dfmt (halfmt_to_g2dfmt_tbl sampleHal sampleG2D true)
      (len_halfmt_to_g2dfmt_tbl sampleHal sampleG2D true) sampleSbwcCanvas.getFormat =
      some ⟨0x132, 0x4480000, 2, 0⟩ ∧
    (prepareImage sampleHal sampleG2D (halfmt_to_g2dfmt_tbl sampleHal sampleG2D true)
      (len_halfmt_to_g2dfmt_tbl sampleHal sampleG2D true) sampleSbwcCanvas sampleImage sampleCmd
      0).1 = true ∧
    (prepareImage sampleHal sampleG2D (halfmt_to_g2dfmt_tbl sampleHal sampleG2D true)
      (len_halfmt_to_g2dfmt_tbl sampleHal sampleG2D true) sampleSbwcCanvas sampleImage sampleCmd
      0).2.2 G2DSFR_IMG_STRIDE = 0 ∧
    (prepareImage sampleHal sampleG2D (halfmt_to_g2dfmt_tbl sampleHal sampleG2D true)
      (len_halfmt_to_g2dfmt_tbl sampleHal sampleG2D true) sampleSbwcCanvas sampleImage sampleCmd
      0).2.2 G2DSFR_SRC_Y_HEADER_STRIDE = sbwcHeaderStride 1920 ∧
    (prepareImage sampleHal sampleG2D (halfmt_to_g2dfmt_tbl sampleHal sampleG2D true)
      (len_halfmt_to_g2dfmt_tbl sampleHal sampleG2D true) sampleSbwcCanvas sampleImage sampleCmd
      0).2.2 G2DSFR_SRC_Y_PAYLOAD_STRIDE = sbwcPayloadStride 1920 10 :=
  have h := prepareImage_sbwc_strides sampleHal sampleG2D
    (halfmt_to_g2dfmt_tbl sampleHal sampleG2D true)
    (len_halfmt_to_g2dfmt_tbl sampleHal sampleG2D true) sampleSbwcCanvas sampleImage sampleCmd
    0 ⟨0x132, 0x4480000, 2, 0⟩ (by decide) (by decide) (by decide) (by decide) (by decide)
  ⟨by decide, by decide, h.1, (h.2.2.1 (by decide)).1, (h.2.2.1 (by decide)).2.2.1⟩

set_option maxRecDepth 8000 in
theorem prepareSource_solid_command (H : HalHeader) (G : G2DHeader) (tbl : List g2d_fmt)
    (tbl_len : Nat) (layer : AcrylicLayer) (image : g2d_layer) (cmd : g2dsfr → Nat)
    (target_size : hw2d_coord_t) (index : Int)
    (hs : layer.isSolidColor = true) :
    (prepareSource H G tbl tbl_len layer image cmd target_size index).1 = true ∧
    (prepareSource H G tbl tbl_len layer image cmd target_size index).2.2 G2DSFR_SRC_COMMAND =
      commandOf G G.G2D_LAYERCMD_VALID (layer.getPlaneAlpha % 256) index := by
  unfold prepareSource prepareSolidLayer setSolidLayer
  simp only [hs, if_true, Function.update_apply, ite_apply, reduceCtorEq, if_false, ite_self,
    and_self]

theorem prepareSource_command (H : HalHeader) (G : G2DHeader) (tbl : List g2d_fmt)
    (tbl_len : Nat) (layer : AcrylicLayer) (image : g2d_layer) (cmd : g2dsfr → Nat)
    (target_size : hw2d_coord_t) (index : Int)
    (hok : (prepareSource H G tbl tbl_len layer image cmd target_size index).1 = true) :
    (prepareSource H G tbl tbl_len layer image cmd target_size index).2.2 G2DSFR_SRC_COMMAND =
      commandOf G G.G2D_LAYERCMD_VALID (layer.getPlaneAlpha % 256) index := by
  cases hs : layer.isSolidColor
  · exact (prepareSource_regs H G tbl tbl_len layer image cmd target_size index hs hok).2.2.2.2
  · exact (prepareSource_solid_command H G tbl tbl_len layer image cmd target_size index hs).2

/-- C9: for every source layer, buffer-backed or solid-colour, that
`prepareSource` encodes successfully (the command flags OPAQUE,
PREMULT_GLOBALALPHA and ALPHABLEND occupying bits of their own): with index 0
the command register has the valid and the opaque flag set and the alpha-blend
flag clear, and has the premultiplied-global-alpha flag set if and only if the
plane alpha is below 255; with index greater than 0 the command register is
exactly `VALID | ALPHABLEND`. -/
theorem prepareSource_bottom_layer_command (H : HalHeader) (G : G2DHeader) (tbl : List g2d_fmt)
    (tbl_len : Nat) (layer : AcrylicLayer) (image : g2d_layer) (cmd : g2dsfr → Nat)
    (target_size : hw2d_coord_t) (index : Int)
    (hok : (prepareSource H G tbl tbl_len layer image cmd target_size index).1 = true)
    (halpha : layer.getPlaneAlpha < 256)
    (hVA : G.G2D_LAYERCMD_VALID &&& G.G2D_LAYERCMD_ALPHABLEND = 0)
    (hOA : G.G2D_LAYERCMD_OPAQUE &&& G.G2D_LAYERCMD_ALPHABLEND = 0)
    (hPA : G.G2D_LAYERCMD_PREMULT_GLOBALALPHA &&& G.G2D_LAYERCMD_ALPHABLEND = 0)
    (hVP : G.G2D_LAYERCMD_VALID &&& G.G2D_LAYERCMD_PREMULT_GLOBALALPHA = 0)
    (hOP : G.G2D_LAYERCMD_OPAQUE &&& G.G2D_LAYERCMD_PREMULT_GLOBALALPHA = 0)
    (hP : G.G2D_LAYERCMD_PREMULT_GLOBALALPHA ≠ 0) :
    (index = 0 →
      (prepareSource H G tbl tbl_len layer image cmd target_size index).2.2 G2DSFR_SRC_COMMAND &&&
        G.G2D_LAYERCMD_VALID = G.G2D_LAYERCMD_VALID ∧
      (prepareSource H G tbl tbl_len layer image cmd target_size index).2.2 G2DSFR_SRC_COMMAND &&&
        G.G2D_LAYERCMD_OPAQUE = G.G2D_LAYERCMD_OPAQUE ∧
      (prepareSource H G tbl tbl_len layer image cmd target_size index).2.2 G2DSFR_SRC_COMMAND &&&
        G.G2D_LAYERCMD_ALPHABLEND = 0 ∧
      ((prepareSource H G tbl tbl_len layer image cmd target_size index).2.2 G2DSFR_SRC_COMMAND &&&
        G.G2D_LAYERCMD_PREMULT_GLOBALALPHA = G.G2D_LAYERCMD_PREMULT_GLOBALALPHA ↔
        layer.getPlaneAlpha < 255)) ∧
    (0 < index →
      (prepareSource H G tbl tbl_len layer image cmd target_size index).2.2 G2DSFR_SRC_COMMAND =
        G.G2D_LAYERCMD_VALID ||| G.G2D_LAYERCMD_ALPHABLEND) := by
  have hc := prepareSource_command H G tbl tbl_len layer image cmd target_size index hok
  rw [hc, Nat.mod_eq_of_lt halpha]
  constructor
  · intro hi
    unfold commandOf
    rw [if_pos hi]
    by_cases ha : layer.getPlaneAlpha < 255
    · rw [if_pos ha]
      refine ⟨?_, ?_, ?_, ?_⟩
      · exact or3_and_first _ _ _
      · exact or3_and_second _ _ _
      · rw [and_or_distrib_right, and_or_distrib_right, hVA, hOA, hPA]
        rfl
      · rw [or_and_right_self]
        exact ⟨fun _ => ha, fun _ => rfl⟩
    · rw [if_neg ha]
      refine ⟨or_and_left_self _ _, or_and_right_self _ _, ?_, ?_⟩
      · rw [and_or_distrib_right, hVA, hOA]
        rfl
      · rw [and_or_distrib_right, hVP, hOP]
        constructor
        · intro h
          exact absurd h.symm hP
        · intro h
          exact absurd h ha
  · intro hi
    unfold commandOf
    rw [if_neg (by omega)]

/-- Witness of C9 on `sampleTop` (plane alpha 128) encoded with index 0: the
hypotheses hold and the command register carries the
premultiplied-global-alpha flag. -/
theorem prepareSource_bottom_layer_command_witness :
    (prepareSource sampleHal sampleG2D (halfmt_to_g2dfmt_tbl sampleHal sampleG2D false)
      (len_halfmt_to_g2dfmt_tbl sampleHal sampleG2D false) sampleTop sampleImage sampleCmd
      ⟨1920, 1080⟩ 0).1 = true ∧
    sampleTop.getPlaneAlpha < 256 ∧
    ((prepareSource sampleHal sampleG2D (halfmt_to_g2dfmt_tbl sampleHal sampleG2D false)
      (len_halfmt_to_g2dfmt_tbl sampleHal sampleG2D false) sampleTop sampleImage sampleCmd
      ⟨1920, 1080⟩ 0).2.2 G2DSFR_SRC_COMMAND &&& sampleG2D.G2D_LAYERCMD_PREMULT_GLOBALALPHA =
        sampleG2D.G2D_LAYERCMD_PREMULT_GLOBALALPHA ↔ sampleTop.getPlaneAlpha < 255) :=
  ⟨by decide, by decide,
    ((prepareSource_bottom_layer_command sampleHal sampleG2D
      (halfmt_to_g2dfmt_tbl sampleHal sampleG2D false)
      (len_halfmt_to_g2dfmt_tbl sampleHal sampleG2D false) sampleTop sampleImage sampleCmd
      ⟨1920, 1080⟩ 0 (by decide) (by decide) (by decide) (by decide) (by decide) (by decide)
      (by decide) (by decide)).1 rfl).2.2.2⟩

/-! ### The source-layer loop -/

theorem executeG2D_sourceStep_frame (H : HalHeader) (G : G2DHeader) (charIsSigned : Bool)
    (tbl : List g2d_fmt) (tbl_len : Nat) (dim : hw2d_coord_t) (baseidx k : Nat)
    (layer : AcrylicLayer) (st : EncodeState) (j : Nat) (hj : j ≠ baseidx + k) :
    (executeG2D_sourceStep H G charIsSigned tbl tbl_len dim baseidx k layer st).2.commands_source j
      = st.commands_source j := by
  unfold executeG2D_sourceStep
  simp only
  split
  · simp [Function.update_noteq hj]
  · split
    · simp [Function.update_noteq hj]
    · split <;> simp [Function.update_noteq hj]

theorem executeG2D_sourceStep_command (H : HalHeader) (G : G2DHeader) (charIsSigned : Bool)
    (tbl : List g2d_fmt) (tbl_len : Nat) (dim : hw2d_coord_t) (baseidx k : Nat)
    (layer : AcrylicLayer) (st : EncodeState)
    (hok : (executeG2D_sourceStep H G charIsSigned tbl tbl_len dim baseidx k layer st).1 = true) :
    (executeG2D_sourceStep H G charIsSigned tbl tbl_len dim baseidx k layer st).2.commands_source
        (baseidx + k) G2DSFR_SRC_COMMAND =
      commandOf G G.G2D_LAYERCMD_VALID (layer.getPlaneAlpha % 256) (k : Int) := by
  have hps : (prepareSource H G tbl tbl_len layer (st.source (baseidx + k))
      (st.commands_source (baseidx + k)) dim (k : Int)).1 = true := by
    unfold executeG2D_sourceStep at hok
    simp only at hok
    by_contra hne
    simp [hne] at hok
  have hc := prepareSource_command H G tbl tbl_len layer (st.source (baseidx + k))
    (st.commands_source (baseidx + k)) dim (k : Int) hps
  unfold executeG2D_sourceStep at hok ⊢
  simp only [hps, Bool.not_true, Bool.false_eq_true, if_false] at hok ⊢
  split
  · rename_i hcfg
    rw [hcfg] at hok
    simp at hok
  · split <;> simp [Function.update_same, Function.update_apply, hc]

theorem executeG2D_sourceLoop_frame (H : HalHeader) (G : G2DHeader) (charIsSigned : Bool)
    (tbl : List g2d_fmt) (tbl_len : Nat) (dim : hw2d_coord_t) (baseidx : Nat) :
    ∀ (layers : List AcrylicLayer) (k : Nat) (st : EncodeState) (j : Nat), j < baseidx + k →
    (executeG2D_sourceLoop H G charIsSigned tbl tbl_len dim baseidx k layers st).2.commands_source j
      = st.commands_source j
  | [], _, _, _, _ => rfl
  | layer :: rest, k, st, j, hj => by
    have hstep := executeG2D_sourceStep_frame H G charIsSigned tbl tbl_len dim baseidx k layer st j
      (by omega)
    unfold executeG2D_sourceLoop
    simp only
    split
    · exact hstep
    · rw [executeG2D_sourceLoop_frame H G charIsSigned tbl tbl_len dim baseidx rest (k + 1) _ j
        (by omega)]
      exact hstep

theorem executeG2D_sourceLoop_head (H : HalHeader) (G : G2DHeader) (charIsSigned : Bool)
    (tbl : List g2d_fmt) (tbl_len : Nat) (dim : hw2d_coord_t) (baseidx k : Nat)
    (layer : AcrylicLayer) (rest : List AcrylicLayer) (st : EncodeState)
    (hok : (executeG2D_sourceLoop H G charIsSigned tbl tbl_len dim baseidx k (layer :: rest)
      st).1 = true) :
    (executeG2D_sourceStep H G charIsSigned tbl tbl_len dim baseidx k layer st).1 = true ∧
    executeG2D_sourceLoop H G charIsSigned tbl tbl_len dim baseidx k (layer :: rest) st =
      executeG2D_sourceLoop H G charIsSigned tbl tbl_len dim baseidx (k + 1) rest
        (executeG2D_sourceStep H G charIsSigned tbl tbl_len dim baseidx k layer st).2 := by
  unfold executeG2D_sourceLoop at hok
  simp only at hok
  by_cases hs : (executeG2D_sourceStep H G charIsSigned tbl tbl_len dim baseidx k layer st).1 = true
  · refine ⟨hs, ?_⟩
    conv_lhs => unfold executeG2D_sourceLoop
    simp [hs]
  · simp [hs] at hok

theorem executeG2D_sourceLoop_command (H : HalHeader) (G : G2DHeader) (charIsSigned : Bool)
    (tbl : List g2d_fmt) (tbl_len : Nat) (dim : hw2d_coord_t) (baseidx : Nat) :
    ∀ (layers : List AcrylicLayer) (k : Nat) (st : EncodeState),
    (executeG2D_sourceLoop H G charIsSigned tbl tbl_len dim baseidx k layers st).1 = true →
    ∀ (n : Nat) (layer : AcrylicLayer), layers[n]? = some layer →
    (executeG2D_sourceLoop H G charIsSigned tbl tbl_len dim baseidx k layers
        st).2.commands_source (baseidx + (k + n)) G2DSFR_SRC_COMMAND =
      commandOf G G.G2D_LAYERCMD_VALID (layer.getPlaneAlpha % 256) ((k + n : Nat) : Int)
  | [], _, _, _, n, layer, hn => by simp at hn
  | l0 :: rest, k, st, hok, n, layer, hn => by
    obtain ⟨hs, heq⟩ := executeG2D_sourceLoop_head H G charIsSigned tbl tbl_len dim baseidx k l0
      rest st hok
    rw [heq] at hok ⊢
    cases n with
    | zero =>
      simp only [List.getElem?_cons_zero, Option.some.injEq] at hn
      subst hn
      rw [executeG2D_sourceLoop_frame H G charIsSigned tbl tbl_len dim baseidx rest (k + 1) _ _
        (by omega)]
      exact executeG2D_sourceStep_command H G charIsSigned tbl tbl_len dim baseidx k l0 st hs
    | succ n =>
      simp only [List.getElem?_cons_succ] at hn
      have ih := executeG2D_sourceLoop_command H G charIsSigned tbl tbl_len dim baseidx rest
        (k + 1) _ hok n layer hn
      have e : k + 1 + n = k + (n + 1) := by omega
      rw [e] at ih
      exact ih

/-- C10 (counterexample): on the sample constants, the source-layer loop of
`executeG2D` over the opaque RGBA bottom layer `sampleBottom` (plane alpha 255)
and the top layer `sampleTop` (plane alpha 128) succeeds, the bottom layer's
command register is `VALID | OPAQUE` and does not carry the
premultiplied-global-alpha flag; so it is not the case that the bottom layer
carries both flags and the top layer the alpha-blend flag.  The same value is
in the task that `executeG2D` hands to the device for the sample compositor
with these two layers. -/
theorem executeG2D_opaque_bottom_lacks_premult_globalalpha :
    (executeG2D_sourceLoop sampleHal sampleG2D true
      (halfmt_to_g2dfmt_tbl sampleHal sampleG2D false)
      (len_halfmt_to_g2dfmt_tbl sampleHal sampleG2D false) ⟨1920, 1080⟩ 0 0
      [sampleBottom, sampleTop] sampleEncodeState).1 = true ∧
    (executeG2D_sourceLoop sampleHal sampleG2D true
      (halfmt_to_g2dfmt_tbl sampleHal sampleG2D false)
      (len_halfmt_to_g2dfmt_tbl sampleHal sampleG2D false) ⟨1920, 1080⟩ 0 0
      [sampleBottom, sampleTop] sampleEncodeState).2.commands_source 0 G2DSFR_SRC_COMMAND =
        0x1020000 ∧
    ¬ ((executeG2D_sourceLoop sampleHal sampleG2D true
        (halfmt_to_g2dfmt_tbl sampleHal sampleG2D false)
        (len_halfmt_to_g2dfmt_tbl sampleHal sampleG2D false) ⟨1920, 1080⟩ 0 0
        [sampleBottom, sampleTop] sampleEncodeState).2.commands_source 0 G2DSFR_SRC_COMMAND &&&
          sampleG2D.G2D_LAYERCMD_OPAQUE = sampleG2D.G2D_LAYERCMD_OPAQUE ∧
      (executeG2D_sourceLoop sampleHal sampleG2D true
        (halfmt_to_g2dfmt_tbl sampleHal sampleG2D false)
        (len_halfmt_to_g2dfmt_tbl sampleHal sampleG2D false) ⟨1920, 1080⟩ 0 0
        [sampleBottom, sampleTop] sampleEncodeState).2.commands_source 0 G2DSFR_SRC_COMMAND &&&
          sampleG2D.G2D_LAYERCMD_PREMULT_GLOBALALPHA =
          sampleG2D.G2D_LAYERCMD_PREMULT_GLOBALALPHA ∧
      (executeG2D_sourceLoop sampleHal sampleG2D true
        (halfmt_to_g2dfmt_tbl sampleHal sampleG2D false)
        (len_halfmt_to_g2dfmt_tbl sampleHal sampleG2D false) ⟨1920, 1080⟩ 0 0
        [sampleBottom, sampleTop] sampleEncodeState).2.commands_source 1 G2DSFR_SRC_COMMAND &&&
          sampleG2D.G2D_LAYERCMD_ALPHABLEND = sampleG2D.G2D_LAYERCMD_ALPHABLEND) ∧
    sampleCompositor.mLayers = [sampleBottom, sampleTop] ∧
    sampleBottom.getPlaneAlpha = 255 ∧ sampleTop.getPlaneAlpha = 128 ∧
    (executeG2D sampleHal sampleG2D sampleTaskHeader sampleEnv sampleCompositor
      (fun _ => 0) 3 true).ok = true ∧
    (executeG2D sampleHal sampleG2D sampleTaskHeader sampleEnv sampleCompositor
      (fun _ => 0) 3 true).submitted.map (fun t => t.sourceRegs 0 G2DSFR_SRC_COMMAND) =
        some 0x1020000 ∧
    0x1020000 &&& sampleG2D.G2D_LAYERCMD_PREMULT_GLOBALALPHA ≠
      sampleG2D.G2D_LAYERCMD_PREMULT_GLOBALALPHA := by
  refine ⟨by decide, by decide, by decide, rfl, rfl, rfl, by decide, by decide, by decide⟩

theorem prepareImage_ok_iff (H : HalHeader) (G : G2DHeader) (tbl : List g2d_fmt) (tbl_len : Nat)
    (layer : AcrylicCanvas) (image : g2d_layer) (cmd : g2dsfr → Nat) (index : Int) :
    (prepareImage H G tbl tbl_len layer image cmd index).1 = true ↔
      ∃ e, halfmt_to_g2dfmt tbl tbl_len layer.getFormat = some e ∧
        (layer.getBufferType = memory_type.MT_EMPTY ∨ e.num_bufs ≤ layer.getBufferCount) := by
  unfold prepareImage
  cases hf : halfmt_to_g2dfmt tbl tbl_len layer.getFormat with
  | none => simp
  | some e =>
    simp only [Option.some.injEq, exists_eq_left']
    by_cases hb : layer.getBufferType ≠ memory_type.MT_EMPTY ∧ layer.getBufferCount < e.num_bufs
    · rw [if_pos hb]
      constructor
      · intro h
        exact absurd h (by simp)
      · rintro (h | h)
        · exact absurd h hb.1
        · omega
    · rw [if_neg hb]
      refine ⟨fun _ => ?_, fun _ => rfl⟩
      by_cases he : layer.getBufferType = memory_type.MT_EMPTY
      · exact Or.inl he
      · right
        have : ¬ layer.getBufferCount < e.num_bufs := fun h => hb ⟨he, h⟩
        omega

/-- C12 (counterexample): on the sample constants, the RGBA_8888 canvas
`sampleEmptyCanvas` has a format of the catalog (one plane required) and
supplies no buffer plane, its buffer type being `MT_EMPTY`; `prepareImage`
returns true for it, as target (index -1) and as source (index 0). -/
theorem prepareImage_empty_buffer_type_not_checked :
    (∃ e, halfmt_to_g2dfmt (halfmt_to_g2dfmt_tbl sampleHal sampleG2D false)
        (len_halfmt_to_g2dfmt_tbl sampleHal sampleG2D false) sampleEmptyCanvas.getFormat = some e ∧
      sampleEmptyCanvas.getBufferCount < e.num_bufs) ∧
    (prepareImage sampleHal sampleG2D (halfmt_to_g2dfmt_tbl sampleHal sampleG2D false)
      (len_halfmt_to_g2dfmt_tbl sampleHal sampleG2D false) sampleEmptyCanvas sampleImage sampleCmd
      (-1)).1 = true ∧
    (prepareImage sampleHal sampleG2D (halfmt_to_g2dfmt_tbl sampleHal sampleG2D false)
      (len_halfmt_to_g2dfmt_tbl sampleHal sampleG2D false) sampleEmptyCanvas sampleImage sampleCmd
      0).1 = true :=
  ⟨⟨⟨0x1, 0x03012, 1, 4⟩, by decide, by decide⟩, by decide, by decide⟩

/-- C12 (amended): for every layer, source or target, whose format is in the
catalog, whose buffer type is not `MT_EMPTY` (so `MT_DMABUF` or `MT_USERPTR`)
and which supplies fewer buffer planes than the format's plane count,
`prepareImage` returns false and leaves the command buffer untouched. -/
theorem prepareImage_too_few_buffers (H : HalHeader) (G : G2DHeader) (tbl : List g2d_fmt)
    (tbl_len : Nat) (layer : AcrylicCanvas) (image : g2d_layer) (cmd : g2dsfr → Nat)
    (index : Int) (e : g2d_fmt)
    (hfmt : halfmt_to_g2dfmt tbl tbl_len layer.getFormat = some e)
    (hty : layer.getBufferType ≠ memory_type.MT_EMPTY)
    (hcnt : layer.getBufferCount < e.num_bufs) :
    (prepareImage H G tbl tbl_len layer image cmd index).1 = false ∧
    (prepareImage H G tbl tbl_len layer image cmd index).2.2 = cmd := by
  unfold prepareImage
  simp only [hfmt]
  rw [if_pos ⟨hty, hcnt⟩]
  exact ⟨rfl, rfl⟩

/-- Witness of the amended C12 on `sampleShortCanvas` (two planes required, one
DMA buffer supplied). -/
theorem prepareImage_too_few_buffers_witness :
    halfmt_to_g2dfmt (halfmt_to_g2dfmt_tbl sampleHal sampleG2D false)
      (len_halfmt_to_g2dfmt_tbl sampleHal sampleG2D false) sampleShortCanvas.getFormat =
      some ⟨0x105, 0x80000, 2, 0⟩ ∧
    sampleShortCanvas.getBufferType ≠ memory_type.MT_EMPTY ∧
    sampleShortCanvas.getBufferCount < 2 ∧
    (prepareImage sampleHal sampleG2D (halfmt_to_g2dfmt_tbl sampleHal sampleG2D false)
      (len_halfmt_to_g2dfmt_tbl sampleHal sampleG2D false) sampleShortCanvas sampleImage sampleCmd
      0).1 = false :=
  ⟨by decide, by decide, by decide,
    (prepareImage_too_few_buffers sampleHal sampleG2D
      (halfmt_to_g2dfmt_tbl sampleHal sampleG2D false)
      (len_halfmt_to_g2dfmt_tbl sampleHal sampleG2D false) sampleShortCanvas sampleImage sampleCmd
      0 ⟨0x105, 0x80000, 2, 0⟩ (by decide) (by decide) (by decide)).1⟩

theorem foldl_update_range (f : Nat → g2d_reg) (start : Nat) :
    ∀ (n : Nat) (regs : Nat → g2d_reg),
    (List.range n).foldl (fun r idx => Function.update r (start + idx) (f idx)) regs =
      fun i => if start ≤ i ∧ i < start + n then f (i - start) else regs i
  | 0, regs => by
    funext i
    simp only [List.range_zero, List.foldl_nil]
    rw [if_neg (by omega)]
  | n + 1, regs => by
    rw [List.range_succ, List.foldl_append, foldl_update_range f start n regs]
    funext i
    simp only [List.foldl_cons, List.foldl_nil, Function.update_apply]
    by_cases h : i = start + n
    · subst h
      rw [if_pos rfl, if_pos (by omega)]
      congr 1
      omega
    · rw [if_neg h]
      by_cases h2 : start ≤ i ∧ i < start + n
      · rw [if_pos h2, if_pos (by omega)]
      · rw [if_neg h2, if_neg (by omega)]

theorem CSCMatrixWriter.writeSingle_eq (base : Nat) (regs : Nat → g2d_reg) (start : Nat)
    (matrix : List Nat) :
    CSCMatrixWriter.writeSingle base regs start matrix =
      fun i => if start ≤ i ∧ i < start + 9 then ⟨base + 4 * (i - start), matrix.getD (i - start) 0⟩
        else regs i := by
  unfold CSCMatrixWriter.writeSingle CSC_MATRIX_REGISTER_COUNT
  exact foldl_update_range (fun idx => ⟨base + 4 * idx, matrix.getD idx 0⟩) start 9 regs

theorem CSCMatrixWriter.configure_target (H : HalHeader) (G : G2DHeader) (charIsSigned : Bool)
    (w : CSCMatrixWriter) (g2dfmt dataspace command : Nat) :
    (w.configure H G charIsSigned g2dfmt dataspace command).2.1.mMatrixTargetIndex =
      w.mMatrixTargetIndex := by
  unfold CSCMatrixWriter.configure
  split
  · rfl
  · simp only
    split
    · rfl
    · split
      · rfl
      · split
        · rfl
        · split <;> rfl

theorem configureAll_target (H : HalHeader) (G : G2DHeader) (charIsSigned : Bool) :
    ∀ (calls : List (Nat × Nat × Nat)) (w : CSCMatrixWriter),
    (configureAll H G charIsSigned w calls).2.mMatrixTargetIndex = w.mMatrixTargetIndex
  | [], _ => rfl
  | c :: rest, w => by
    simp only [configureAll]
    rw [configureAll_target H G charIsSigned rest, CSCMatrixWriter.configure_target]

theorem reallocLayer_allocLoop_spec (alloc : AllocOracle) :
    ∀ (n i : Nat) (src : Nat → heap_ptr (g2dsfr → Nat)),
      match (reallocLayer_allocLoop alloc n i src).1 with
      | none =>
        (∀ k, i ≤ k → k < i + n → ∃ a, alloc.command k = some a) ∧
        (∀ k, (reallocLayer_allocLoop alloc n i src).2 k =
          if i ≤ k ∧ k < i + n then heap_ptr.live ((alloc.command k).getD 0) (fun _ => 0)
          else src k)
      | some j =>
        i ≤ j ∧ j < i + n ∧ alloc.command j = none ∧
        (∀ k, (reallocLayer_allocLoop alloc n i src).2 k =
          if i ≤ k ∧ k < j then heap_ptr.live ((alloc.command k).getD 0) (fun _ => 0)
          else if k = j then heap_ptr.null else src k) := by
  intro n
  induction n with
  | zero =>
    intro i src
    simp only [reallocLayer_allocLoop]
    refine ⟨fun k h1 h2 => by omega, fun k => ?_⟩
    rw [if_neg (by omega)]
  | succ n ih =>
    intro i src
    rw [reallocLayer_allocLoop]
    cases hc : alloc.command i with
    | none =>
      simp only
      refine ⟨le_refl _, by omega, hc, fun k => ?_⟩
      rw [if_neg (by omega)]
      by_cases hk : k = i
      · subst hk; simp
      · simp [hk]
    | some a =>
      simp only
      have h := ih (i + 1) (Function.update src i (heap_ptr.live a (fun _ => 0)))
      cases hr : (reallocLayer_allocLoop alloc n (i + 1)
          (Function.update src i (heap_ptr.live a (fun _ => 0)))).1 with
      | none =>
        rw [hr] at h
        simp only at h ⊢
        refine ⟨fun k h1 h2 => ?_, fun k => ?_⟩
        · by_cases hk : k = i
          · subst hk; exact ⟨a, hc⟩
          · exact h.1 k (by omega) (by omega)
        · rw [h.2 k]
          by_cases hk : k = i
          · subst hk
            rw [if_neg (by omega), if_pos (by omega)]
            simp [hc]
          · by_cases hin : i + 1 ≤ k ∧ k < i + 1 + n
            · rw [if_pos hin, if_pos (by omega)]
            · rw [if_neg hin, if_neg (by omega)]
              simp [hk]
      | some j =>
        rw [hr] at h
        simp only at h ⊢
        obtain ⟨h1, h2, h3, h4⟩ := h
        refine ⟨by omega, by omega, h3, fun k => ?_⟩
        rw [h4 k]
        by_cases hk : k = i
        · subst hk
          rw [if_neg (by omega : ¬(k + 1 ≤ k ∧ k < j)), if_neg (by omega : ¬k = j),
            if_pos (by omega : k ≤ k ∧ k < j)]
          simp [hc]
        · by_cases hin : i + 1 ≤ k ∧ k < j
          · rw [if_pos hin, if_pos (by omega : i ≤ k ∧ k < j)]
          · rw [if_neg hin, if_neg (by omega : ¬(i ≤ k ∧ k < j))]
            by_cases hj : k = j
            · rw [if_pos hj, if_pos hj]
            · rw [if_neg hj, if_neg hj]
              simp [hk]

theorem heap_ptr.nonNull_null {α : Type} : (heap_ptr.null : heap_ptr α).nonNull = false := rfl

theorem heap_ptr.nonNull_live {α : Type} (a : Nat) (v : α) :
    (heap_ptr.live a v).nonNull = true := rfl

theorem heap_ptr.eq_null_of_nonNull_false {α : Type} (p : heap_ptr α)
    (h : p.nonNull = false) : p = heap_ptr.null := by
  cases p <;> simp_all [heap_ptr.nonNull]

theorem reallocLayer_noop (alloc : AllocOracle) (c : AcrylicCompositorG2D9810) (n : Nat)
    (h : n ≤ c.mMaxSourceCount) : reallocLayer alloc c n = (true, c) := by
  unfold reallocLayer
  rw [if_pos h]

theorem reallocLayer_target_kept (alloc : AllocOracle) (c : AcrylicCompositorG2D9810) (n : Nat)
    (h : c.mTask.commands.target.nonNull = true) :
    (reallocLayer alloc c n).2.mTask.commands.target = c.mTask.commands.target := by
  unfold reallocLayer
  by_cases hn : c.mMaxSourceCount ≥ n
  · rw [if_pos hn]
  · rw [if_neg hn]
    simp only [h, if_true, Bool.not_true, Bool.false_eq_true, if_false]
    cases alloc.source with
    | none => rfl
    | some a =>
      simp only
      cases (reallocLayer_allocLoop alloc n 0 _).1 <;> rfl

theorem reallocLayer_success (alloc : AllocOracle) (c : AcrylicCompositorG2D9810) (n : Nat)
    (hn : c.mMaxSourceCount < n) (h : (reallocLayer alloc c n).1 = true) :
    (reallocLayer alloc c n).2.mMaxSourceCount = n ∧
    (∀ i, i < n → ∃ a, (reallocLayer alloc c n).2.mTask.commands.source i =
      heap_ptr.live a (fun _ => 0)) ∧
    (∀ i, n ≤ i → (reallocLayer alloc c n).2.mTask.commands.source i =
      c.mTask.commands.source i) ∧
    (∃ a, (reallocLayer alloc c n).2.mTask.source = heap_ptr.live a alloc.layers) ∧
    (reallocLayer alloc c n).2.mTask.commands.target.nonNull = true ∧
    (c.mTask.commands.target = heap_ptr.null →
      ∃ a, (reallocLayer alloc c n).2.mTask.commands.target = heap_ptr.live a (fun _ => 0)) := by
  unfold reallocLayer at h ⊢
  rw [if_neg (by omega)] at h ⊢
  by_cases ht : c.mTask.commands.target.nonNull = true
  · simp only [ht, if_true, Bool.not_true, Bool.false_eq_true, if_false] at h ⊢
    cases hs : alloc.source with
    | none => rw [hs] at h; simp at h
    | some a =>
      rw [hs] at h
      simp only at h ⊢
      have hl := reallocLayer_allocLoop_spec alloc n 0
        (fun i => if i < c.mMaxSourceCount then (c.mTask.commands.source i).delete
                 else c.mTask.commands.source i)
      cases hr : (reallocLayer_allocLoop alloc n 0
        (fun i => if i < c.mMaxSourceCount then (c.mTask.commands.source i).delete
                 else c.mTask.commands.source i)).1 with
      | some j => rw [hr] at h; simp at h
      | none =>
        rw [hr] at hl
        simp only at hl ⊢
        refine ⟨trivial, fun i hi => ?_, fun i hi => ?_, ⟨a, rfl⟩, ht, ?_⟩
        · rw [hl.2 i, if_pos (by omega)]; exact ⟨_, rfl⟩
        · rw [hl.2 i, if_neg (by omega), if_neg (by omega)]
        · intro h0; rw [h0] at ht; simp [heap_ptr.nonNull] at ht
  · have ht0 : c.mTask.commands.target.nonNull = false := by simpa using ht
    cases hta : alloc.target with
    | none =>
      simp only [ht0, hta, Bool.false_eq_true, if_false, heap_ptr.nonNull_null, Bool.not_false,
        if_true] at h
    | some b =>
      simp only [ht0, hta, Bool.false_eq_true, if_false, heap_ptr.nonNull_live, Bool.not_true]
        at h ⊢
      cases hs : alloc.source with
      | none => rw [hs] at h; simp at h
      | some a =>
        rw [hs] at h
        simp only at h ⊢
        have hl := reallocLayer_allocLoop_spec alloc n 0
          (fun i => if i < c.mMaxSourceCount then (c.mTask.commands.source i).delete
                   else c.mTask.commands.source i)
        cases hr : (reallocLayer_allocLoop alloc n 0
          (fun i => if i < c.mMaxSourceCount then (c.mTask.commands.source i).delete
                   else c.mTask.commands.source i)).1 with
        | some j => rw [hr] at h; simp at h
        | none =>
          rw [hr] at hl
          simp only at hl ⊢
          refine ⟨trivial, fun i hi => ?_, fun i hi => ?_, ⟨a, rfl⟩, rfl, fun _ => ⟨b, rfl⟩⟩
          · rw [hl.2 i, if_pos (by omega)]; exact ⟨_, rfl⟩
          · rw [hl.2 i, if_neg (by omega), if_neg (by omega)]

theorem heap_ptr.isLive_delete {α : Type} (p : heap_ptr α) : p.delete.isLive = false := by
  cases p <;> rfl

theorem reallocLayer_failure (alloc : AllocOracle) (c : AcrylicCompositorG2D9810) (n : Nat)
    (h : (reallocLayer alloc c n).1 = false) :
    c.mMaxSourceCount < n ∧
    ((alloc.target = none ∧ c.mTask.commands.target = heap_ptr.null ∧
        (reallocLayer alloc c n).2 = c) ∨
     ((reallocLayer alloc c n).2.mMaxSourceCount = 0 ∧
      (reallocLayer alloc c n).2.mTask.source = heap_ptr.null ∧
      (reallocLayer alloc c n).2.mTask.commands.target.nonNull = true ∧
      (c.mTask.commands.target.nonNull = true →
        (reallocLayer alloc c n).2.mTask.commands.target = c.mTask.commands.target) ∧
      (∀ i, ((reallocLayer alloc c n).2.mTask.commands.source i).isLive = true →
        c.mMaxSourceCount ≤ i ∧
        (reallocLayer alloc c n).2.mTask.commands.source i = c.mTask.commands.source i))) := by
  have hkeep := reallocLayer_target_kept alloc c n
  unfold reallocLayer at h hkeep ⊢
  by_cases hn : c.mMaxSourceCount ≥ n
  · rw [if_pos hn] at h; simp at h
  · rw [if_neg hn] at h hkeep ⊢
    refine ⟨by omega, ?_⟩
    have hfail : ∀ (t : heap_ptr (g2dsfr → Nat)),
        ∀ i, (if i < c.mMaxSourceCount then (c.mTask.commands.source i).delete
              else c.mTask.commands.source i).isLive = true →
          c.mMaxSourceCount ≤ i ∧
          (if i < c.mMaxSourceCount then (c.mTask.commands.source i).delete
              else c.mTask.commands.source i) = c.mTask.commands.source i := by
      intro _ i hi
      by_cases hc : i < c.mMaxSourceCount
      · rw [if_pos hc, heap_ptr.isLive_delete] at hi; simp at hi
      · rw [if_neg hc]; exact ⟨by omega, rfl⟩
    have hloop : ∀ (t : heap_ptr (g2dsfr → Nat)) (j : Nat),
        (reallocLayer_allocLoop alloc n 0
          (fun i => if i < c.mMaxSourceCount then (c.mTask.commands.source i).delete
                   else c.mTask.commands.source i)).1 = some j →
        ∀ i, (if i < j then ((reallocLayer_allocLoop alloc n 0
          (fun i => if i < c.mMaxSourceCount then (c.mTask.commands.source i).delete
                   else c.mTask.commands.source i)).2 i).delete
            else (reallocLayer_allocLoop alloc n 0
          (fun i => if i < c.mMaxSourceCount then (c.mTask.commands.source i).delete
                   else c.mTask.commands.source i)).2 i).isLive = true →
          c.mMaxSourceCount ≤ i ∧
          (if i < j then ((reallocLayer_allocLoop alloc n 0
          (fun i => if i < c.mMaxSourceCount then (c.mTask.commands.source i).delete
                   else c.mTask.commands.source i)).2 i).delete
            else (reallocLayer_allocLoop alloc n 0
          (fun i => if i < c.mMaxSourceCount then (c.mTask.commands.source i).delete
                   else c.mTask.commands.source i)).2 i) = c.mTask.commands.source i := by
      intro _ j hj i hi
      have hl := reallocLayer_allocLoop_spec alloc n 0
        (fun i => if i < c.mMaxSourceCount then (c.mTask.commands.source i).delete
                 else c.mTask.commands.source i)
      rw [hj] at hl
      simp only at hl
      by_cases hc : i < j
      · rw [if_pos hc, heap_ptr.isLive_delete] at hi; simp at hi
      · rw [if_neg hc] at hi ⊢
        rw [hl.2.2.2 i] at hi ⊢
        rw [if_neg (by omega)] at hi ⊢
        by_cases hij : i = j
        · rw [if_pos hij] at hi; simp [heap_ptr.isLive] at hi
        · rw [if_neg hij] at hi ⊢
          exact hfail heap_ptr.null i hi
    by_cases ht : c.mTask.commands.target.nonNull = true
    · right
      simp only [ht, if_true, Bool.not_true, Bool.false_eq_true, if_false] at h ⊢
      cases hs : alloc.source with
      | none =>
        simp only
        (refine ⟨?_, ?_, ?_, ?_, ?_⟩ <;> first | rfl | trivial | exact ht | exact hfail heap_ptr.null)
      | some a =>
        rw [hs] at h
        simp only at h ⊢
        cases hr : (reallocLayer_allocLoop alloc n 0
          (fun i => if i < c.mMaxSourceCount then (c.mTask.commands.source i).delete
                   else c.mTask.commands.source i)).1 with
        | none => rw [hr] at h; simp at h
        | some j =>
          simp only
          (refine ⟨?_, ?_, ?_, ?_, ?_⟩ <;> first | rfl | trivial | exact ht | exact hloop heap_ptr.null j hr)
    · have ht0 : c.mTask.commands.target.nonNull = false := by simpa using ht
      have hnull := heap_ptr.eq_null_of_nonNull_false _ ht0
      cases hta : alloc.target with
      | none =>
        left
        refine ⟨rfl, hnull, ?_⟩
        simp only [ht0, Bool.false_eq_true, if_false, heap_ptr.nonNull_null, Bool.not_false,
          if_true]
        cases c with
        | mk a1 a2 a3 a4 a5 a6 task a8 a9 a10 a11 a12 =>
          cases task with
          | mk b1 b2 b3 b4 b5 b6 b7 cmd =>
            cases cmd with
            | mk t1 t2 t3 t4 =>
              simp only at hnull
              rw [hnull]
      | some b =>
        right
        simp only [ht0, hta, Bool.false_eq_true, if_false, heap_ptr.nonNull_live, Bool.not_true]
          at h ⊢
        cases hs : alloc.source with
        | none =>
          simp only
          (refine ⟨?_, ?_, ?_, ?_, ?_⟩ <;> first | rfl | trivial | (intro hh; exact hh.elim) | exact hfail heap_ptr.null)
        | some a =>
          rw [hs] at h
          simp only at h ⊢
          cases hr : (reallocLayer_allocLoop alloc n 0
            (fun i => if i < c.mMaxSourceCount then (c.mTask.commands.source i).delete
                     else c.mTask.commands.source i)).1 with
          | none => rw [hr] at h; simp at h
          | some j =>
            simp only
            (refine ⟨?_, ?_, ?_, ?_, ?_⟩ <;> first | rfl | trivial | (intro hh; exact hh.elim) | exact hloop heap_ptr.null j hr)

theorem reallocLayer_capacity (alloc : AllocOracle) (c : AcrylicCompositorG2D9810) (n : Nat)
    (h : (reallocLayer alloc c n).1 = true) :
    (reallocLayer alloc c n).2.mMaxSourceCount = max c.mMaxSourceCount n := by
  by_cases hn : n ≤ c.mMaxSourceCount
  · rw [reallocLayer_noop alloc c n hn]; simp [hn]
  · rw [(reallocLayer_success alloc c n (by omega) h).1]; omega

theorem reallocLayer_calls_capacity :
    ∀ (calls : List (AllocOracle × Nat)) (c : AcrylicCompositorG2D9810),
      (reallocLayer_calls c calls).1 = true →
      (reallocLayer_calls c calls).2.mMaxSourceCount =
        (calls.map Prod.snd).foldl max c.mMaxSourceCount
  | [], c, _ => rfl
  | (alloc, n) :: rest, c, h => by
    simp only [reallocLayer_calls] at h ⊢
    by_cases hr : (reallocLayer alloc c n).1 = true
    · rw [if_pos hr] at h ⊢
      rw [reallocLayer_calls_capacity rest _ h, reallocLayer_capacity alloc c n hr]
      rfl
    · rw [if_neg hr] at h; simp at h

theorem le_foldl_max (l : List Nat) : ∀ (a : Nat), a ≤ l.foldl max a := by
  induction l with
  | nil => intro a; exact le_refl a
  | cons x xs ih => intro a; exact le_trans (le_max_left a x) (ih (max a x))

theorem reallocLayer_calls_target :
    ∀ (calls : List (AllocOracle × Nat)) (c : AcrylicCompositorG2D9810),
      c.mTask.commands.target.nonNull = true →
      (reallocLayer_calls c calls).2.mTask.commands.target = c.mTask.commands.target
  | [], c, _ => rfl
  | (alloc, n) :: rest, c, h => by
    simp only [reallocLayer_calls]
    have hk := reallocLayer_target_kept alloc c n h
    by_cases hr : (reallocLayer alloc c n).1 = true
    · rw [if_pos hr, reallocLayer_calls_target rest _ (by rw [hk]; exact h), hk]
    · rw [if_neg hr]; exact hk

/-- Claim C15: `reallocLayer` only grows.  A call whose layer count does not
exceed the capacity `mMaxSourceCount` returns `true` and leaves the object as it
is; a successful call with a larger count `n` makes the capacity `n`, with a new
descriptor array and `n` zero-filled per-layer register arrays (and a target
register array, zero-filled if it had to be allocated); after every run of
successful calls the capacity is the largest count requested so far (at least
the initial capacity), so it never decreases; and a target register array that
exists is never replaced by a later call, whatever that call returns. -/
theorem reallocLayer_grows_only (c : AcrylicCompositorG2D9810) :
    (∀ alloc n, n ≤ c.mMaxSourceCount → reallocLayer alloc c n = (true, c)) ∧
    (∀ alloc n, c.mMaxSourceCount < n → (reallocLayer alloc c n).1 = true →
      (reallocLayer alloc c n).2.mMaxSourceCount = n ∧
      (∀ i, i < n → ∃ a, (reallocLayer alloc c n).2.mTask.commands.source i =
        heap_ptr.live a (fun _ => 0)) ∧
      (∃ a, (reallocLayer alloc c n).2.mTask.source = heap_ptr.live a alloc.layers) ∧
      (reallocLayer alloc c n).2.mTask.commands.target.nonNull = true ∧
      (c.mTask.commands.target = heap_ptr.null →
        ∃ a, (reallocLayer alloc c n).2.mTask.commands.target = heap_ptr.live a (fun _ => 0))) ∧
    (∀ calls, (reallocLayer_calls c calls).1 = true →
      (reallocLayer_calls c calls).2.mMaxSourceCount =
        (calls.map Prod.snd).foldl max c.mMaxSourceCount ∧
      c.mMaxSourceCount ≤ (reallocLayer_calls c calls).2.mMaxSourceCount) ∧
    (∀ calls, c.mTask.commands.target.nonNull = true →
      (reallocLayer_calls c calls).2.mTask.commands.target = c.mTask.commands.target) := by
  refine ⟨fun alloc n h => reallocLayer_noop alloc c n h, fun alloc n hn h => ?_,
    fun calls h => ?_, fun calls h => reallocLayer_calls_target calls c h⟩
  · have hs := reallocLayer_success alloc c n hn h
    exact ⟨hs.1, hs.2.1, hs.2.2.2.1, hs.2.2.2.2.1, hs.2.2.2.2.2⟩
  · rw [reallocLayer_calls_capacity calls c h]
    exact ⟨rfl, le_foldl_max _ _⟩

/-- Witness for C15: on the fresh sample compositor the calls for 2, 1 and 3
layers all succeed and leave the capacity 3. -/
theorem reallocLayer_grows_only_witness :
    (reallocLayer_calls sampleCompositor
      [(sampleAlloc, 2), (sampleAlloc, 1), (sampleAlloc, 3)]).1 = true ∧
    (reallocLayer_calls sampleCompositor
      [(sampleAlloc, 2), (sampleAlloc, 1), (sampleAlloc, 3)]).2.mMaxSourceCount = 3 :=
  ⟨by decide,
   ((reallocLayer_grows_only sampleCompositor).2.2.1
      [(sampleAlloc, 2), (sampleAlloc, 1), (sampleAlloc, 3)] (by decide)).1.trans (by decide)⟩

theorem toU64_of_nonneg (x : Int) (h : 0 ≤ x) : toU64 x = x.toNat % 2 ^ 64 := by
  unfold toU64
  have h64 : (2 : Int) ^ 64 = 18446744073709551616 := by norm_num
  have h64n : (2 : Nat) ^ 64 = 18446744073709551616 := by norm_num
  rw [h64, h64n]
  omega

theorem toNat_mul_of_nonneg (a b : Int) (ha : 0 ≤ a) (hb : 0 ≤ b) :
    (a * b).toNat = a.toNat * b.toNat := by
  obtain ⟨x, rfl⟩ := Int.eq_ofNat_of_zero_le ha
  obtain ⟨y, rfl⟩ := Int.eq_ofNat_of_zero_le hb
  rw [← Int.natCast_mul]
  simp only [Int.toNat_natCast]

theorem requestPerformanceQoS_layers_flags (H : HalHeader) (P : G2DPerfHeader) :
    ∀ (layers : List AcrylicPerformanceRequestLayer) (st : PerfLoop),
      (requestPerformanceQoS_layers H P layers st).src_yuv420 =
        (st.src_yuv420 || layers.any (fun l => (requestPerformanceQoS_layer H P l).src_yuv420)) ∧
      (requestPerformanceQoS_layers H P layers st).src_rotate =
        (st.src_rotate || layers.any (fun l => (requestPerformanceQoS_layer H P l).src_rotate))
  | [], st => by simp [requestPerformanceQoS_layers]
  | l :: rest, st => by
    have ih := requestPerformanceQoS_layers_flags H P rest
      { bandwidth := u64 (st.bandwidth + (requestPerformanceQoS_layer H P l).layer_bw),
        src_yuv420 := st.src_yuv420 || (requestPerformanceQoS_layer H P l).src_yuv420,
        src_rotate := st.src_rotate || (requestPerformanceQoS_layer H P l).src_rotate,
        layer := st.layer ++ [(requestPerformanceQoS_layer H P l).data] }
    simp only [requestPerformanceQoS_layers, List.foldl_cons, List.any_cons] at ih ⊢
    rw [ih.1, ih.2]
    simp [Bool.or_assoc]

theorem requestPerformanceQoS_layer_flags (H : HalHeader) (P : G2DPerfHeader)
    (l : AcrylicPerformanceRequestLayer) :
    (requestPerformanceQoS_layer H P l).src_yuv420 =
      decide (u32 (P.halfmt_bpp l.mPixFormat) = 12 ∨ u32 (P.halfmt_bpp l.mPixFormat) = 15) ∧
    (requestPerformanceQoS_layer H P l).src_rotate =
      decide (l.mTransform &&& H.HAL_TRANSFORM_ROT_90 ≠ 0) := ⟨rfl, rfl⟩

/-- Claim C19 (defect): the layer whose 100x50 source is shown unrotated in a
50x100 window has source extents different from its target extents, yet
`requestPerformanceQoS` gives it the weight 16 (bandwidth
`max(100*50, 50*100) * 32 * 16`) and no scaling attribute, because the two
differences `100 - 50` and `50 - 100` that the code adds cancel. -/
theorem requestPerformanceQoS_cancelling_differences :
    sampleCrossScaledLayer.mSourceRect.size ≠ sampleCrossScaledLayer.mTargetRect.size ∧
    sampleCrossScaledLayer.mTransform &&& sampleHal.HAL_TRANSFORM_ROT_90 = 0 ∧
    (requestPerformanceQoS_layer sampleHal samplePerf sampleCrossScaledLayer).layer_bw =
      max (100 * 50) (50 * 100) * 32 * 16 ∧
    (requestPerformanceQoS_layer sampleHal samplePerf sampleCrossScaledLayer).data.layer_attr &&&
      samplePerf.G2D_PERF_LAYER_SCALING = 0 := by
  decide

/-- Counterexample to C20: the frame has a source layer that is semi-planar YUV
(12 bits per pixel) and rotated by 90 degrees, but its target is RGBA (32 bits
per pixel); the write bandwidth is `(1920 * 1080 * 60 * 32) >> 13`, not `>> 12`. -/
theorem requestPerformanceQoS_rgb_target_keeps_divisor :
    (requestPerformanceQoS_layer sampleHal samplePerf sampleRotatedNV12Layer).src_yuv420 = true ∧
    (requestPerformanceQoS_layer sampleHal samplePerf sampleRotatedNV12Layer).src_rotate = true ∧
    (requestPerformanceQoS_frame sampleHal samplePerf sampleRgbTargetFrame).bandwidth_write =
      (1920 * 1080 * 60 * 32) >>> 13 ∧
    (requestPerformanceQoS_frame sampleHal samplePerf sampleRgbTargetFrame).bandwidth_write ≠
      (1920 * 1080 * 60 * 32) >>> 12 := by
  decide

/-- Claim C20 (amended): for a frame whose target extents and frame rate are not
negative and whose product `width * height * frame rate * bpp` fits in 64 bits,
`bandwidth_write` is that product shifted right by 13 and truncated to 32 bits;
the shift is 12 instead exactly when the target format has 12 bits per pixel
and some layer of the frame has 12 or 15 bits per pixel and some layer of the
frame (possibly another one) has the `ROT_90` bit in its transform. -/
theorem requestPerformanceQoS_bandwidth_write (H : HalHeader) (P : G2DPerfHeader)
    (frame : AcrylicPerformanceRequestFrame)
    (hh : 0 ≤ frame.mTargetDimension.hori) (hv : 0 ≤ frame.mTargetDimension.vert)
    (hf : 0 ≤ frame.mFrameRate)
    (hfit : frame.mTargetDimension.hori.toNat * frame.mTargetDimension.vert.toNat *
      frame.mFrameRate.toNat * u32 (P.halfmt_bpp frame.mTargetPixFormat) < 2 ^ 64) :
    (requestPerformanceQoS_frame H P frame).bandwidth_write =
      ((frame.mTargetDimension.hori.toNat * frame.mTargetDimension.vert.toNat *
          frame.mFrameRate.toNat * u32 (P.halfmt_bpp frame.mTargetPixFormat)) >>>
        (if u32 (P.halfmt_bpp frame.mTargetPixFormat) = 12 ∧
            frame.mLayers.any (fun l =>
              decide (u32 (P.halfmt_bpp l.mPixFormat) = 12 ∨
                u32 (P.halfmt_bpp l.mPixFormat) = 15)) = true ∧
            frame.mLayers.any (fun l =>
              decide (l.mTransform &&& H.HAL_TRANSFORM_ROT_90 ≠ 0)) = true
         then 12 else 13)) % 2 ^ 32 := by
  have hfl := requestPerformanceQoS_layers_flags H P frame.mLayers
    { bandwidth := 0, src_yuv420 := false, src_rotate := false, layer := [] }
  simp only [Bool.false_or] at hfl
  have hprod : toU64 (frame.mTargetDimension.hori * frame.mTargetDimension.vert) =
      (frame.mTargetDimension.hori.toNat * frame.mTargetDimension.vert.toNat) % 2 ^ 64 := by
    rw [toU64_of_nonneg _ (mul_nonneg hh hv), toNat_mul_of_nonneg _ _ hh hv]
  have hmod : u64 (toU64 (frame.mTargetDimension.hori * frame.mTargetDimension.vert) *
      u64 (toU64 frame.mFrameRate * u32 (P.halfmt_bpp frame.mTargetPixFormat))) =
      frame.mTargetDimension.hori.toNat * frame.mTargetDimension.vert.toNat *
        frame.mFrameRate.toNat * u32 (P.halfmt_bpp frame.mTargetPixFormat) := by
    rw [hprod, toU64_of_nonneg _ hf]
    unfold u64
    rw [← Nat.mod_eq_of_lt hfit]
    conv_rhs => rw [Nat.mul_assoc, Nat.mul_mod]
    conv_lhs => rw [Nat.mul_mod, Nat.mod_mod, Nat.mod_mod]
    congr 2
    rw [Nat.mul_mod, Nat.mod_mod, ← Nat.mul_mod]
  unfold requestPerformanceQoS_frame
  simp only [u32] at hmod ⊢
  rw [hfl.1, hfl.2, hmod]
  rfl

/-- Witness for C20: the sample frame with an NV12 target and a rotated NV12
layer uses the shift 12. -/
theorem requestPerformanceQoS_bandwidth_write_witness :
    (requestPerformanceQoS_frame sampleHal samplePerf sampleYuvTargetFrame).bandwidth_write =
      (1920 * 1080 * 60 * 12) >>> 12 :=
  (requestPerformanceQoS_bandwidth_write sampleHal samplePerf sampleYuvTargetFrame
    (by decide) (by decide) (by decide) (by decide)).trans (by decide)

theorem reallocLayer_sameSettings (alloc : AllocOracle) (c : AcrylicCompositorG2D9810) (n : Nat) :
    (reallocLayer alloc c n).2.sameSettings c := by
  unfold reallocLayer AcrylicCompositorG2D9810.sameSettings
  by_cases hn : c.mMaxSourceCount ≥ n
  · rw [if_pos hn]; simp
  · rw [if_neg hn]
    simp only
    split_ifs
    · simp
    · cases alloc.source with
      | none => simp
      | some a =>
        simp only
        cases (reallocLayer_allocLoop alloc n 0 _).1 <;> simp
    · simp
    · cases alloc.source with
      | none => simp
      | some a =>
        simp only
        cases (reallocLayer_allocLoop alloc n 0 _).1 <;> simp

theorem executeG2D_setup_settings (G : G2DHeader) (env : ExecEnv) (c : AcrylicCompositorG2D9810)
    (fence : Nat → Int) (num_fences : Nat) :
    (executeG2D_setup G env c fence num_fences).self.mCanvas = c.mCanvas ∧
    (executeG2D_setup G env c fence num_fences).self.mVersion = c.mVersion ∧
    (executeG2D_setup G env c fence num_fences).self.halfmt_to_g2dfmt_tbl =
      c.halfmt_to_g2dfmt_tbl ∧
    (executeG2D_setup G env c fence num_fences).self.len_halfmt_to_g2dfmt_tbl =
      c.len_halfmt_to_g2dfmt_tbl ∧
    ((executeG2D_setup G env c fence num_fences).ok = true →
      (executeG2D_setup G env c fence num_fences).self.mLayers = env.sortLayers c.mLayers) ∧
    ((executeG2D_setup G env c fence num_fences).ok = false →
      (executeG2D_setup G env c fence num_fences).self.mLayers = c.mLayers) ∧
    (env.validateAllLayers c = true →
      (executeG2D_setup G env c fence num_fences).fence =
        fun i => if c.mLayers.length ≤ i ∧ i < num_fences then -1 else fence i) ∧
    (env.validateAllLayers c = true →
      (executeG2D_setup G env c fence num_fences).num_fences =
        if num_fences > c.mLayers.length + 1 then c.mLayers.length + 1 else num_fences) ∧
    (executeG2D_setup G env c fence num_fences).hasBackground = executeG2D_hasBackground G c ∧
    ((executeG2D_setup G env c fence num_fences).ok = true →
      (executeG2D_setup G env c fence num_fences).layercount =
        if executeG2D_hasBackground G c then c.mLayers.length + 1 else c.mLayers.length) := by
  have hs := reallocLayer_sameSettings env.alloc c
    (if executeG2D_hasBackground G c then c.mLayers.length + 1 else c.mLayers.length)
  unfold AcrylicCompositorG2D9810.sameSettings at hs
  unfold executeG2D_setup
  simp only
  generalize reallocLayer env.alloc c
    (if executeG2D_hasBackground G c then c.mLayers.length + 1 else c.mLayers.length) = r at hs ⊢
  obtain ⟨h1, h2, _, _, _, h6, h7, h8, _, _⟩ := hs
  by_cases hv : env.validateAllLayers c = true
  · simp only [hv, Bool.not_true, Bool.false_eq_true, if_false, true_implies]
    by_cases hb : (executeG2D_hasBackground G c &&
        decide ((if executeG2D_hasBackground G c then c.mLayers.length + 1 else c.mLayers.length) >
          c.maxLayerCount)) = true
    · rw [if_pos hb]; simp
    · rw [if_neg hb]
      by_cases hr : r.1 = true
      · simp [hr, h1, h2, h6, h7, h8]
      · have hr0 : r.1 = false := by simpa using hr
        simp [hr0, h1, h2, h6, h7, h8]
  · have hv0 : env.validateAllLayers c = false := by simpa using hv
    simp [hv0]

theorem executeG2D_encode_settings (H : HalHeader) (G : G2DHeader) (T : G2DTaskHeader)
    (env : ExecEnv) (s : ExecSetup) :
    (executeG2D_encode H G T env s).self.mCanvas = s.self.mCanvas ∧
    (executeG2D_encode H G T env s).self.mLayers = s.self.mLayers ∧
    (executeG2D_encode H G T env s).self.mVersion = s.self.mVersion := by
  unfold executeG2D_encode
  simp only
  split_ifs <;> exact ⟨rfl, rfl, rfl⟩

theorem executeG2D_finish_settings (G : G2DHeader) (T : G2DTaskHeader) (env : ExecEnv)
    (c : AcrylicCompositorG2D9810) (w : CSCMatrixWriter) (layer_premult layercount num_fences : Nat)
    (nonblocking : Bool) :
    (executeG2D_finish G T env c w layer_premult layercount num_fences nonblocking).mCanvas =
      c.mCanvas ∧
    (executeG2D_finish G T env c w layer_premult layercount num_fences nonblocking).mLayers =
      c.mLayers ∧
    (executeG2D_finish G T env c w layer_premult layercount num_fences nonblocking).mVersion =
      c.mVersion := ⟨rfl, rfl, rfl⟩

theorem ioctlG2D_settings (env : ExecEnv) (c : AcrylicCompositorG2D9810) :
    (ioctlG2D env c).self.mCanvas = c.mCanvas ∧ (ioctlG2D env c).self.mLayers = c.mLayers := by
  unfold ioctlG2D
  simp only
  split_ifs <;> exact ⟨rfl, rfl⟩

theorem ioctlG2D_response (env : ExecEnv) (c : AcrylicCompositorG2D9810)
    (h : 0 ≤ (env.ioctl (decide (c.mVersion ≠ 1)) (ioctlG2D env c).submitted).ret) :
    (ioctlG2D env c).ret = 0 ∧
    (ioctlG2D env c).self.mTask.flags =
      (env.ioctl (decide (c.mVersion ≠ 1)) (ioctlG2D env c).submitted).flags := by
  unfold ioctlG2D at h ⊢
  by_cases hv : c.mVersion = 1
  · simp only [hv, if_true, ne_eq, not_true_eq_false, decide_False] at h ⊢
    by_cases hr : (env.ioctl false c.mTask).ret < 0
    · rw [if_pos hr] at h
      simp only at h
      omega
    · rw [if_neg hr]
      exact ⟨rfl, rfl⟩
  · simp only [hv, if_false, ne_eq, not_false_eq_true, decide_True] at h ⊢
    split_ifs at h ⊢ with hr
    · simp only at h
      omega
    · exact ⟨rfl, rfl⟩

theorem executeG2D_settings (H : HalHeader) (G : G2DHeader) (T : G2DTaskHeader) (env : ExecEnv)
    (c : AcrylicCompositorG2D9810) (fence : Nat → Int) (num_fences : Nat) (nonblocking : Bool)
    (h : (executeG2D H G T env c fence num_fences nonblocking).ok = false) :
    (executeG2D H G T env c fence num_fences nonblocking).self.mCanvas = c.mCanvas ∧
    ((executeG2D H G T env c fence num_fences nonblocking).self.mLayers = c.mLayers ∨
     (executeG2D H G T env c fence num_fences nonblocking).self.mLayers =
       env.sortLayers c.mLayers) := by
  have hs := executeG2D_setup_settings G env c fence num_fences
  have he := executeG2D_encode_settings H G T env (executeG2D_setup G env c fence num_fences)
  unfold executeG2D at h ⊢
  simp only at h ⊢
  by_cases hok : (executeG2D_setup G env c fence num_fences).ok = true
  · simp only [hok, Bool.not_true, Bool.false_eq_true, if_false] at h ⊢
    have hsort := hs.2.2.2.2.1 hok
    revert h
    cases hl : (executeG2D_encode H G T env (executeG2D_setup G env c fence num_fences)).locals with
    | none =>
      intro _
      simp only
      exact ⟨he.1.trans hs.1, Or.inr (he.2.1.trans hsort)⟩
    | some wl =>
      intro h
      simp only at h ⊢
      have hio := ioctlG2D_settings env
        (executeG2D_finish G T env
          (executeG2D_encode H G T env (executeG2D_setup G env c fence num_fences)).self
          wl.1 wl.2 (executeG2D_setup G env c fence num_fences).layercount
          (executeG2D_setup G env c fence num_fences).num_fences nonblocking)
      split_ifs at h ⊢
      · exact ⟨hio.1.trans (he.1.trans hs.1), Or.inr (hio.2.trans (he.2.1.trans hsort))⟩
      · exact ⟨hio.1.trans (he.1.trans hs.1), Or.inr (hio.2.trans (he.2.1.trans hsort))⟩
  · have hok0 : (executeG2D_setup G env c fence num_fences).ok = false := by simpa using hok
    simp only [hok0, Bool.not_false, if_true]
    exact ⟨hs.1, Or.inl (hs.2.2.2.2.2.1 hok0)⟩

theorem execute_clearFences_spec (c r : AcrylicCompositorG2D9810) (sorted : List AcrylicLayer)
    (hc : r.mCanvas = c.mCanvas) (hl : r.mLayers = c.mLayers ∨ r.mLayers = sorted) :
    (execute_clearFences r).mCanvas = c.mCanvas.setFence (-1) ∧
    (∃ ls, (ls = c.mLayers ∨ ls = sorted) ∧
      (execute_clearFences r).mLayers = ls.map (fun l => l.setFence (-1))) ∧
    (execute_clearFences r).mCanvas.getFence = -1 ∧
    (∀ l ∈ (execute_clearFences r).mLayers, l.getFence = -1) := by
  refine ⟨by simp [execute_clearFences, hc], ⟨r.mLayers, hl, rfl⟩, rfl, ?_⟩
  intro l hl
  simp only [execute_clearFences, List.mem_map] at hl
  obtain ⟨l0, _, rfl⟩ := hl
  rfl

theorem executeG2D_setup_validated (G : G2DHeader) (env : ExecEnv)
    (c : AcrylicCompositorG2D9810) (fence : Nat → Int) (num_fences : Nat)
    (h : (executeG2D_setup G env c fence num_fences).ok = true) :
    env.validateAllLayers c = true ∧
    ¬(executeG2D_hasBackground G c = true ∧ c.maxLayerCount < c.mLayers.length + 1) := by
  unfold executeG2D_setup at h
  by_cases hv : env.validateAllLayers c = true
  · refine ⟨hv, ?_⟩
    rintro ⟨hb, hm⟩
    simp [hv, hb, hm] at h
  · have hv0 : env.validateAllLayers c = false := by simpa using hv
    simp [hv0] at h

theorem executeG2D_not_submitted (H : HalHeader) (G : G2DHeader) (T : G2DTaskHeader)
    (env : ExecEnv) (c : AcrylicCompositorG2D9810) (fence : Nat → Int) (num_fences : Nat)
    (nonblocking : Bool)
    (h : (executeG2D_setup G env c fence num_fences).ok = true →
      (executeG2D_encode H G T env (executeG2D_setup G env c fence num_fences)).locals = none) :
    (executeG2D H G T env c fence num_fences nonblocking).ok = false ∧
    (executeG2D H G T env c fence num_fences nonblocking).submitted = none := by
  unfold executeG2D
  simp only
  by_cases hok : (executeG2D_setup G env c fence num_fences).ok = true
  · simp only [hok, Bool.not_true, Bool.false_eq_true, if_false]
    rw [h hok]
    exact ⟨rfl, rfl⟩
  · have hok0 : (executeG2D_setup G env c fence num_fences).ok = false := by simpa using hok
    simp only [hok0, Bool.not_false, if_true]
    exact ⟨trivial, trivial⟩

theorem executeG2D_encode_none (H : HalHeader) (G : G2DHeader) (T : G2DTaskHeader)
    (env : ExecEnv) (s : ExecSetup)
    (h : (executeG2D_target H G s.self).1 = false ∨
      (executeG2D_sources H G T env s (executeG2D_target H G s.self).2).1 = false) :
    (executeG2D_encode H G T env s).locals = none := by
  unfold executeG2D_encode
  simp only
  by_cases ht : (executeG2D_target H G s.self).1 = true
  · simp only [ht, Bool.not_true, Bool.false_eq_true, if_false]
    rcases h with h | h
    · rw [ht] at h; exact absurd h (by simp)
    · simp only [h, Bool.not_false, if_true]
  · have ht0 : (executeG2D_target H G s.self).1 = false := by simpa using ht
    simp only [ht0, Bool.not_false, if_true]

theorem executeG2D_sourceStep_fails (H : HalHeader) (G : G2DHeader) (charIsSigned : Bool)
    (tbl : List g2d_fmt) (tbl_len : Nat) (dim : hw2d_coord_t) (baseidx k : Nat)
    (layer : AcrylicLayer) (st : EncodeState)
    (h : ∀ image cmd index, (prepareSource H G tbl tbl_len layer image cmd dim index).1 = false) :
    (executeG2D_sourceStep H G charIsSigned tbl tbl_len dim baseidx k layer st).1 = false := by
  unfold executeG2D_sourceStep
  simp only [h, Bool.not_false, if_true]

theorem executeG2D_sourceLoop_fails (H : HalHeader) (G : G2DHeader) (charIsSigned : Bool)
    (tbl : List g2d_fmt) (tbl_len : Nat) (dim : hw2d_coord_t) (baseidx : Nat) :
    ∀ (layers : List AcrylicLayer) (k : Nat) (st : EncodeState),
      (∃ l ∈ layers, ∀ image cmd index,
        (prepareSource H G tbl tbl_len l image cmd dim index).1 = false) →
      (executeG2D_sourceLoop H G charIsSigned tbl tbl_len dim baseidx k layers st).1 = false
  | [], _, _, h => by
    obtain ⟨l, hl, _⟩ := h
    exact absurd hl (List.not_mem_nil l)
  | layer :: rest, k, st, h => by
    rw [executeG2D_sourceLoop]
    by_cases hr : (executeG2D_sourceStep H G charIsSigned tbl tbl_len dim baseidx k layer st).1
        = true
    · simp only [hr, Bool.not_true, Bool.false_eq_true, if_false]
      obtain ⟨l, hl, hf⟩ := h
      rcases List.mem_cons.mp hl with rfl | hl
      · rw [executeG2D_sourceStep_fails H G charIsSigned tbl tbl_len dim baseidx k l st hf] at hr
        exact absurd hr (by simp)
      · exact executeG2D_sourceLoop_fails H G charIsSigned tbl tbl_len dim baseidx rest (k + 1) _
          ⟨l, hl, hf⟩
    · have hr0 : (executeG2D_sourceStep H G charIsSigned tbl tbl_len dim baseidx k layer st).1
          = false := by simpa using hr
      simp only [hr0, Bool.not_false, if_true]

theorem prepareSource_fails (H : HalHeader) (G : G2DHeader) (tbl : List g2d_fmt) (tbl_len : Nat)
    (layer : AcrylicLayer) (hs : layer.isSolidColor = false)
    (h : halfmt_to_g2dfmt tbl tbl_len layer.getFormat = none ∨
      (layer.getBufferType ≠ memory_type.MT_EMPTY ∧
        ∃ e, halfmt_to_g2dfmt tbl tbl_len layer.getFormat = some e ∧
          layer.getBufferCount < e.num_bufs))
    (image : g2d_layer) (cmd : g2dsfr → Nat) (dim : hw2d_coord_t) (index : Int) :
    (prepareSource H G tbl tbl_len layer image cmd dim index).1 = false := by
  by_contra hne
  have hok : (prepareSource H G tbl tbl_len layer image cmd dim index).1 = true := by
    simpa using hne
  have hi := prepareImage_ok_of_prepareSource_ok H G tbl tbl_len layer image cmd dim index hs hok
  obtain ⟨e, he, hb⟩ := (prepareImage_ok_iff H G tbl tbl_len layer.toAcrylicCanvas image cmd
    index).mp hi
  rcases h with h | ⟨hty, e2, he2, hc⟩
  · rw [h] at he; exact absurd he (by simp)
  · rw [he2] at he
    cases he
    rcases hb with hb | hb
    · exact hty hb
    · omega

theorem prepareImage_fails (H : HalHeader) (G : G2DHeader) (tbl : List g2d_fmt) (tbl_len : Nat)
    (layer : AcrylicCanvas)
    (h : halfmt_to_g2dfmt tbl tbl_len layer.getFormat = none ∨
      (layer.getBufferType ≠ memory_type.MT_EMPTY ∧
        ∃ e, halfmt_to_g2dfmt tbl tbl_len layer.getFormat = some e ∧
          layer.getBufferCount < e.num_bufs))
    (image : g2d_layer) (cmd : g2dsfr → Nat) (index : Int) :
    (prepareImage H G tbl tbl_len layer image cmd index).1 = false := by
  by_contra hne
  have hok : (prepareImage H G tbl tbl_len layer image cmd index).1 = true := by simpa using hne
  obtain ⟨e, he, hb⟩ := (prepareImage_ok_iff H G tbl tbl_len layer image cmd index).mp hok
  rcases h with h | ⟨hty, e2, he2, hc⟩
  · rw [h] at he; exact absurd he (by simp)
  · rw [he2] at he
    cases he
    rcases hb with hb | hb
    · exact hty hb
    · omega

/-- Counterexample to C13: the only layer of the sample compositor supplies no
buffer plane although its format RGBA_8888 needs one; its buffer type is
`MT_EMPTY`, so `executeG2D` does not check the count: it hands the task to the
device and returns `true`. -/
theorem executeG2D_empty_buffer_layer_submitted :
    sampleEmptyLayerCompositor.mLayers = [sampleEmptyLayer] ∧
    sampleEmptyLayer.isSolidColor = false ∧
    sampleEmptyLayer.getBufferCount = 0 ∧
    (halfmt_to_g2dfmt sampleEmptyLayerCompositor.halfmt_to_g2dfmt_tbl
      sampleEmptyLayerCompositor.len_halfmt_to_g2dfmt_tbl sampleEmptyLayer.getFormat).map
        (fun e => e.num_bufs) = some 1 ∧
    (executeG2D sampleHal sampleG2D sampleTaskHeader sampleEnv sampleEmptyLayerCompositor
      (fun _ => 0) 2 true).ok = true ∧
    (executeG2D sampleHal sampleG2D sampleTaskHeader sampleEnv sampleEmptyLayerCompositor
      (fun _ => 0) 2 true).submitted.isSome = true := by
  refine ⟨rfl, rfl, rfl, by decide, by decide, by decide⟩

/-- Claim C14: when the device is called for the task `t`, returns a value that
is not negative and leaves the error flag in the task flags, `executeG2D`
returns `false`; the caller array `fence[]` holds what it held before, except
for the entries from `layerCount()` up to `num_fences - 1`, which were set to
-1 before the device call (no release fence is copied); the canvas is unchanged
and the layers are the layers of before in the order of `sortLayers` (no
settings-modified flag is cleared).  This holds for `mVersion == 1` (direct
call) and for every other version (compat call). -/
theorem executeG2D_device_error_flag (H : HalHeader) (G : G2DHeader) (T : G2DTaskHeader)
    (env : ExecEnv) (c : AcrylicCompositorG2D9810) (fence : Nat → Int) (num_fences : Nat)
    (nonblocking : Bool) (t : g2d_task)
    (hsub : (executeG2D H G T env c fence num_fences nonblocking).submitted = some t)
    (hret : 0 ≤ (env.ioctl (decide (c.mVersion ≠ 1)) t).ret)
    (hflag : (env.ioctl (decide (c.mVersion ≠ 1)) t).flags &&& T.G2D_FLAG_ERROR ≠ 0) :
    (executeG2D H G T env c fence num_fences nonblocking).ok = false ∧
    (executeG2D H G T env c fence num_fences nonblocking).fence =
      (fun i => if c.mLayers.length ≤ i ∧ i < num_fences then -1 else fence i) ∧
    (executeG2D H G T env c fence num_fences nonblocking).self.mCanvas = c.mCanvas ∧
    (executeG2D H G T env c fence num_fences nonblocking).self.mLayers =
      env.sortLayers c.mLayers := by
  have hs := executeG2D_setup_settings G env c fence num_fences
  have he := executeG2D_encode_settings H G T env (executeG2D_setup G env c fence num_fences)
  unfold executeG2D at hsub ⊢
  simp only at hsub ⊢
  by_cases hok : (executeG2D_setup G env c fence num_fences).ok = true
  · simp only [hok, Bool.not_true, Bool.false_eq_true, if_false] at hsub ⊢
    have hval := (executeG2D_setup_validated G env c fence num_fences hok).1
    have hfence := hs.2.2.2.2.2.2.1 hval
    have hsort := hs.2.2.2.2.1 hok
    revert hsub
    cases hl : (executeG2D_encode H G T env (executeG2D_setup G env c fence num_fences)).locals with
    | none => intro hsub; simp at hsub
    | some wl =>
      intro hsub
      simp only at hsub ⊢
      have hio := ioctlG2D_settings env
        (executeG2D_finish G T env
          (executeG2D_encode H G T env (executeG2D_setup G env c fence num_fences)).self
          wl.1 wl.2 (executeG2D_setup G env c fence num_fences).layercount
          (executeG2D_setup G env c fence num_fences).num_fences nonblocking)
      have hver : (executeG2D_finish G T env
          (executeG2D_encode H G T env (executeG2D_setup G env c fence num_fences)).self
          wl.1 wl.2 (executeG2D_setup G env c fence num_fences).layercount
          (executeG2D_setup G env c fence num_fences).num_fences nonblocking).mVersion =
          c.mVersion := he.2.2.trans hs.2.1
      have ht : (ioctlG2D env (executeG2D_finish G T env
          (executeG2D_encode H G T env (executeG2D_setup G env c fence num_fences)).self
          wl.1 wl.2 (executeG2D_setup G env c fence num_fences).layercount
          (executeG2D_setup G env c fence num_fences).num_fences nonblocking)).submitted = t := by
        split_ifs at hsub <;> simpa using hsub
      have hresp := ioctlG2D_response env (executeG2D_finish G T env
          (executeG2D_encode H G T env (executeG2D_setup G env c fence num_fences)).self
          wl.1 wl.2 (executeG2D_setup G env c fence num_fences).layercount
          (executeG2D_setup G env c fence num_fences).num_fences nonblocking)
          (by rw [hver, ht]; exact hret)
      rw [hver, ht] at hresp
      have hcan := hio.1.trans (he.1.trans hs.1)
      have hlay := hio.2.trans (he.2.1.trans hsort)
      rw [hresp.1, hresp.2]
      simp only [lt_self_iff_false, if_false, hflag, ne_eq, not_false_eq_true, if_true]
      exact ⟨trivial, hfence, hcan, hlay⟩
  · have hok0 : (executeG2D_setup G env c fence num_fences).ok = false := by simpa using hok
    simp [hok0] at hsub

/-- Witness for C14: the sample device returns 0 and sets the error flag. -/
theorem executeG2D_device_error_flag_witness :
    (executeG2D sampleHal sampleG2D sampleTaskHeader sampleEnvDeviceError sampleFencedCompositor
      (fun _ => 9) 4 true).ok = false ∧
    (executeG2D sampleHal sampleG2D sampleTaskHeader sampleEnvDeviceError sampleFencedCompositor
      (fun _ => 9) 4 true).fence =
      (fun i => if sampleFencedCompositor.mLayers.length ≤ i ∧ i < 4 then -1 else 9) :=
  have h := executeG2D_device_error_flag sampleHal sampleG2D sampleTaskHeader sampleEnvDeviceError
    sampleFencedCompositor (fun _ => 9) 4 true
    ((executeG2D sampleHal sampleG2D sampleTaskHeader sampleEnvDeviceError sampleFencedCompositor
      (fun _ => 9) 4 true).submitted.get (by decide))
    (Option.some_get _).symm (by decide) (by decide)
  ⟨h.1, h.2.1⟩

set_option maxRecDepth 8000 in
theorem prepareImage_regs (H : HalHeader) (G : G2DHeader) (tbl : List g2d_fmt)
    (tbl_len : Nat) (layer : AcrylicCanvas) (image : g2d_layer) (cmd : g2dsfr → Nat)
    (index : Int) (e : g2d_fmt)
    (hfmt : halfmt_to_g2dfmt tbl tbl_len layer.getFormat = some e)
    (hok : (prepareImage H G tbl tbl_len layer image cmd index).1 = true) :
    (prepareImage H G tbl tbl_len layer image cmd index).2.2 G2DSFR_IMG_COLORMODE =
      mappedColorMode G layer e ∧
    (prepareImage H G tbl tbl_len layer image cmd index).2.2 G2DSFR_IMG_WIDTH =
      toU32 layer.getImageDimension.hori ∧
    (prepareImage H G tbl tbl_len layer image cmd index).2.2 G2DSFR_IMG_HEIGHT =
      toU32 layer.getImageDimension.vert := by
  have hb := (prepareImage_ok_iff H G tbl tbl_len layer image cmd index).mp hok
  obtain ⟨e2, he2, hb⟩ := hb
  rw [hfmt] at he2
  cases he2
  have hnb : ¬(layer.getBufferType ≠ memory_type.MT_EMPTY ∧ layer.getBufferCount < e.num_bufs) := by
    rintro ⟨h1, h2⟩
    rcases hb with hb | hb
    · exact h1 hb
    · omega
  unfold prepareImage mappedColorMode
  simp only [hfmt]
  rw [if_neg hnb]
  by_cases hu : layer.isUOrder = true <;> by_cases hc : layer.isCompressed = true <;>
    by_cases hi : index < 0 <;> by_cases h5 : e.g2dfmt = G.G2D_FMT_RGB565 <;>
    simp only [Function.update_apply, hu, hc, hi, h5, ite_apply, reduceCtorEq, if_false,
      if_true, ite_self, Bool.false_eq_true, and_self]

set_option maxRecDepth 8000 in
theorem prepareSource_geometry (H : HalHeader) (G : G2DHeader) (tbl : List g2d_fmt)
    (tbl_len : Nat) (layer : AcrylicLayer) (image : g2d_layer) (cmd : g2dsfr → Nat)
    (target_size : hw2d_coord_t) (index : Int)
    (hs : layer.isSolidColor = false)
    (hok : (prepareSource H G tbl tbl_len layer image cmd target_size index).1 = true) :
    (prepareSource H G tbl tbl_len layer image cmd target_size index).2.2 G2DSFR_IMG_LEFT =
      toU32 layer.getImageRect.pos.hori ∧
    (prepareSource H G tbl tbl_len layer image cmd target_size index).2.2 G2DSFR_IMG_TOP =
      toU32 layer.getImageRect.pos.vert ∧
    (prepareSource H G tbl tbl_len layer image cmd target_size index).2.2 G2DSFR_IMG_RIGHT =
      toU32 (layer.getImageRect.size.hori + layer.getImageRect.pos.hori) ∧
    (prepareSource H G tbl tbl_len layer image cmd target_size index).2.2 G2DSFR_IMG_BOTTOM =
      toU32 (layer.getImageRect.size.vert + layer.getImageRect.pos.vert) ∧
    (prepareSource H G tbl tbl_len layer image cmd target_size index).2.2 G2DSFR_SRC_DSTLEFT =
      toU32 (encodedWindow layer target_size).pos.hori ∧
    (prepareSource H G tbl tbl_len layer image cmd target_size index).2.2 G2DSFR_SRC_DSTTOP =
      toU32 (encodedWindow layer target_size).pos.vert ∧
    (prepareSource H G tbl tbl_len layer image cmd target_size index).2.2 G2DSFR_SRC_DSTRIGHT =
      toU32 ((encodedWindow layer target_size).size.hori +
        (encodedWindow layer target_size).pos.hori) ∧
    (prepareSource H G tbl tbl_len layer image cmd target_size index).2.2 G2DSFR_SRC_DSTBOTTOM =
      toU32 ((encodedWindow layer target_size).size.vert +
        (encodedWindow layer target_size).pos.vert) ∧
    (prepareSource H G tbl tbl_len layer image cmd target_size index).2.2 G2DSFR_SRC_ALPHA =
      alphaOf (layer.getPlaneAlpha % 256) ∧
    (prepareSource H G tbl tbl_len layer image cmd target_size index).2.2 G2DSFR_SRC_BLEND =
      blendOf H G layer.getCompositingMode := by
  have himg := prepareImage_ok_of_prepareSource_ok H G tbl tbl_len layer image cmd target_size
    index hs hok
  unfold prepareSource
  simp only [hs, himg, Bool.false_eq_true, if_false, Bool.not_true]
  refine ⟨?_, ?_, ?_, ?_, ?_, ?_, ?_, ?_, ?_, ?_⟩ <;>
    simp only [Function.update_apply, encodedWindow, ite_apply, reduceCtorEq, if_false,
      if_true, ite_self, apply_ite hw2d_rect_t.pos, apply_ite hw2d_rect_t.size]

theorem G2D_SCALE_FACTOR_one (G : G2DHeader) (hF : G.G2D_SCALEFACTOR_FRACBITS < 32) :
    G2D_SCALE_FACTOR G 1 1 = 2 ^ G.G2D_SCALEFACTOR_FRACBITS := by
  unfold G2D_SCALE_FACTOR
  have h1 : toU32 1 = 1 := by decide
  rw [h1, Nat.one_shiftLeft, Nat.div_one]
  unfold u32
  exact Nat.mod_eq_of_lt (Nat.pow_lt_pow_right (by norm_num) hF)

theorem eq_two_pow_of_or_eq (x y F : Nat) (hx : x ≠ 0) (h : x ||| y = 2 ^ F) : x = 2 ^ F := by
  have hbit : ∀ i, x.testBit i = true → i = F := by
    intro i hi
    have h1 : (x ||| y).testBit i = true := by rw [Nat.testBit_or, hi]; rfl
    rw [h, Nat.testBit_two_pow] at h1
    by_contra hne
    have hFi : F ≠ i := fun h => hne h.symm
    simp [hFi] at h1
  obtain ⟨i, hi⟩ := Nat.ne_zero_implies_bit_true hx
  have hiF := hbit i hi
  subst hiF
  apply Nat.eq_of_testBit_eq
  intro j
  rw [Nat.testBit_two_pow]
  by_cases hj : i = j
  · subst hj; simp [hi]
  · have : x.testBit j = false := by
      by_contra hne
      have : x.testBit j = true := by simpa using hne
      exact hj (hbit j this).symm
    simp [this, hj]

/-- Counterexample to C21: the sample layer with a crop of width 0 gets
`XSCALE = 0`, which differs from unity, and `YSCALE = unity`; the code tests
`XSCALE | YSCALE`, which is unity, and writes 0 to `SCALECONTROL`, not the
bilinear value. -/
theorem prepareSource_zero_factor_not_bilinear :
    sampleZeroWidthCrop.isSolidColor = false ∧
    (prepareSource sampleHal sampleG2D (halfmt_to_g2dfmt_tbl sampleHal sampleG2D false)
      (len_halfmt_to_g2dfmt_tbl sampleHal sampleG2D false) sampleZeroWidthCrop sampleImage
      sampleCmd ⟨100, 50⟩ 0).1 = true ∧
    (prepareSource sampleHal sampleG2D (halfmt_to_g2dfmt_tbl sampleHal sampleG2D false)
      (len_halfmt_to_g2dfmt_tbl sampleHal sampleG2D false) sampleZeroWidthCrop sampleImage
      sampleCmd ⟨100, 50⟩ 0).2.2 G2DSFR_SRC_XSCALE = 0 ∧
    (prepareSource sampleHal sampleG2D (halfmt_to_g2dfmt_tbl sampleHal sampleG2D false)
      (len_halfmt_to_g2dfmt_tbl sampleHal sampleG2D false) sampleZeroWidthCrop sampleImage
      sampleCmd ⟨100, 50⟩ 0).2.2 G2DSFR_SRC_YSCALE = G2D_SCALE_FACTOR sampleG2D 1 1 ∧
    G2D_SCALE_FACTOR sampleG2D 1 1 ≠ 0 ∧
    (prepareSource sampleHal sampleG2D (halfmt_to_g2dfmt_tbl sampleHal sampleG2D false)
      (len_halfmt_to_g2dfmt_tbl sampleHal sampleG2D false) sampleZeroWidthCrop sampleImage
      sampleCmd ⟨100, 50⟩ 0).2.2 G2DSFR_SRC_SCALECONTROL = 0 ∧
    sampleG2D.G2D_SCALECONTROL_BILINEAR ≠ 0 := by
  decide

set_option maxRecDepth 100000 in
theorem alphaOf_eq : ∀ a, a < 256 → alphaOf a = a * 0x01010101 := by
  decide

set_option maxRecDepth 8000 in
theorem prepareSolidLayer_regs (H : HalHeader) (G : G2DHeader) (layer : AcrylicLayer)
    (image : g2d_layer) (cmd : g2dsfr → Nat) (target_size : hw2d_coord_t) (index : Int) :
    (prepareSolidLayer H G layer image cmd target_size index).2.1.flags =
      G.G2D_LAYERFLAG_COLORFILL ∧
    (prepareSolidLayer H G layer image cmd target_size index).2.1.buffer_type =
      G.G2D_BUFTYPE_EMPTY ∧
    (prepareSolidLayer H G layer image cmd target_size index).2.1.num_buffers = 0 ∧
    (prepareSolidLayer H G layer image cmd target_size index).2.2 G2DSFR_SRC_COLOR =
      layer.getSolidColor ∧
    (prepareSolidLayer H G layer image cmd target_size index).2.2 G2DSFR_SRC_ROTATE = 0 ∧
    (prepareSolidLayer H G layer image cmd target_size index).2.2 G2DSFR_SRC_SCALECONTROL = 0 ∧
    (prepareSolidLayer H G layer image cmd target_size index).2.2 G2DSFR_SRC_XSCALE =
      G2D_SCALE_FACTOR G 1 1 ∧
    (prepareSolidLayer H G layer image cmd target_size index).2.2 G2DSFR_SRC_YSCALE =
      G2D_SCALE_FACTOR G 1 1 ∧
    (prepareSolidLayer H G layer image cmd target_size index).2.2 G2DSFR_SRC_Y_HEADER_STRIDE = 0 ∧
    (prepareSolidLayer H G layer image cmd target_size index).2.2 G2DSFR_SRC_C_HEADER_STRIDE = 0 ∧
    (prepareSolidLayer H G layer image cmd target_size index).2.2 G2DSFR_SRC_Y_PAYLOAD_STRIDE = 0 ∧
    (prepareSolidLayer H G layer image cmd target_size index).2.2 G2DSFR_SRC_C_PAYLOAD_STRIDE = 0 ∧
    (prepareSolidLayer H G layer image cmd target_size index).2.2 G2DSFR_SRC_SBWCINFO = 0 ∧
    (prepareSolidLayer H G layer image cmd target_size index).2.2 G2DSFR_SRC_ALPHA =
      alphaOf (layer.getPlaneAlpha % 256) ∧
    (prepareSolidLayer H G layer image cmd target_size index).2.2 G2DSFR_SRC_BLEND =
      blendOf H G layer.getCompositingMode ∧
    (prepareSolidLayer H G layer image cmd target_size index).2.2 G2DSFR_SRC_DSTLEFT =
      toU32 (encodedWindow layer target_size).pos.hori ∧
    (prepareSolidLayer H G layer image cmd target_size index).2.2 G2DSFR_SRC_DSTTOP =
      toU32 (encodedWindow layer target_size).pos.vert ∧
    (prepareSolidLayer H G layer image cmd target_size index).2.2 G2DSFR_SRC_DSTRIGHT =
      toU32 ((encodedWindow layer target_size).size.hori +
        (encodedWindow layer target_size).pos.hori) ∧
    (prepareSolidLayer H G layer image cmd target_size index).2.2 G2DSFR_SRC_DSTBOTTOM =
      toU32 ((encodedWindow layer target_size).size.vert +
        (encodedWindow layer target_size).pos.vert) := by
  unfold prepareSolidLayer setSolidLayer
  refine ⟨rfl, rfl, rfl, ?_, ?_, ?_, ?_, ?_, ?_, ?_, ?_, ?_, ?_, ?_, ?_, ?_, ?_, ?_, ?_⟩ <;>
    simp only [Function.update_apply, encodedWindow, ite_apply, reduceCtorEq, if_false,
      if_true, ite_self, apply_ite hw2d_rect_t.pos, apply_ite hw2d_rect_t.size]

theorem prepareSource_solid_eq (H : HalHeader) (G : G2DHeader) (tbl : List g2d_fmt)
    (tbl_len : Nat) (layer : AcrylicLayer) (image : g2d_layer) (cmd : g2dsfr → Nat)
    (target_size : hw2d_coord_t) (index : Int) (hs : layer.isSolidColor = true) :
    prepareSource H G tbl tbl_len layer image cmd target_size index =
      (true, (prepareSolidLayer H G layer image cmd target_size index).2.1,
        (prepareSolidLayer H G layer image cmd target_size index).2.2) := by
  unfold prepareSource
  simp only [hs, if_true]

theorem blendOf_cases (H : HalHeader) (G : G2DHeader) (mode : Nat)
    (hdist : H.HWC_BLENDING_COVERAGE ≠ H.HWC_BLENDING_PREMULT ∧
      H.HWC_BLENDING_COVERAGE ≠ H.HWC2_BLEND_MODE_PREMULTIPLIED ∧
      H.HWC2_BLEND_MODE_COVERAGE ≠ H.HWC_BLENDING_PREMULT ∧
      H.HWC2_BLEND_MODE_COVERAGE ≠ H.HWC2_BLEND_MODE_PREMULTIPLIED) :
    ((mode = H.HWC_BLENDING_PREMULT ∨ mode = H.HWC2_BLEND_MODE_PREMULTIPLIED) →
      blendOf H G mode = G.G2D_BLEND_SRCOVER) ∧
    ((mode = H.HWC_BLENDING_COVERAGE ∨ mode = H.HWC2_BLEND_MODE_COVERAGE) →
      blendOf H G mode = G.G2D_BLEND_NONE) ∧
    ((mode ≠ H.HWC_BLENDING_PREMULT ∧ mode ≠ H.HWC2_BLEND_MODE_PREMULTIPLIED ∧
        mode ≠ H.HWC_BLENDING_COVERAGE ∧ mode ≠ H.HWC2_BLEND_MODE_COVERAGE) →
      blendOf H G mode = G.G2D_BLEND_SRCCOPY) := by
  obtain ⟨h1, h2, h3, h4⟩ := hdist
  unfold blendOf
  refine ⟨fun h => by rw [if_pos h], fun h => ?_, fun h => ?_⟩
  · have hn : ¬(mode = H.HWC_BLENDING_PREMULT ∨ mode = H.HWC2_BLEND_MODE_PREMULTIPLIED) := by
      rintro (hp | hp) <;> rcases h with h | h
      · exact h1 (h.symm.trans hp)
      · exact h3 (h.symm.trans hp)
      · exact h2 (h.symm.trans hp)
      · exact h4 (h.symm.trans hp)
    rw [if_neg hn, if_pos h]
  · rw [if_neg (by rintro (hp | hp); exact h.1 hp; exact h.2.1 hp),
      if_neg (by rintro (hp | hp); exact h.2.2.1 hp; exact h.2.2.2 hp)]

/-- Claim C24: `prepareSource` (when it succeeds, for a buffer-backed or a
solid-colour layer) and `prepareSolidLayer` write to `ALPHA` the 8-bit plane
alpha `a` replicated in the four bytes, `a * 0x01010101`, and to `BLEND`
source-over for the two premultiplied modes, no-blend for the two coverage
modes and source-copy for every other compositing mode (the coverage constants
being different from the premultiplied ones). -/
theorem prepareSource_alpha_blend (H : HalHeader) (G : G2DHeader) (tbl : List g2d_fmt)
    (tbl_len : Nat) (layer : AcrylicLayer) (image : g2d_layer) (cmd : g2dsfr → Nat)
    (target_size : hw2d_coord_t) (index : Int)
    (hok : (prepareSource H G tbl tbl_len layer image cmd target_size index).1 = true)
    (ha : layer.getPlaneAlpha < 256)
    (hdist : H.HWC_BLENDING_COVERAGE ≠ H.HWC_BLENDING_PREMULT ∧
      H.HWC_BLENDING_COVERAGE ≠ H.HWC2_BLEND_MODE_PREMULTIPLIED ∧
      H.HWC2_BLEND_MODE_COVERAGE ≠ H.HWC_BLENDING_PREMULT ∧
      H.HWC2_BLEND_MODE_COVERAGE ≠ H.HWC2_BLEND_MODE_PREMULTIPLIED) :
    (prepareSource H G tbl tbl_len layer image cmd target_size index).2.2 G2DSFR_SRC_ALPHA =
      layer.getPlaneAlpha * 0x01010101 ∧
    (prepareSolidLayer H G layer image cmd target_size index).2.2 G2DSFR_SRC_ALPHA =
      layer.getPlaneAlpha * 0x01010101 ∧
    ((layer.getCompositingMode = H.HWC_BLENDING_PREMULT ∨
        layer.getCompositingMode = H.HWC2_BLEND_MODE_PREMULTIPLIED) →
      (prepareSource H G tbl tbl_len layer image cmd target_size index).2.2 G2DSFR_SRC_BLEND =
        G.G2D_BLEND_SRCOVER ∧
      (prepareSolidLayer H G layer image cmd target_size index).2.2 G2DSFR_SRC_BLEND =
        G.G2D_BLEND_SRCOVER) ∧
    ((layer.getCompositingMode = H.HWC_BLENDING_COVERAGE ∨
        layer.getCompositingMode = H.HWC2_BLEND_MODE_COVERAGE) →
      (prepareSource H G tbl tbl_len layer image cmd target_size index).2.2 G2DSFR_SRC_BLEND =
        G.G2D_BLEND_NONE ∧
      (prepareSolidLayer H G layer image cmd target_size index).2.2 G2DSFR_SRC_BLEND =
        G.G2D_BLEND_NONE) ∧
    ((layer.getCompositingMode ≠ H.HWC_BLENDING_PREMULT ∧
        layer.getCompositingMode ≠ H.HWC2_BLEND_MODE_PREMULTIPLIED ∧
        layer.getCompositingMode ≠ H.HWC_BLENDING_COVERAGE ∧
        layer.getCompositingMode ≠ H.HWC2_BLEND_MODE_COVERAGE) →
      (prepareSource H G tbl tbl_len layer image cmd target_size index).2.2 G2DSFR_SRC_BLEND =
        G.G2D_BLEND_SRCCOPY ∧
      (prepareSolidLayer H G layer image cmd target_size index).2.2 G2DSFR_SRC_BLEND =
        G.G2D_BLEND_SRCCOPY) := by
  have hsolid := prepareSolidLayer_regs H G layer image cmd target_size index
  have hA := hsolid.2.2.2.2.2.2.2.2.2.2.2.2.2.1
  have hB := hsolid.2.2.2.2.2.2.2.2.2.2.2.2.2.2.1
  have hsrc : (prepareSource H G tbl tbl_len layer image cmd target_size index).2.2
        G2DSFR_SRC_ALPHA = alphaOf (layer.getPlaneAlpha % 256) ∧
      (prepareSource H G tbl tbl_len layer image cmd target_size index).2.2 G2DSFR_SRC_BLEND =
        blendOf H G layer.getCompositingMode := by
    cases hs : layer.isSolidColor
    · have hg := prepareSource_geometry H G tbl tbl_len layer image cmd target_size index hs hok
      exact ⟨hg.2.2.2.2.2.2.2.2.1, hg.2.2.2.2.2.2.2.2.2⟩
    · rw [prepareSource_solid_eq H G tbl tbl_len layer image cmd target_size index hs]
      exact ⟨hA, hB⟩
  have hmod : layer.getPlaneAlpha % 256 = layer.getPlaneAlpha := Nat.mod_eq_of_lt ha
  have hbl := blendOf_cases H G layer.getCompositingMode hdist
  rw [hmod, alphaOf_eq _ ha] at hA
  rw [hsrc.1, hsrc.2, hB, hmod, alphaOf_eq _ ha]
  exact ⟨rfl, hA, fun h => ⟨hbl.1 h, hbl.1 h⟩, fun h => ⟨hbl.2.1 h, hbl.2.1 h⟩,
    fun h => ⟨hbl.2.2 h, hbl.2.2 h⟩⟩

/-- Witness for C24: the sample top layer (plane alpha 128, premultiplied
blending) gets `ALPHA = 0x80808080` and source-over. -/
theorem prepareSource_alpha_blend_witness :
    (prepareSource sampleHal sampleG2D (halfmt_to_g2dfmt_tbl sampleHal sampleG2D false)
      (len_halfmt_to_g2dfmt_tbl sampleHal sampleG2D false) sampleTop sampleImage
      sampleCmd ⟨100, 50⟩ 1).2.2 G2DSFR_SRC_ALPHA = 0x80808080 ∧
    (prepareSource sampleHal sampleG2D (halfmt_to_g2dfmt_tbl sampleHal sampleG2D false)
      (len_halfmt_to_g2dfmt_tbl sampleHal sampleG2D false) sampleTop sampleImage
      sampleCmd ⟨100, 50⟩ 1).2.2 G2DSFR_SRC_BLEND = sampleG2D.G2D_BLEND_SRCOVER :=
  have h := prepareSource_alpha_blend sampleHal sampleG2D
    (halfmt_to_g2dfmt_tbl sampleHal sampleG2D false)
    (len_halfmt_to_g2dfmt_tbl sampleHal sampleG2D false) sampleTop sampleImage sampleCmd
    ⟨100, 50⟩ 1 (by decide) (by decide) (by decide)
  ⟨h.1.trans (by decide), (h.2.2.1 (Or.inl (by decide))).1⟩

set_option maxRecDepth 8000 in
theorem prepareSource_image_regs (H : HalHeader) (G : G2DHeader) (tbl : List g2d_fmt)
    (tbl_len : Nat) (layer : AcrylicLayer) (image : g2d_layer) (cmd : g2dsfr → Nat)
    (target_size : hw2d_coord_t) (index : Int) (e : g2d_fmt)
    (hs : layer.isSolidColor = false)
    (hfmt : halfmt_to_g2dfmt tbl tbl_len layer.getFormat = some e)
    (hok : (prepareSource H G tbl tbl_len layer image cmd target_size index).1 = true) :
    (prepareSource H G tbl tbl_len layer image cmd target_size index).2.2 G2DSFR_IMG_WIDTH =
      (if layer.isCompressed then u32 (toU32 layer.getImageDimension.hori + (2 ^ 32 - 1))
        else toU32 layer.getImageDimension.hori) ∧
    (prepareSource H G tbl tbl_len layer image cmd target_size index).2.2 G2DSFR_IMG_HEIGHT =
      (if layer.isCompressed then u32 (toU32 layer.getImageDimension.vert + (2 ^ 32 - 1))
        else toU32 layer.getImageDimension.vert) ∧
    (prepareSource H G tbl tbl_len layer image cmd target_size index).2.2 G2DSFR_IMG_COLORMODE =
      (if (layer.getCompositingMode = H.HWC_BLENDING_PREMULT ∨
            layer.getCompositingMode = H.HWC2_BLEND_MODE_PREMULTIPLIED) ∨
          (layer.getCompositingMode = H.HWC_BLENDING_COVERAGE ∨
            layer.getCompositingMode = H.HWC2_BLEND_MODE_COVERAGE) then
        mappedColorMode G layer.toAcrylicCanvas e
      else if mappedColorMode G layer.toAcrylicCanvas e = G.G2D_FMT_ABGR8888 ∨
          mappedColorMode G layer.toAcrylicCanvas e = G.G2D_FMT_ARGB8888 ∨
          mappedColorMode G layer.toAcrylicCanvas e = G.G2D_FMT_ABGR2101010 then
        (mappedColorMode G layer.toAcrylicCanvas e &&& not32 G.G2D_SWZ_ALPHA_MASK) |||
          G.G2D_SWZ_ALPHA_ONE
      else mappedColorMode G layer.toAcrylicCanvas e) := by
  have himg := prepareImage_ok_of_prepareSource_ok H G tbl tbl_len layer image cmd target_size
    index hs hok
  obtain ⟨hcm, hw, hh⟩ := prepareImage_regs H G tbl tbl_len layer.toAcrylicCanvas image cmd index e
    hfmt himg
  unfold prepareSource
  simp only [hs, himg, Bool.false_eq_true, if_false, Bool.not_true]
  generalize (prepareImage H G tbl tbl_len layer.toAcrylicCanvas image cmd index).2.2 = pc
    at hcm hw hh ⊢
  refine ⟨?_, ?_, ?_⟩
  · by_cases hc : layer.isCompressed = true <;>
      simp only [Function.update_apply, hc, hw, ite_apply, reduceCtorEq, if_false, if_true,
        ite_self, Bool.false_eq_true]
  · by_cases hc : layer.isCompressed = true <;>
      simp only [Function.update_apply, hc, hh, ite_apply, reduceCtorEq, if_false, if_true,
        ite_self, Bool.false_eq_true]
  · simp only [Function.update_apply, hcm, ite_apply, reduceCtorEq, if_false, if_true, ite_self]

/-- Counterexample to C25: the sample compressed layer has the crop rectangle
(10, 20, 100, 50); `prepareSource` encodes `RIGHT = 110` and `BOTTOM = 70`, not
109 and 69; what it decrements is the image width and height (`IMG_WIDTH = 99`,
`IMG_HEIGHT = 49` for the 100x50 image). -/
theorem prepareSource_compressed_bounds_not_decremented :
    sampleCompressedLayer.isCompressed = true ∧
    sampleCompressedLayer.getImageRect = ⟨⟨10, 20⟩, ⟨100, 50⟩⟩ ∧
    (prepareSource sampleHal sampleG2D (halfmt_to_g2dfmt_tbl sampleHal sampleG2D false)
      (len_halfmt_to_g2dfmt_tbl sampleHal sampleG2D false) sampleCompressedLayer sampleImage
      sampleCmd ⟨100, 50⟩ 0).1 = true ∧
    (prepareSource sampleHal sampleG2D (halfmt_to_g2dfmt_tbl sampleHal sampleG2D false)
      (len_halfmt_to_g2dfmt_tbl sampleHal sampleG2D false) sampleCompressedLayer sampleImage
      sampleCmd ⟨100, 50⟩ 0).2.2 G2DSFR_IMG_RIGHT = 110 ∧
    (prepareSource sampleHal sampleG2D (halfmt_to_g2dfmt_tbl sampleHal sampleG2D false)
      (len_halfmt_to_g2dfmt_tbl sampleHal sampleG2D false) sampleCompressedLayer sampleImage
      sampleCmd ⟨100, 50⟩ 0).2.2 G2DSFR_IMG_BOTTOM = 70 ∧
    (prepareSource sampleHal sampleG2D (halfmt_to_g2dfmt_tbl sampleHal sampleG2D false)
      (len_halfmt_to_g2dfmt_tbl sampleHal sampleG2D false) sampleCompressedLayer sampleImage
      sampleCmd ⟨100, 50⟩ 0).2.2 G2DSFR_IMG_WIDTH = 99 ∧
    (prepareSource sampleHal sampleG2D (halfmt_to_g2dfmt_tbl sampleHal sampleG2D false)
      (len_halfmt_to_g2dfmt_tbl sampleHal sampleG2D false) sampleCompressedLayer sampleImage
      sampleCmd ⟨100, 50⟩ 0).2.2 G2DSFR_IMG_HEIGHT = 49 := by
  decide

/-- Counterexample to C26: the target rectangle of the sample layer has zero
area and lies at (10, 20); on the 100x50 canvas `prepareSource` encodes the
window (10, 20)-(110, 70), not (0, 0)-(100, 50): only the size of the rectangle
is replaced by the canvas size.  The same holds for the solid-colour layer. -/
theorem prepareSource_zero_area_window_keeps_position :
    area_is_zero sampleUnsizedLayer.getTargetRect = true ∧
    (prepareSource sampleHal sampleG2D (halfmt_to_g2dfmt_tbl sampleHal sampleG2D false)
      (len_halfmt_to_g2dfmt_tbl sampleHal sampleG2D false) sampleUnsizedLayer sampleImage
      sampleCmd ⟨100, 50⟩ 0).1 = true ∧
    (prepareSource sampleHal sampleG2D (halfmt_to_g2dfmt_tbl sampleHal sampleG2D false)
      (len_halfmt_to_g2dfmt_tbl sampleHal sampleG2D false) sampleUnsizedLayer sampleImage
      sampleCmd ⟨100, 50⟩ 0).2.2 G2DSFR_SRC_DSTLEFT = 10 ∧
    (prepareSource sampleHal sampleG2D (halfmt_to_g2dfmt_tbl sampleHal sampleG2D false)
      (len_halfmt_to_g2dfmt_tbl sampleHal sampleG2D false) sampleUnsizedLayer sampleImage
      sampleCmd ⟨100, 50⟩ 0).2.2 G2DSFR_SRC_DSTTOP = 20 ∧
    (prepareSource sampleHal sampleG2D (halfmt_to_g2dfmt_tbl sampleHal sampleG2D false)
      (len_halfmt_to_g2dfmt_tbl sampleHal sampleG2D false) sampleUnsizedLayer sampleImage
      sampleCmd ⟨100, 50⟩ 0).2.2 G2DSFR_SRC_DSTRIGHT = 110 ∧
    (prepareSource sampleHal sampleG2D (halfmt_to_g2dfmt_tbl sampleHal sampleG2D false)
      (len_halfmt_to_g2dfmt_tbl sampleHal sampleG2D false) sampleUnsizedLayer sampleImage
      sampleCmd ⟨100, 50⟩ 0).2.2 G2DSFR_SRC_DSTBOTTOM = 70 ∧
    sampleUnsizedSolidLayer.isSolidColor = true ∧
    area_is_zero sampleUnsizedSolidLayer.getTargetRect = true ∧
    (prepareSource sampleHal sampleG2D (halfmt_to_g2dfmt_tbl sampleHal sampleG2D false)
      (len_halfmt_to_g2dfmt_tbl sampleHal sampleG2D false) sampleUnsizedSolidLayer sampleImage
      sampleCmd ⟨100, 50⟩ 0).2.2 G2DSFR_SRC_DSTLEFT = 10 ∧
    (prepareSource sampleHal sampleG2D (halfmt_to_g2dfmt_tbl sampleHal sampleG2D false)
      (len_halfmt_to_g2dfmt_tbl sampleHal sampleG2D false) sampleUnsizedSolidLayer sampleImage
      sampleCmd ⟨100, 50⟩ 0).2.2 G2DSFR_SRC_DSTRIGHT = 110 := by
  decide

/-- Claim C26 (amended): for every source layer, buffer-backed or solid-colour,
that `prepareSource` encodes and whose declared target rectangle has zero area
and lies at the origin (0, 0), the encoded destination window is the full
destination canvas: `DSTLEFT = 0`, `DSTTOP = 0`, `DSTRIGHT` the canvas width and
`DSTBOTTOM` the canvas height (converted to 32 bits). -/
theorem prepareSource_zero_area_window (H : HalHeader) (G : G2DHeader) (tbl : List g2d_fmt)
    (tbl_len : Nat) (layer : AcrylicLayer) (image : g2d_layer) (cmd : g2dsfr → Nat)
    (target_size : hw2d_coord_t) (index : Int)
    (hok : (prepareSource H G tbl tbl_len layer image cmd target_size index).1 = true)
    (hz : area_is_zero layer.getTargetRect = true)
    (hpos : layer.getTargetRect.pos = ⟨0, 0⟩) :
    (prepareSource H G tbl tbl_len layer image cmd target_size index).2.2 G2DSFR_SRC_DSTLEFT = 0 ∧
    (prepareSource H G tbl tbl_len layer image cmd target_size index).2.2 G2DSFR_SRC_DSTTOP = 0 ∧
    (prepareSource H G tbl tbl_len layer image cmd target_size index).2.2 G2DSFR_SRC_DSTRIGHT =
      toU32 target_size.hori ∧
    (prepareSource H G tbl tbl_len layer image cmd target_size index).2.2 G2DSFR_SRC_DSTBOTTOM =
      toU32 target_size.vert := by
  have hwin : encodedWindow layer target_size = ⟨⟨0, 0⟩, target_size⟩ := by
    unfold encodedWindow
    rw [if_pos hz]
    simp only [hpos]
  have h0 : toU32 0 = 0 := by decide
  cases hs : layer.isSolidColor
  · obtain ⟨_, _, _, _, h5, h6, h7, h8, _⟩ :=
      prepareSource_geometry H G tbl tbl_len layer image cmd target_size index hs hok
    rw [h5, h6, h7, h8, hwin]
    simp only [add_zero, h0, and_self]
  · rw [prepareSource_solid_eq H G tbl tbl_len layer image cmd target_size index hs]
    have hr := prepareSolidLayer_regs H G layer image cmd target_size index
    obtain ⟨_, _, _, _, _, _, _, _, _, _, _, _, _, _, _, h5, h6, h7, h8⟩ := hr
    rw [h5, h6, h7, h8, hwin]
    simp only [add_zero, h0, and_self]

/-- Witness for C26: the sample solid-colour layer has a zero-area target
rectangle at the origin. -/
theorem prepareSource_zero_area_window_witness :
    (prepareSource sampleHal sampleG2D (halfmt_to_g2dfmt_tbl sampleHal sampleG2D false)
      (len_halfmt_to_g2dfmt_tbl sampleHal sampleG2D false) sampleSolidLayer sampleImage
      sampleCmd ⟨100, 50⟩ 0).2.2 G2DSFR_SRC_DSTRIGHT = toU32 100 :=
  (prepareSource_zero_area_window sampleHal sampleG2D
    (halfmt_to_g2dfmt_tbl sampleHal sampleG2D false)
    (len_halfmt_to_g2dfmt_tbl sampleHal sampleG2D false) sampleSolidLayer sampleImage
    sampleCmd ⟨100, 50⟩ 0 (by decide) (by decide) (by decide)).2.2.1

/-- Claim C27: for every solid-colour layer `prepareSource` returns `true`
whatever the format table is and whatever the pixel format, the buffer count
and the transform of the layer are (replacing them changes nothing in the
result), and it encodes: layer flags equal to the colour-fill flag, the empty
buffer type, zero buffers, the solid colour in the colour register,
`ROTATE = 0`, `SCALECONTROL = 0`, `XSCALE = YSCALE = G2D_SCALE_FACTOR(1, 1)` and
0 in the five SBWC stride fields. -/
theorem prepareSource_solid_layer (H : HalHeader) (G : G2DHeader) (tbl : List g2d_fmt)
    (tbl_len : Nat) (layer : AcrylicLayer) (image : g2d_layer) (cmd : g2dsfr → Nat)
    (target_size : hw2d_coord_t) (index : Int) (hs : layer.isSolidColor = true) :
    (prepareSource H G tbl tbl_len layer image cmd target_size index).1 = true ∧
    (∀ (tbl2 : List g2d_fmt) (len2 format count transform : Nat),
      prepareSource H G tbl2 len2
        { layer with getFormat := format, getBufferCount := count, getTransform := transform }
        image cmd target_size index =
      prepareSource H G tbl tbl_len layer image cmd target_size index) ∧
    (prepareSource H G tbl tbl_len layer image cmd target_size index).2.1.flags =
      G.G2D_LAYERFLAG_COLORFILL ∧
    (prepareSource H G tbl tbl_len layer image cmd target_size index).2.1.buffer_type =
      G.G2D_BUFTYPE_EMPTY ∧
    (prepareSource H G tbl tbl_len layer image cmd target_size index).2.1.num_buffers = 0 ∧
    (prepareSource H G tbl tbl_len layer image cmd target_size index).2.2 G2DSFR_SRC_COLOR =
      layer.getSolidColor ∧
    (prepareSource H G tbl tbl_len layer image cmd target_size index).2.2 G2DSFR_SRC_ROTATE = 0 ∧
    (prepareSource H G tbl tbl_len layer image cmd target_size index).2.2
      G2DSFR_SRC_SCALECONTROL = 0 ∧
    (prepareSource H G tbl tbl_len layer image cmd target_size index).2.2 G2DSFR_SRC_XSCALE =
      G2D_SCALE_FACTOR G 1 1 ∧
    (prepareSource H G tbl tbl_len layer image cmd target_size index).2.2 G2DSFR_SRC_YSCALE =
      G2D_SCALE_FACTOR G 1 1 ∧
    (prepareSource H G tbl tbl_len layer image cmd target_size index).2.2
      G2DSFR_SRC_Y_HEADER_STRIDE = 0 ∧
    (prepareSource H G tbl tbl_len layer image cmd target_size index).2.2
      G2DSFR_SRC_C_HEADER_STRIDE = 0 ∧
    (prepareSource H G tbl tbl_len layer image cmd target_size index).2.2
      G2DSFR_SRC_Y_PAYLOAD_STRIDE = 0 ∧
    (prepareSource H G tbl tbl_len layer image cmd target_size index).2.2
      G2DSFR_SRC_C_PAYLOAD_STRIDE = 0 ∧
    (prepareSource H G tbl tbl_len layer image cmd target_size index).2.2 G2DSFR_SRC_SBWCINFO = 0 := by
  have hr := prepareSolidLayer_regs H G layer image cmd target_size index
  obtain ⟨h1, h2, h3, h4, h5, h6, h7, h8, h9, h10, h11, h12, h13, _⟩ := hr
  refine ⟨?_, ?_, ?_⟩
  · rw [prepareSource_solid_eq H G tbl tbl_len layer image cmd target_size index hs]
  · intro tbl2 len2 format count transform
    have e2 := prepareSource_solid_eq H G tbl2 len2
      { layer with getFormat := format, getBufferCount := count, getTransform := transform }
      image cmd target_size index hs
    rw [e2, prepareSource_solid_eq H G tbl tbl_len layer image cmd target_size index hs]
    rfl
  · rw [prepareSource_solid_eq H G tbl tbl_len layer image cmd target_size index hs]
    exact ⟨h1, h2, h3, h4, h5, h6, h7, h8, h9, h10, h11, h12, h13⟩

/-- Witness for C27: the sample solid-colour layer has a format outside the
catalog, no buffers and the transform `ROT_90`. -/
theorem prepareSource_solid_layer_witness :
    (prepareSource sampleHal sampleG2D (halfmt_to_g2dfmt_tbl sampleHal sampleG2D false)
      (len_halfmt_to_g2dfmt_tbl sampleHal sampleG2D false) sampleSolidLayer sampleImage
      sampleCmd ⟨100, 50⟩ 0).1 = true ∧
    (prepareSource sampleHal sampleG2D (halfmt_to_g2dfmt_tbl sampleHal sampleG2D false)
      (len_halfmt_to_g2dfmt_tbl sampleHal sampleG2D false) sampleSolidLayer sampleImage
      sampleCmd ⟨100, 50⟩ 0).2.2 G2DSFR_SRC_COLOR = 0xFF112233 :=
  have h := prepareSource_solid_layer sampleHal sampleG2D
    (halfmt_to_g2dfmt_tbl sampleHal sampleG2D false)
    (len_halfmt_to_g2dfmt_tbl sampleHal sampleG2D false) sampleSolidLayer sampleImage
    sampleCmd ⟨100, 50⟩ 0 (by decide)
  ⟨h.1, h.2.2.2.2.2.1⟩

/-- Claim C22 (defect): two `configure` calls for the 8+2-bit format
`G2D_FMT_NV12_82_9810` with the same dataspace and a zero YCbCr-mode register.
The first call caches the matrix and sets the dither flag; the second call
finds the matrix in slot 0, returns `true` from inside the search loop and
leaves the dither flag clear. -/
theorem configure_reused_slot_lacks_dither :
    0xD0000 &&& sampleG2D.G2D_DATAFMT_YUV420SP82_9810 ≠ 0 ∧
    ((CSCMatrixWriter.new sampleHal sampleG2D true (fun _ => 0) 0x03012 0 0).1.configure
      sampleHal sampleG2D true 0xD0000 0x10000 0).1 = true ∧
    ((CSCMatrixWriter.new sampleHal sampleG2D true (fun _ => 0) 0x03012 0 0).1.configure
      sampleHal sampleG2D true 0xD0000 0x10000 0).2.2 &&& sampleG2D.G2D_YCBCRMODE_DITHER ≠ 0 ∧
    sampleWriterAfter82.mMatrixCount = 1 ∧
    (sampleWriterAfter82.configure sampleHal sampleG2D true 0xD0000 0x10000 0).1 = true ∧
    (sampleWriterAfter82.configure sampleHal sampleG2D true 0xD0000 0x10000 0).2.1.mMatrixCount
      = 1 ∧
    (sampleWriterAfter82.configure sampleHal sampleG2D true 0xD0000 0x10000 0).2.2 &&&
      sampleG2D.G2D_YCBCRMODE_DITHER = 0 := by
  decide

/-- Claim C23 (defect): the three sample layers have the alpha format RGBA_8888
and the compositing mode `HWC_BLENDING_NONE`.  For the linear layer
`prepareSource` replaces the alpha swizzle of the colour mode by opaque-one; for
the compressed and for the U-ordered layer the colour mode carries the AFBC or
the U-order flag, equals none of the three alpha formats, and keeps the mapped
alpha swizzle. -/
theorem prepareSource_flagged_format_alpha_not_forced :
    ((prepareSource sampleHal sampleG2D (halfmt_to_g2dfmt_tbl sampleHal sampleG2D false)
      (len_halfmt_to_g2dfmt_tbl sampleHal sampleG2D false) sampleBlendNoneLayer sampleImage
      sampleCmd ⟨100, 50⟩ 0).2.2 G2DSFR_IMG_COLORMODE &&& sampleG2D.G2D_SWZ_ALPHA_MASK =
        sampleG2D.G2D_SWZ_ALPHA_ONE) ∧
    (prepareSource sampleHal sampleG2D (halfmt_to_g2dfmt_tbl sampleHal sampleG2D false)
      (len_halfmt_to_g2dfmt_tbl sampleHal sampleG2D false) sampleBlendNoneCompressed sampleImage
      sampleCmd ⟨100, 50⟩ 0).1 = true ∧
    (prepareSource sampleHal sampleG2D (halfmt_to_g2dfmt_tbl sampleHal sampleG2D false)
      (len_halfmt_to_g2dfmt_tbl sampleHal sampleG2D false) sampleBlendNoneCompressed sampleImage
      sampleCmd ⟨100, 50⟩ 0).2.2 G2DSFR_IMG_COLORMODE =
        sampleG2D.G2D_FMT_ABGR8888 ||| sampleG2D.G2D_DATAFORMAT_AFBC ∧
    ((prepareSource sampleHal sampleG2D (halfmt_to_g2dfmt_tbl sampleHal sampleG2D false)
      (len_halfmt_to_g2dfmt_tbl sampleHal sampleG2D false) sampleBlendNoneCompressed sampleImage
      sampleCmd ⟨100, 50⟩ 0).2.2 G2DSFR_IMG_COLORMODE &&& sampleG2D.G2D_SWZ_ALPHA_MASK ≠
        sampleG2D.G2D_SWZ_ALPHA_ONE) ∧
    (prepareSource sampleHal sampleG2D (halfmt_to_g2dfmt_tbl sampleHal sampleG2D false)
      (len_halfmt_to_g2dfmt_tbl sampleHal sampleG2D false) sampleBlendNoneUOrder sampleImage
      sampleCmd ⟨100, 50⟩ 0).1 = true ∧
    (prepareSource sampleHal sampleG2D (halfmt_to_g2dfmt_tbl sampleHal sampleG2D false)
      (len_halfmt_to_g2dfmt_tbl sampleHal sampleG2D false) sampleBlendNoneUOrder sampleImage
      sampleCmd ⟨100, 50⟩ 0).2.2 G2DSFR_IMG_COLORMODE =
        sampleG2D.G2D_FMT_ABGR8888 ||| sampleG2D.G2D_DATAFORMAT_UORDER ∧
    ((prepareSource sampleHal sampleG2D (halfmt_to_g2dfmt_tbl sampleHal sampleG2D false)
      (len_halfmt_to_g2dfmt_tbl sampleHal sampleG2D false) sampleBlendNoneUOrder sampleImage
      sampleCmd ⟨100, 50⟩ 0).2.2 G2DSFR_IMG_COLORMODE &&& sampleG2D.G2D_SWZ_ALPHA_MASK ≠
        sampleG2D.G2D_SWZ_ALPHA_ONE) := by
  decide

theorem write_pairs_eq (regs : Nat → g2d_reg) (start : Nat) (d : Nat → Nat) (offset : Nat)
    (info : hdr_reg_info) :
    (write regs start (some d) offset info).1 =
      fun j => if start ≤ j ∧ j < start + info.count then
        ⟨offset + 4 * (j - start), packedValue d info (j - start)⟩ else regs j := by
  unfold write
  simp only
  exact foldl_update_range (fun i => ⟨offset + 4 * i, packedValue d info i⟩) start info.count regs

theorem BITMASK_eq (bits : Nat) : BITMASK bits = 2 ^ bits - 1 := by
  unfold BITMASK
  rw [Nat.one_shiftLeft]

theorem COEF_eq_mod (v bits : Nat) : COEF v bits = v % 2 ^ bits := by
  unfold COEF
  rw [BITMASK_eq, Nat.and_pow_two_sub_one_eq_mod]

theorem COEF_lt (v bits : Nat) : COEF v bits < 2 ^ bits := by
  rw [COEF_eq_mod]
  exact Nat.mod_lt _ (Nat.pos_pow_of_pos _ (by norm_num))

theorem COEF_COUPLE_VALUE_eq (v0 v1 bits : Nat) (hb : bits ≤ 16) :
    COEF_COUPLE_VALUE v0 v1 bits = (v0 &&& (2 ^ bits - 1)) ||| ((v1 &&& (2 ^ bits - 1)) <<< 16) ∧
    COEF_COUPLE_VALUE v0 v1 bits % 2 ^ 16 = v0 &&& (2 ^ bits - 1) ∧
    COEF_COUPLE_VALUE v0 v1 bits / 2 ^ 16 = v1 &&& (2 ^ bits - 1) := by
  have h0 : COEF v0 bits < 2 ^ 16 :=
    lt_of_lt_of_le (COEF_lt v0 bits) (Nat.pow_le_pow_right (by norm_num) hb)
  have h1 : COEF v1 bits < 2 ^ 16 :=
    lt_of_lt_of_le (COEF_lt v1 bits) (Nat.pow_le_pow_right (by norm_num) hb)
  have hc0 : COEF v0 bits = v0 &&& (2 ^ bits - 1) := by unfold COEF; rw [BITMASK_eq]
  have hc1 : COEF v1 bits = v1 &&& (2 ^ bits - 1) := by unfold COEF; rw [BITMASK_eq]
  have hsh : COEF v1 bits <<< 16 = COEF v1 bits * 2 ^ 16 := Nat.shiftLeft_eq _ _
  have hu : u32 (COEF v1 bits <<< 16) = COEF v1 bits <<< 16 := by
    unfold u32
    apply Nat.mod_eq_of_lt
    rw [hsh]
    calc COEF v1 bits * 2 ^ 16 < 2 ^ 16 * 2 ^ 16 := Nat.mul_lt_mul_of_pos_right h1 (by norm_num)
      _ = 2 ^ 32 := by norm_num
  have hor : COEF v1 bits <<< 16 ||| COEF v0 bits = COEF v1 bits <<< 16 + COEF v0 bits := by
    rw [hsh, Nat.mul_comm]
    exact (Nat.mul_add_lt_is_or h0 _).symm
  unfold COEF_COUPLE_VALUE
  rw [hu]
  refine ⟨?_, ?_, ?_⟩
  · rw [Nat.lor_comm, hc0, hc1]
  · rw [hor, hsh, ← hc0, Nat.mul_add_mod_of_lt h0]
  · rw [hor, hsh, ← hc1]
    have h16 : (2 : Nat) ^ 16 = 65536 := by norm_num
    rw [h16] at h0 ⊢
    omega

/-- Claim C30: the packer `write` on a present coefficient array returns the
register count `n` of the stage, leaves the entries outside its `n` registers
untouched and places register `i` at offset `base + 4 i`.  An unpaired stage
writes `data[i] & mask` with `mask = 2^bits - 1`.  A paired stage of at most 16
bits writes `(data[2i] & mask) | ((data[2i+1] & mask) << 16)` for `i < n - 1`,
from which both masked coefficients can be read back (low and high half), and
`data[2n-2] & mask` alone into register `n - 1`; it reads only the coefficients
`0 .. 2n - 2`.  The paired stages of `hdr_proc_info` are OETF X (17 registers,
16 bits), OETF Y (17, 10), EOTF X (65, 10) and tone-mapping X (17, 16); each has
at most 16 bits and `2n - 1` is the LUT size of its stage (33, 33, 129, 33). -/
theorem write_packing (regs : Nat → g2d_reg) (start : Nat) (d : Nat → Nat) (offset : Nat)
    (info : hdr_reg_info) :
    (write regs start (some d) offset info).2 = info.count ∧
    (∀ j, ¬(start ≤ j ∧ j < start + info.count) →
      (write regs start (some d) offset info).1 j = regs j) ∧
    (∀ i, i < info.count →
      ((write regs start (some d) offset info).1 (start + i)).offset = offset + 4 * i) ∧
    (info.pair = false → ∀ i, i < info.count →
      ((write regs start (some d) offset info).1 (start + i)).value =
        d i &&& (2 ^ info.bits - 1)) ∧
    (info.pair = true → info.bits ≤ 16 →
      (∀ i, i + 1 < info.count →
        ((write regs start (some d) offset info).1 (start + i)).value =
          (d (2 * i) &&& (2 ^ info.bits - 1)) |||
            ((d (2 * i + 1) &&& (2 ^ info.bits - 1)) <<< 16) ∧
        ((write regs start (some d) offset info).1 (start + i)).value % 2 ^ 16 =
          d (2 * i) &&& (2 ^ info.bits - 1) ∧
        ((write regs start (some d) offset info).1 (start + i)).value / 2 ^ 16 =
          d (2 * i + 1) &&& (2 ^ info.bits - 1)) ∧
      (0 < info.count →
        ((write regs start (some d) offset info).1 (start + (info.count - 1))).value =
          d (2 * info.count - 2) &&& (2 ^ info.bits - 1)) ∧
      (∀ d2 : Nat → Nat, (∀ j, j < 2 * info.count - 1 → d2 j = d j) →
        write regs start (some d2) offset info = write regs start (some d) offset info)) ∧
    pairedStages = [(⟨17, 16, true⟩, 33), (⟨17, 10, true⟩, 33), (⟨65, 10, true⟩, 129),
      (⟨17, 16, true⟩, 33)] ∧
    (∀ q ∈ pairedStages, q.1.bits ≤ 16 ∧ 2 * q.1.count - 1 = q.2) := by
  have hat : ∀ i, i < info.count →
      (write regs start (some d) offset info).1 (start + i) =
        ⟨offset + 4 * i, packedValue d info i⟩ := by
    intro i hi
    rw [write_pairs_eq]
    simp only
    rw [if_pos (by omega)]
    congr 2 <;> omega
  refine ⟨rfl, fun j hj => ?_, fun i hi => ?_, fun hp i hi => ?_, fun hp hb => ⟨fun i hi => ?_,
    fun hc => ?_, fun d2 hd => ?_⟩, by decide, by decide⟩
  · rw [write_pairs_eq]
    simp only
    rw [if_neg hj]
  · rw [hat i hi]
  · rw [hat i hi]
    simp only [packedValue, hp, Bool.false_eq_true, if_false]
    unfold COEF
    rw [BITMASK_eq]
  · rw [hat i (by omega)]
    simp only [packedValue, hp, if_true]
    rw [if_neg (by omega), Nat.mul_comm i 2]
    exact COEF_COUPLE_VALUE_eq _ _ _ hb
  · rw [hat _ (by omega)]
    simp only [packedValue, hp, if_true]
    unfold COEF
    rw [BITMASK_eq]
    congr 2
    omega
  · have hv : ∀ i, i < info.count → packedValue d2 info i = packedValue d info i := by
      intro i hi
      simp only [packedValue, hp, if_true]
      by_cases hl : i = info.count - 1
      · rw [if_pos hl, if_pos hl, hd _ (by omega)]
      · rw [if_neg hl, if_neg hl, hd _ (by omega), hd _ (by omega)]
    apply Prod.ext
    · rw [write_pairs_eq, write_pairs_eq]
      funext j
      by_cases hj : start ≤ j ∧ j < start + info.count
      · rw [if_pos hj, if_pos hj, hv _ (by omega)]
      · rw [if_neg hj, if_neg hj]
    · rfl

/-- Witness for C30: the OETF X description (17 registers of 16 bits, paired)
on the coefficients `data[j] = j + 1`: register 0 holds 1 and 2 in its two
halves and register 16 holds `data[32] = 33` alone. -/
theorem write_packing_witness :
    ((write (fun _ => ⟨0, 0⟩) 0 (some (fun j => j + 1)) 0x300C ⟨17, 16, true⟩).1 0).value =
      1 ||| (2 <<< 16) ∧
    ((write (fun _ => ⟨0, 0⟩) 0 (some (fun j => j + 1)) 0x300C ⟨17, 16, true⟩).1 16).value = 33 :=
  have h := (write_packing (fun _ => ⟨0, 0⟩) 0 (fun j => j + 1) 0x300C ⟨17, 16, true⟩).2.2.2.2.1
    rfl (by decide)
  ⟨(h.1 0 (by decide)).1.trans (by decide), (h.2.1 (by decide)).trans (by decide)⟩

/-- Claim C29 (defect): the sample compositor has a background colour and two
layers.  `executeG2D` succeeds; in the task it hands to the device descriptor
0 is the synthesized solid-fill layer, whose command register is the valid
flag without the opaque flag, and descriptor 1, the first user layer, is the
one that carries the opaque flag. -/
theorem executeG2D_background_layer_not_opaque :
    sampleBackgroundCompositor.hasBackgroundColor = true ∧
    (executeG2D sampleHal sampleG2D sampleTaskHeader sampleEnv sampleBackgroundCompositor
      (fun _ => 0) 3 true).ok = true ∧
    (executeG2D sampleHal sampleG2D sampleTaskHeader sampleEnv sampleBackgroundCompositor
      (fun _ => 0) 3 true).submitted.map
      (fun t => (t.num_source, (t.source.get (fun _ => g2d_layer.zero) 0).flags,
        (t.commands.source 0).get (fun _ => 0) G2DSFR_SRC_COMMAND,
        (t.commands.source 0).get (fun _ => 0) G2DSFR_SRC_COMMAND &&&
          sampleG2D.G2D_LAYERCMD_OPAQUE,
        (t.commands.source 1).get (fun _ => 0) G2DSFR_SRC_COMMAND &&&
          sampleG2D.G2D_LAYERCMD_OPAQUE)) =
      some (3, sampleG2D.G2D_LAYERFLAG_COLORFILL, sampleG2D.G2D_LAYERCMD_VALID, 0,
        sampleG2D.G2D_LAYERCMD_OPAQUE) := by
  decide

theorem heap_ptr.get_set {α : Type} (p : heap_ptr α) (v d : α) :
    (p.set v).get d = if p.isLive then v else p.get d := by
  cases p <;> rfl

theorem heap_ptr.isLive_set {α : Type} (p : heap_ptr α) (v : α) :
    (p.set v).isLive = p.isLive := by
  cases p <;> rfl

theorem executeG2D_sourceStep_encodes (H : HalHeader) (G : G2DHeader) (charIsSigned : Bool)
    (tbl : List g2d_fmt) (tbl_len : Nat) (dim : hw2d_coord_t) (baseidx k : Nat)
    (layer : AcrylicLayer) (st : EncodeState)
    (hok : (executeG2D_sourceStep H G charIsSigned tbl tbl_len dim baseidx k layer st).1 = true) :
    (prepareSource H G tbl tbl_len layer (st.source (baseidx + k))
      (st.commands_source (baseidx + k)) dim (k : Int)).1 = true ∧
    (executeG2D_sourceStep H G charIsSigned tbl tbl_len dim baseidx k layer st).2.source
        (baseidx + k) =
      (prepareSource H G tbl tbl_len layer (st.source (baseidx + k))
        (st.commands_source (baseidx + k)) dim (k : Int)).2.1 ∧
    (∀ r, r ≠ G2DSFR_SRC_YCBCRMODE →
      (executeG2D_sourceStep H G charIsSigned tbl tbl_len dim baseidx k layer
          st).2.commands_source (baseidx + k) r =
        (prepareSource H G tbl tbl_len layer (st.source (baseidx + k))
          (st.commands_source (baseidx + k)) dim (k : Int)).2.2 r) ∧
    (∀ j, j ≠ baseidx + k →
      (executeG2D_sourceStep H G charIsSigned tbl tbl_len dim baseidx k layer st).2.source j =
        st.source j) := by
  have hps : (prepareSource H G tbl tbl_len layer (st.source (baseidx + k))
      (st.commands_source (baseidx + k)) dim (k : Int)).1 = true := by
    unfold executeG2D_sourceStep at hok
    simp only at hok
    by_contra hne
    simp [hne] at hok
  refine ⟨hps, ?_⟩
  unfold executeG2D_sourceStep at hok ⊢
  simp only [hps, Bool.not_true, Bool.false_eq_true, if_false] at hok ⊢
  split
  · rename_i hcfg
    rw [hcfg] at hok
    simp at hok
  · refine ⟨?_, ?_, ?_⟩
    · split <;> simp [Function.update_same]
    · intro r hr
      split <;> simp [Function.update_same, Function.update_noteq hr]
    · intro j hj
      split <;> simp [Function.update_noteq hj]

theorem executeG2D_sourceStep_frame_source (H : HalHeader) (G : G2DHeader) (charIsSigned : Bool)
    (tbl : List g2d_fmt) (tbl_len : Nat) (dim : hw2d_coord_t) (baseidx k : Nat)
    (layer : AcrylicLayer) (st : EncodeState) (j : Nat) (hj : j ≠ baseidx + k) :
    (executeG2D_sourceStep H G charIsSigned tbl tbl_len dim baseidx k layer st).2.source j
      = st.source j := by
  unfold executeG2D_sourceStep
  simp only
  split
  · simp [Function.update_noteq hj]
  · split
    · simp [Function.update_noteq hj]
    · split <;> simp [Function.update_noteq hj]

theorem executeG2D_sourceLoop_frame_source (H : HalHeader) (G : G2DHeader) (charIsSigned : Bool)
    (tbl : List g2d_fmt) (tbl_len : Nat) (dim : hw2d_coord_t) (baseidx : Nat) :
    ∀ (layers : List AcrylicLayer) (k : Nat) (st : EncodeState) (j : Nat), j < baseidx + k →
    (executeG2D_sourceLoop H G charIsSigned tbl tbl_len dim baseidx k layers st).2.source j
      = st.source j
  | [], _, _, _, _ => rfl
  | layer :: rest, k, st, j, hj => by
    have hstep := executeG2D_sourceStep_frame_source H G charIsSigned tbl tbl_len dim baseidx k
      layer st j (by omega)
    unfold executeG2D_sourceLoop
    simp only
    split
    · exact hstep
    · rw [executeG2D_sourceLoop_frame_source H G charIsSigned tbl tbl_len dim baseidx rest (k + 1)
        _ j (by omega)]
      exact hstep

theorem executeG2D_sourceLoop_encodes (H : HalHeader) (G : G2DHeader) (charIsSigned : Bool)
    (tbl : List g2d_fmt) (tbl_len : Nat) (dim : hw2d_coord_t) (baseidx : Nat) :
    ∀ (layers : List AcrylicLayer) (k : Nat) (st : EncodeState),
    (executeG2D_sourceLoop H G charIsSigned tbl tbl_len dim baseidx k layers st).1 = true →
    ∀ (n : Nat) (layer : AcrylicLayer), layers[n]? = some layer →
    ∃ (image0 : g2d_layer) (cmd0 : g2dsfr → Nat),
      (prepareSource H G tbl tbl_len layer image0 cmd0 dim ((k + n : Nat) : Int)).1 = true ∧
      (executeG2D_sourceLoop H G charIsSigned tbl tbl_len dim baseidx k layers st).2.source
          (baseidx + (k + n)) =
        (prepareSource H G tbl tbl_len layer image0 cmd0 dim ((k + n : Nat) : Int)).2.1 ∧
      ∀ r, r ≠ G2DSFR_SRC_YCBCRMODE →
        (executeG2D_sourceLoop H G charIsSigned tbl tbl_len dim baseidx k layers
            st).2.commands_source (baseidx + (k + n)) r =
          (prepareSource H G tbl tbl_len layer image0 cmd0 dim ((k + n : Nat) : Int)).2.2 r
  | [], _, _, _, n, layer, hn => by simp at hn
  | l0 :: rest, k, st, hok, n, layer, hn => by
    obtain ⟨hs, heq⟩ := executeG2D_sourceLoop_head H G charIsSigned tbl tbl_len dim baseidx k l0
      rest st hok
    rw [heq] at hok ⊢
    cases n with
    | zero =>
      simp only [List.getElem?_cons_zero, Option.some.injEq] at hn
      subst hn
      obtain ⟨h1, h2, h3, _⟩ := executeG2D_sourceStep_encodes H G charIsSigned tbl tbl_len dim
        baseidx k l0 st hs
      refine ⟨st.source (baseidx + k), st.commands_source (baseidx + k), h1, ?_, ?_⟩
      · rw [executeG2D_sourceLoop_frame_source H G charIsSigned tbl tbl_len dim baseidx rest
          (k + 1) _ _ (by omega)]
        exact h2
      · intro r hr
        rw [executeG2D_sourceLoop_frame H G charIsSigned tbl tbl_len dim baseidx rest (k + 1) _ _
          (by omega)]
        exact h3 r hr
    | succ n =>
      simp only [List.getElem?_cons_succ] at hn
      have ih := executeG2D_sourceLoop_encodes H G charIsSigned tbl tbl_len dim baseidx rest
        (k + 1) _ hok n layer hn
      have he : k + 1 + n = k + (n + 1) := by omega
      rw [he] at ih
      exact ih

theorem reallocLayer_buffersValid (alloc : AllocOracle) (c : AcrylicCompositorG2D9810) (n : Nat)
    (hv : c.buffersValid) : (reallocLayer alloc c n).2.buffersValid := by
  by_cases hn : n ≤ c.mMaxSourceCount
  · rw [reallocLayer_noop alloc c n hn]; exact hv
  · by_cases hok : (reallocLayer alloc c n).1 = true
    · obtain ⟨h1, h2, _, h4, _, _⟩ := reallocLayer_success alloc c n (by omega) hok
      refine ⟨fun _ => ?_, fun i hi => ?_⟩
      · obtain ⟨a, ha⟩ := h4
        rw [ha]; rfl
      · rw [h1] at hi
        obtain ⟨a, ha⟩ := h2 i hi
        rw [ha]; rfl
    · rcases (reallocLayer_failure alloc c n (by simpa using hok)).2 with h | h
      · rw [h.2.2]; exact hv
      · refine ⟨fun h0 => ?_, fun i hi => ?_⟩ <;> omega

theorem executeG2D_setup_buffers (G : G2DHeader) (env : ExecEnv) (c : AcrylicCompositorG2D9810)
    (fence : Nat → Int) (num_fences : Nat) (hv : c.buffersValid)
    (hok : (executeG2D_setup G env c fence num_fences).ok = true) :
    (executeG2D_setup G env c fence num_fences).layercount ≤
      (executeG2D_setup G env c fence num_fences).self.mMaxSourceCount ∧
    (0 < (executeG2D_setup G env c fence num_fences).layercount →
      (executeG2D_setup G env c fence num_fences).self.mTask.source.isLive = true) ∧
    ∀ i, i < (executeG2D_setup G env c fence num_fences).layercount →
      ((executeG2D_setup G env c fence num_fences).self.mTask.commands.source i).isLive = true := by
  have hb := reallocLayer_buffersValid env.alloc c
    (if executeG2D_hasBackground G c then c.mLayers.length + 1 else c.mLayers.length) hv
  have hc := reallocLayer_capacity env.alloc c
    (if executeG2D_hasBackground G c then c.mLayers.length + 1 else c.mLayers.length)
  unfold executeG2D_setup at hok ⊢
  simp only at hok ⊢
  generalize reallocLayer env.alloc c
    (if executeG2D_hasBackground G c then c.mLayers.length + 1 else c.mLayers.length) = r
    at hb hc hok ⊢
  generalize (if executeG2D_hasBackground G c then c.mLayers.length + 1 else c.mLayers.length) = n
    at hc hok ⊢
  by_cases hval : env.validateAllLayers c = true
  · simp only [hval, Bool.not_true, Bool.false_eq_true, if_false] at hok ⊢
    by_cases hbg : (executeG2D_hasBackground G c && decide (n > c.maxLayerCount)) = true
    · rw [if_pos hbg] at hok; simp at hok
    · rw [if_neg hbg] at hok ⊢
      by_cases hr : r.1 = true
      · simp only [hr, Bool.not_true, Bool.false_eq_true, if_false]
        have hc := hc hr
        refine ⟨by omega, fun h => hb.1 (by omega), fun i hi => hb.2 i (by omega)⟩
      · have hr0 : r.1 = false := by simpa using hr
        simp [hr0] at hok
  · have hv0 : env.validateAllLayers c = false := by simpa using hval
    simp [hv0] at hok

theorem executeG2D_submitted_inv (H : HalHeader) (G : G2DHeader) (T : G2DTaskHeader)
    (env : ExecEnv) (c : AcrylicCompositorG2D9810) (fence : Nat → Int) (num_fences : Nat)
    (nonblocking : Bool) (t : g2d_task)
    (hsub : (executeG2D H G T env c fence num_fences nonblocking).submitted = some t) :
    (executeG2D_setup G env c fence num_fences).ok = true ∧
    ∃ w lp, (executeG2D_encode H G T env (executeG2D_setup G env c fence num_fences)).locals =
        some (w, lp) ∧
      t = (ioctlG2D env (executeG2D_finish G T env
        (executeG2D_encode H G T env (executeG2D_setup G env c fence num_fences)).self w lp
        (executeG2D_setup G env c fence num_fences).layercount
        (executeG2D_setup G env c fence num_fences).num_fences nonblocking)).submitted := by
  unfold executeG2D at hsub
  simp only at hsub
  by_cases hok : (executeG2D_setup G env c fence num_fences).ok = true
  · refine ⟨hok, ?_⟩
    simp only [hok, Bool.not_true, Bool.false_eq_true, if_false] at hsub
    revert hsub
    cases hl : (executeG2D_encode H G T env (executeG2D_setup G env c fence num_fences)).locals with
    | none => intro hsub; simp at hsub
    | some wl =>
      intro hsub
      simp only at hsub
      refine ⟨wl.1, wl.2, rfl, ?_⟩
      split_ifs at hsub <;> simpa using hsub.symm
  · have hok0 : (executeG2D_setup G env c fence num_fences).ok = false := by simpa using hok
    simp [hok0] at hsub

theorem ioctlG2D_submitted (env : ExecEnv) (c : AcrylicCompositorG2D9810) :
    (ioctlG2D env c).submitted.num_source = c.mTask.num_source ∧
    (ioctlG2D env c).submitted.source = c.mTask.source ∧
    ∀ i, i < c.mMaxSourceCount →
      (ioctlG2D env c).submitted.commands.source i = c.mTask.commands.source i := by
  unfold ioctlG2D
  simp only
  split_ifs
  · exact ⟨rfl, rfl, fun _ _ => rfl⟩
  · exact ⟨rfl, rfl, fun _ _ => rfl⟩
  · exact ⟨rfl, rfl, fun i hi => by simp only [if_pos hi]⟩
  · exact ⟨rfl, rfl, fun i hi => by simp only [if_pos hi]⟩

theorem foldl_rel {α β : Type} (R : α → α → Prop) (hrefl : ∀ a, R a a)
    (htrans : ∀ a b c, R a b → R b c → R a c) (f : α → β → α) (hf : ∀ a b, R a (f a b)) :
    ∀ (l : List β) (a : α), R a (l.foldl f a)
  | [], a => hrefl a
  | b :: l, a => htrans _ _ _ (hf a b) (foldl_rel R hrefl htrans f hf l (f a b))

theorem hdrLayerFrame_refl (T : G2DTaskHeader) (t : g2d_task) : hdrLayerFrame T t t :=
  ⟨rfl, rfl, fun _ _ _ _ => rfl, fun _ => Or.inl rfl⟩

theorem hdrLayerFrame_trans (T : G2DTaskHeader) (a b c : g2d_task)
    (hab : hdrLayerFrame T a b) (hbc : hdrLayerFrame T b c) : hdrLayerFrame T a c := by
  obtain ⟨a1, a2, a3, a4⟩ := hab
  obtain ⟨b1, b2, b3, b4⟩ := hbc
  refine ⟨b1.trans a1, b2.trans a2, fun i r h1 h2 => (b3 i r h1 h2).trans (a3 i r h1 h2),
    fun i => ?_⟩
  rcases a4 i with ha | ha <;> rcases b4 i with hb | hb
  · left; rw [hb, ha]
  · right; rw [hb, ha]
  · right; rw [hb, ha]
  · right; rw [hb, ha, Nat.or_assoc, Nat.or_self]

theorem setHdrLayerCommand_frame (G : G2DHeader) (T : G2DTaskHeader) (map : Nat → Nat)
    (task : g2d_task) (lp : Nat) :
    hdrLayerFrame T task (setHdrLayerCommand G T map task lp) := by
  unfold setHdrLayerCommand
  apply foldl_rel (hdrLayerFrame T) (hdrLayerFrame_refl T) (hdrLayerFrame_trans T)
  intro t a
  simp only
  split
  · exact hdrLayerFrame_refl T t
  · unfold hdrLayerFrame g2d_task.sourceRegs
    refine ⟨rfl, rfl, fun i r hr hc => ?_, fun i => ?_⟩
    · simp only
      by_cases hia : i = a
      · subst hia
        rw [Function.update_same, heap_ptr.get_set]
        split
        · split <;> simp [Function.update_noteq hr, Function.update_noteq hc]
        · rfl
      · rw [Function.update_noteq hia]
    · simp only
      by_cases hia : i = a
      · subst hia
        rw [Function.update_same, heap_ptr.get_set]
        split
        · split
          · right
            simp only [Function.update_apply, reduceCtorEq, if_false, if_true]
          · left
            simp only [Function.update_apply, reduceCtorEq, if_false]
        · left; rfl
      · rw [Function.update_noteq hia]
        left; rfl

theorem executeG2D_finish_layers (G : G2DHeader) (T : G2DTaskHeader) (env : ExecEnv)
    (c : AcrylicCompositorG2D9810) (w : CSCMatrixWriter) (lp layercount num_fences : Nat)
    (nonblocking : Bool)
    (hhdr : ∀ t, (env.hdrGetLayerHdrMode t).source = t.source ∧
      ∀ i r, r ≠ G2DSFR_SRC_HDRMODE →
        (env.hdrGetLayerHdrMode t).sourceRegs i r = t.sourceRegs i r) :
    (executeG2D_finish G T env c w lp layercount num_fences nonblocking).mTask.num_source =
      layercount ∧
    (executeG2D_finish G T env c w lp layercount num_fences nonblocking).mTask.source =
      c.mTask.source ∧
    (executeG2D_finish G T env c w lp layercount num_fences nonblocking).mMaxSourceCount =
      c.mMaxSourceCount ∧
    (∀ i r, r ≠ G2DSFR_SRC_HDRMODE → r ≠ G2DSFR_SRC_COMMAND →
      (executeG2D_finish G T env c w lp layercount num_fences nonblocking).mTask.sourceRegs i r =
        c.mTask.sourceRegs i r) ∧
    ∀ i,
      (executeG2D_finish G T env c w lp layercount num_fences nonblocking).mTask.sourceRegs i
          G2DSFR_SRC_COMMAND = c.mTask.sourceRegs i G2DSFR_SRC_COMMAND ∨
      (executeG2D_finish G T env c w lp layercount num_fences nonblocking).mTask.sourceRegs i
          G2DSFR_SRC_COMMAND =
        c.mTask.sourceRegs i G2DSFR_SRC_COMMAND ||| T.G2D_LAYERCMD_PREMULT_ALPHA := by
  obtain ⟨hs, hr⟩ := hhdr c.mTask
  have hc : ∀ i, (env.hdrGetLayerHdrMode c.mTask).sourceRegs i G2DSFR_SRC_COMMAND =
      c.mTask.sourceRegs i G2DSFR_SRC_COMMAND := fun i => hr i _ (by decide)
  unfold executeG2D_finish
  simp only
  split_ifs
  all_goals refine ⟨?_, ?_, ?_, fun i r h1 h2 => ?_, fun i => ?_⟩
  all_goals first
    | trivial
    | rfl
    | exact hs
    | exact hr i r h1
    | exact Or.inl (hc i)
    | exact (setHdrLayerCommand_frame G T c.mHdrLibLayerMap _ lp).1
    | exact (setHdrLayerCommand_frame G T c.mHdrLibLayerMap _ lp).2.1.trans hs
    | exact ((setHdrLayerCommand_frame G T c.mHdrLibLayerMap _ lp).2.2.1 i r h1 h2).trans
        (hr i r h1)
    | (rw [← hc i]; exact (setHdrLayerCommand_frame G T c.mHdrLibLayerMap _ lp).2.2.2 i)

theorem executeG2D_beforeLoop_live (H : HalHeader) (G : G2DHeader) (T : G2DTaskHeader)
    (env : ExecEnv) (c : AcrylicCompositorG2D9810) (hasBackground : Bool) (task : g2d_task) :
    (executeG2D_beforeLoop H G T env c hasBackground task).1.source.isLive = task.source.isLive ∧
    ∀ i, ((executeG2D_beforeLoop H G T env c hasBackground task).1.commands.source i).isLive =
      (task.commands.source i).isLive := by
  unfold executeG2D_beforeLoop
  simp only
  cases hasBackground
  · simp only [Bool.false_eq_true, if_false]
    split_ifs <;> exact ⟨rfl, fun _ => rfl⟩
  · simp only [if_true]
    refine ⟨?_, fun i => ?_⟩
    · split_ifs <;> simp only [heap_ptr.isLive_set]
    · by_cases hi : i = 0
      · subst hi
        split_ifs <;> simp only [Function.update_same, heap_ptr.isLive_set]
      · split_ifs <;> simp only [Function.update_noteq hi]

theorem executeG2D_beforeLoop_background (H : HalHeader) (G : G2DHeader) (T : G2DTaskHeader)
    (env : ExecEnv) (c : AcrylicCompositorG2D9810) (task : g2d_task)
    (hsrc : task.source.isLive = true) (hcmd : (task.commands.source 0).isLive = true) :
    (executeG2D_beforeLoop H G T env c true task).1.sourceLayer 0 =
      (prepareSolidLayerCanvas G c.mBackgroundColor c.mCanvas (task.sourceLayer 0)
        (task.sourceRegs 0)).2.1 ∧
    (executeG2D_beforeLoop H G T env c true task).1.sourceRegs 0 =
      (prepareSolidLayerCanvas G c.mBackgroundColor c.mCanvas (task.sourceLayer 0)
        (task.sourceRegs 0)).2.2 := by
  unfold executeG2D_beforeLoop g2d_task.sourceLayer g2d_task.sourceRegs
  simp only [if_true]
  split_ifs <;>
    simp only [heap_ptr.get_set, hsrc, hcmd, if_true, Function.update_same] <;>
    exact ⟨trivial, trivial⟩

theorem executeG2D_encode_layers (H : HalHeader) (G : G2DHeader) (T : G2DTaskHeader)
    (env : ExecEnv) (s : ExecSetup) (w : CSCMatrixWriter) (lp : Nat)
    (hl : (executeG2D_encode H G T env s).locals = some (w, lp))
    (hsrc : 0 < s.layercount → s.self.mTask.source.isLive = true)
    (hcmd : ∀ i, i < s.layercount → (s.self.mTask.commands.source i).isLive = true) :
    (executeG2D_sources H G T env s (executeG2D_target H G s.self).2).1 = true ∧
    (executeG2D_encode H G T env s).self.mMaxSourceCount = s.self.mMaxSourceCount ∧
    ∀ j, j < s.layercount →
      (executeG2D_encode H G T env s).self.mTask.sourceLayer j =
        (executeG2D_sources H G T env s (executeG2D_target H G s.self).2).2.source j ∧
      (executeG2D_encode H G T env s).self.mTask.sourceRegs j =
        (executeG2D_sources H G T env s (executeG2D_target H G s.self).2).2.commands_source j := by
  have hb := executeG2D_beforeLoop_live H G T env s.self s.hasBackground
    (executeG2D_target H G s.self).2
  unfold executeG2D_encode at hl ⊢
  simp only at hl ⊢
  by_cases ht : (executeG2D_target H G s.self).1 = true
  · simp only [ht, Bool.not_true, Bool.false_eq_true, if_false] at hl ⊢
    by_cases hr : (executeG2D_sources H G T env s (executeG2D_target H G s.self).2).1 = true
    · simp only [hr, Bool.not_true, Bool.false_eq_true, if_false] at hl ⊢
      refine ⟨trivial, trivial, fun j hj => ?_⟩
      have h1 : (executeG2D_beforeLoop H G T env s.self s.hasBackground
          (executeG2D_target H G s.self).2).1.source.isLive = true := by
        rw [hb.1]; exact hsrc (by omega)
      have h2 : ((executeG2D_beforeLoop H G T env s.self s.hasBackground
          (executeG2D_target H G s.self).2).1.commands.source j).isLive = true := by
        rw [hb.2 j]; exact hcmd j hj
      unfold executeG2D_loopStore g2d_task.sourceLayer g2d_task.sourceRegs
      simp only [heap_ptr.get_set, h1, h2, if_true]
      exact ⟨trivial, trivial⟩
    · have hr0 : (executeG2D_sources H G T env s (executeG2D_target H G s.self).2).1 = false := by
        simpa using hr
      simp [hr0] at hl
  · have ht0 : (executeG2D_target H G s.self).1 = false := by simpa using ht
    simp [ht0] at hl

theorem executeG2D_setup_backgroundColor (G : G2DHeader) (env : ExecEnv)
    (c : AcrylicCompositorG2D9810) (fence : Nat → Int) (num_fences : Nat) :
    (executeG2D_setup G env c fence num_fences).self.mBackgroundColor = c.mBackgroundColor := by
  have hs := reallocLayer_sameSettings env.alloc c
    (if executeG2D_hasBackground G c then c.mLayers.length + 1 else c.mLayers.length)
  unfold AcrylicCompositorG2D9810.sameSettings at hs
  unfold executeG2D_setup
  simp only
  generalize reallocLayer env.alloc c
    (if executeG2D_hasBackground G c then c.mLayers.length + 1 else c.mLayers.length) = r at hs ⊢
  obtain ⟨_, _, _, h4, _⟩ := hs
  split_ifs <;> first | rfl | exact h4

theorem executeG2D_setup_too_many (G : G2DHeader) (env : ExecEnv)
    (c : AcrylicCompositorG2D9810) (fence : Nat → Int) (num_fences : Nat)
    (hbg : executeG2D_hasBackground G c = true) (hm : c.maxLayerCount < c.mLayers.length + 1) :
    (executeG2D_setup G env c fence num_fences).ok = false ∧
    (executeG2D_setup G env c fence num_fences).self = c := by
  unfold executeG2D_setup
  simp only [hbg, if_true, gt_iff_lt, hm, decide_True, Bool.and_self]
  split_ifs <;> exact ⟨rfl, rfl⟩

theorem executeG2D_sources_background (H : HalHeader) (G : G2DHeader) (T : G2DTaskHeader)
    (env : ExecEnv) (s : ExecSetup) (task : g2d_task) (hbg : s.hasBackground = true)
    (hsrc : task.source.isLive = true) (hcmd : (task.commands.source 0).isLive = true) :
    (executeG2D_sources H G T env s task).2.source 0 =
      (prepareSolidLayerCanvas G s.self.mBackgroundColor s.self.mCanvas (task.sourceLayer 0)
        (task.sourceRegs 0)).2.1 ∧
    (executeG2D_sources H G T env s task).2.commands_source 0 =
      (prepareSolidLayerCanvas G s.self.mBackgroundColor s.self.mCanvas (task.sourceLayer 0)
        (task.sourceRegs 0)).2.2 := by
  have hb := executeG2D_beforeLoop_background H G T env s.self task hsrc hcmd
  unfold executeG2D_sources
  simp only [hbg, if_true]
  rw [executeG2D_sourceLoop_frame_source H G env.charIsSigned _ _ _ 1 _ 0 _ 0 (by omega),
    executeG2D_sourceLoop_frame H G env.charIsSigned _ _ _ 1 _ 0 _ 0 (by omega)]
  exact hb

theorem executeG2D_sources_layers (H : HalHeader) (G : G2DHeader) (T : G2DTaskHeader)
    (env : ExecEnv) (s : ExecSetup) (task : g2d_task)
    (hok : (executeG2D_sources H G T env s task).1 = true) (k : Nat) (l : AcrylicLayer)
    (hl : (s.self.mLayers.take (s.layercount - (if s.hasBackground then 1 else 0)))[k]? = some l) :
    ∃ (image0 : g2d_layer) (cmd0 : g2dsfr → Nat),
      (prepareSource H G s.self.halfmt_to_g2dfmt_tbl s.self.len_halfmt_to_g2dfmt_tbl l image0 cmd0
        s.self.mCanvas.getImageDimension (k : Int)).1 = true ∧
      (executeG2D_sources H G T env s task).2.source ((if s.hasBackground then 1 else 0) + k) =
        (prepareSource H G s.self.halfmt_to_g2dfmt_tbl s.self.len_halfmt_to_g2dfmt_tbl l image0
          cmd0 s.self.mCanvas.getImageDimension (k : Int)).2.1 ∧
      ∀ r, r ≠ G2DSFR_SRC_YCBCRMODE →
        (executeG2D_sources H G T env s task).2.commands_source
            ((if s.hasBackground then 1 else 0) + k) r =
          (prepareSource H G s.self.halfmt_to_g2dfmt_tbl s.self.len_halfmt_to_g2dfmt_tbl l image0
            cmd0 s.self.mCanvas.getImageDimension (k : Int)).2.2 r := by
  unfold executeG2D_sources at hok ⊢
  simp only at hok ⊢
  obtain ⟨image0, cmd0, h1, h2, h3⟩ := executeG2D_sourceLoop_encodes H G env.charIsSigned
    s.self.halfmt_to_g2dfmt_tbl s.self.len_halfmt_to_g2dfmt_tbl s.self.mCanvas.getImageDimension
    (if s.hasBackground then 1 else 0) _ 0 _ hok k l hl
  rw [Nat.zero_add] at h1 h2 h3
  exact ⟨image0, cmd0, h1, h2, h3⟩

theorem and_ff00_eq (x : Nat) (hx : x < 2 ^ 16) : x &&& 0xFF00 = (x >>> 8) <<< 8 := by
  apply Nat.eq_of_testBit_eq
  intro j
  have h0 : (0xFF00 : Nat) = (2 ^ 8 - 1) <<< 8 := by decide
  rw [Nat.testBit_and, h0, Nat.testBit_shiftLeft, Nat.testBit_shiftLeft,
    Nat.testBit_two_pow_sub_one, Nat.testBit_shiftRight]
  by_cases hj : 8 ≤ j
  · have e : 8 + (j - 8) = j := by omega
    rw [e]
    by_cases hj2 : j < 16
    · have : j - 8 < 8 := by omega
      simp [hj, this]
    · have hf : x.testBit j = false :=
        Nat.testBit_lt_two_pow (lt_of_lt_of_le hx (Nat.pow_le_pow_right (by omega) (by omega)))
      simp [hf]
  · simp [hj]

theorem backgroundARGB_eq (bg : BackgroundColor) (hr : bg.r < 2 ^ 16) (hg : bg.g < 2 ^ 16)
    (hb : bg.b < 2 ^ 16) (ha : bg.a < 2 ^ 16) :
    u32 ((bg.a &&& 0xFF00) <<< 16) ||| u32 ((bg.r &&& 0xFF00) <<< 8) |||
      u32 ((bg.g &&& 0xFF00) <<< 0) ||| ((bg.b &&& 0xFF00) >>> 8) = backgroundARGB bg := by
  have sa : bg.a >>> 8 < 2 ^ 8 := by rw [Nat.shiftRight_eq_div_pow]; omega
  have sr : bg.r >>> 8 < 2 ^ 8 := by rw [Nat.shiftRight_eq_div_pow]; omega
  have sg : bg.g >>> 8 < 2 ^ 8 := by rw [Nat.shiftRight_eq_div_pow]; omega
  have sb : bg.b >>> 8 < 2 ^ 8 := by rw [Nat.shiftRight_eq_div_pow]; omega
  unfold backgroundARGB u32
  rw [and_ff00_eq _ hr, and_ff00_eq _ hg, and_ff00_eq _ hb, and_ff00_eq _ ha]
  generalize bg.a >>> 8 = a at sa
  generalize bg.r >>> 8 = r at sr
  generalize bg.g >>> 8 = g at sg
  generalize bg.b >>> 8 = b at sb
  have e1 : (a <<< 8) <<< 16 % 2 ^ 32 = a <<< 24 := by
    simp only [Nat.shiftLeft_eq]
    omega
  have e2 : (r <<< 8) <<< 8 % 2 ^ 32 = r <<< 16 := by
    simp only [Nat.shiftLeft_eq]
    omega
  have e3 : (g <<< 8) <<< 0 % 2 ^ 32 = g <<< 8 := by
    simp only [Nat.shiftLeft_eq]
    omega
  have e4 : (b <<< 8) >>> 8 = b := by
    simp only [Nat.shiftLeft_eq, Nat.shiftRight_eq_div_pow]
    omega
  rw [e1, e2, e3, e4]

theorem prepareSolidLayerCanvas_regs (G : G2DHeader) (bg : BackgroundColor)
    (canvas : AcrylicCanvas) (image : g2d_layer) (cmd : g2dsfr → Nat) :
    (prepareSolidLayerCanvas G bg canvas image cmd).2.1.flags = G.G2D_LAYERFLAG_COLORFILL ∧
    (prepareSolidLayerCanvas G bg canvas image cmd).2.1.buffer_type = G.G2D_BUFTYPE_EMPTY ∧
    (prepareSolidLayerCanvas G bg canvas image cmd).2.1.num_buffers = 0 ∧
    (prepareSolidLayerCanvas G bg canvas image cmd).2.2 G2DSFR_SRC_SELECT =
      G.G2D_LAYERSEL_COLORFILL ∧
    (prepareSolidLayerCanvas G bg canvas image cmd).2.2 G2DSFR_IMG_LEFT = 0 ∧
    (prepareSolidLayerCanvas G bg canvas image cmd).2.2 G2DSFR_IMG_TOP = 0 ∧
    (prepareSolidLayerCanvas G bg canvas image cmd).2.2 G2DSFR_IMG_RIGHT =
      toU32 canvas.getImageDimension.hori ∧
    (prepareSolidLayerCanvas G bg canvas image cmd).2.2 G2DSFR_IMG_BOTTOM =
      toU32 canvas.getImageDimension.vert ∧
    (prepareSolidLayerCanvas G bg canvas image cmd).2.2 G2DSFR_SRC_DSTLEFT = 0 ∧
    (prepareSolidLayerCanvas G bg canvas image cmd).2.2 G2DSFR_SRC_DSTTOP = 0 ∧
    (prepareSolidLayerCanvas G bg canvas image cmd).2.2 G2DSFR_SRC_DSTRIGHT =
      toU32 canvas.getImageDimension.hori ∧
    (prepareSolidLayerCanvas G bg canvas image cmd).2.2 G2DSFR_SRC_DSTBOTTOM =
      toU32 canvas.getImageDimension.vert ∧
    (prepareSolidLayerCanvas G bg canvas image cmd).2.2 G2DSFR_SRC_COLOR =
      (u32 ((bg.a &&& 0xFF00) <<< 16) ||| u32 ((bg.r &&& 0xFF00) <<< 8) |||
        u32 ((bg.g &&& 0xFF00) <<< 0) ||| ((bg.b &&& 0xFF00) >>> 8)) := by
  unfold prepareSolidLayerCanvas setSolidLayer
  simp only [Function.update_apply, reduceCtorEq, if_false, if_true]
  refine ⟨?_, ?_, ?_, ?_, ?_, ?_, ?_, ?_, ?_, ?_, ?_, ?_, ?_⟩ <;> trivial

theorem executeG2D_submitted_layers (H : HalHeader) (G : G2DHeader) (T : G2DTaskHeader)
    (env : ExecEnv) (c : AcrylicCompositorG2D9810) (fence : Nat → Int) (num_fences : Nat)
    (nonblocking : Bool) (t : g2d_task) (hv : c.buffersValid)
    (hhdr : ∀ t, (env.hdrGetLayerHdrMode t).source = t.source ∧
      ∀ i r, r ≠ G2DSFR_SRC_HDRMODE →
        (env.hdrGetLayerHdrMode t).sourceRegs i r = t.sourceRegs i r)
    (hsub : (executeG2D H G T env c fence num_fences nonblocking).submitted = some t) :
    (executeG2D_setup G env c fence num_fences).ok = true ∧
    (executeG2D_sources H G T env (executeG2D_setup G env c fence num_fences)
      (executeG2D_target H G (executeG2D_setup G env c fence num_fences).self).2).1 = true ∧
    t.num_source = (executeG2D_setup G env c fence num_fences).layercount ∧
    (0 < (executeG2D_setup G env c fence num_fences).layercount →
      (executeG2D_setup G env c fence num_fences).self.mTask.source.isLive = true) ∧
    (∀ i, i < (executeG2D_setup G env c fence num_fences).layercount →
      ((executeG2D_setup G env c fence num_fences).self.mTask.commands.source i).isLive = true) ∧
    ∀ j, j < (executeG2D_setup G env c fence num_fences).layercount →
      t.sourceLayer j =
        (executeG2D_sources H G T env (executeG2D_setup G env c fence num_fences)
          (executeG2D_target H G (executeG2D_setup G env c fence num_fences).self).2).2.source j ∧
      (∀ x, x ≠ G2DSFR_SRC_HDRMODE → x ≠ G2DSFR_SRC_COMMAND →
        t.sourceRegs j x =
          (executeG2D_sources H G T env (executeG2D_setup G env c fence num_fences)
            (executeG2D_target H G
              (executeG2D_setup G env c fence num_fences).self).2).2.commands_source j x) ∧
      (t.sourceRegs j G2DSFR_SRC_COMMAND =
          (executeG2D_sources H G T env (executeG2D_setup G env c fence num_fences)
            (executeG2D_target H G
              (executeG2D_setup G env c fence num_fences).self).2).2.commands_source j
            G2DSFR_SRC_COMMAND ∨
        t.sourceRegs j G2DSFR_SRC_COMMAND =
          (executeG2D_sources H G T env (executeG2D_setup G env c fence num_fences)
            (executeG2D_target H G
              (executeG2D_setup G env c fence num_fences).self).2).2.commands_source j
            G2DSFR_SRC_COMMAND ||| T.G2D_LAYERCMD_PREMULT_ALPHA) := by
  obtain ⟨hok, w, lp, hl, ht⟩ := executeG2D_submitted_inv H G T env c fence num_fences
    nonblocking t hsub
  obtain ⟨hcap, hsrc, hcmd⟩ := executeG2D_setup_buffers G env c fence num_fences hv hok
  obtain ⟨hr, hmax, hlay⟩ := executeG2D_encode_layers H G T env _ w lp hl hsrc hcmd
  obtain ⟨f1, f2, f3, f4, f5⟩ := executeG2D_finish_layers G T env
    (executeG2D_encode H G T env (executeG2D_setup G env c fence num_fences)).self w lp
    (executeG2D_setup G env c fence num_fences).layercount
    (executeG2D_setup G env c fence num_fences).num_fences nonblocking hhdr
  obtain ⟨i1, i2, i3⟩ := ioctlG2D_submitted env (executeG2D_finish G T env
    (executeG2D_encode H G T env (executeG2D_setup G env c fence num_fences)).self w lp
    (executeG2D_setup G env c fence num_fences).layercount
    (executeG2D_setup G env c fence num_fences).num_fences nonblocking)
  rw [← ht] at i1 i2 i3
  refine ⟨hok, hr, i1.trans f1, hsrc, hcmd, fun j hj => ?_⟩
  have hj2 : t.commands.source j = (executeG2D_finish G T env
      (executeG2D_encode H G T env (executeG2D_setup G env c fence num_fences)).self w lp
      (executeG2D_setup G env c fence num_fences).layercount
      (executeG2D_setup G env c fence num_fences).num_fences nonblocking).mTask.commands.source
      j := i3 j (by rw [f3, hmax]; omega)
  have hregs : t.sourceRegs j = (executeG2D_finish G T env
      (executeG2D_encode H G T env (executeG2D_setup G env c fence num_fences)).self w lp
      (executeG2D_setup G env c fence num_fences).layercount
      (executeG2D_setup G env c fence num_fences).num_fences nonblocking).mTask.sourceRegs j := by
    unfold g2d_task.sourceRegs
    rw [hj2]
  have hlayer : t.sourceLayer j =
      (executeG2D_encode H G T env (executeG2D_setup G env c fence num_fences)).self.mTask.sourceLayer
        j := by
    unfold g2d_task.sourceLayer
    rw [i2, f2]
  obtain ⟨e1, e2⟩ := hlay j hj
  refine ⟨hlayer.trans e1, fun x h1 h2 => ?_, ?_⟩
  · rw [hregs, f4 j x h1 h2, e2]
  · rw [hregs, ← e2]
    exact f5 j

/-- Claim C28: let `executeG2D` run on an object whose source buffers are
valid (the invariant `reallocLayer` keeps), with an HDR writer whose
`getLayerHdrMode` leaves the descriptor array and every source register other
than `SRC_HDRMODE` as they are, and with 16-bit background components.
When a background colour is configured or the canvas format is SBWC: if
`layerCount() + 1` exceeds `maxLayerCount()` the call returns `false`, the
device is not called and the object is unchanged; and in every task `t` handed
to the device `num_source = layerCount() + 1`, descriptor 0 is a solid fill
(colour-fill flag and selector, empty buffer type, no buffers) whose image and
destination bounds are (0,0)-(W,H) of the canvas and whose colour is the ARGB
word of the high bytes of the background components, and user layer `k` (in
`sortLayers` order) is encoded in descriptor `k + 1`.
Otherwise, in every task handed to the device `num_source = layerCount()` and
user layer `k` is encoded in descriptor `k`. -/
theorem executeG2D_background_layout (H : HalHeader) (G : G2DHeader) (T : G2DTaskHeader)
    (env : ExecEnv) (c : AcrylicCompositorG2D9810) (fence : Nat → Int) (num_fences : Nat)
    (nonblocking : Bool) (hv : c.buffersValid)
    (hhdr : ∀ t, (env.hdrGetLayerHdrMode t).source = t.source ∧
      ∀ i r, r ≠ G2DSFR_SRC_HDRMODE →
        (env.hdrGetLayerHdrMode t).sourceRegs i r = t.sourceRegs i r)
    (hbg16 : c.mBackgroundColor.r < 2 ^ 16 ∧ c.mBackgroundColor.g < 2 ^ 16 ∧
      c.mBackgroundColor.b < 2 ^ 16 ∧ c.mBackgroundColor.a < 2 ^ 16) :
    (executeG2D_hasBackground G c = true →
      (c.maxLayerCount < c.mLayers.length + 1 →
        (executeG2D H G T env c fence num_fences nonblocking).ok = false ∧
        (executeG2D H G T env c fence num_fences nonblocking).submitted = none ∧
        (executeG2D H G T env c fence num_fences nonblocking).self = c) ∧
      ∀ t, (executeG2D H G T env c fence num_fences nonblocking).submitted = some t →
        t.num_source = c.mLayers.length + 1 ∧
        (t.sourceLayer 0).flags = G.G2D_LAYERFLAG_COLORFILL ∧
        (t.sourceLayer 0).buffer_type = G.G2D_BUFTYPE_EMPTY ∧
        (t.sourceLayer 0).num_buffers = 0 ∧
        t.sourceRegs 0 G2DSFR_SRC_SELECT = G.G2D_LAYERSEL_COLORFILL ∧
        t.sourceRegs 0 G2DSFR_IMG_LEFT = 0 ∧
        t.sourceRegs 0 G2DSFR_IMG_TOP = 0 ∧
        t.sourceRegs 0 G2DSFR_IMG_RIGHT = toU32 c.mCanvas.getImageDimension.hori ∧
        t.sourceRegs 0 G2DSFR_IMG_BOTTOM = toU32 c.mCanvas.getImageDimension.vert ∧
        t.sourceRegs 0 G2DSFR_SRC_DSTLEFT = 0 ∧
        t.sourceRegs 0 G2DSFR_SRC_DSTTOP = 0 ∧
        t.sourceRegs 0 G2DSFR_SRC_DSTRIGHT = toU32 c.mCanvas.getImageDimension.hori ∧
        t.sourceRegs 0 G2DSFR_SRC_DSTBOTTOM = toU32 c.mCanvas.getImageDimension.vert ∧
        t.sourceRegs 0 G2DSFR_SRC_COLOR = backgroundARGB c.mBackgroundColor ∧
        ∀ k l, ((env.sortLayers c.mLayers).take c.mLayers.length)[k]? = some l →
          encodesLayer H G T c.halfmt_to_g2dfmt_tbl c.len_halfmt_to_g2dfmt_tbl
            c.mCanvas.getImageDimension l k (t.sourceLayer (k + 1)) (t.sourceRegs (k + 1))) ∧
    (executeG2D_hasBackground G c = false →
      ∀ t, (executeG2D H G T env c fence num_fences nonblocking).submitted = some t →
        t.num_source = c.mLayers.length ∧
        ∀ k l, ((env.sortLayers c.mLayers).take c.mLayers.length)[k]? = some l →
          encodesLayer H G T c.halfmt_to_g2dfmt_tbl c.len_halfmt_to_g2dfmt_tbl
            c.mCanvas.getImageDimension l k (t.sourceLayer k) (t.sourceRegs k)) := by
  obtain ⟨hcan, _, htbl, hlen, hsort, _, _, _, hbg, hcount⟩ :=
    executeG2D_setup_settings G env c fence num_fences
  have hcol := executeG2D_setup_backgroundColor G env c fence num_fences
  have hlen_take : ∀ (k : Nat) (l : AcrylicLayer),
      ((env.sortLayers c.mLayers).take c.mLayers.length)[k]? = some l → k < c.mLayers.length := by
    intro k l hk
    have h1 := (List.getElem?_eq_some_iff.mp hk).1
    rw [List.length_take] at h1
    omega
  refine ⟨fun hb => ⟨fun hm => ?_, fun t hsub => ?_⟩, fun hb t hsub => ?_⟩
  · obtain ⟨h0, hself⟩ := executeG2D_setup_too_many G env c fence num_fences hb hm
    unfold executeG2D
    simp only [h0, Bool.not_false, if_true]
    exact ⟨trivial, trivial, hself⟩
  · obtain ⟨hok, hr, hnum, hsrc, hcmd, hlay⟩ := executeG2D_submitted_layers H G T env c fence
      num_fences nonblocking t hv hhdr hsub
    have hcount := hcount hok
    have hsort := hsort hok
    rw [hb] at hcount hbg
    simp only [if_true] at hcount
    rw [hcount] at hnum hsrc hcmd hlay
    obtain ⟨l0, x0, _⟩ := hlay 0 (by omega)
    obtain ⟨b1, b2⟩ := executeG2D_sources_background H G T env
      (executeG2D_setup G env c fence num_fences)
      (executeG2D_target H G (executeG2D_setup G env c fence num_fences).self).2 hbg
      (hsrc (by omega)) (hcmd 0 (by omega))
    rw [hcol, hcan] at b1 b2
    obtain ⟨p1, p2, p3, p4, p5, p6, p7, p8, p9, p10, p11, p12, p13⟩ :=
      prepareSolidLayerCanvas_regs G c.mBackgroundColor c.mCanvas
        ((executeG2D_target H G (executeG2D_setup G env c fence num_fences).self).2.sourceLayer 0)
        ((executeG2D_target H G (executeG2D_setup G env c fence num_fences).self).2.sourceRegs 0)
    rw [← b1] at p1 p2 p3
    rw [← b2] at p4 p5 p6 p7 p8 p9 p10 p11 p12 p13
    rw [backgroundARGB_eq c.mBackgroundColor hbg16.1 hbg16.2.1 hbg16.2.2.1 hbg16.2.2.2] at p13
    rw [← l0] at p1 p2 p3
    refine ⟨hnum, p1, p2, p3, ?_, ?_, ?_, ?_, ?_, ?_, ?_, ?_, ?_, ?_, fun k l hk => ?_⟩
    · rw [x0 _ (by decide) (by decide)]; exact p4
    · rw [x0 _ (by decide) (by decide)]; exact p5
    · rw [x0 _ (by decide) (by decide)]; exact p6
    · rw [x0 _ (by decide) (by decide)]; exact p7
    · rw [x0 _ (by decide) (by decide)]; exact p8
    · rw [x0 _ (by decide) (by decide)]; exact p9
    · rw [x0 _ (by decide) (by decide)]; exact p10
    · rw [x0 _ (by decide) (by decide)]; exact p11
    · rw [x0 _ (by decide) (by decide)]; exact p12
    · rw [x0 _ (by decide) (by decide)]; exact p13
    · have hk1 := hlen_take k l hk
      obtain ⟨image0, cmd0, s1, s2, s3⟩ := executeG2D_sources_layers H G T env
        (executeG2D_setup G env c fence num_fences)
        (executeG2D_target H G (executeG2D_setup G env c fence num_fences).self).2 hr k l
        (by rw [hbg, hcount, hsort]; simpa using hk)
      rw [htbl, hlen, hcan] at s1 s2 s3
      rw [hbg] at s2 s3
      simp only [if_true] at s2 s3
      obtain ⟨y1, y2, y3⟩ := hlay (k + 1) (by omega)
      rw [Nat.add_comm 1 k] at s2 s3
      refine ⟨image0, cmd0, s1, y1.trans s2, fun r r1 r2 r3 => ?_, ?_⟩
      · rw [y2 r r2 r3, s3 r r1]
      · rw [← s3 _ (by decide)]; exact y3
  · obtain ⟨hok, hr, hnum, hsrc, hcmd, hlay⟩ := executeG2D_submitted_layers H G T env c fence
      num_fences nonblocking t hv hhdr hsub
    have hcount := hcount hok
    have hsort := hsort hok
    rw [hb] at hcount hbg
    simp only [Bool.false_eq_true, if_false] at hcount
    rw [hcount] at hnum hlay
    refine ⟨hnum, fun k l hk => ?_⟩
    have hk1 := hlen_take k l hk
    obtain ⟨image0, cmd0, s1, s2, s3⟩ := executeG2D_sources_layers H G T env
      (executeG2D_setup G env c fence num_fences)
      (executeG2D_target H G (executeG2D_setup G env c fence num_fences).self).2 hr k l
      (by rw [hbg, hcount, hsort]; simpa using hk)
    rw [htbl, hlen, hcan] at s1 s2 s3
    rw [hbg] at s2 s3
    simp only [Bool.false_eq_true, if_false, Nat.zero_add] at s2 s3
    obtain ⟨y1, y2, y3⟩ := hlay k hk1
    refine ⟨image0, cmd0, s1, y1.trans s2, fun r r1 r2 r3 => ?_, ?_⟩
    · rw [y2 r r2 r3, s3 r r1]
    · rw [← s3 _ (by decide)]; exact y3

/-- Witness for C28: the sample compositor with the background colour
(0x1234, 0x5678, 0x9ABC, alpha 0xFFEE), two layers and no buffers yet, on the
100x50 sample canvas.  The device is called; the task has three sources,
descriptor 0 covers (0,0)-(100,50) with the colour 0xFF12569A, and the second
user layer is encoded in descriptor 2. -/
theorem executeG2D_background_layout_witness :
    sampleBackgroundCompositor.buffersValid ∧
    executeG2D_hasBackground sampleG2D sampleBackgroundCompositor = true ∧
    (executeG2D sampleHal sampleG2D sampleTaskHeader sampleEnv sampleBackgroundCompositor
      (fun _ => 0) 3 true).submitted.isSome = true ∧
    ∀ t, (executeG2D sampleHal sampleG2D sampleTaskHeader sampleEnv sampleBackgroundCompositor
        (fun _ => 0) 3 true).submitted = some t →
      t.num_source = 3 ∧
      t.sourceRegs 0 G2DSFR_IMG_RIGHT = 100 ∧
      t.sourceRegs 0 G2DSFR_IMG_BOTTOM = 50 ∧
      t.sourceRegs 0 G2DSFR_SRC_DSTRIGHT = 100 ∧
      t.sourceRegs 0 G2DSFR_SRC_DSTBOTTOM = 50 ∧
      t.sourceRegs 0 G2DSFR_SRC_COLOR = 0xFF12569A ∧
      encodesLayer sampleHal sampleG2D sampleTaskHeader
        sampleBackgroundCompositor.halfmt_to_g2dfmt_tbl
        sampleBackgroundCompositor.len_halfmt_to_g2dfmt_tbl ⟨100, 50⟩
        { sampleTop with getFence := 8 } 1 (t.sourceLayer 2) (t.sourceRegs 2) :=
  have hv : sampleBackgroundCompositor.buffersValid :=
    ⟨fun h => absurd h (by decide), fun i h => absurd h (Nat.not_lt_zero i)⟩
  have h := executeG2D_background_layout sampleHal sampleG2D sampleTaskHeader sampleEnv
    sampleBackgroundCompositor (fun _ => 0) 3 true hv (fun _ => ⟨rfl, fun _ _ _ => rfl⟩)
    (by decide)
  ⟨hv, by decide, by decide, fun t ht =>
    have h2 := (h.1 (by decide)).2 t ht
    ⟨h2.1, h2.2.2.2.2.2.2.2.1, h2.2.2.2.2.2.2.2.2.1, h2.2.2.2.2.2.2.2.2.2.2.2.1,
      h2.2.2.2.2.2.2.2.2.2.2.2.2.1, h2.2.2.2.2.2.2.2.2.2.2.2.2.2.1,
      h2.2.2.2.2.2.2.2.2.2.2.2.2.2.2 1 _ rfl⟩⟩

theorem emitted_length (r : (Nat → g2d_reg) × Nat) : (emitted r).length = r.2 := by
  unfold emitted
  simp

theorem emitted_update (regs : Nat → g2d_reg) (n : Nat) (x : g2d_reg) :
    emitted (Function.update regs n x, n + 1) = emitted (regs, n) ++ [x] := by
  unfold emitted
  simp only [List.range_succ, List.map_append, List.map_cons, List.map_nil, Function.update_same]
  congr 1
  apply List.map_congr_left
  intro a ha
  rw [Function.update_noteq (by have := List.mem_range.mp ha; omega)]

theorem emitted_write (regs : Nat → g2d_reg) (start : Nat) (data : Option (Nat → Nat))
    (offset : Nat) (info : hdr_reg_info) :
    emitted ((write regs start data offset info).1, start + (write regs start data offset info).2)
      = emitted (regs, start) ++ stageRegs data offset info := by
  cases data with
  | none => simp [write, stageRegs]
  | some d =>
    rw [write_pairs_eq]
    unfold emitted stageRegs
    simp only [write_count]
    rw [List.range_add, List.map_append, List.map_map]
    congr 1
    · apply List.map_congr_left
      intro a ha
      have := List.mem_range.mp ha
      rw [if_neg (by omega)]
    · apply List.map_congr_left
      intro a ha
      have := List.mem_range.mp ha
      simp only [Function.comp]
      rw [if_pos (by omega)]
      congr 2 <;> omega

theorem proc_en_test (o e g t : Nat) :
    (((notNot o <<< HDR_PROC_OETF) ||| (notNot e <<< HDR_PROC_EOTF) |||
        (notNot g <<< HDR_PROC_GM) ||| (notNot t <<< HDR_PROC_TM)) &&& (1 <<< 0) = 0 ↔ o = 0) ∧
    (((notNot o <<< HDR_PROC_OETF) ||| (notNot e <<< HDR_PROC_EOTF) |||
        (notNot g <<< HDR_PROC_GM) ||| (notNot t <<< HDR_PROC_TM)) &&& (1 <<< 1) = 0 ↔ e = 0) ∧
    (((notNot o <<< HDR_PROC_OETF) ||| (notNot e <<< HDR_PROC_EOTF) |||
        (notNot g <<< HDR_PROC_GM) ||| (notNot t <<< HDR_PROC_TM)) &&& (1 <<< 2) = 0 ↔ g = 0) ∧
    (((notNot o <<< HDR_PROC_OETF) ||| (notNot e <<< HDR_PROC_EOTF) |||
        (notNot g <<< HDR_PROC_GM) ||| (notNot t <<< HDR_PROC_TM)) &&& (1 <<< 3) = 0 ↔ t = 0) := by
  unfold notNot
  by_cases ho : o = 0 <;> by_cases he : e = 0 <;> by_cases hg : g = 0 <;> by_cases ht : t = 0 <;>
    simp +decide [ho, he, hg, ht]

theorem slot_stage_emitted (regs : Nat → g2d_reg) (n : Nat) (x y : Option (Nat → Nat))
    (bx b_y : Nat) (ix iy : hdr_reg_info) :
    emitted ((write (write regs n x bx ix).1 (n + (write regs n x bx ix).2) y b_y iy).1,
      n + (write regs n x bx ix).2 +
        (write (write regs n x bx ix).1 (n + (write regs n x bx ix).2) y b_y iy).2) =
    emitted (regs, n) ++ (stageRegs x bx ix ++ stageRegs y b_y iy) := by
  rw [emitted_write, emitted_write, List.append_assoc]

theorem setHdrLibCommand_stage_emitted (i : Nat) (c : hdrCoef)
    (s : (Nat → g2d_reg) × Nat × Nat) :
    (emitted ((setHdrLibCommand_stage i c s 0).1, (setHdrLibCommand_stage i c s 0).2.1) =
        emitted (s.1, s.2.1) ++
          (if c.oetf_en ≠ 0 then
            stageRegs c.oetf_x (0x300C + 0x800 * i) ⟨17, 16, true⟩ ++
              stageRegs c.oetf_y (0x3050 + 0x800 * i) ⟨17, 10, true⟩ else []) ∧
      (setHdrLibCommand_stage i c s 0).2.2 = s.2.2 ||| (if c.oetf_en ≠ 0 then 1 else 0)) ∧
    (emitted ((setHdrLibCommand_stage i c s 1).1, (setHdrLibCommand_stage i c s 1).2.1) =
        emitted (s.1, s.2.1) ++
          (if c.eotf_en ≠ 0 then
            stageRegs c.eotf_x (0x3094 + 0x800 * i) ⟨65, 10, true⟩ ++
              stageRegs c.eotf_y (0x3198 + 0x800 * i) ⟨129, 16, false⟩ else []) ∧
      (setHdrLibCommand_stage i c s 1).2.2 = s.2.2 ||| (if c.eotf_en ≠ 0 then 2 else 0)) ∧
    (emitted ((setHdrLibCommand_stage i c s 2).1, (setHdrLibCommand_stage i c s 2).2.1) =
        emitted (s.1, s.2.1) ++
          (if c.gm_en ≠ 0 then stageRegs c.gm_coef (0x339C + 0x800 * i) ⟨9, 19, false⟩
            else []) ∧
      (setHdrLibCommand_stage i c s 2).2.2 = s.2.2 ||| (if c.gm_en ≠ 0 then 4 else 0)) ∧
    (emitted ((setHdrLibCommand_stage i c s 3).1, (setHdrLibCommand_stage i c s 3).2.1) =
        emitted (s.1, s.2.1) ++
          (if c.tm_en ≠ 0 then
            stageRegs c.tm_x (0x344C + 0x800 * i) ⟨17, 16, true⟩ ++
              stageRegs c.tm_y (0x3490 + 0x800 * i) ⟨33, 20, false⟩ else []) ∧
      (setHdrLibCommand_stage i c s 3).2.2 = s.2.2 ||| (if c.tm_en ≠ 0 then 32 else 0)) := by
  obtain ⟨p0, p1, p2, p3⟩ := proc_en_test c.oetf_en c.eotf_en c.gm_en c.tm_en
  have hx : ∀ b : Nat, b + i * 0x800 = b + 0x800 * i := fun b => by omega
  unfold setHdrLibCommand_stage
  simp only [p0, p1, p2, p3]
  refine ⟨?_, ?_, ?_, ?_⟩
  · by_cases h : c.oetf_en = 0
    · simp only [h, if_true, ne_eq, not_true_eq_false, if_false, List.append_nil, Nat.or_zero,
        and_self]
    · simp only [h, if_false, ne_eq, not_false_eq_true, if_true]
      rw [slot_stage_emitted]
      exact ⟨by simp only [getRegBaseX, getRegBaseY, hx]; rfl, rfl⟩
  · by_cases h : c.eotf_en = 0
    · simp only [h, if_true, ne_eq, not_true_eq_false, if_false, List.append_nil, Nat.or_zero,
        and_self]
    · simp only [h, if_false, ne_eq, not_false_eq_true, if_true]
      rw [slot_stage_emitted]
      exact ⟨by simp only [getRegBaseX, getRegBaseY, hx]; rfl, rfl⟩
  · by_cases h : c.gm_en = 0
    · simp only [h, if_true, ne_eq, not_true_eq_false, if_false, List.append_nil, Nat.or_zero,
        and_self]
    · simp only [h, if_false, ne_eq, not_false_eq_true, if_true]
      rw [slot_stage_emitted]
      exact ⟨by simp only [getRegBaseX, getRegBaseY, hx]; exact congrArg _ (List.append_nil _), rfl⟩
  · by_cases h : c.tm_en = 0
    · simp only [h, if_true, ne_eq, not_true_eq_false, if_false, List.append_nil, Nat.or_zero,
        and_self]
    · simp only [h, if_false, ne_eq, not_false_eq_true, if_true]
      rw [slot_stage_emitted]
      exact ⟨by simp only [getRegBaseX, getRegBaseY, hx]; rfl, rfl⟩

theorem setHdrLibCommand_tail_emitted (i : Nat) (c : hdrCoef)
    (s1 : (Nat → g2d_reg) × Nat × Nat) :
    emitted
      (Function.update
        (if c.tm_en ≠ 0 then
          (Function.update
            (Function.update
              (Function.update s1.1 s1.2.1
                ⟨G2D_BASE_HDR_COEF G2D_HDR_TM_RNGX i, TM_RNGX_VALUE (c.tm_rngx 0) (c.tm_rngx 1)⟩)
              (s1.2.1 + 1)
              ⟨G2D_BASE_HDR_COEF G2D_HDR_TM_RNGY i, TM_RNGY_VALUE (c.tm_rngy 0) (c.tm_rngy 1)⟩)
            (s1.2.1 + 2)
            ⟨G2D_BASE_HDR_COEF G2D_HDR_TM_COEF i,
              TM_COEF_VALUE (c.tm_coef 0) (c.tm_coef 1) (c.tm_coef 2)⟩,
           s1.2.1 + 3)
         else (s1.1, s1.2.1)).1
        (if c.tm_en ≠ 0 then
          (Function.update
            (Function.update
              (Function.update s1.1 s1.2.1
                ⟨G2D_BASE_HDR_COEF G2D_HDR_TM_RNGX i, TM_RNGX_VALUE (c.tm_rngx 0) (c.tm_rngx 1)⟩)
              (s1.2.1 + 1)
              ⟨G2D_BASE_HDR_COEF G2D_HDR_TM_RNGY i, TM_RNGY_VALUE (c.tm_rngy 0) (c.tm_rngy 1)⟩)
            (s1.2.1 + 2)
            ⟨G2D_BASE_HDR_COEF G2D_HDR_TM_COEF i,
              TM_COEF_VALUE (c.tm_coef 0) (c.tm_coef 1) (c.tm_coef 2)⟩,
           s1.2.1 + 3)
         else (s1.1, s1.2.1)).2
        ⟨G2D_BASE_HDR_COEF G2D_HDR_MOD_CTRL i, s1.2.2⟩,
       (if c.tm_en ≠ 0 then
          (Function.update
            (Function.update
              (Function.update s1.1 s1.2.1
                ⟨G2D_BASE_HDR_COEF G2D_HDR_TM_RNGX i, TM_RNGX_VALUE (c.tm_rngx 0) (c.tm_rngx 1)⟩)
              (s1.2.1 + 1)
              ⟨G2D_BASE_HDR_COEF G2D_HDR_TM_RNGY i, TM_RNGY_VALUE (c.tm_rngy 0) (c.tm_rngy 1)⟩)
            (s1.2.1 + 2)
            ⟨G2D_BASE_HDR_COEF G2D_HDR_TM_COEF i,
              TM_COEF_VALUE (c.tm_coef 0) (c.tm_coef 1) (c.tm_coef 2)⟩,
           s1.2.1 + 3)
         else (s1.1, s1.2.1)).2 + 1) =
    emitted (s1.1, s1.2.1) ++ ((if c.tm_en ≠ 0 then tmRegs i c else []) ++
      [⟨0x3008 + 0x800 * i, s1.2.2⟩]) := by
  have hx : ∀ b : Nat, G2D_BASE_HDR_COEF b i = b + 0x800 * i := fun b => by
    unfold G2D_BASE_HDR_COEF; omega
  by_cases h : c.tm_en = 0
  · simp only [h, ne_eq, not_true_eq_false, if_false, List.nil_append]
    rw [emitted_update, hx]
    rfl
  · simp only [h, ne_eq, not_false_eq_true, if_true]
    rw [emitted_update, show s1.2.1 + 3 = s1.2.1 + 2 + 1 from rfl, emitted_update,
      show s1.2.1 + 2 = s1.2.1 + 1 + 1 from rfl, emitted_update, emitted_update]
    simp only [hx, tmRegs, List.append_assoc, List.cons_append, List.nil_append]
    rfl

theorem setHdrLibCommand_slot_emitted (i : Nat) (c : hdrCoef) (st : (Nat → g2d_reg) × Nat) :
    emitted (setHdrLibCommand_slot i c st) = emitted st ++ slotRegs i c := by
  have h0 := (setHdrLibCommand_stage_emitted i c (st.1, st.2, 0)).1
  have h1 := (setHdrLibCommand_stage_emitted i c
    (setHdrLibCommand_stage i c (st.1, st.2, 0) 0)).2.1
  have h2 := (setHdrLibCommand_stage_emitted i c
    (setHdrLibCommand_stage i c (setHdrLibCommand_stage i c (st.1, st.2, 0) 0) 1)).2.2.1
  have h3 := (setHdrLibCommand_stage_emitted i c
    (setHdrLibCommand_stage i c (setHdrLibCommand_stage i c
      (setHdrLibCommand_stage i c (st.1, st.2, 0) 0) 1) 2)).2.2.2
  have ht := setHdrLibCommand_tail_emitted i c
    (setHdrLibCommand_stage i c (setHdrLibCommand_stage i c (setHdrLibCommand_stage i c
      (setHdrLibCommand_stage i c (st.1, st.2, 0) 0) 1) 2) 3)
  have hm : (setHdrLibCommand_stage i c (setHdrLibCommand_stage i c (setHdrLibCommand_stage i c
      (setHdrLibCommand_stage i c (st.1, st.2, 0) 0) 1) 2) 3).2.2 = modCtrlValue c := by
    rw [h3.2, h2.2, h1.2, h0.2]
    unfold modCtrlValue
    rw [Nat.zero_or]
  refine Eq.trans ?_ (ht.trans ?_)
  · rfl
  · rw [h3.1, h2.1, h1.1, h0.1, hm]
    unfold slotRegs
    by_cases h : c.tm_en = 0
    · simp only [h, ne_eq, not_true_eq_false, if_false, List.append_assoc, List.nil_append,
        List.append_nil]
    · simp only [h, ne_eq, not_false_eq_true, if_true, List.append_assoc]

theorem setHdrLibCommand_loop_emitted (mHdrLibCoef : Nat → hdrCoef) :
    ∀ (slots : List Nat) (st : (Nat → g2d_reg) × Nat),
    emitted (setHdrLibCommand_loop mHdrLibCoef slots st) =
      emitted st ++ loopRegs mHdrLibCoef slots
  | [], st => by simp [setHdrLibCommand_loop, loopRegs]
  | i :: slots, st => by
    have ih := setHdrLibCommand_loop_emitted mHdrLibCoef slots
    unfold setHdrLibCommand_loop loopRegs at ih ⊢
    rw [List.foldl_cons, List.flatMap_cons, ih]
    by_cases h : (mHdrLibCoef i).hdr_en = 0
    · simp only [h, if_true, List.nil_append]
    · simp only [h, if_false]
      rw [setHdrLibCommand_slot_emitted, List.append_assoc]

theorem loopRegs_append (mHdrLibCoef : Nat → hdrCoef) (a b : List Nat) :
    loopRegs mHdrLibCoef (a ++ b) = loopRegs mHdrLibCoef a ++ loopRegs mHdrLibCoef b := by
  unfold loopRegs
  rw [List.flatMap_append]

theorem setHdrLibCommand_loop_length (mHdrLibCoef : Nat → hdrCoef) (slots : List Nat)
    (regs : Nat → g2d_reg) :
    (setHdrLibCommand_loop mHdrLibCoef slots (regs, 0)).2 = (loopRegs mHdrLibCoef slots).length := by
  have h := congrArg List.length (setHdrLibCommand_loop_emitted mHdrLibCoef slots (regs, 0))
  rw [emitted_length, List.length_append, emitted_length] at h
  omega

theorem setHdrLibCommand_emitted (G : G2DHeader) (mHdrLibCoef : Nat → hdrCoef)
    (regs : Nat → g2d_reg) :
    emitted (setHdrLibCommand G mHdrLibCoef regs) =
      if loopRegs mHdrLibCoef (List.range G.MAX_HDR_SET) = [] then []
      else loopRegs mHdrLibCoef (List.range G.MAX_HDR_SET) ++ [⟨0x3004, 1⟩] := by
  have hl := setHdrLibCommand_loop_length mHdrLibCoef (List.range G.MAX_HDR_SET) regs
  have he := setHdrLibCommand_loop_emitted mHdrLibCoef (List.range G.MAX_HDR_SET) (regs, 0)
  unfold setHdrLibCommand
  simp only
  by_cases h0 : (setHdrLibCommand_loop mHdrLibCoef (List.range G.MAX_HDR_SET) (regs, 0)).2 = 0
  · rw [if_pos h0, if_pos (List.length_eq_zero.mp (hl ▸ h0))]
    rfl
  · rw [if_neg h0, if_neg (fun h => h0 (by rw [hl, h]; rfl)), emitted_update, he]
    rfl

theorem setHdrLibCommand_count_eq (G : G2DHeader) (mHdrLibCoef : Nat → hdrCoef)
    (regs : Nat → g2d_reg) :
    (setHdrLibCommand G mHdrLibCoef regs).2 =
      (emitted (setHdrLibCommand G mHdrLibCoef regs)).length := (emitted_length _).symm

theorem stageRegs_length (data : Option (Nat → Nat)) (offset : Nat) (info : hdr_reg_info) :
    (stageRegs data offset info).length = if data.isSome then info.count else 0 := by
  cases data <;> simp [stageRegs]

theorem slotRegs_length (i : Nat) (c : hdrCoef) :
    (slotRegs i c).length =
      (if c.oetf_en ≠ 0 then
        (if c.oetf_x.isSome then 17 else 0) + (if c.oetf_y.isSome then 17 else 0) else 0) +
      (if c.eotf_en ≠ 0 then
        (if c.eotf_x.isSome then 65 else 0) + (if c.eotf_y.isSome then 129 else 0) else 0) +
      (if c.gm_en ≠ 0 then (if c.gm_coef.isSome then 9 else 0) else 0) +
      (if c.tm_en ≠ 0 then
        (if c.tm_x.isSome then 17 else 0) + (if c.tm_y.isSome then 33 else 0) + 3 else 0) + 1 := by
  unfold slotRegs tmRegs
  simp only [List.length_append, List.length_cons, List.length_nil, apply_ite List.length,
    stageRegs_length]

theorem ite_le_iff (P : Prop) [Decidable P] (k : Nat) (hk : 0 < k) :
    (if P then k else 0) ≤ k ∧ ((if P then k else 0) = k ↔ P) := by
  by_cases h : P
  · simp [h]
  · simp [h]; omega

theorem slotRegs_length_le (i : Nat) (c : hdrCoef) :
    0 < (slotRegs i c).length ∧ (slotRegs i c).length ≤ 291 ∧
    ((slotRegs i c).length = 291 ↔
      c.oetf_en ≠ 0 ∧ c.eotf_en ≠ 0 ∧ c.gm_en ≠ 0 ∧ c.tm_en ≠ 0 ∧ c.arraysPresent) := by
  rw [slotRegs_length]
  unfold hdrCoef.arraysPresent
  obtain ⟨b1, e1⟩ := ite_le_iff (c.oetf_x.isSome = true) 17 (by omega)
  obtain ⟨b2, e2⟩ := ite_le_iff (c.oetf_y.isSome = true) 17 (by omega)
  obtain ⟨b3, e3⟩ := ite_le_iff (c.eotf_x.isSome = true) 65 (by omega)
  obtain ⟨b4, e4⟩ := ite_le_iff (c.eotf_y.isSome = true) 129 (by omega)
  obtain ⟨b5, e5⟩ := ite_le_iff (c.gm_coef.isSome = true) 9 (by omega)
  obtain ⟨b6, e6⟩ := ite_le_iff (c.tm_x.isSome = true) 17 (by omega)
  obtain ⟨b7, e7⟩ := ite_le_iff (c.tm_y.isSome = true) 33 (by omega)
  generalize (if c.oetf_x.isSome = true then 17 else 0) = x1 at b1 e1 ⊢
  generalize (if c.oetf_y.isSome = true then 17 else 0) = x2 at b2 e2 ⊢
  generalize (if c.eotf_x.isSome = true then 65 else 0) = x3 at b3 e3 ⊢
  generalize (if c.eotf_y.isSome = true then 129 else 0) = x4 at b4 e4 ⊢
  generalize (if c.gm_coef.isSome = true then 9 else 0) = x5 at b5 e5 ⊢
  generalize (if c.tm_x.isSome = true then 17 else 0) = x6 at b6 e6 ⊢
  generalize (if c.tm_y.isSome = true then 33 else 0) = x7 at b7 e7 ⊢
  refine ⟨by omega, by split_ifs <;> omega, ?_⟩
  constructor
  · intro h
    have ho : c.oetf_en ≠ 0 := by intro h0; simp only [h0, ne_eq, not_true_eq_false, if_false] at h; split_ifs at h <;> omega
    have he : c.eotf_en ≠ 0 := by intro h0; simp only [h0, ne_eq, not_true_eq_false, if_false] at h; split_ifs at h <;> omega
    have hg : c.gm_en ≠ 0 := by intro h0; simp only [h0, ne_eq, not_true_eq_false, if_false] at h; split_ifs at h <;> omega
    have ht : c.tm_en ≠ 0 := by intro h0; simp only [h0, ne_eq, not_true_eq_false, if_false] at h; split_ifs at h <;> omega
    simp only [ho, he, hg, ht, ne_eq, not_false_eq_true, if_true] at h
    exact ⟨ho, he, hg, ht, e1.mp (by omega), e2.mp (by omega), e3.mp (by omega),
      e4.mp (by omega), e5.mp (by omega), e6.mp (by omega), e7.mp (by omega)⟩
  · rintro ⟨h1, h2, h3, h4, a1, a2, a3, a4, a5, a6, a7⟩
    have := e1.mpr a1
    have := e2.mpr a2
    have := e3.mpr a3
    have := e4.mpr a4
    have := e5.mpr a5
    have := e6.mpr a6
    have := e7.mpr a7
    simp only [h1, h2, h3, h4, ne_eq, not_false_eq_true, if_true]
    omega

theorem loopRegs_range_length (mHdrLibCoef : Nat → hdrCoef) :
    ∀ n : Nat, (loopRegs mHdrLibCoef (List.range n)).length ≤ 291 * n ∧
      ((loopRegs mHdrLibCoef (List.range n)).length = 291 * n ↔
        ∀ i, i < n → (mHdrLibCoef i).full) ∧
      ((loopRegs mHdrLibCoef (List.range n)) = [] ↔ ∀ i, i < n → (mHdrLibCoef i).hdr_en = 0)
  | 0 => by simp [loopRegs]
  | n + 1 => by
    obtain ⟨ih1, ih2, ih3⟩ := loopRegs_range_length mHdrLibCoef n
    obtain ⟨s0, s1, s2⟩ := slotRegs_length_le n (mHdrLibCoef n)
    rw [List.range_succ, loopRegs_append, List.length_append]
    have hn : loopRegs mHdrLibCoef [n] =
        if (mHdrLibCoef n).hdr_en = 0 then [] else slotRegs n (mHdrLibCoef n) := by
      simp [loopRegs]
    rw [hn]
    by_cases hen : (mHdrLibCoef n).hdr_en = 0
    · simp only [hen, if_true, List.length_nil, List.append_nil]
      refine ⟨by omega, ?_, ?_⟩
      · constructor
        · intro h; omega
        · intro h
          exact absurd hen (h n (by omega)).1
      · rw [ih3]
        constructor
        · intro h i hi
          by_cases hin : i = n
          · rw [hin]; exact hen
          · exact h i (by omega)
        · intro h i hi
          exact h i (by omega)
    · simp only [hen, if_false]
      refine ⟨by omega, ?_, ?_⟩
      · constructor
        · intro h i hi
          by_cases hin : i = n
          · rw [hin]
            obtain ⟨f1, f2, f3, f4, f5⟩ := s2.mp (by omega)
            exact ⟨hen, f1, f2, f3, f4, f5⟩
          · exact ih2.mp (by omega) i (by omega)
        · intro h
          have e1 := ih2.mpr (fun i hi => h i (by omega))
          have e2 := s2.mpr (h n (by omega)).2
          omega
      · constructor
        · intro h
          have := congrArg List.length h
          rw [List.length_append, List.length_nil] at this
          omega
        · intro h
          exact absurd (h n (by omega)) hen

theorem offsetsWithin_nil (lo hi : Nat) : offsetsWithin lo hi [] :=
  ⟨List.nodup_nil, fun _ h => absurd h (List.not_mem_nil _)⟩

theorem offsetsWithin_mono {lo hi lo2 hi2 : Nat} {l : List Nat} (h : offsetsWithin lo hi l)
    (h1 : lo2 ≤ lo) (h2 : hi ≤ hi2) : offsetsWithin lo2 hi2 l :=
  ⟨h.1, fun a ha => ⟨le_trans h1 (h.2 a ha).1, lt_of_lt_of_le (h.2 a ha).2 h2⟩⟩

theorem offsetsWithin_append {a b c d : Nat} {l1 l2 : List Nat} (h1 : offsetsWithin a b l1)
    (h2 : offsetsWithin c d l2) (hd : b ≤ c ∨ d ≤ a) :
    offsetsWithin (min a c) (max b d) (l1 ++ l2) := by
  refine ⟨List.nodup_append.mpr ⟨h1.1, h2.1, fun x hx1 hx2 => ?_⟩, fun x hx => ?_⟩
  · have := h1.2 x hx1
    have := h2.2 x hx2
    omega
  · rcases List.mem_append.mp hx with h | h
    · have := h1.2 x h
      omega
    · have := h2.2 x h
      omega

theorem offsetsWithin_singleton (a : Nat) : offsetsWithin a (a + 1) [a] :=
  ⟨List.nodup_singleton a, fun x hx => by rw [List.mem_singleton] at hx; omega⟩

theorem stageRegs_offsets (data : Option (Nat → Nat)) (offset : Nat) (info : hdr_reg_info) :
    offsetsWithin offset (offset + 4 * info.count)
      ((stageRegs data offset info).map g2d_reg.offset) := by
  cases data with
  | none => exact offsetsWithin_nil _ _
  | some d =>
    unfold stageRegs
    simp only [List.map_map]
    refine ⟨?_, fun a ha => ?_⟩
    · apply List.Nodup.map_on _ (List.nodup_range _)
      intro x _ y _ hxy
      simp only [Function.comp] at hxy
      omega
    · obtain ⟨k, hk, rfl⟩ := List.mem_map.mp ha
      have := List.mem_range.mp hk
      simp only [Function.comp]
      omega

theorem slotRegs_offsets (i : Nat) (c : hdrCoef) :
    offsetsWithin (0x3008 + 0x800 * i) (0x3004 + 0x800 * (i + 1))
      ((slotRegs i c).map g2d_reg.offset) := by
  have hA : offsetsWithin (0x300C + 0x800 * i) (0x3094 + 0x800 * i)
      ((if c.oetf_en ≠ 0 then
        stageRegs c.oetf_x (0x300C + 0x800 * i) ⟨17, 16, true⟩ ++
          stageRegs c.oetf_y (0x3050 + 0x800 * i) ⟨17, 10, true⟩ else []).map g2d_reg.offset) := by
    split
    · rw [List.map_append]
      exact offsetsWithin_mono (offsetsWithin_append (stageRegs_offsets _ _ _)
        (stageRegs_offsets _ _ _) (Or.inl (by simp only; omega)))
        (by omega) (by simp only; omega)
    · exact offsetsWithin_nil _ _
  have hB : offsetsWithin (0x3094 + 0x800 * i) (0x339C + 0x800 * i)
      ((if c.eotf_en ≠ 0 then
        stageRegs c.eotf_x (0x3094 + 0x800 * i) ⟨65, 10, true⟩ ++
          stageRegs c.eotf_y (0x3198 + 0x800 * i) ⟨129, 16, false⟩ else []).map
        g2d_reg.offset) := by
    split
    · rw [List.map_append]
      exact offsetsWithin_mono (offsetsWithin_append (stageRegs_offsets _ _ _)
        (stageRegs_offsets _ _ _) (Or.inl (by simp only; omega)))
        (by omega) (by simp only; omega)
    · exact offsetsWithin_nil _ _
  have hC : offsetsWithin (0x339C + 0x800 * i) (0x33C0 + 0x800 * i)
      ((if c.gm_en ≠ 0 then stageRegs c.gm_coef (0x339C + 0x800 * i) ⟨9, 19, false⟩
        else []).map g2d_reg.offset) := by
    split
    · exact offsetsWithin_mono (stageRegs_offsets _ _ _) (by omega)
        (by simp only; omega)
    · exact offsetsWithin_nil _ _
  have hT : offsetsWithin (0x3434 + 0x800 * i) (0x3440 + 0x800 * i)
      ((tmRegs i c).map g2d_reg.offset) := by
    unfold tmRegs
    simp only [List.map_cons, List.map_nil]
    refine ⟨?_, fun a ha => ?_⟩
    · simp only [List.nodup_cons, List.mem_cons, List.mem_singleton, List.not_mem_nil,
        List.nodup_nil, and_true, not_or, not_false_eq_true]
      omega
    · simp only [List.mem_cons, List.mem_singleton, List.not_mem_nil, or_false] at ha
      omega
  have hD : offsetsWithin (0x3434 + 0x800 * i) (0x3514 + 0x800 * i)
      ((if c.tm_en ≠ 0 then
        stageRegs c.tm_x (0x344C + 0x800 * i) ⟨17, 16, true⟩ ++
          stageRegs c.tm_y (0x3490 + 0x800 * i) ⟨33, 20, false⟩ ++ tmRegs i c else []).map
        g2d_reg.offset) := by
    split
    · rw [List.map_append, List.map_append]
      exact offsetsWithin_mono (offsetsWithin_append (offsetsWithin_append
        (stageRegs_offsets _ _ _) (stageRegs_offsets _ _ _) (Or.inl (by simp only; omega))) hT
        (Or.inr (by omega))) (by omega) (by simp only; omega)
    · exact offsetsWithin_nil _ _
  unfold slotRegs
  rw [List.map_append, List.map_append, List.map_append, List.map_append]
  exact offsetsWithin_mono (offsetsWithin_append (offsetsWithin_append (offsetsWithin_append
    (offsetsWithin_append hA hB (Or.inl (le_refl _))) hC (Or.inl (by omega))) hD
    (Or.inl (by omega))) (offsetsWithin_singleton (0x3008 + 0x800 * i)) (Or.inr (by omega)))
    (by omega) (by omega)

theorem loopRegs_offsets (mHdrLibCoef : Nat → hdrCoef) :
    ∀ n : Nat, offsetsWithin 0x3008 (0x3008 + 0x800 * n)
      ((loopRegs mHdrLibCoef (List.range n)).map g2d_reg.offset)
  | 0 => by simpa [loopRegs] using offsetsWithin_nil _ _
  | n + 1 => by
    have ih := loopRegs_offsets mHdrLibCoef n
    have hs := slotRegs_offsets n (mHdrLibCoef n)
    rw [List.range_succ, loopRegs_append, List.map_append]
    have hn : loopRegs mHdrLibCoef [n] =
        if (mHdrLibCoef n).hdr_en = 0 then [] else slotRegs n (mHdrLibCoef n) := by
      simp [loopRegs]
    rw [hn]
    by_cases hen : (mHdrLibCoef n).hdr_en = 0
    · simp only [hen, if_true, List.map_nil, List.append_nil]
      exact offsetsWithin_mono ih (le_refl _) (by omega)
    · simp only [hen, if_false]
      exact offsetsWithin_mono (offsetsWithin_append ih hs (Or.inl (by omega)))
        (by omega) (by omega)

theorem setHdrLibCommand_offsets (G : G2DHeader) (mHdrLibCoef : Nat → hdrCoef)
    (regs : Nat → g2d_reg) :
    offsetsWithin 0x3004 (0x3008 + 0x800 * G.MAX_HDR_SET)
      ((emitted (setHdrLibCommand G mHdrLibCoef regs)).map g2d_reg.offset) := by
  have hl := loopRegs_offsets mHdrLibCoef G.MAX_HDR_SET
  rw [setHdrLibCommand_emitted]
  split
  · exact offsetsWithin_nil _ _
  · rw [List.map_append]
    exact offsetsWithin_mono (offsetsWithin_append hl (offsetsWithin_singleton 0x3004)
      (Or.inr (by omega))) (by omega) (by omega)

theorem emitted_getElem? (r : (Nat → g2d_reg) × Nat) (p : Nat) (hp : p < r.2) :
    (emitted r)[p]? = some (r.1 p) := by
  unfold emitted
  rw [List.getElem?_map, List.getElem?_range hp]
  rfl

theorem emitted_prefix (a b : (Nat → g2d_reg) × Nat) (l : List g2d_reg)
    (h : emitted a = emitted b ++ l) (p : Nat) (hp : p < b.2) : a.1 p = b.1 p := by
  have hlen := congrArg List.length h
  rw [List.length_append, emitted_length, emitted_length] at hlen
  have h1 := emitted_getElem? a p (by omega)
  rw [h, List.getElem?_append_left (by rw [emitted_length]; exact hp), emitted_getElem? b p hp] at h1
  exact (Option.some.inj h1).symm

theorem emitted_suffix (a b : (Nat → g2d_reg) × Nat) (l : List g2d_reg)
    (h : emitted a = emitted b ++ l) (k : Nat) (hk : k < l.length) :
    l[k]? = some (a.1 (b.2 + k)) := by
  have hlen := congrArg List.length h
  rw [List.length_append, emitted_length, emitted_length] at hlen
  have h1 := emitted_getElem? a (b.2 + k) (by omega)
  rw [h, List.getElem?_append_right (by rw [emitted_length]; omega), emitted_length] at h1
  rw [← h1]
  congr 1
  omega

theorem setHdrLibCommand_loop_prefix (G : G2DHeader) (mHdrLibCoef : Nat → hdrCoef)
    (regs : Nat → g2d_reg) (m : Nat) (hm : m ≤ G.MAX_HDR_SET) :
    (setHdrLibCommand_loop mHdrLibCoef (List.range m) (regs, 0)).2 ≤
      (setHdrLibCommand_loop mHdrLibCoef (List.range G.MAX_HDR_SET) (regs, 0)).2 ∧
    ((setHdrLibCommand_loop mHdrLibCoef (List.range G.MAX_HDR_SET) (regs, 0)).2 ≠ 0 →
      (setHdrLibCommand G mHdrLibCoef regs).2 =
        (setHdrLibCommand_loop mHdrLibCoef (List.range G.MAX_HDR_SET) (regs, 0)).2 + 1) ∧
    ∀ p, p < (setHdrLibCommand_loop mHdrLibCoef (List.range m) (regs, 0)).2 →
      (setHdrLibCommand G mHdrLibCoef regs).1 p =
        (setHdrLibCommand_loop mHdrLibCoef (List.range m) (regs, 0)).1 p := by
  have hsplit : List.range G.MAX_HDR_SET = List.range m ++ List.range' m (G.MAX_HDR_SET - m) := by
    have := List.range_add m (G.MAX_HDR_SET - m)
    rw [Nat.add_sub_cancel' hm] at this
    rw [this, List.range'_eq_map_range]
  have e1 := setHdrLibCommand_loop_emitted mHdrLibCoef (List.range G.MAX_HDR_SET) (regs, 0)
  have e2 := setHdrLibCommand_loop_emitted mHdrLibCoef (List.range m) (regs, 0)
  have e3 : emitted (setHdrLibCommand_loop mHdrLibCoef (List.range G.MAX_HDR_SET) (regs, 0)) =
      emitted (setHdrLibCommand_loop mHdrLibCoef (List.range m) (regs, 0)) ++
        loopRegs mHdrLibCoef (List.range' m (G.MAX_HDR_SET - m)) := by
    rw [e1, e2, List.append_assoc, ← loopRegs_append, ← hsplit]
  have hlen := congrArg List.length e3
  rw [List.length_append, emitted_length, emitted_length] at hlen
  refine ⟨by omega, fun h0 => ?_, fun p hp => ?_⟩
  · unfold setHdrLibCommand
    simp only
    rw [if_neg h0]
  · have hp2 := emitted_prefix _ _ _ e3 p hp
    rw [← hp2]
    unfold setHdrLibCommand
    simp only
    split
    · rfl
    · simp only
      rw [Function.update_noteq (by omega)]

theorem setHdrLibCommand_loop_succ (mHdrLibCoef : Nat → hdrCoef) (regs : Nat → g2d_reg)
    (i : Nat) (hen : (mHdrLibCoef i).hdr_en ≠ 0) :
    emitted (setHdrLibCommand_loop mHdrLibCoef (List.range (i + 1)) (regs, 0)) =
      emitted (setHdrLibCommand_loop mHdrLibCoef (List.range i) (regs, 0)) ++
        slotRegs i (mHdrLibCoef i) := by
  rw [setHdrLibCommand_loop_emitted, setHdrLibCommand_loop_emitted, List.range_succ,
    loopRegs_append, List.append_assoc]
  congr 2
  simp [loopRegs, hen]

theorem modCtrlValue_bits (c : hdrCoef) :
    ((modCtrlValue c).testBit 0 = true ↔ c.oetf_en ≠ 0) ∧
    ((modCtrlValue c).testBit 1 = true ↔ c.eotf_en ≠ 0) ∧
    ((modCtrlValue c).testBit 2 = true ↔ c.gm_en ≠ 0) ∧
    ((modCtrlValue c).testBit 5 = true ↔ c.tm_en ≠ 0) ∧
    (modCtrlValue c) &&& 0x27 = modCtrlValue c := by
  unfold modCtrlValue
  by_cases h1 : c.oetf_en = 0 <;> by_cases h2 : c.eotf_en = 0 <;> by_cases h3 : c.gm_en = 0 <;>
    by_cases h4 : c.tm_en = 0 <;> simp +decide [h1, h2, h3, h4]

theorem modCtrlValue_inj (c d : hdrCoef) :
    modCtrlValue c = modCtrlValue d ↔
      ((c.oetf_en ≠ 0 ↔ d.oetf_en ≠ 0) ∧ (c.eotf_en ≠ 0 ↔ d.eotf_en ≠ 0) ∧
        (c.gm_en ≠ 0 ↔ d.gm_en ≠ 0) ∧ (c.tm_en ≠ 0 ↔ d.tm_en ≠ 0)) := by
  obtain ⟨c0, c1, c2, c5, _⟩ := modCtrlValue_bits c
  obtain ⟨d0, d1, d2, d5, _⟩ := modCtrlValue_bits d
  constructor
  · intro h
    rw [h] at c0 c1 c2 c5
    exact ⟨c0.symm.trans d0, c1.symm.trans d1, c2.symm.trans d2, c5.symm.trans d5⟩
  · rintro ⟨h1, h2, h3, h4⟩
    unfold modCtrlValue
    rw [if_congr h1 rfl rfl, if_congr h2 rfl rfl, if_congr h3 rfl rfl, if_congr h4 rfl rfl]

theorem slotRegs_last (i : Nat) (c : hdrCoef) :
    (slotRegs i c)[(slotRegs i c).length - 1]? = some ⟨0x3008 + 0x800 * i, modCtrlValue c⟩ := by
  unfold slotRegs
  rw [List.length_append, List.length_singleton, Nat.add_sub_cancel,
    List.getElem?_append_right (le_refl _), Nat.sub_self]
  rfl

/-- Claim C31: for every slot `i` with `hdr_en`, the slot loop of
`setHdrLibCommand` emits at least one register for the slot, and the last of
them (the entry before the count the loop has reached after slot `i`) is, in
the output of the call, the mode-control register: offset `0x3008 + 0x800 i`,
value `modCtrlValue`, the OR of bit 0 (OETF), bit 1 (EOTF), bit 2 (gamut) and
bit 5 (tone mapping) over the enabled stages.  The value has exactly these
bits, so two coefficient sets have the same value only if they enable the same
stages.  When some slot has `hdr_en` the last register of the output is the
global enable (offset `0x3004`, value 1); when none has, nothing is written and
the count is 0. -/
theorem setHdrLibCommand_mode_control (G : G2DHeader) (mHdrLibCoef : Nat → hdrCoef)
    (regs : Nat → g2d_reg) :
    (∀ i, i < G.MAX_HDR_SET → (mHdrLibCoef i).hdr_en ≠ 0 →
      (setHdrLibCommand_loop mHdrLibCoef (List.range i) (regs, 0)).2 <
        (setHdrLibCommand_loop mHdrLibCoef (List.range (i + 1)) (regs, 0)).2 ∧
      (setHdrLibCommand_loop mHdrLibCoef (List.range (i + 1)) (regs, 0)).2 <
        (setHdrLibCommand G mHdrLibCoef regs).2 ∧
      (setHdrLibCommand G mHdrLibCoef regs).1
          ((setHdrLibCommand_loop mHdrLibCoef (List.range (i + 1)) (regs, 0)).2 - 1) =
        ⟨0x3008 + 0x800 * i, modCtrlValue (mHdrLibCoef i)⟩) ∧
    (∀ c : hdrCoef,
      ((modCtrlValue c).testBit 0 = true ↔ c.oetf_en ≠ 0) ∧
      ((modCtrlValue c).testBit 1 = true ↔ c.eotf_en ≠ 0) ∧
      ((modCtrlValue c).testBit 2 = true ↔ c.gm_en ≠ 0) ∧
      ((modCtrlValue c).testBit 5 = true ↔ c.tm_en ≠ 0) ∧
      (modCtrlValue c) &&& 0x27 = modCtrlValue c) ∧
    (∀ c d : hdrCoef, modCtrlValue c = modCtrlValue d ↔
      ((c.oetf_en ≠ 0 ↔ d.oetf_en ≠ 0) ∧ (c.eotf_en ≠ 0 ↔ d.eotf_en ≠ 0) ∧
        (c.gm_en ≠ 0 ↔ d.gm_en ≠ 0) ∧ (c.tm_en ≠ 0 ↔ d.tm_en ≠ 0))) ∧
    ((∃ i, i < G.MAX_HDR_SET ∧ (mHdrLibCoef i).hdr_en ≠ 0) →
      0 < (setHdrLibCommand G mHdrLibCoef regs).2 ∧
      (setHdrLibCommand G mHdrLibCoef regs).1 ((setHdrLibCommand G mHdrLibCoef regs).2 - 1) =
        ⟨0x3004, 1⟩) ∧
    ((∀ i, i < G.MAX_HDR_SET → (mHdrLibCoef i).hdr_en = 0) →
      setHdrLibCommand G mHdrLibCoef regs = (regs, 0)) := by
  have hslot : ∀ i, i < G.MAX_HDR_SET → (mHdrLibCoef i).hdr_en ≠ 0 →
      (setHdrLibCommand_loop mHdrLibCoef (List.range i) (regs, 0)).2 <
        (setHdrLibCommand_loop mHdrLibCoef (List.range (i + 1)) (regs, 0)).2 ∧
      (setHdrLibCommand_loop mHdrLibCoef (List.range (i + 1)) (regs, 0)).2 <
        (setHdrLibCommand G mHdrLibCoef regs).2 ∧
      (setHdrLibCommand G mHdrLibCoef regs).1
          ((setHdrLibCommand_loop mHdrLibCoef (List.range (i + 1)) (regs, 0)).2 - 1) =
        ⟨0x3008 + 0x800 * i, modCtrlValue (mHdrLibCoef i)⟩ := by
    intro i hi hen
    have hs := setHdrLibCommand_loop_succ mHdrLibCoef regs i hen
    have hlen := congrArg List.length hs
    rw [List.length_append, emitted_length, emitted_length] at hlen
    have hpos := (slotRegs_length_le i (mHdrLibCoef i)).1
    obtain ⟨p1, p2, p3⟩ := setHdrLibCommand_loop_prefix G mHdrLibCoef regs (i + 1) (by omega)
    have hlast := emitted_suffix _ _ _ hs ((slotRegs i (mHdrLibCoef i)).length - 1) (by omega)
    rw [slotRegs_last] at hlast
    have hidx : (setHdrLibCommand_loop mHdrLibCoef (List.range i) (regs, 0)).2 +
        ((slotRegs i (mHdrLibCoef i)).length - 1) =
        (setHdrLibCommand_loop mHdrLibCoef (List.range (i + 1)) (regs, 0)).2 - 1 := by omega
    rw [hidx] at hlast
    refine ⟨by omega, ?_, ?_⟩
    · rw [p2 (by omega)]
      omega
    · rw [p3 _ (by omega)]
      exact (Option.some.inj hlast).symm
  refine ⟨hslot, modCtrlValue_bits, modCtrlValue_inj, ?_, ?_⟩
  · rintro ⟨i, hi, hen⟩
    obtain ⟨h1, h2, _⟩ := hslot i hi hen
    obtain ⟨p1, p2, _⟩ := setHdrLibCommand_loop_prefix G mHdrLibCoef regs (i + 1) (by omega)
    refine ⟨by omega, ?_⟩
    unfold setHdrLibCommand
    simp only
    rw [if_neg (by omega)]
    simp only
    rw [Nat.add_sub_cancel, Function.update_same]
    rfl
  · intro h
    unfold setHdrLibCommand
    rw [setHdrLibCommand_loop_disabled mHdrLibCoef _ _
      (fun i hi => h i (List.mem_range.mp hi))]
    simp

/-- Witness for C31: with every slot and every stage enabled on the sample
constants (four slots), the last register of slot 0 is at index 290 with
offset `0x3008` and value `0x27`, and the last register of the output is the
global enable. -/
theorem setHdrLibCommand_mode_control_witness :
    (setHdrLibCommand sampleG2D sampleHdrCoefFull (fun _ => ⟨0, 0⟩)).1 290 = ⟨0x3008, 0x27⟩ ∧
    (setHdrLibCommand sampleG2D sampleHdrCoefFull (fun _ => ⟨0, 0⟩)).1
      ((setHdrLibCommand sampleG2D sampleHdrCoefFull (fun _ => ⟨0, 0⟩)).2 - 1) = ⟨0x3004, 1⟩ :=
  have h := setHdrLibCommand_mode_control sampleG2D sampleHdrCoefFull (fun _ => ⟨0, 0⟩)
  ⟨(h.1 0 (by decide) (by decide)).2.2, (h.2.2.2.1 ⟨0, by decide, by decide⟩).2⟩

theorem or_shiftLeft_fields (x y k : Nat) (hx : x < 2 ^ k) :
    (y <<< k) ||| x = y * 2 ^ k + x := by
  rw [Nat.shiftLeft_eq, Nat.mul_comm]
  exact (Nat.mul_add_lt_is_or hx y).symm

theorem TM_RNGX_VALUE_eq (a b : Nat) :
    TM_RNGX_VALUE a b = ((b &&& 0xFFFF) <<< 16) ||| (a &&& 0xFFFF) ∧
    TM_RNGX_VALUE a b % 2 ^ 16 = a &&& 0xFFFF ∧
    TM_RNGX_VALUE a b / 2 ^ 16 = b &&& 0xFFFF := by
  obtain ⟨h1, h2, h3⟩ := COEF_COUPLE_VALUE_eq a b 16 (le_refl _)
  have e : (2 : Nat) ^ 16 - 1 = 0xFFFF := by norm_num
  rw [e] at h1 h2 h3
  unfold TM_RNGX_VALUE TM_RNGX_BITS
  exact ⟨by rw [h1, Nat.lor_comm], h2, h3⟩

theorem TM_RNGY_VALUE_eq (a b : Nat) :
    TM_RNGY_VALUE a b = ((b &&& 0x1FF) <<< 9) ||| (a &&& 0x1FF) ∧
    TM_RNGY_VALUE a b % 2 ^ 9 = a &&& 0x1FF ∧
    TM_RNGY_VALUE a b / 2 ^ 9 = b &&& 0x1FF := by
  have ha : COEF a 9 = a &&& 0x1FF := by unfold COEF; rw [BITMASK_eq]; norm_num
  have hb : COEF b 9 = b &&& 0x1FF := by unfold COEF; rw [BITMASK_eq]; norm_num
  have la := COEF_lt a 9
  have lb := COEF_lt b 9
  rw [ha] at la
  rw [hb] at lb
  have e := or_shiftLeft_fields (a &&& 0x1FF) (b &&& 0x1FF) 9 la
  have hu : u32 ((b &&& 0x1FF) <<< 9) = (b &&& 0x1FF) <<< 9 := by
    unfold u32
    rw [Nat.shiftLeft_eq]
    omega
  unfold TM_RNGY_VALUE TM_RNGY_BITS
  rw [ha, hb, hu]
  refine ⟨rfl, ?_, ?_⟩
  · rw [e]; omega
  · rw [e]; omega

theorem TM_COEF_VALUE_eq (a b c : Nat) :
    TM_COEF_VALUE a b c = ((c &&& 0x3FF) <<< 20) ||| ((b &&& 0x3FF) <<< 10) ||| (a &&& 0x3FF) ∧
    TM_COEF_VALUE a b c % 2 ^ 10 = a &&& 0x3FF ∧
    TM_COEF_VALUE a b c / 2 ^ 10 % 2 ^ 10 = b &&& 0x3FF ∧
    TM_COEF_VALUE a b c / 2 ^ 20 = c &&& 0x3FF := by
  have ha : COEF a 10 = a &&& 0x3FF := by unfold COEF; rw [BITMASK_eq]; norm_num
  have hb : COEF b 10 = b &&& 0x3FF := by unfold COEF; rw [BITMASK_eq]; norm_num
  have hc : COEF c 10 = c &&& 0x3FF := by unfold COEF; rw [BITMASK_eq]; norm_num
  have la := COEF_lt a 10
  have lb := COEF_lt b 10
  have lc := COEF_lt c 10
  rw [ha] at la
  rw [hb] at lb
  rw [hc] at lc
  have e1 := or_shiftLeft_fields (a &&& 0x3FF) (b &&& 0x3FF) 10 la
  have e2 := or_shiftLeft_fields (((b &&& 0x3FF) <<< 10) ||| (a &&& 0x3FF)) (c &&& 0x3FF) 20
    (by rw [e1]; omega)
  have hu1 : u32 ((b &&& 0x3FF) <<< 10) = (b &&& 0x3FF) <<< 10 := by
    unfold u32
    rw [Nat.shiftLeft_eq]
    omega
  have hu2 : u32 ((c &&& 0x3FF) <<< 20) = (c &&& 0x3FF) <<< 20 := by
    unfold u32
    rw [Nat.shiftLeft_eq]
    omega
  unfold TM_COEF_VALUE TM_COEF_BITS
  rw [ha, hb, hc, hu1, hu2]
  refine ⟨rfl, ?_, ?_, ?_⟩
  · rw [Nat.lor_assoc, e2, e1]; omega
  · rw [Nat.lor_assoc, e2, e1]; omega
  · rw [Nat.lor_assoc, e2, e1]; omega

theorem slotRegs_tone_mapping (i : Nat) (c : hdrCoef) (htm : c.tm_en ≠ 0) :
    ∃ pre : List g2d_reg, slotRegs i c =
      (pre ++ (stageRegs c.tm_x (0x344C + 0x800 * i) ⟨17, 16, true⟩ ++
        stageRegs c.tm_y (0x3490 + 0x800 * i) ⟨33, 20, false⟩)) ++
      [⟨0x3438 + 0x800 * i, TM_RNGX_VALUE (c.tm_rngx 0) (c.tm_rngx 1)⟩,
       ⟨0x343C + 0x800 * i, TM_RNGY_VALUE (c.tm_rngy 0) (c.tm_rngy 1)⟩,
       ⟨0x3434 + 0x800 * i, TM_COEF_VALUE (c.tm_coef 0) (c.tm_coef 1) (c.tm_coef 2)⟩,
       ⟨0x3008 + 0x800 * i, modCtrlValue c⟩] := by
  refine ⟨(if c.oetf_en ≠ 0 then
        stageRegs c.oetf_x (0x300C + 0x800 * i) ⟨17, 16, true⟩ ++
          stageRegs c.oetf_y (0x3050 + 0x800 * i) ⟨17, 10, true⟩ else []) ++
      (if c.eotf_en ≠ 0 then
        stageRegs c.eotf_x (0x3094 + 0x800 * i) ⟨65, 10, true⟩ ++
          stageRegs c.eotf_y (0x3198 + 0x800 * i) ⟨129, 16, false⟩ else []) ++
      (if c.gm_en ≠ 0 then stageRegs c.gm_coef (0x339C + 0x800 * i) ⟨9, 19, false⟩ else []), ?_⟩
  unfold slotRegs tmRegs
  simp only [htm, ne_eq, not_false_eq_true, if_true, List.append_assoc, List.cons_append,
    List.nil_append]

theorem getElem?_append_four (l : List g2d_reg) (a b c d : g2d_reg) :
    (l ++ [a, b, c, d])[l.length]? = some a ∧ (l ++ [a, b, c, d])[l.length + 1]? = some b ∧
    (l ++ [a, b, c, d])[l.length + 2]? = some c ∧ (l ++ [a, b, c, d])[l.length + 3]? = some d := by
  refine ⟨?_, ?_, ?_, ?_⟩
  · rw [List.getElem?_append_right (le_refl _), Nat.sub_self]; rfl
  · rw [List.getElem?_append_right (by omega), Nat.add_sub_cancel_left]; rfl
  · rw [List.getElem?_append_right (by omega), Nat.add_sub_cancel_left]; rfl
  · rw [List.getElem?_append_right (by omega), Nat.add_sub_cancel_left]; rfl

/-- Claim C32: for a slot `i` with `hdr_en` and tone mapping enabled, what the
slot loop of `setHdrLibCommand` has emitted when slot `i` is done ends with the
tone-mapping X and Y LUT registers, then exactly three combined registers
(range X at `0x3438 + 0x800 i`, range Y at `0x343C + 0x800 i`, coefficients at
`0x3434 + 0x800 i`), then the mode-control register.  In the output of the call
the three registers are the entries 4, 3 and 2 places before the count reached
after slot `i`, with the values
`((rngx[1] & 0xFFFF) << 16) | (rngx[0] & 0xFFFF)`,
`((rngy[1] & 0x1FF) << 9) | (rngy[0] & 0x1FF)` and
`((coef[2] & 0x3FF) << 20) | ((coef[1] & 0x3FF) << 10) | (coef[0] & 0x3FF)`.
The fields of each value do not overlap: each masked input is read back from
the value by a division and a remainder. -/
theorem setHdrLibCommand_tone_mapping_registers (G : G2DHeader) (mHdrLibCoef : Nat → hdrCoef)
    (regs : Nat → g2d_reg) (i : Nat) (hi : i < G.MAX_HDR_SET)
    (hen : (mHdrLibCoef i).hdr_en ≠ 0) (htm : (mHdrLibCoef i).tm_en ≠ 0) :
    (∃ pre : List g2d_reg,
      emitted (setHdrLibCommand_loop mHdrLibCoef (List.range (i + 1)) (regs, 0)) =
        pre ++ (stageRegs (mHdrLibCoef i).tm_x (0x344C + 0x800 * i) ⟨17, 16, true⟩ ++
          stageRegs (mHdrLibCoef i).tm_y (0x3490 + 0x800 * i) ⟨33, 20, false⟩) ++
        [⟨0x3438 + 0x800 * i,
            TM_RNGX_VALUE ((mHdrLibCoef i).tm_rngx 0) ((mHdrLibCoef i).tm_rngx 1)⟩,
         ⟨0x343C + 0x800 * i,
            TM_RNGY_VALUE ((mHdrLibCoef i).tm_rngy 0) ((mHdrLibCoef i).tm_rngy 1)⟩,
         ⟨0x3434 + 0x800 * i,
            TM_COEF_VALUE ((mHdrLibCoef i).tm_coef 0) ((mHdrLibCoef i).tm_coef 1)
              ((mHdrLibCoef i).tm_coef 2)⟩,
         ⟨0x3008 + 0x800 * i, modCtrlValue (mHdrLibCoef i)⟩]) ∧
    (setHdrLibCommand_loop mHdrLibCoef (List.range i) (regs, 0)).2 + 4 ≤
      (setHdrLibCommand_loop mHdrLibCoef (List.range (i + 1)) (regs, 0)).2 ∧
    (setHdrLibCommand_loop mHdrLibCoef (List.range (i + 1)) (regs, 0)).2 <
      (setHdrLibCommand G mHdrLibCoef regs).2 ∧
    (setHdrLibCommand G mHdrLibCoef regs).1
        ((setHdrLibCommand_loop mHdrLibCoef (List.range (i + 1)) (regs, 0)).2 - 4) =
      ⟨0x3438 + 0x800 * i,
        (((mHdrLibCoef i).tm_rngx 1 &&& 0xFFFF) <<< 16) |||
          ((mHdrLibCoef i).tm_rngx 0 &&& 0xFFFF)⟩ ∧
    (setHdrLibCommand G mHdrLibCoef regs).1
        ((setHdrLibCommand_loop mHdrLibCoef (List.range (i + 1)) (regs, 0)).2 - 3) =
      ⟨0x343C + 0x800 * i,
        (((mHdrLibCoef i).tm_rngy 1 &&& 0x1FF) <<< 9) |||
          ((mHdrLibCoef i).tm_rngy 0 &&& 0x1FF)⟩ ∧
    (setHdrLibCommand G mHdrLibCoef regs).1
        ((setHdrLibCommand_loop mHdrLibCoef (List.range (i + 1)) (regs, 0)).2 - 2) =
      ⟨0x3434 + 0x800 * i,
        (((mHdrLibCoef i).tm_coef 2 &&& 0x3FF) <<< 20) |||
          (((mHdrLibCoef i).tm_coef 1 &&& 0x3FF) <<< 10) |||
          ((mHdrLibCoef i).tm_coef 0 &&& 0x3FF)⟩ ∧
    (∀ a b : Nat, TM_RNGX_VALUE a b % 2 ^ 16 = a &&& 0xFFFF ∧
      TM_RNGX_VALUE a b / 2 ^ 16 = b &&& 0xFFFF) ∧
    (∀ a b : Nat, TM_RNGY_VALUE a b % 2 ^ 9 = a &&& 0x1FF ∧
      TM_RNGY_VALUE a b / 2 ^ 9 = b &&& 0x1FF) ∧
    (∀ a b c : Nat, TM_COEF_VALUE a b c % 2 ^ 10 = a &&& 0x3FF ∧
      TM_COEF_VALUE a b c / 2 ^ 10 % 2 ^ 10 = b &&& 0x3FF ∧
      TM_COEF_VALUE a b c / 2 ^ 20 = c &&& 0x3FF) := by
  have hs := setHdrLibCommand_loop_succ mHdrLibCoef regs i hen
  obtain ⟨pre, hpre⟩ := slotRegs_tone_mapping i (mHdrLibCoef i) htm
  rw [hpre] at hs
  generalize hBdef : pre ++
    (stageRegs (mHdrLibCoef i).tm_x (0x344C + 0x800 * i) ⟨17, 16, true⟩ ++
      stageRegs (mHdrLibCoef i).tm_y (0x3490 + 0x800 * i) ⟨33, 20, false⟩) = B at hs
  have hlen := congrArg List.length hs
  rw [List.length_append, List.length_append, emitted_length, emitted_length] at hlen
  simp only [List.length_cons, List.length_nil] at hlen
  obtain ⟨p1, p2, p3⟩ := setHdrLibCommand_loop_prefix G mHdrLibCoef regs (i + 1) (by omega)
  have hB : B.length + 3 < (B ++
      [(⟨0x3438 + 0x800 * i,
          TM_RNGX_VALUE ((mHdrLibCoef i).tm_rngx 0) ((mHdrLibCoef i).tm_rngx 1)⟩ : g2d_reg),
       ⟨0x343C + 0x800 * i,
          TM_RNGY_VALUE ((mHdrLibCoef i).tm_rngy 0) ((mHdrLibCoef i).tm_rngy 1)⟩,
       ⟨0x3434 + 0x800 * i,
          TM_COEF_VALUE ((mHdrLibCoef i).tm_coef 0) ((mHdrLibCoef i).tm_coef 1)
            ((mHdrLibCoef i).tm_coef 2)⟩,
       ⟨0x3008 + 0x800 * i, modCtrlValue (mHdrLibCoef i)⟩]).length := by
    rw [List.length_append]
    simp only [List.length_cons, List.length_nil]
    omega
  obtain ⟨g0, g1, g2, _⟩ := getElem?_append_four B
    ⟨0x3438 + 0x800 * i, TM_RNGX_VALUE ((mHdrLibCoef i).tm_rngx 0) ((mHdrLibCoef i).tm_rngx 1)⟩
    ⟨0x343C + 0x800 * i, TM_RNGY_VALUE ((mHdrLibCoef i).tm_rngy 0) ((mHdrLibCoef i).tm_rngy 1)⟩
    ⟨0x3434 + 0x800 * i, TM_COEF_VALUE ((mHdrLibCoef i).tm_coef 0) ((mHdrLibCoef i).tm_coef 1)
      ((mHdrLibCoef i).tm_coef 2)⟩
    ⟨0x3008 + 0x800 * i, modCtrlValue (mHdrLibCoef i)⟩
  have s0 := (emitted_suffix _ _ _ hs B.length (by omega)).symm.trans g0
  have s1 := (emitted_suffix _ _ _ hs (B.length + 1) (by omega)).symm.trans g1
  have s2 := (emitted_suffix _ _ _ hs (B.length + 2) (by omega)).symm.trans g2
  refine ⟨⟨emitted (setHdrLibCommand_loop mHdrLibCoef (List.range i) (regs, 0)) ++ pre,
    by rw [hs, ← hBdef]; simp only [List.append_assoc]⟩, by omega, ?_,
    ?_, ?_, ?_, fun a b => (TM_RNGX_VALUE_eq a b).2, fun a b => (TM_RNGY_VALUE_eq a b).2,
    fun a b c => (TM_COEF_VALUE_eq a b c).2⟩
  · rw [p2 (by omega)]
    omega
  · rw [p3 _ (by omega), ← (TM_RNGX_VALUE_eq _ _).1]
    rw [← Option.some.inj s0]
    exact congrArg _ (by omega)
  · rw [p3 _ (by omega), ← (TM_RNGY_VALUE_eq _ _).1]
    rw [← Option.some.inj s1]
    exact congrArg _ (by omega)
  · rw [p3 _ (by omega), ← (TM_COEF_VALUE_eq _ _ _).1]
    rw [← Option.some.inj s2]
    exact congrArg _ (by omega)

/-- Witness for C32: every slot and stage enabled on the sample constants,
`tm_rngx = {1, 2}`: the range-X register of slot 0 is entry 287 of the output,
at offset `0x3438` with value `(2 << 16) | 1`. -/
theorem setHdrLibCommand_tone_mapping_registers_witness :
    (0 : Nat) < sampleG2D.MAX_HDR_SET ∧ (sampleHdrCoefFull 0).hdr_en ≠ 0 ∧
    (sampleHdrCoefFull 0).tm_en ≠ 0 ∧
    (setHdrLibCommand sampleG2D sampleHdrCoefFull (fun _ => ⟨0, 0⟩)).1 287 =
      ⟨0x3438, (2 <<< 16) ||| 1⟩ :=
  ⟨by decide, by decide, by decide,
    (setHdrLibCommand_tone_mapping_registers sampleG2D sampleHdrCoefFull (fun _ => ⟨0, 0⟩) 0
      (by decide) (by decide) (by decide)).2.2.2.1⟩

/-- Claim C37 (counterexample): on the sample constants (four slots) every
slot has `hdr_en` and its four stages enabled, but the OETF X array of each set
is a null pointer: `setHdrLibCommand` writes 1097 registers, fewer than
`NUM_HDR_REGS = 1165`. -/
theorem setHdrLibCommand_null_array_below_bound :
    (∀ i, i < sampleG2D.MAX_HDR_SET →
      (sampleHdrCoefNullArray i).hdr_en ≠ 0 ∧ (sampleHdrCoefNullArray i).oetf_en ≠ 0 ∧
      (sampleHdrCoefNullArray i).eotf_en ≠ 0 ∧ (sampleHdrCoefNullArray i).gm_en ≠ 0 ∧
      (sampleHdrCoefNullArray i).tm_en ≠ 0) ∧
    (setHdrLibCommand sampleG2D sampleHdrCoefNullArray (fun _ => ⟨0, 0⟩)).2 = 1097 ∧
    NUM_HDR_REGS sampleG2D = 1165 := by
  decide

/-- Claim C37 (amended): for every state of the coefficient sets the number of
registers `setHdrLibCommand` writes is at most
`NUM_HDR_REGS = MAX_HDR_SET * 291 + 1`; with at least one slot, it is equal to
`NUM_HDR_REGS` exactly when every slot has `hdr_en` and its four stages enabled
and none of its coefficient arrays is a null pointer. -/
theorem setHdrLibCommand_register_bound (G : G2DHeader) (mHdrLibCoef : Nat → hdrCoef)
    (regs : Nat → g2d_reg) (hmax : 0 < G.MAX_HDR_SET) :
    NUM_HDR_REGS G = G.MAX_HDR_SET * 291 + 1 ∧
    (setHdrLibCommand G mHdrLibCoef regs).2 ≤ NUM_HDR_REGS G ∧
    ((setHdrLibCommand G mHdrLibCoef regs).2 = NUM_HDR_REGS G ↔
      ∀ i, i < G.MAX_HDR_SET → (mHdrLibCoef i).full) := by
  have hn : NUM_HDR_REGS G = G.MAX_HDR_SET * 291 + 1 := by
    unfold NUM_HDR_REGS NUM_HDR_COEF NUM_HDR_CTRL
    have : OETF_COEF_COUNT + EOTF_COEF_COUNT + TM_COEF_COUNT + GM_LUT_VALUES = 290 := by decide
    rw [this]
    omega
  obtain ⟨l1, l2, l3⟩ := loopRegs_range_length mHdrLibCoef G.MAX_HDR_SET
  have hc := setHdrLibCommand_count_eq G mHdrLibCoef regs
  rw [setHdrLibCommand_emitted] at hc
  refine ⟨hn, ?_, ?_⟩
  · rw [hc, hn]
    split
    · simp
    · rw [List.length_append, List.length_singleton]
      omega
  · rw [hc, hn]
    by_cases hnil : loopRegs mHdrLibCoef (List.range G.MAX_HDR_SET) = []
    · rw [if_pos hnil]
      constructor
      · intro h
        simp at h
      · intro h
        exact absurd (l3.mp hnil 0 hmax) (h 0 hmax).1
    · rw [if_neg hnil, List.length_append, List.length_singleton, ← l2]
      omega

/-- Witness for C37: on the sample constants with every slot and stage enabled
and every array present, `setHdrLibCommand` writes `NUM_HDR_REGS = 1165`
registers. -/
theorem setHdrLibCommand_register_bound_witness :
    (0 : Nat) < sampleG2D.MAX_HDR_SET ∧
    (setHdrLibCommand sampleG2D sampleHdrCoefFull (fun _ => ⟨0, 0⟩)).2 = NUM_HDR_REGS sampleG2D ∧
    NUM_HDR_REGS sampleG2D = 1165 :=
  have h := setHdrLibCommand_register_bound sampleG2D sampleHdrCoefFull (fun _ => ⟨0, 0⟩)
    (by decide)
  ⟨by decide,
    h.2.2.mpr (fun _ _ => ⟨Nat.one_ne_zero, Nat.one_ne_zero, Nat.one_ne_zero, Nat.one_ne_zero,
      Nat.one_ne_zero, rfl, rfl, rfl, rfl, rfl, rfl, rfl⟩), h.1⟩

/-- Claim C38: the offsets of the registers one call of `setHdrLibCommand`
emits are pairwise distinct.  Every register emitted in the iteration of slot
`i` has its offset in `[0x3008 + 0x800 i, 0x3004 + 0x800 (i + 1))`, so slots do
not collide and no slot register has the global-enable offset `0x3004`.  Within
a slot the ranges follow each other without overlap: mode control, OETF X,
OETF Y, EOTF X, EOTF Y, gamut, then the three combined tone-mapping registers,
tone-mapping X and tone-mapping Y, each range ending at or before the next
base. -/
theorem setHdrLibCommand_offsets_distinct (G : G2DHeader) (mHdrLibCoef : Nat → hdrCoef)
    (regs : Nat → g2d_reg) :
    (∀ a b, a < (setHdrLibCommand G mHdrLibCoef regs).2 →
      b < (setHdrLibCommand G mHdrLibCoef regs).2 →
      ((setHdrLibCommand G mHdrLibCoef regs).1 a).offset =
        ((setHdrLibCommand G mHdrLibCoef regs).1 b).offset → a = b) ∧
    (∀ (i : Nat) (c : hdrCoef) (st : (Nat → g2d_reg) × Nat) (p : Nat), st.2 ≤ p →
      p < (setHdrLibCommand_slot i c st).2 →
      0x3008 + 0x800 * i ≤ ((setHdrLibCommand_slot i c st).1 p).offset ∧
      ((setHdrLibCommand_slot i c st).1 p).offset < 0x3004 + 0x800 * (i + 1)) ∧
    (∀ i : Nat,
      G2D_BASE_HDR_COEF G2D_HDR_MOD_CTRL i + 4 = getRegBaseX i HDR_PROC_OETF ∧
      getRegBaseX i HDR_PROC_OETF + 4 * OETF_COEF_X_COUNT = getRegBaseY i HDR_PROC_OETF ∧
      getRegBaseY i HDR_PROC_OETF + 4 * OETF_COEF_Y_COUNT = getRegBaseX i HDR_PROC_EOTF ∧
      getRegBaseX i HDR_PROC_EOTF + 4 * EOTF_COEF_X_COUNT = getRegBaseY i HDR_PROC_EOTF ∧
      getRegBaseY i HDR_PROC_EOTF + 4 * EOTF_COEF_Y_COUNT = getRegBaseX i HDR_PROC_GM ∧
      getRegBaseX i HDR_PROC_GM + 4 * GM_LUT_VALUES ≤ G2D_BASE_HDR_COEF G2D_HDR_TM_COEF i ∧
      G2D_BASE_HDR_COEF G2D_HDR_TM_COEF i + 4 = G2D_BASE_HDR_COEF G2D_HDR_TM_RNGX i ∧
      G2D_BASE_HDR_COEF G2D_HDR_TM_RNGX i + 4 = G2D_BASE_HDR_COEF G2D_HDR_TM_RNGY i ∧
      G2D_BASE_HDR_COEF G2D_HDR_TM_RNGY i + 4 ≤ getRegBaseX i HDR_PROC_TM ∧
      getRegBaseX i HDR_PROC_TM + 4 * TM_COEF_X_COUNT = getRegBaseY i HDR_PROC_TM ∧
      getRegBaseY i HDR_PROC_TM + 4 * TM_COEF_Y_COUNT ≤ 0x3004 + 0x800 * (i + 1) ∧
      G2D_HDR_COM_CTRL < G2D_BASE_HDR_COEF G2D_HDR_MOD_CTRL i) := by
  refine ⟨fun a b ha hb hab => ?_, fun i c st p hp1 hp2 => ?_, fun i => ?_⟩
  · have hnd := (setHdrLibCommand_offsets G mHdrLibCoef regs).1
    unfold emitted at hnd
    rw [List.map_map] at hnd
    exact List.inj_on_of_nodup_map hnd (List.mem_range.mpr ha) (List.mem_range.mpr hb) hab
  · have he := setHdrLibCommand_slot_emitted i c st
    have hlen := congrArg List.length he
    rw [List.length_append, emitted_length, emitted_length] at hlen
    have hk := emitted_suffix _ _ _ he (p - st.2) (by omega)
    rw [show st.2 + (p - st.2) = p by omega] at hk
    have hmem : (setHdrLibCommand_slot i c st).1 p ∈ slotRegs i c := List.getElem?_mem hk
    exact (slotRegs_offsets i c).2 _ (List.mem_map_of_mem _ hmem)
  · have h0 : hdr_reg_base.getD HDR_PROC_OETF (0, 0) = (0x300C, 0x3050) := rfl
    have h1 : hdr_reg_base.getD HDR_PROC_EOTF (0, 0) = (0x3094, 0x3198) := rfl
    have h2 : hdr_reg_base.getD HDR_PROC_GM (0, 0) = (0x339C, 0x0) := rfl
    have h3 : hdr_reg_base.getD HDR_PROC_TM (0, 0) = (0x344C, 0x3490) := rfl
    have c1 : OETF_COEF_X_COUNT = 17 := rfl
    have c2 : OETF_COEF_Y_COUNT = 17 := rfl
    have c3 : EOTF_COEF_X_COUNT = 65 := rfl
    have c4 : EOTF_COEF_Y_COUNT = 129 := rfl
    have c5 : GM_LUT_VALUES = 9 := rfl
    have c6 : TM_COEF_X_COUNT = 17 := rfl
    have c7 : TM_COEF_Y_COUNT = 33 := rfl
    unfold getRegBaseX getRegBaseY G2D_BASE_HDR_COEF G2D_HDR_MOD_CTRL G2D_HDR_TM_COEF
      G2D_HDR_TM_RNGX G2D_HDR_TM_RNGY G2D_HDR_COM_CTRL
    rw [h0, h1, h2, h3, c1, c2, c3, c4, c5, c6, c7]
    simp only
    omega

theorem and_two_pow_ne_zero (x i : Nat) : x &&& 2 ^ i ≠ 0 ↔ x.testBit i = true := by
  constructor
  · intro h
    obtain ⟨k, hk⟩ := Nat.ne_zero_implies_bit_true h
    rw [Nat.testBit_and, Nat.testBit_two_pow] at hk
    by_cases hik : i = k
    · subst hik
      simpa using hk
    · simp [hik] at hk
  · intro h h0
    have := congrArg (fun n => n.testBit i) h0
    simp [Nat.testBit_and, Nat.testBit_two_pow, h] at this

theorem bit_test_u32 (x i : Nat) (hi : i < 32) :
    x &&& u32 (1 <<< i) ≠ 0 ↔ x.testBit i = true := by
  have h1 : u32 (1 <<< i) = 2 ^ i := by
    unfold u32
    rw [Nat.one_shiftLeft]
    exact Nat.mod_eq_of_lt (Nat.pow_lt_pow_right (by norm_num) hi)
  rw [h1]
  exact and_two_pow_ne_zero x i

theorem find?_range_eq_some (p : Nat → Bool) : ∀ (n j : Nat),
    (List.range n).find? p = some j ↔ (j < n ∧ p j = true ∧ ∀ k, k < j → p k = false)
  | 0, j => by simp
  | n + 1, j => by
    rw [List.range_succ, List.find?_append]
    have ih := find?_range_eq_some p n
    cases hf : (List.range n).find? p with
    | some a =>
      obtain ⟨a1, a2, a3⟩ := (ih a).mp hf
      simp only [Option.or_some, Option.some.injEq]
      constructor
      · rintro rfl
        exact ⟨by omega, a2, a3⟩
      · rintro ⟨_, h2, h3⟩
        rcases Nat.lt_trichotomy a j with h | h | h
        · rw [h3 a h] at a2; exact absurd a2 (by simp)
        · exact h
        · rw [a3 j h] at h2; exact absurd h2 (by simp)
    | none =>
      have hnone : ∀ k, k < n → p k = false := by
        intro k hk
        have := List.find?_eq_none.mp hf k (List.mem_range.mpr hk)
        simpa using this
      simp only [Option.none_or, List.find?_cons, List.find?_nil]
      by_cases hp : p n = true
      · simp only [hp, Option.some.injEq]
        constructor
        · rintro rfl
          exact ⟨by omega, hp, hnone⟩
        · rintro ⟨h1, h2, h3⟩
          by_contra hne
          have : j < n := by omega
          rw [hnone j this] at h2
          exact absurd h2 (by simp)
      · have hp0 : p n = false := by simpa using hp
        simp only [hp0]
        constructor
        · intro h; exact absurd h (by simp)
        · rintro ⟨h1, h2, h3⟩
          by_cases hjn : j = n
          · rw [hjn, hp0] at h2; exact absurd h2 (by simp)
          · rw [hnone j (by omega)] at h2; exact absurd h2 (by simp)

theorem find?_range_eq_none (p : Nat → Bool) (n : Nat) :
    (List.range n).find? p = none ↔ ∀ k, k < n → p k = false := by
  rw [List.find?_eq_none]
  constructor
  · intro h k hk
    simpa using h k (List.mem_range.mpr hk)
  · intro h k hk
    simp [h k (List.mem_range.mp hk)]

theorem setHdrLayerCommand_eq_foldl (G : G2DHeader) (T : G2DTaskHeader) (map : Nat → Nat)
    (task : g2d_task) (lp : Nat) :
    setHdrLayerCommand G T map task lp =
      (List.range task.num_source).foldl (setHdrLayerCommand_step G T map lp) task := rfl

theorem setHdrLayerCommand_step_spec (G : G2DHeader) (T : G2DTaskHeader) (map : Nat → Nat)
    (lp : Nat) (task : g2d_task) (a : Nat) :
    (setHdrLayerCommand_step G T map lp task a).sameOutsideSourceRegs task ∧
    (∀ i, i ≠ a → (setHdrLayerCommand_step G T map lp task a).commands.source i =
      task.commands.source i) ∧
    (∀ i, ((setHdrLayerCommand_step G T map lp task a).commands.source i).isLive =
      (task.commands.source i).isLive) ∧
    ((task.commands.source a).isLive = true →
      (setHdrLayerCommand_step G T map lp task a).sourceRegs a =
        setHdrLayerCommand_source G T map lp a (task.sourceRegs a)) := by
  unfold setHdrLayerCommand_step setHdrLayerCommand_source g2d_task.sameOutsideSourceRegs
    g2d_task.sourceRegs
  split
  · exact ⟨⟨rfl, rfl, rfl, rfl, rfl, rfl, rfl, rfl, rfl, rfl⟩, fun _ _ => rfl, fun _ => rfl,
      fun _ => rfl⟩
  · refine ⟨⟨rfl, rfl, rfl, rfl, rfl, rfl, rfl, rfl, rfl, rfl⟩, fun i hi => ?_, fun i => ?_,
      fun hl => ?_⟩
    · simp only [Function.update_noteq hi]
    · simp only
      by_cases hi : i = a
      · subst hi
        rw [Function.update_same, heap_ptr.isLive_set]
      · rw [Function.update_noteq hi]
    · simp only
      rw [Function.update_same, heap_ptr.get_set, if_pos hl]

theorem setHdrLayerCommand_foldl_spec (G : G2DHeader) (T : G2DTaskHeader) (map : Nat → Nat)
    (lp : Nat) : ∀ (l : List Nat) (task : g2d_task),
    (l.foldl (setHdrLayerCommand_step G T map lp) task).sameOutsideSourceRegs task ∧
    (∀ i, i ∉ l → (l.foldl (setHdrLayerCommand_step G T map lp) task).commands.source i =
      task.commands.source i) ∧
    (∀ i, ((l.foldl (setHdrLayerCommand_step G T map lp) task).commands.source i).isLive =
      (task.commands.source i).isLive) ∧
    (l.Nodup → ∀ i, i ∈ l → (task.commands.source i).isLive = true →
      (l.foldl (setHdrLayerCommand_step G T map lp) task).sourceRegs i =
        setHdrLayerCommand_source G T map lp i (task.sourceRegs i))
  | [], task => ⟨⟨rfl, rfl, rfl, rfl, rfl, rfl, rfl, rfl, rfl, rfl⟩, fun _ _ => rfl, fun _ => rfl,
      fun _ i hi => absurd hi (List.not_mem_nil i)⟩
  | a :: rest, task => by
    obtain ⟨s1, s2, s3, s4⟩ := setHdrLayerCommand_step_spec G T map lp task a
    obtain ⟨r1, r2, r3, r4⟩ := setHdrLayerCommand_foldl_spec G T map lp rest
      (setHdrLayerCommand_step G T map lp task a)
    rw [List.foldl_cons]
    refine ⟨?_, fun i hi => ?_, fun i => ?_, fun hnd i hi hl => ?_⟩
    · unfold g2d_task.sameOutsideSourceRegs at r1 s1 ⊢
      obtain ⟨a1, a2, a3, a4, a5, a6, a7, a8, a9, a10⟩ := r1
      obtain ⟨b1, b2, b3, b4, b5, b6, b7, b8, b9, b10⟩ := s1
      exact ⟨a1.trans b1, a2.trans b2, a3.trans b3, a4.trans b4, a5.trans b5, a6.trans b6,
        a7.trans b7, a8.trans b8, a9.trans b9, a10.trans b10⟩
    · rw [List.mem_cons, not_or] at hi
      rw [r2 i hi.2, s2 i hi.1]
    · rw [r3 i, s3 i]
    · rw [List.nodup_cons] at hnd
      by_cases hia : i = a
      · subst hia
        have h1 := r2 i hnd.1
        unfold g2d_task.sourceRegs at s4 ⊢
        rw [h1]
        exact s4 hl
      · have hir : i ∈ rest := by
          rcases List.mem_cons.mp hi with h | h
          · exact absurd h hia
          · exact h
        have h2 := r4 hnd.2 i hir (by rw [s3 i]; exact hl)
        rw [h2]
        unfold g2d_task.sourceRegs
        rw [s2 i hia]

theorem setHdrLayerCommand_source_spec (G : G2DHeader) (T : G2DTaskHeader) (map : Nat → Nat)
    (lp : Nat) (i : Nat) (hi : i < 32) (cmd : g2dsfr → Nat) :
    (∀ j, j < G.MAX_HDR_SET → (map j).testBit i = true →
      (∀ k, k < j → (map k).testBit i = false) →
      setHdrLayerCommand_source G T map lp i cmd G2DSFR_SRC_HDRMODE =
        (if lp.testBit i = true then j ||| T.G2D_LAYER_HDRMODE_DEMULT_ALPHA else j) ∧
      setHdrLayerCommand_source G T map lp i cmd G2DSFR_SRC_COMMAND =
        (if lp.testBit i = true then cmd G2DSFR_SRC_COMMAND ||| T.G2D_LAYERCMD_PREMULT_ALPHA
          else cmd G2DSFR_SRC_COMMAND) ∧
      ∀ r, r ≠ G2DSFR_SRC_HDRMODE → r ≠ G2DSFR_SRC_COMMAND →
        setHdrLayerCommand_source G T map lp i cmd r = cmd r) ∧
    ((∀ j, j < G.MAX_HDR_SET → (map j).testBit i = false) →
      setHdrLayerCommand_source G T map lp i cmd = cmd) := by
  have hp : ∀ j, ((map j &&& u32 (1 <<< i) != 0) = true) ↔ (map j).testBit i = true := by
    intro j
    rw [bne_iff_ne]
    exact bit_test_u32 (map j) i hi
  have hp0 : ∀ j, ((map j &&& u32 (1 <<< i) != 0) = false) ↔ (map j).testBit i = false := by
    intro j
    rw [← Bool.not_eq_true, ← Bool.not_eq_true, hp j]
  constructor
  · intro j hj hbit hmin
    have hfind : (List.range G.MAX_HDR_SET).find? (fun j => map j &&& u32 (1 <<< i) != 0) =
        some j :=
      (find?_range_eq_some _ _ _).mpr ⟨hj, (hp j).mpr hbit, fun k hk => (hp0 k).mpr (hmin k hk)⟩
    unfold setHdrLayerCommand_source
    rw [hfind]
    simp only
    by_cases hl : lp.testBit i = true
    · rw [if_pos ((bit_test_u32 lp i hi).mpr hl)]
      simp only [hl, if_true]
      refine ⟨?_, ?_, fun r h1 h2 => ?_⟩
      · simp [Function.update_apply]
      · simp [Function.update_apply]
      · simp [Function.update_apply, h1, h2]
    · rw [if_neg (fun h => hl ((bit_test_u32 lp i hi).mp h))]
      simp only [hl, if_false]
      refine ⟨?_, ?_, fun r h1 h2 => ?_⟩
      · simp [Function.update_apply]
      · simp [Function.update_apply]
      · simp [Function.update_apply, h1]
  · intro hnone
    have hfind : (List.range G.MAX_HDR_SET).find? (fun j => map j &&& u32 (1 <<< i) != 0) =
        none :=
      (find?_range_eq_none _ _).mpr (fun k hk => (hp0 k).mpr (hnone k hk))
    unfold setHdrLayerCommand_source
    rw [hfind]

/-- Claim C33: let `setHdrLayerCommand` run on a task with at most 32 sources
whose register arrays are valid.  For every source `i < num_source`: if some
configuration `j < MAX_HDR_SET` has bit `i` set in its layer map, then for the
smallest such `j` the register `SRC_HDRMODE` of source `i` becomes `j`, OR-ed
with `G2D_LAYER_HDRMODE_DEMULT_ALPHA` exactly when bit `i` of `layer_premult`
is set, `SRC_COMMAND` gains `G2D_LAYERCMD_PREMULT_ALPHA` exactly in that case,
and the other registers of the source keep their values; if no configuration
has bit `i` set, the registers of source `i` are unchanged.  The register
arrays from `num_source` on and every other member of the task are
unchanged. -/
theorem setHdrLayerCommand_spec (G : G2DHeader) (T : G2DTaskHeader) (map : Nat → Nat)
    (task : g2d_task) (lp : Nat) (hn : task.num_source ≤ 32)
    (hlive : ∀ i, i < task.num_source → (task.commands.source i).isLive = true) :
    (setHdrLayerCommand G T map task lp).sameOutsideSourceRegs task ∧
    (∀ i, task.num_source ≤ i →
      (setHdrLayerCommand G T map task lp).commands.source i = task.commands.source i) ∧
    (∀ i, i < task.num_source →
      (∀ j, j < G.MAX_HDR_SET → (map j).testBit i = true →
        (∀ k, k < j → (map k).testBit i = false) →
        (setHdrLayerCommand G T map task lp).sourceRegs i G2DSFR_SRC_HDRMODE =
          (if lp.testBit i = true then j ||| T.G2D_LAYER_HDRMODE_DEMULT_ALPHA else j) ∧
        (setHdrLayerCommand G T map task lp).sourceRegs i G2DSFR_SRC_COMMAND =
          (if lp.testBit i = true then
            task.sourceRegs i G2DSFR_SRC_COMMAND ||| T.G2D_LAYERCMD_PREMULT_ALPHA
           else task.sourceRegs i G2DSFR_SRC_COMMAND) ∧
        ∀ r, r ≠ G2DSFR_SRC_HDRMODE → r ≠ G2DSFR_SRC_COMMAND →
          (setHdrLayerCommand G T map task lp).sourceRegs i r = task.sourceRegs i r) ∧
      ((∀ j, j < G.MAX_HDR_SET → (map j).testBit i = false) →
        (setHdrLayerCommand G T map task lp).sourceRegs i = task.sourceRegs i)) := by
  rw [setHdrLayerCommand_eq_foldl]
  obtain ⟨f1, f2, _, f4⟩ := setHdrLayerCommand_foldl_spec G T map lp
    (List.range task.num_source) task
  refine ⟨f1, fun i hi => f2 i (by simp only [List.mem_range]; omega), fun i hi => ?_⟩
  have hreg := f4 (List.nodup_range _) i (List.mem_range.mpr hi) (hlive i hi)
  obtain ⟨g1, g2⟩ := setHdrLayerCommand_source_spec G T map lp i (by omega) (task.sourceRegs i)
  rw [hreg]
  exact ⟨g1, g2⟩

/-- Witness for C33: two live sources, the layer maps of configurations 1 and
2 name source 1, and source 1 is premultiplied: its `SRC_HDRMODE` becomes
`1 | 0x100`, its `SRC_COMMAND` gains `0x100`, and source 0 is unchanged. -/
theorem setHdrLayerCommand_spec_witness :
    sampleHdrTask.num_source ≤ 32 ∧
    (∀ i, i < sampleHdrTask.num_source → (sampleHdrTask.commands.source i).isLive = true) ∧
    (setHdrLayerCommand sampleG2D sampleTaskHeader sampleHdrLayerMap sampleHdrTask 2).sourceRegs 1
      G2DSFR_SRC_HDRMODE = 0x101 ∧
    (setHdrLayerCommand sampleG2D sampleTaskHeader sampleHdrLayerMap sampleHdrTask 2).sourceRegs 1
      G2DSFR_SRC_COMMAND = 0x1000100 ∧
    (setHdrLayerCommand sampleG2D sampleTaskHeader sampleHdrLayerMap sampleHdrTask 2).sourceRegs 0 =
      sampleHdrTask.sourceRegs 0 :=
  have h := setHdrLayerCommand_spec sampleG2D sampleTaskHeader sampleHdrLayerMap sampleHdrTask 2
    (by decide) (by decide)
  have h1 := (h.2.2 1 (by decide)).1 1 (by decide) (by decide) (by decide)
  ⟨by decide, by decide, h1.1, h1.2.1, (h.2.2 0 (by decide)).2 (by decide)⟩

theorem requestPerformanceQoS_layer_bw (H : HalHeader) (P : G2DPerfHeader)
    (l : AcrylicPerformanceRequestLayer) (h : l.extentsInRange) :
    (requestPerformanceQoS_layer H P l).layer_bw =
      (perfPixelCount l * u32 (P.halfmt_bpp l.mPixFormat) * perfWeight l) % 2 ^ 64 := by
  obtain ⟨⟨a0, a1⟩, ⟨b0, b1⟩, ⟨c0, c1⟩, ⟨d0, d1⟩⟩ := h
  obtain ⟨A, hA⟩ := Int.eq_ofNat_of_zero_le a0
  obtain ⟨B, hB⟩ := Int.eq_ofNat_of_zero_le b0
  obtain ⟨C, hC⟩ := Int.eq_ofNat_of_zero_le c0
  obtain ⟨D, hD⟩ := Int.eq_ofNat_of_zero_le d0
  have e32 : (2 : Nat) ^ 32 = 4294967296 := by norm_num
  have e31 : (2 : Nat) ^ 31 = 2147483648 := by norm_num
  have e64 : (2 : Nat) ^ 64 = 18446744073709551616 := by norm_num
  have i32 : (2 : Int) ^ 32 = 4294967296 := by norm_num
  have i31 : (2 : Int) ^ 31 = 2147483648 := by norm_num
  have hAB : A * B < 4294967296 := by
    have : A * B ≤ 32767 * 32767 := Nat.mul_le_mul (by omega) (by omega)
    omega
  have hCD : C * D < 4294967296 := by
    have : C * D ≤ 32767 * 32767 := Nat.mul_le_mul (by omega) (by omega)
    omega
  unfold requestPerformanceQoS_layer perfPixelCount perfWeight
  simp only [hA, hB, hC, hD, Int.toNat_ofNat]
  have tA : toU32 (A : Int) = A := by unfold toU32; rw [i32]; omega
  have tB : toU32 (B : Int) = B := by unfold toU32; rw [i32]; omega
  have tC : toU32 (C : Int) = C := by unfold toU32; rw [i32]; omega
  have tD : toU32 (D : Int) = D := by unfold toU32; rw [i32]; omega
  rw [tA, tB, tC, tD]
  have pAB : u32 (A * B) = A * B := by unfold u32; rw [e32]; omega
  have pCD : u32 (C * D) = C * D := by unfold u32; rw [e32]; omega
  rw [pAB, pCD]
  generalize (max (A * B) (C * D)) * u32 (P.halfmt_bpp l.mPixFormat) = X
  have hscal : ((if decide (l.mTransform &&& H.HAL_TRANSFORM_ROT_90 ≠ 0) = true then
            toI32 (u32 (toU32
                    (if decide (l.mTransform &&& H.HAL_TRANSFORM_ROT_90 ≠ 0) = true then
                      toI32 (u32 (A + 2 ^ 32 - D))
                    else toI32 (u32 (A + 2 ^ 32 - C))) +
                  u32 (B + 2 ^ 32 - C)))
          else
            toI32 (u32 (toU32
                    (if decide (l.mTransform &&& H.HAL_TRANSFORM_ROT_90 ≠ 0) = true then
                      toI32 (u32 (A + 2 ^ 32 - D))
                    else toI32 (u32 (A + 2 ^ 32 - C))) +
                  u32 (B + 2 ^ 32 - D)))) = 0) ↔ ((A : Int) + B = C + D) := by
    cases decide (l.mTransform &&& H.HAL_TRANSFORM_ROT_90 ≠ 0)
    · simp only [Bool.false_eq_true, if_false]
      unfold toI32 toU32 u32
      simp only [e32, e31, i32, i31]
      split_ifs <;> omega
    · simp only [if_true]
      unfold toI32 toU32 u32
      simp only [e32, e31, i32, i31]
      split_ifs <;> omega
  rw [if_congr hscal rfl rfl]
  unfold u64
  rw [e64]
  simp only [Nat.shiftLeft_eq]
  split_ifs <;> omega

theorem requestPerformanceQoS_layers_bandwidth (H : HalHeader) (P : G2DPerfHeader) :
    ∀ (layers : List AcrylicPerformanceRequestLayer) (st : PerfLoop),
    (∀ l ∈ layers, l.extentsInRange) →
    (requestPerformanceQoS_layers H P layers st).bandwidth % 2 ^ 64 =
      (st.bandwidth + perfBandwidthSum P layers) % 2 ^ 64
  | [], st, _ => by simp [requestPerformanceQoS_layers, perfBandwidthSum]
  | l :: rest, st, h => by
    have hl := requestPerformanceQoS_layer_bw H P l (h l (List.mem_cons_self _ _))
    have ih := requestPerformanceQoS_layers_bandwidth H P rest
      { bandwidth := u64 (st.bandwidth + (requestPerformanceQoS_layer H P l).layer_bw),
        src_yuv420 := st.src_yuv420 || (requestPerformanceQoS_layer H P l).src_yuv420,
        src_rotate := st.src_rotate || (requestPerformanceQoS_layer H P l).src_rotate,
        layer := st.layer ++ [(requestPerformanceQoS_layer H P l).data] }
      (fun x hx => h x (List.mem_cons_of_mem _ hx))
    simp only [requestPerformanceQoS_layers, List.foldl_cons] at ih ⊢
    rw [ih, hl]
    unfold perfBandwidthSum u64
    simp only [List.map_cons, List.sum_cons]
    have e64 : (2 : Nat) ^ 64 = 18446744073709551616 := by norm_num
    rw [e64]
    omega

theorem shift_truncate (S : Nat) (F : Int) (b : Nat) (hb : b % 2 ^ 64 = S % 2 ^ 64) :
    u32 (u64 (b * toU64 F) >>> 17) = (((S : Int) * F / 2 ^ 17) % 2 ^ 32).toNat := by
  have e64 : (2 : Nat) ^ 64 = 18446744073709551616 := by norm_num
  have e32 : (2 : Nat) ^ 32 = 4294967296 := by norm_num
  have e17 : (2 : Nat) ^ 17 = 131072 := by norm_num
  have i64 : (2 : Int) ^ 64 = 18446744073709551616 := by norm_num
  have i32 : (2 : Int) ^ 32 = 4294967296 := by norm_num
  have i17 : (2 : Int) ^ 17 = 131072 := by norm_num
  have hmod : ((b * toU64 F : Nat) : Int) % 2 ^ 64 = ((S : Int) * F) % 2 ^ 64 := by
    have h1 : ((toU64 F : Nat) : Int) = F % 2 ^ 64 := by
      unfold toU64
      rw [Int.toNat_of_nonneg (Int.emod_nonneg _ (by norm_num))]
    have h2 : ((b : Nat) : Int) % 2 ^ 64 = (S : Int) % 2 ^ 64 := by
      have := congrArg (fun n : Nat => (n : Int)) hb
      simpa using this
    rw [Int.natCast_mul, h1, Int.mul_emod, h2, Int.emod_emod_of_dvd _ (dvd_refl _),
      ← Int.mul_emod]
  unfold u32 u64
  rw [Nat.shiftRight_eq_div_pow, e64, e32, e17]
  rw [i64] at hmod
  rw [i17, i32]
  generalize (S : Int) * F = X at hmod
  generalize b * toU64 F = Y at hmod
  omega

theorem perfBandwidthSum_unscaled (P : G2DPerfHeader) :
    ∀ (layers : List AcrylicPerformanceRequestLayer), (∀ l ∈ layers, perfWeight l = 16) →
    perfBandwidthSum P layers =
      16 * (layers.map (fun l => perfPixelCount l * u32 (P.halfmt_bpp l.mPixFormat))).sum
  | [], _ => by simp [perfBandwidthSum]
  | l :: rest, h => by
    have ih := perfBandwidthSum_unscaled P rest (fun x hx => h x (List.mem_cons_of_mem _ hx))
    have hl := h l (List.mem_cons_self _ _)
    unfold perfBandwidthSum at ih ⊢
    simp only [List.map_cons, List.sum_cons, ih, hl]
    omega

/-- Claim C34: for a frame whose layers have source and target extents in
`0 .. 32767`, `requestPerformanceQoS` computes for every layer the bandwidth
`pixelcount * bpp * k` (in 64 bits), where `pixelcount` is exactly
`max(source width * source height, target width * target height)`, a value
below `2^32`, and `k` is 16 for a layer treated as unscaled and 18 otherwise;
and `bandwidth_read` of the frame is
`floor((sum of pixelcount * bpp * k) * frameRate / 2^17)` truncated to 32 bits.
When every layer is treated as unscaled this is
`floor((sum of pixelcount * bpp) * frameRate / 8192)` truncated to 32 bits; a
layer whose source extents equal its target extents, as they are or
transposed, is treated as unscaled.  The entry of each frame of a non-empty
request is computed this way. -/
theorem requestPerformanceQoS_bandwidth_read (H : HalHeader) (P : G2DPerfHeader)
    (frame : AcrylicPerformanceRequestFrame)
    (hext : ∀ l ∈ frame.mLayers, l.extentsInRange) :
    (∀ l ∈ frame.mLayers,
      (requestPerformanceQoS_layer H P l).layer_bw =
        (perfPixelCount l * u32 (P.halfmt_bpp l.mPixFormat) * perfWeight l) % 2 ^ 64 ∧
      perfPixelCount l < 2 ^ 32) ∧
    (requestPerformanceQoS_frame H P frame).bandwidth_read =
      (((perfBandwidthSum P frame.mLayers : Int) * frame.mFrameRate / 2 ^ 17) % 2 ^ 32).toNat ∧
    ((∀ l ∈ frame.mLayers, perfWeight l = 16) →
      (requestPerformanceQoS_frame H P frame).bandwidth_read =
        (((((frame.mLayers.map
            (fun l => perfPixelCount l * u32 (P.halfmt_bpp l.mPixFormat))).sum : Nat) : Int) *
          frame.mFrameRate / 8192) % 2 ^ 32).toNat) ∧
    (∀ l : AcrylicPerformanceRequestLayer,
      (l.mSourceRect.size = l.mTargetRect.size ∨
        l.mSourceRect.size = l.mTargetRect.size.swap) → perfWeight l = 16) ∧
    (∀ (ioctl : g2d_performance → Int) (frames : List AcrylicPerformanceRequestFrame),
      frames ≠ [] →
      (requestPerformanceQoS H P ioctl (some frames)).2.frame =
        frames.map (requestPerformanceQoS_frame H P)) := by
  have hread : (requestPerformanceQoS_frame H P frame).bandwidth_read =
      (((perfBandwidthSum P frame.mLayers : Int) * frame.mFrameRate / 2 ^ 17) % 2 ^ 32).toNat := by
    have hb := requestPerformanceQoS_layers_bandwidth H P frame.mLayers
      { bandwidth := 0, src_yuv420 := false, src_rotate := false, layer := [] } hext
    simp only [Nat.zero_add] at hb
    unfold requestPerformanceQoS_frame
    simp only
    exact shift_truncate _ _ _ hb
  refine ⟨fun l hl => ⟨requestPerformanceQoS_layer_bw H P l (hext l hl), ?_⟩, hread, fun hw => ?_,
    fun l hl => ?_, fun ioctl frames hf => ?_⟩
  · obtain ⟨⟨a0, a1⟩, ⟨b0, b1⟩, ⟨c0, c1⟩, ⟨d0, d1⟩⟩ := hext l hl
    unfold perfPixelCount
    have h1 : l.mSourceRect.size.hori.toNat * l.mSourceRect.size.vert.toNat ≤ 32767 * 32767 :=
      Nat.mul_le_mul (by omega) (by omega)
    have h2 : l.mTargetRect.size.hori.toNat * l.mTargetRect.size.vert.toNat ≤ 32767 * 32767 :=
      Nat.mul_le_mul (by omega) (by omega)
    have e32 : (2 : Nat) ^ 32 = 4294967296 := by norm_num
    rw [e32]
    omega
  · rw [hread, perfBandwidthSum_unscaled P frame.mLayers hw]
    have i17 : (2 : Int) ^ 17 = 131072 := by norm_num
    rw [i17, Int.natCast_mul, Int.mul_assoc]
    generalize ((frame.mLayers.map
      (fun l => perfPixelCount l * u32 (P.halfmt_bpp l.mPixFormat))).sum : Int) *
        frame.mFrameRate = X
    have : ((16 : Nat) : Int) * X / 131072 = X / 8192 := by omega
    rw [this]
  · unfold perfWeight
    rcases hl with h | h
    · rw [h, if_pos rfl]
    · rw [h]
      unfold hw2d_coord_t.swap
      simp only
      rw [if_pos (by omega)]
  · cases frames with
    | nil => exact absurd rfl hf
    | cons f rest => rfl

/-- Witness for C34: a frame at 60 frames per second with an unscaled 100x50
layer and a 100x50 layer scaled to 200x100, both with 32 bits per pixel:
`(5000 * 32 * 16 + 20000 * 32 * 18) * 60 / 2^17 = 6445`. -/
theorem requestPerformanceQoS_bandwidth_read_witness :
    (∀ l ∈ samplePerfFrame.mLayers, l.extentsInRange) ∧
    (requestPerformanceQoS_frame sampleHal samplePerf samplePerfFrame).bandwidth_read = 6445 :=
  have hext : ∀ l ∈ samplePerfFrame.mLayers, l.extentsInRange := by
    intro l hl
    simp only [samplePerfFrame, List.mem_cons, List.mem_singleton, List.not_mem_nil,
      or_false] at hl
    rcases hl with rfl | rfl <;>
      simp [AcrylicPerformanceRequestLayer.extentsInRange]
  ⟨hext, (requestPerformanceQoS_bandwidth_read sampleHal samplePerf samplePerfFrame hext).2.1.trans
    (by decide)⟩

theorem setHdrLayerCommand_num_release_fences (G : G2DHeader) (T : G2DTaskHeader)
    (map : Nat → Nat) (task : g2d_task) (lp : Nat) :
    (setHdrLayerCommand G T map task lp).num_release_fences = task.num_release_fences := by
  unfold setHdrLayerCommand
  apply foldl_rel (fun a b : g2d_task => b.num_release_fences = a.num_release_fences)
    (fun _ => rfl) (fun _ _ _ hab hbc => hbc.trans hab)
  intro t a
  simp only
  split <;> rfl

theorem executeG2D_finish_num_release_fences (G : G2DHeader) (T : G2DTaskHeader) (env : ExecEnv)
    (c : AcrylicCompositorG2D9810) (w : CSCMatrixWriter) (lp layercount num_fences : Nat)
    (nonblocking : Bool) :
    (executeG2D_finish G T env c w lp layercount num_fences nonblocking).mTask.num_release_fences =
      num_fences := by
  unfold executeG2D_finish
  simp only
  split_ifs
  all_goals first
    | rfl
    | exact (setHdrLayerCommand_num_release_fences G T c.mHdrLibLayerMap _ lp).trans rfl

theorem ioctlG2D_release_fences (env : ExecEnv) (c : AcrylicCompositorG2D9810) :
    (ioctlG2D env c).submitted.num_release_fences = c.mTask.num_release_fences ∧
    ((0 ≤ (env.ioctl (decide (c.mVersion ≠ 1)) (ioctlG2D env c).submitted).ret ∨
        0 < (env.ioctl (decide (c.mVersion ≠ 1)) (ioctlG2D env c).submitted).errno) →
      ¬ (ioctlG2D env c).ret < 0 →
      ∀ i, i < c.mTask.num_release_fences →
        (ioctlG2D env c).self.mTask.release_fence i =
          (env.ioctl (decide (c.mVersion ≠ 1)) (ioctlG2D env c).submitted).release_fence i) := by
  unfold ioctlG2D
  by_cases hv : c.mVersion = 1
  · simp only [hv, if_true, ne_eq, not_true_eq_false, decide_False]
    split_ifs
    · exact ⟨rfl, fun _ _ i hi => by simp only [if_pos hi]⟩
    · exact ⟨rfl, fun _ _ i hi => by simp only [if_pos hi]⟩
  · simp only [hv, if_false, ne_eq, not_false_eq_true, decide_True]
    split_ifs with hr
    · refine ⟨rfl, fun h hn i _ => ?_⟩
      simp only at h hn
      omega
    · exact ⟨rfl, fun _ _ i hi => by simp only [if_pos hi]⟩

/-- Claim C35: in a call `executeG2D(fence, num_fences, nonblocking)` in which
layer validation passes, every caller entry `fence[i]` with
`layerCount < i < num_fences` is -1 on return, whatever the outcome; a task
handed to the device asks for `min(num_fences, layerCount + 1)` release fences
(`num_release_fences`); and when the call returns `true` (the device call having
succeeded or failed with a positive `errno`, as a failed system call does), a
task was handed to the device and the entries
`fence[0 .. min(num_fences, layerCount + 1) - 1]` are the release fences the
device returned for those slots. -/
theorem executeG2D_release_fences (H : HalHeader) (G : G2DHeader) (T : G2DTaskHeader)
    (env : ExecEnv) (c : AcrylicCompositorG2D9810) (fence : Nat → Int) (num_fences : Nat)
    (nonblocking : Bool) (hval : env.validateAllLayers c = true) :
    (∀ i, c.mLayers.length < i → i < num_fences →
      (executeG2D H G T env c fence num_fences nonblocking).fence i = -1) ∧
    (∀ t, (executeG2D H G T env c fence num_fences nonblocking).submitted = some t →
      t.num_release_fences = min num_fences (c.mLayers.length + 1)) ∧
    ((executeG2D H G T env c fence num_fences nonblocking).ok = true →
      ∃ t, (executeG2D H G T env c fence num_fences nonblocking).submitted = some t ∧
        ((0 ≤ (env.ioctl (decide (c.mVersion ≠ 1)) t).ret ∨
            0 < (env.ioctl (decide (c.mVersion ≠ 1)) t).errno) →
          ∀ i, i < min num_fences (c.mLayers.length + 1) →
            (executeG2D H G T env c fence num_fences nonblocking).fence i =
              (env.ioctl (decide (c.mVersion ≠ 1)) t).release_fence i)) := by
  have hs := executeG2D_setup_settings G env c fence num_fences
  have he := executeG2D_encode_settings H G T env (executeG2D_setup G env c fence num_fences)
  have hfence := hs.2.2.2.2.2.2.1 hval
  have hnum : (executeG2D_setup G env c fence num_fences).num_fences =
      min num_fences (c.mLayers.length + 1) := by
    rw [hs.2.2.2.2.2.2.2.1 hval]
    split_ifs <;> omega
  have hpad : ∀ i, c.mLayers.length < i → i < num_fences →
      (executeG2D_setup G env c fence num_fences).fence i = -1 := by
    intro i h1 h2
    rw [hfence]
    simp only
    rw [if_pos ⟨by omega, h2⟩]
  unfold executeG2D
  simp only
  by_cases hok : (executeG2D_setup G env c fence num_fences).ok = true
  · simp only [hok, Bool.not_true, Bool.false_eq_true, if_false]
    cases hl : (executeG2D_encode H G T env (executeG2D_setup G env c fence num_fences)).locals with
    | none =>
      simp only
      exact ⟨hpad, fun t ht => by simp at ht, fun h => by simp at h⟩
    | some wl =>
      simp only
      have hver : (executeG2D_finish G T env
          (executeG2D_encode H G T env (executeG2D_setup G env c fence num_fences)).self
          wl.1 wl.2 (executeG2D_setup G env c fence num_fences).layercount
          (executeG2D_setup G env c fence num_fences).num_fences nonblocking).mVersion =
          c.mVersion := he.2.2.trans hs.2.1
      have hfin := executeG2D_finish_num_release_fences G T env
          (executeG2D_encode H G T env (executeG2D_setup G env c fence num_fences)).self
          wl.1 wl.2 (executeG2D_setup G env c fence num_fences).layercount
          (executeG2D_setup G env c fence num_fences).num_fences nonblocking
      have hio := ioctlG2D_release_fences env (executeG2D_finish G T env
          (executeG2D_encode H G T env (executeG2D_setup G env c fence num_fences)).self
          wl.1 wl.2 (executeG2D_setup G env c fence num_fences).layercount
          (executeG2D_setup G env c fence num_fences).num_fences nonblocking)
      rw [hver, hfin] at hio
      generalize ioctlG2D env (executeG2D_finish G T env
          (executeG2D_encode H G T env (executeG2D_setup G env c fence num_fences)).self
          wl.1 wl.2 (executeG2D_setup G env c fence num_fences).layercount
          (executeG2D_setup G env c fence num_fences).num_fences nonblocking) = io at hio ⊢
      rw [hnum] at hio
      obtain ⟨hio1, hio2⟩ := hio
      split_ifs with hret hflag
      · refine ⟨hpad, fun t ht => ?_, fun h => by simp at h⟩
        simp only [Option.some.injEq] at ht
        rw [← ht]; exact hio1
      · refine ⟨hpad, fun t ht => ?_, fun h => by simp at h⟩
        simp only [Option.some.injEq] at ht
        rw [← ht]; exact hio1
      · refine ⟨fun i h1 h2 => ?_, fun t ht => ?_, fun _ => ⟨io.submitted, rfl, fun hdev i hi => ?_⟩⟩
        · simp only
          rw [hnum, if_neg (by omega)]
          exact hpad i h1 h2
        · simp only [Option.some.injEq] at ht
          rw [← ht]; exact hio1
        · simp only
          rw [hnum, if_pos hi]
          exact hio2 hdev hret i hi
  · have hok0 : (executeG2D_setup G env c fence num_fences).ok = false := by simpa using hok
    simp only [hok0, Bool.not_false, if_true]
    exact ⟨hpad, fun t ht => by simp at ht, fun h => by simp at h⟩

/-- Witness for C35: the sample compositor (two layers) with four caller entries
set to 9: entry 3 is -1, three release fences are requested, the call returns
`true` and the entries 0, 1, 2 are the release fences 20, 21, 22 of the sample
device. -/
theorem executeG2D_release_fences_witness :
    sampleEnv.validateAllLayers sampleFencedCompositor = true ∧
    (executeG2D sampleHal sampleG2D sampleTaskHeader sampleEnv sampleFencedCompositor
      (fun _ => 9) 4 true).fence 3 = -1 ∧
    (∀ t, (executeG2D sampleHal sampleG2D sampleTaskHeader sampleEnv sampleFencedCompositor
      (fun _ => 9) 4 true).submitted = some t → t.num_release_fences = 3) ∧
    (executeG2D sampleHal sampleG2D sampleTaskHeader sampleEnv sampleFencedCompositor
      (fun _ => 9) 4 true).ok = true ∧
    (∃ t, (executeG2D sampleHal sampleG2D sampleTaskHeader sampleEnv sampleFencedCompositor
        (fun _ => 9) 4 true).submitted = some t ∧
      ∀ i, i < 3 →
        (executeG2D sampleHal sampleG2D sampleTaskHeader sampleEnv sampleFencedCompositor
          (fun _ => 9) 4 true).fence i = 20 + (i : Int)) :=
  have h := executeG2D_release_fences sampleHal sampleG2D sampleTaskHeader sampleEnv
    sampleFencedCompositor (fun _ => 9) 4 true rfl
  have hok : (executeG2D sampleHal sampleG2D sampleTaskHeader sampleEnv sampleFencedCompositor
      (fun _ => 9) 4 true).ok = true := by decide
  ⟨rfl, h.1 3 (by decide) (by decide), h.2.1, hok,
    (h.2.2 hok).elim (fun t ht => ⟨t, ht.1, fun i hi => ht.2 (Or.inl (le_refl _)) i hi⟩)⟩

/-- Claim C36 (defect): on the sample constants, for both signednesses of plain
`char`, the dataspace BT470M (`8 << 16`), whose colour standard the table
`csc_std_to_matrix_index` marks undefined, gives a row index that is neither
the invalid sentinel nor below 8: the constructor stores it as target index
for a YCbCr (NV12) target, and `configure` stores it in the cache for a YCbCr
layer; `write` then looks up that row in the 8-row coefficient tables. -/
theorem CSCMatrixWriter_row_index_out_of_table :
    ∀ charIsSigned : Bool,
      (CSCMatrixWriter.new sampleHal sampleG2D charIsSigned (fun _ => 0) 0x80000 0x80000
          0).1.mMatrixTargetIndex = (if charIsSigned then 4294967294 else 510) ∧
      (CSCMatrixWriter.new sampleHal sampleG2D charIsSigned (fun _ => 0) 0x80000 0x80000
          0).1.mMatrixTargetIndex ≠ CSC_MATRIX_INVALID_INDEX ∧
      ((CSCMatrixWriter.new sampleHal sampleG2D charIsSigned (fun _ => 0) 0x03012 0 0).1.configure
          sampleHal sampleG2D charIsSigned 0x80000 0x80000 0).1 = true ∧
      ((CSCMatrixWriter.new sampleHal sampleG2D charIsSigned (fun _ => 0) 0x03012 0 0).1.configure
          sampleHal sampleG2D charIsSigned 0x80000 0x80000 0).2.1.cached =
        [if charIsSigned then 4294967294 else 510] ∧
      8 ≤ (if charIsSigned then 4294967294 else 510) ∧
      YCbCr2sRGBCoefficients.length = 8 ∧ sRGB2YCbCrCoefficients.length = 8 := by
  intro charIsSigned
  cases charIsSigned <;> decide

theorem getElem?_eq_some_getD {α : Type} (l : List α) (i : Nat) (d : α) (h : i < l.length) :
    l[i]? = some (l.getD i d) := by
  rw [List.getD_eq_getElem?_getD, List.getElem?_eq_getElem h]
  rfl

theorem CSCMatrixWriter.write_sources_none (w : CSCMatrixWriter) :
    ∀ (l : List Nat),
    l.foldl
      (fun (s : Option ((Nat → g2d_reg) × Nat)) m =>
        match s, YCbCr2sRGBCoefficients[w.mMatrixIndex m]? with
        | some s, some row =>
          some (CSCMatrixWriter.writeSingle (CSC_MATRIX_SRC_BASE + m * CSC_MATRIX_REGISTER_SIZE)
              s.1 s.2 row,
            s.2 + CSC_MATRIX_REGISTER_COUNT)
        | _, _ => none)
      none = none
  | [] => rfl
  | _ :: l => by
    rw [List.foldl_cons]
    exact CSCMatrixWriter.write_sources_none w l

theorem CSCMatrixWriter.write_sources_some (w : CSCMatrixWriter) :
    ∀ (n : Nat) (r0 : Nat → g2d_reg) (c0 : Nat),
    (∀ m, m < n → w.mMatrixIndex m < YCbCr2sRGBCoefficients.length) →
    (List.range n).foldl
      (fun (s : Option ((Nat → g2d_reg) × Nat)) m =>
        match s, YCbCr2sRGBCoefficients[w.mMatrixIndex m]? with
        | some s, some row =>
          some (CSCMatrixWriter.writeSingle (CSC_MATRIX_SRC_BASE + m * CSC_MATRIX_REGISTER_SIZE)
              s.1 s.2 row,
            s.2 + CSC_MATRIX_REGISTER_COUNT)
        | _, _ => none)
      (some (r0, c0)) =
    some (fun i => if c0 ≤ i ∧ i < c0 + 9 * n then cscSourceEntry w c0 i else r0 i, c0 + 9 * n)
  | 0, r0, c0, _ => by
    simp only [List.range_zero, List.foldl_nil, Nat.mul_zero, Nat.add_zero]
    congr 2
    funext i
    rw [if_neg (by omega)]
  | n + 1, r0, c0, h => by
    rw [List.range_succ, List.foldl_append,
      CSCMatrixWriter.write_sources_some w n r0 c0 (fun m hm => h m (by omega))]
    simp only [List.foldl_cons, List.foldl_nil]
    rw [getElem?_eq_some_getD _ _ [] (h n (by omega))]
    simp only [CSCMatrixWriter.writeSingle_eq, CSC_MATRIX_REGISTER_COUNT]
    congr 1
    refine Prod.ext ?_ (by simp only; omega)
    funext i
    simp only
    by_cases h1 : c0 + 9 * n ≤ i ∧ i < c0 + 9 * n + 9
    · rw [if_pos h1, if_pos (by omega)]
      unfold cscSourceEntry
      have h1 : (i - c0) / 9 = n := by omega
      have h2 : (i - c0) % 9 = i - (c0 + 9 * n) := by omega
      rw [h1, h2]
    · rw [if_neg h1]
      by_cases h2 : c0 ≤ i ∧ i < c0 + 9 * n
      · rw [if_pos h2, if_pos (by omega)]
      · rw [if_neg h2, if_neg (by omega)]

theorem CSCMatrixWriter.write_sources_outside (w : CSCMatrixWriter) :
    ∀ (n : Nat) (s0 : Option ((Nat → g2d_reg) × Nat)),
    (∃ m, m < n ∧ ¬ w.mMatrixIndex m < YCbCr2sRGBCoefficients.length) →
    (List.range n).foldl
      (fun (s : Option ((Nat → g2d_reg) × Nat)) m =>
        match s, YCbCr2sRGBCoefficients[w.mMatrixIndex m]? with
        | some s, some row =>
          some (CSCMatrixWriter.writeSingle (CSC_MATRIX_SRC_BASE + m * CSC_MATRIX_REGISTER_SIZE)
              s.1 s.2 row,
            s.2 + CSC_MATRIX_REGISTER_COUNT)
        | _, _ => none)
      s0 = none
  | 0, _, h => by
    obtain ⟨m, hm, _⟩ := h
    omega
  | n + 1, s0, h => by
    rw [List.range_succ, List.foldl_append]
    simp only [List.foldl_cons, List.foldl_nil]
    obtain ⟨m, hm, hrow⟩ := h
    by_cases hmn : m = n
    · subst hmn
      have hnone : YCbCr2sRGBCoefficients[w.mMatrixIndex m]? = none :=
        List.getElem?_eq_none (by omega)
      rw [hnone]
      split <;> first | rfl | simp_all
    · rw [CSCMatrixWriter.write_sources_outside w n s0 ⟨m, by omega, hrow⟩]

/-- Where every row is a row of its table, `write` returns the closed form. -/
theorem CSCMatrixWriter.write_eq_some (w : CSCMatrixWriter) (regs : Nat → g2d_reg)
    (h : w.rowsInTable) : w.write regs = some (cscWritten w regs) := by
  obtain ⟨ht, hs⟩ := h
  unfold CSCMatrixWriter.write cscWritten
  by_cases hti : w.mMatrixTargetIndex ≠ CSC_MATRIX_INVALID_INDEX
  · have hlt : w.mMatrixTargetIndex < sRGB2YCbCrCoefficients.length := by
      rcases ht with ht | ht
      · exact absurd ht hti
      · exact ht
    simp only [if_pos hti]
    rw [getElem?_eq_some_getD _ _ [] hlt]
    simp only
    rw [CSCMatrixWriter.write_sources_some w _ _ _ hs, CSCMatrixWriter.writeSingle_eq]
    simp only [CSC_MATRIX_REGISTER_COUNT]
    congr 1
    refine Prod.ext ?_ rfl
    funext i
    simp only
    by_cases h1 : 9 ≤ i ∧ i < 9 + 9 * w.mMatrixCount
    · rw [if_pos h1, if_pos h1]
    · rw [if_neg h1, if_neg h1]
      by_cases h2 : i < 9
      · rw [if_pos h2, if_pos (by omega)]
        simp
      · rw [if_neg h2, if_neg (by omega)]
  · simp only [if_neg hti]
    rw [CSCMatrixWriter.write_sources_some w _ _ _ hs]
    congr 1
    refine Prod.ext ?_ (by simp)
    funext i
    simp

/-- Where some row is not a row of its table, `write` has no result. -/
theorem CSCMatrixWriter.write_eq_none (w : CSCMatrixWriter) (regs : Nat → g2d_reg)
    (h : ¬ w.rowsInTable) : w.write regs = none := by
  unfold CSCMatrixWriter.rowsInTable at h
  unfold CSCMatrixWriter.write
  by_cases hs : ∀ m, m < w.mMatrixCount → w.mMatrixIndex m < YCbCr2sRGBCoefficients.length
  · have ht : ¬ (w.mMatrixTargetIndex = CSC_MATRIX_INVALID_INDEX ∨
        w.mMatrixTargetIndex < sRGB2YCbCrCoefficients.length) := fun ht => h ⟨ht, hs⟩
    push_neg at ht
    simp only [if_pos ht.1]
    rw [List.getElem?_eq_none ht.2]
    exact CSCMatrixWriter.write_sources_none w _
  · push_neg at hs
    obtain ⟨m, hm, hrow⟩ := hs
    exact CSCMatrixWriter.write_sources_outside w _ _ ⟨m, hm, by omega⟩

theorem CSCMatrixWriter.write_isSome_iff (w : CSCMatrixWriter) (regs : Nat → g2d_reg) :
    (w.write regs).isSome = true ↔ w.rowsInTable := by
  by_cases h : w.rowsInTable
  · rw [CSCMatrixWriter.write_eq_some w regs h]
    exact ⟨fun _ => h, fun _ => rfl⟩
  · rw [CSCMatrixWriter.write_eq_none w regs h]
    exact ⟨fun hf => absurd hf (by simp), fun hr => absurd hr h⟩

theorem CSCMatrixWriter.getRegisterCount_eq (w : CSCMatrixWriter) :
    w.getRegisterCount = cscTargetEntries w + 9 * w.mMatrixCount := by
  unfold CSCMatrixWriter.getRegisterCount cscTargetEntries CSC_MATRIX_REGISTER_COUNT
  by_cases ht : w.mMatrixTargetIndex ≠ CSC_MATRIX_INVALID_INDEX
  · simp only [if_pos ht]; omega
  · simp only [if_neg ht]; omega

/-- The layout of the closed form of `write`: the count is `getRegisterCount()`,
the entries from the count on are untouched, the target matrix, when reserved,
occupies entries 0..8 with offsets `0x2100 + 4k`, the source matrix of slot `m`
the 9 entries that follow the target area and the earlier slots, with offsets
`0x2000 + 36 m + 4 k`; with at most `CSC_MATRIX_MAX_COUNT` slots all offsets
are pairwise distinct. -/
theorem cscWritten_layout (w : CSCMatrixWriter) (regs : Nat → g2d_reg) :
    (cscWritten w regs).2 = w.getRegisterCount ∧
    (∀ i, w.getRegisterCount ≤ i → (cscWritten w regs).1 i = regs i) ∧
    (∀ k, k < cscTargetEntries w →
      (cscWritten w regs).1 k =
        ⟨0x2100 + 4 * k, (sRGB2YCbCrCoefficients.getD w.mMatrixTargetIndex []).getD k 0⟩) ∧
    (∀ m k, m < w.mMatrixCount → k < 9 →
      (cscWritten w regs).1 (cscTargetEntries w + 9 * m + k) =
        ⟨0x2000 + 36 * m + 4 * k, (YCbCr2sRGBCoefficients.getD (w.mMatrixIndex m) []).getD k 0⟩) ∧
    (w.mMatrixCount ≤ CSC_MATRIX_MAX_COUNT →
      ∀ i j, i < w.getRegisterCount → j < w.getRegisterCount → i ≠ j →
        ((cscWritten w regs).1 i).offset ≠ ((cscWritten w regs).1 j).offset) := by
  have hcount := CSCMatrixWriter.getRegisterCount_eq w
  have hsrc : ∀ m k, m < w.mMatrixCount → k < 9 →
      (cscWritten w regs).1 (cscTargetEntries w + 9 * m + k) =
        ⟨0x2000 + 36 * m + 4 * k,
          (YCbCr2sRGBCoefficients.getD (w.mMatrixIndex m) []).getD k 0⟩ := by
    intro m k hm hk
    unfold cscWritten cscTargetEntries
    by_cases ht : w.mMatrixTargetIndex ≠ CSC_MATRIX_INVALID_INDEX
    · simp only [if_pos ht]
      rw [if_pos (by omega)]
      unfold cscSourceEntry CSC_MATRIX_SRC_BASE CSC_MATRIX_REGISTER_SIZE CSC_MATRIX_REGISTER_COUNT
      have h1 : (9 + 9 * m + k - 9) / 9 = m := by omega
      have h2 : (9 + 9 * m + k - 9) % 9 = k := by omega
      rw [h1, h2]
      congr 1
      omega
    · simp only [if_neg ht]
      rw [if_pos (by omega)]
      unfold cscSourceEntry CSC_MATRIX_SRC_BASE CSC_MATRIX_REGISTER_SIZE CSC_MATRIX_REGISTER_COUNT
      have h1 : (0 + 9 * m + k - 0) / 9 = m := by omega
      have h2 : (0 + 9 * m + k - 0) % 9 = k := by omega
      rw [h1, h2]
      congr 1
      omega
  have htgt : ∀ k, k < cscTargetEntries w →
      (cscWritten w regs).1 k =
        ⟨0x2100 + 4 * k, (sRGB2YCbCrCoefficients.getD w.mMatrixTargetIndex []).getD k 0⟩ := by
    intro k hk
    unfold cscWritten
    unfold cscTargetEntries at hk
    by_cases ht : w.mMatrixTargetIndex ≠ CSC_MATRIX_INVALID_INDEX
    · rw [if_pos ht] at hk
      simp only [if_pos ht]
      rw [if_neg (by omega), if_pos hk]
      rfl
    · rw [if_neg ht] at hk
      omega
  refine ⟨?_, ?_, htgt, hsrc, ?_⟩
  · rw [hcount]
    unfold cscWritten cscTargetEntries
    by_cases ht : w.mMatrixTargetIndex ≠ CSC_MATRIX_INVALID_INDEX
    · simp only [if_pos ht]
    · simp only [if_neg ht]; omega
  · intro i hi
    rw [hcount] at hi
    unfold cscWritten
    unfold cscTargetEntries at hi
    by_cases ht : w.mMatrixTargetIndex ≠ CSC_MATRIX_INVALID_INDEX
    · rw [if_pos ht] at hi
      simp only [if_pos ht]
      rw [if_neg (by omega), if_neg (by omega)]
    · rw [if_neg ht] at hi
      simp only [if_neg ht]
      rw [if_neg (by omega)]
  · intro hmax i j hi hj hij
    rw [hcount] at hi hj
    unfold CSC_MATRIX_MAX_COUNT at hmax
    have hoff : ∀ n, n < cscTargetEntries w + 9 * w.mMatrixCount →
        ((cscWritten w regs).1 n).offset =
          if n < cscTargetEntries w then 0x2100 + 4 * n
          else 0x2000 + 36 * ((n - cscTargetEntries w) / 9) + 4 * ((n - cscTargetEntries w) % 9) := by
      intro n hn
      by_cases hlt : n < cscTargetEntries w
      · rw [if_pos hlt, htgt n hlt]
      · rw [if_neg hlt]
        have hm : (n - cscTargetEntries w) / 9 < w.mMatrixCount := by omega
        have hk : (n - cscTargetEntries w) % 9 < 9 := Nat.mod_lt _ (by norm_num)
        have hn2 : n = cscTargetEntries w + 9 * ((n - cscTargetEntries w) / 9) +
            (n - cscTargetEntries w) % 9 := by omega
        have := hsrc _ _ hm hk
        rw [← hn2] at this
        rw [this]
    rw [hoff i hi, hoff j hj]
    have ht9 : cscTargetEntries w ≤ 9 := by
      unfold cscTargetEntries; split <;> omega
    by_cases h1 : i < cscTargetEntries w <;> by_cases h2 : j < cscTargetEntries w
    · rw [if_pos h1, if_pos h2]; omega
    · rw [if_pos h1, if_neg h2]; omega
    · rw [if_neg h1, if_pos h2]; omega
    · rw [if_neg h1, if_neg h2]; omega

/-- A coefficient read through `getD` from a row of a coefficient table is the
table entry. -/
theorem coefficient_getD (tbl : List (List Nat)) (hrl : ∀ r ∈ tbl, r.length = 9)
    (row k : Nat) (hrow : row < tbl.length) (hk : k < 9) :
    ∃ r, tbl[row]? = some r ∧ r[k]? = some ((tbl.getD row []).getD k 0) := by
  have hk9 : k < (tbl[row]).length := by
    rw [hrl _ (List.getElem_mem _)]; exact hk
  refine ⟨tbl[row], List.getElem?_eq_getElem hrow, ?_⟩
  simp only [List.getD_eq_getElem?_getD, List.getElem?_eq_getElem hrow, Option.getD_some,
    List.getElem?_eq_getElem hk9]

/-- Claim C18 (defect): on the sample constants, for both signednesses of plain
`char`, a writer with an RGB target accepts `configure` for an NV12 layer with
the dataspace BT470M (`8 << 16`): one slot is in use and `getRegisterCount()` is
9, so `write` is to fill 9 entries with the values of the row of slot 0.  But
the row index of slot 0 is 4294967294 (510 with an unsigned `char`), which is
not a row of the 8-row table `YCbCr2sRGBCoefficients`: `write` reads outside
the table and has no result. -/
theorem CSCMatrixWriter_write_row_outside_table :
    ∀ (charIsSigned : Bool) (regs : Nat → g2d_reg),
      ((CSCMatrixWriter.new sampleHal sampleG2D charIsSigned (fun _ => 0) 0x03012 0 0).1.configure
        sampleHal sampleG2D charIsSigned 0x80000 0x80000 0).1 = true ∧
      (sampleUndefinedRowWriter charIsSigned).mMatrixCount = 1 ∧
      (sampleUndefinedRowWriter charIsSigned).getRegisterCount = 9 ∧
      (sampleUndefinedRowWriter charIsSigned).mMatrixIndex 0 =
        (if charIsSigned then 4294967294 else 510) ∧
      YCbCr2sRGBCoefficients.length = 8 ∧
      YCbCr2sRGBCoefficients[(sampleUndefinedRowWriter charIsSigned).mMatrixIndex 0]? = none ∧
      (sampleUndefinedRowWriter charIsSigned).write regs = none := by
  intro charIsSigned regs
  cases charIsSigned
  · refine ⟨by decide, by decide, by decide, by decide, by decide, by decide, ?_⟩
    apply CSCMatrixWriter.write_eq_none
    unfold CSCMatrixWriter.rowsInTable
    decide
  · refine ⟨by decide, by decide, by decide, by decide, by decide, by decide, ?_⟩
    apply CSCMatrixWriter.write_eq_none
    unfold CSCMatrixWriter.rowsInTable
    decide

/-- C17 (counterexample): on the sample constants, a writer constructed for the
YCbCr target format NV12 and a target dataspace whose colour standard (12) lies
beyond the mapping table reserves no target matrix: `getRegisterCount()` is 0,
not 9, and `write` returns 0 and leaves entry 0 untouched. -/
theorem CSCMatrixWriter_unsupported_target_dataspace :
    g2dfmt_is_ycbcr sampleG2D 0x80000 = true ∧
    (CSCMatrixWriter.new sampleHal sampleG2D true (fun _ => 0) 0x80000 0xC0000 0).1.getRegisterCount
      = 0 ∧
    (CSCMatrixWriter.new sampleHal sampleG2D true (fun _ => 0) 0x80000 0xC0000 0).1.getRegisterCount
      ≠ 9 * (1 + (CSCMatrixWriter.new sampleHal sampleG2D true (fun _ => 0) 0x80000 0xC0000
          0).1.mMatrixCount) ∧
    (((CSCMatrixWriter.new sampleHal sampleG2D true (fun _ => 0) 0x80000 0xC0000 0).1.write
      (fun _ => ⟨0, 0⟩)).map (fun r => (r.2, r.1 0))) = some (0, ⟨0, 0⟩) := by
  decide

/-- C17 (amended): let a writer be constructed for a YCbCr target format and
then run through any sequence of `configure` calls.  If `findMatrixIndex` maps
the target dataspace to a row of the coefficient tables (index below 8), the
writer reserves one target matrix: the target index is that row,
`getRegisterCount()` is `9 * (1 + mMatrixCount)`, and `write` (the cached source
rows being rows of the table) returns that count and puts the 9 registers of
the RGB-to-YCbCr matrix (`sRGB2YCbCrCoefficients[index][k]` at offset
`0x2100 + 4k`) into entries 0..8, ahead of the source matrices, which start at
entry 9 (slot `m`, coefficient `k` at entry `9 + 9m + k` with offset
`0x2000 + 36m + 4k`).  If the colour standard of the target dataspace lies
beyond the mapping table, no target matrix is reserved: the target index is the
invalid sentinel, `getRegisterCount()` is `9 * mMatrixCount`, and `write` returns
that count, leaves the entries from the count on untouched and puts the source
matrices at the entries from 0 on (slot `m`, coefficient `k` at entry `9m + k`
with offset `0x2000 + 36m + 4k`). -/
theorem CSCMatrixWriter_target_matrix_first (H : HalHeader) (G : G2DHeader)
    (charIsSigned : Bool) (uninit : Nat → Nat) (g2dfmt dataspace command : Nat)
    (calls : List (Nat × Nat × Nat)) (regs : Nat → g2d_reg)
    (hy : g2dfmt_is_ycbcr G g2dfmt = true) :
    (CSCMatrixWriter.findMatrixIndex H charIsSigned dataspace < 8 →
      (configureAll H G charIsSigned
          (CSCMatrixWriter.new H G charIsSigned uninit g2dfmt dataspace command).1
          calls).2.mMatrixTargetIndex = CSCMatrixWriter.findMatrixIndex H charIsSigned dataspace ∧
      (configureAll H G charIsSigned
          (CSCMatrixWriter.new H G charIsSigned uninit g2dfmt dataspace command).1
          calls).2.getRegisterCount =
        9 * (1 + (configureAll H G charIsSigned
          (CSCMatrixWriter.new H G charIsSigned uninit g2dfmt dataspace command).1
          calls).2.mMatrixCount) ∧
      ((∀ m, m < (configureAll H G charIsSigned
            (CSCMatrixWriter.new H G charIsSigned uninit g2dfmt dataspace command).1
            calls).2.mMatrixCount →
          (configureAll H G charIsSigned
            (CSCMatrixWriter.new H G charIsSigned uninit g2dfmt dataspace command).1
            calls).2.mMatrixIndex m < 8) →
        ∃ r, (configureAll H G charIsSigned
            (CSCMatrixWriter.new H G charIsSigned uninit g2dfmt dataspace command).1
            calls).2.write regs = some r ∧
          r.2 = 9 * (1 + (configureAll H G charIsSigned
            (CSCMatrixWriter.new H G charIsSigned uninit g2dfmt dataspace command).1
            calls).2.mMatrixCount) ∧
          (∀ k, k < 9 →
            ∃ row, sRGB2YCbCrCoefficients[CSCMatrixWriter.findMatrixIndex H charIsSigned
                dataspace]? = some row ∧
              ∃ v, row[k]? = some v ∧ r.1 k = ⟨0x2100 + 4 * k, v⟩) ∧
          (∀ m k, m < (configureAll H G charIsSigned
              (CSCMatrixWriter.new H G charIsSigned uninit g2dfmt dataspace command).1
              calls).2.mMatrixCount → k < 9 →
            (r.1 (9 + 9 * m + k)).offset = 0x2000 + 36 * m + 4 * k))) ∧
    ((csc_std_to_matrix_index charIsSigned).length ≤
        (dataspace &&& H.HAL_DATASPACE_STANDARD_MASK) >>> H.HAL_DATASPACE_STANDARD_SHIFT →
      (configureAll H G charIsSigned
          (CSCMatrixWriter.new H G charIsSigned uninit g2dfmt dataspace command).1
          calls).2.mMatrixTargetIndex = CSC_MATRIX_INVALID_INDEX ∧
      (configureAll H G charIsSigned
          (CSCMatrixWriter.new H G charIsSigned uninit g2dfmt dataspace command).1
          calls).2.getRegisterCount =
        9 * (configureAll H G charIsSigned
          (CSCMatrixWriter.new H G charIsSigned uninit g2dfmt dataspace command).1
          calls).2.mMatrixCount ∧
      ((∀ m, m < (configureAll H G charIsSigned
            (CSCMatrixWriter.new H G charIsSigned uninit g2dfmt dataspace command).1
            calls).2.mMatrixCount →
          (configureAll H G charIsSigned
            (CSCMatrixWriter.new H G charIsSigned uninit g2dfmt dataspace command).1
            calls).2.mMatrixIndex m < 8) →
        ∃ r, (configureAll H G charIsSigned
            (CSCMatrixWriter.new H G charIsSigned uninit g2dfmt dataspace command).1
            calls).2.write regs = some r ∧
          r.2 = 9 * (configureAll H G charIsSigned
            (CSCMatrixWriter.new H G charIsSigned uninit g2dfmt dataspace command).1
            calls).2.mMatrixCount ∧
          (∀ i, r.2 ≤ i → r.1 i = regs i) ∧
          (∀ m k, m < (configureAll H G charIsSigned
              (CSCMatrixWriter.new H G charIsSigned uninit g2dfmt dataspace command).1
              calls).2.mMatrixCount → k < 9 →
            (r.1 (9 * m + k)).offset = 0x2000 + 36 * m + 4 * k))) := by
  have hnew : (CSCMatrixWriter.new H G charIsSigned uninit g2dfmt dataspace command).1.mMatrixTargetIndex
      = CSCMatrixWriter.findMatrixIndex H charIsSigned dataspace := by
    unfold CSCMatrixWriter.new
    rw [if_pos hy]
  have htgt := configureAll_target H G charIsSigned calls
    (CSCMatrixWriter.new H G charIsSigned uninit g2dfmt dataspace command).1
  rw [hnew] at htgt
  generalize (configureAll H G charIsSigned
    (CSCMatrixWriter.new H G charIsSigned uninit g2dfmt dataspace command).1 calls).2 = w at htgt ⊢
  have hlenS : sRGB2YCbCrCoefficients.length = 8 := rfl
  have hlenY : YCbCr2sRGBCoefficients.length = 8 := rfl
  obtain ⟨hc2, hrest, htg, hsrc, _⟩ := cscWritten_layout w regs
  have hcount := CSCMatrixWriter.getRegisterCount_eq w
  constructor
  · intro hrow
    have hvalid : w.mMatrixTargetIndex ≠ CSC_MATRIX_INVALID_INDEX := by
      rw [htgt]; unfold CSC_MATRIX_INVALID_INDEX; omega
    have hT : cscTargetEntries w = 9 := by
      unfold cscTargetEntries; rw [if_pos hvalid]
    rw [hT] at hcount htg hsrc
    refine ⟨htgt, by rw [hcount]; omega, fun hrows => ?_⟩
    have hin : w.rowsInTable :=
      ⟨Or.inr (by rw [htgt, hlenS]; exact hrow), fun m hm => by rw [hlenY]; exact hrows m hm⟩
    refine ⟨_, CSCMatrixWriter.write_eq_some w regs hin, by rw [hc2, hcount]; omega, ?_, ?_⟩
    · intro k hk
      obtain ⟨row, h1, h2⟩ := coefficient_getD sRGB2YCbCrCoefficients (by decide)
        (CSCMatrixWriter.findMatrixIndex H charIsSigned dataspace) k (by rw [hlenS]; exact hrow) hk
      refine ⟨row, h1, _, h2, ?_⟩
      rw [htg k hk, htgt]
    · intro m k hm hk
      rw [hsrc m k hm hk]
  · intro hstd
    have hinv : w.mMatrixTargetIndex = CSC_MATRIX_INVALID_INDEX := by
      rw [htgt]
      unfold CSCMatrixWriter.findMatrixIndex
      simp only
      rw [if_pos hstd]
    have hT : cscTargetEntries w = 0 := by
      unfold cscTargetEntries; rw [if_neg (by rw [hinv]; exact fun h => h rfl)]
    rw [hT] at hcount hsrc
    refine ⟨hinv, by rw [hcount]; omega, fun hrows => ?_⟩
    have hin : w.rowsInTable := ⟨Or.inl hinv, fun m hm => by rw [hlenY]; exact hrows m hm⟩
    refine ⟨_, CSCMatrixWriter.write_eq_some w regs hin, by rw [hc2, hcount]; omega, ?_, ?_⟩
    · intro i hi
      rw [hc2] at hi
      exact hrest i hi
    · intro m k hm hk
      have h := hsrc m k hm hk
      rw [Nat.zero_add] at h
      rw [h]

/-- Witness of the amended C17: a writer constructed for an NV12 target with a
BT.709 limited dataspace (row 2) and no source layer reports 9 registers; with
a dataspace of colour standard 12 it reports none. -/
theorem CSCMatrixWriter_target_matrix_first_witness :
    g2dfmt_is_ycbcr sampleG2D 0x80000 = true ∧
    CSCMatrixWriter.findMatrixIndex sampleHal true 0x10000 < 8 ∧
    (configureAll sampleHal sampleG2D true
        (CSCMatrixWriter.new sampleHal sampleG2D true (fun _ => 0) 0x80000 0x10000 0).1
        []).2.getRegisterCount =
      9 * (1 + (configureAll sampleHal sampleG2D true
        (CSCMatrixWriter.new sampleHal sampleG2D true (fun _ => 0) 0x80000 0x10000 0).1
        []).2.mMatrixCount) ∧
    (configureAll sampleHal sampleG2D true
        (CSCMatrixWriter.new sampleHal sampleG2D true (fun _ => 0) 0x80000 0xC0000 0).1
        []).2.getRegisterCount =
      9 * (configureAll sampleHal sampleG2D true
        (CSCMatrixWriter.new sampleHal sampleG2D true (fun _ => 0) 0x80000 0xC0000 0).1
        []).2.mMatrixCount :=
  ⟨by decide, by decide,
    ((CSCMatrixWriter_target_matrix_first sampleHal sampleG2D true (fun _ => 0) 0x80000 0x10000 0
      [] (fun _ => ⟨0, 0⟩) (by decide)).1 (by decide)).2.1,
    ((CSCMatrixWriter_target_matrix_first sampleHal sampleG2D true (fun _ => 0) 0x80000 0xC0000 0
      [] (fun _ => ⟨0, 0⟩) (by decide)).2 (by decide)).2.1⟩

theorem or_eq_two_pow_iff (x y F : Nat) :
    x ||| y = 2 ^ F ↔
      (x = 2 ^ F ∧ y = 2 ^ F) ∨ (x = 0 ∧ y = 2 ^ F) ∨ (x = 2 ^ F ∧ y = 0) := by
  constructor
  · intro h
    by_cases hx : x = 0
    · right; left
      rw [hx, Nat.zero_or] at h
      exact ⟨hx, h⟩
    · have h1 := eq_two_pow_of_or_eq x y F hx h
      by_cases hy : y = 0
      · right; right
        exact ⟨h1, hy⟩
      · left
        exact ⟨h1, eq_two_pow_of_or_eq y x F hy (by rw [Nat.lor_comm]; exact h)⟩
  · rintro (⟨h1, h2⟩ | ⟨h1, h2⟩ | ⟨h1, h2⟩)
    · rw [h1, h2, Nat.or_self]
    · rw [h1, h2, Nat.zero_or]
    · rw [h1, h2, Nat.or_zero]

/-- Claim C21 (amended): for every non-solid source layer that `prepareSource`
encodes against a target window with non-zero extents (`G2D_SCALE_FACTOR`
divides by them; a zero divisor is undefined in C), with
`G2D_SCALEFACTOR_FRACBITS` below 32, so that unity is the single bit
`1 << FRACBITS`, and a non-zero bilinear value: the encoded factors are the
quotients `((uint32_t)crop << FRACBITS) / window`, and `SCALECONTROL` holds the
bilinear value or 0.  Unless one of the encoded factors is 0 and the other is
unity, it holds the bilinear value if and only if the encoded `XSCALE` differs
from unity or the encoded `YSCALE` differs from unity.  When one factor is 0 and
the other is unity it holds 0. -/
theorem prepareSource_bilinear_iff (H : HalHeader) (G : G2DHeader) (tbl : List g2d_fmt)
    (tbl_len : Nat) (layer : AcrylicLayer) (image : g2d_layer) (cmd : g2dsfr → Nat)
    (target_size : hw2d_coord_t) (index : Int)
    (hs : layer.isSolidColor = false)
    (hok : (prepareSource H G tbl tbl_len layer image cmd target_size index).1 = true)
    (hwx : toU32 (scaleWindow H layer target_size).hori ≠ 0)
    (hwy : toU32 (scaleWindow H layer target_size).vert ≠ 0)
    (hF : G.G2D_SCALEFACTOR_FRACBITS < 32)
    (hB : G.G2D_SCALECONTROL_BILINEAR ≠ 0) :
    ((prepareSource H G tbl tbl_len layer image cmd target_size index).2.2 G2DSFR_SRC_XSCALE =
        u32 (toU32 layer.getImageRect.size.hori <<< G.G2D_SCALEFACTOR_FRACBITS) /
          toU32 (scaleWindow H layer target_size).hori ∧
      (prepareSource H G tbl tbl_len layer image cmd target_size index).2.2 G2DSFR_SRC_YSCALE =
        u32 (toU32 layer.getImageRect.size.vert <<< G.G2D_SCALEFACTOR_FRACBITS) /
          toU32 (scaleWindow H layer target_size).vert ∧
      0 < toU32 (scaleWindow H layer target_size).hori ∧
      0 < toU32 (scaleWindow H layer target_size).vert) ∧
    ((prepareSource H G tbl tbl_len layer image cmd target_size index).2.2 G2DSFR_SRC_SCALECONTROL
        = G.G2D_SCALECONTROL_BILINEAR ∨
      (prepareSource H G tbl tbl_len layer image cmd target_size index).2.2 G2DSFR_SRC_SCALECONTROL
        = 0) ∧
    (¬ ((prepareSource H G tbl tbl_len layer image cmd target_size index).2.2 G2DSFR_SRC_XSCALE
          = 0 ∧
        (prepareSource H G tbl tbl_len layer image cmd target_size index).2.2 G2DSFR_SRC_YSCALE
          = G2D_SCALE_FACTOR G 1 1) →
      ¬ ((prepareSource H G tbl tbl_len layer image cmd target_size index).2.2 G2DSFR_SRC_XSCALE
          = G2D_SCALE_FACTOR G 1 1 ∧
        (prepareSource H G tbl tbl_len layer image cmd target_size index).2.2 G2DSFR_SRC_YSCALE
          = 0) →
      ((prepareSource H G tbl tbl_len layer image cmd target_size index).2.2
          G2DSFR_SRC_SCALECONTROL = G.G2D_SCALECONTROL_BILINEAR ↔
        ((prepareSource H G tbl tbl_len layer image cmd target_size index).2.2 G2DSFR_SRC_XSCALE
            ≠ G2D_SCALE_FACTOR G 1 1 ∨
          (prepareSource H G tbl tbl_len layer image cmd target_size index).2.2 G2DSFR_SRC_YSCALE
            ≠ G2D_SCALE_FACTOR G 1 1))) ∧
    ((((prepareSource H G tbl tbl_len layer image cmd target_size index).2.2 G2DSFR_SRC_XSCALE
          = 0 ∧
        (prepareSource H G tbl tbl_len layer image cmd target_size index).2.2 G2DSFR_SRC_YSCALE
          = G2D_SCALE_FACTOR G 1 1) ∨
      ((prepareSource H G tbl tbl_len layer image cmd target_size index).2.2 G2DSFR_SRC_XSCALE
          = G2D_SCALE_FACTOR G 1 1 ∧
        (prepareSource H G tbl tbl_len layer image cmd target_size index).2.2 G2DSFR_SRC_YSCALE
          = 0)) →
      (prepareSource H G tbl tbl_len layer image cmd target_size index).2.2
        G2DSFR_SRC_SCALECONTROL = 0) := by
  obtain ⟨h1, h2, h3, _, _⟩ := prepareSource_regs H G tbl tbl_len layer image cmd target_size
    index hs hok
  refine ⟨⟨h1, h2, Nat.pos_of_ne_zero hwx, Nat.pos_of_ne_zero hwy⟩, ?_⟩
  rw [h3, h1, h2, G2D_SCALE_FACTOR_one G hF]
  generalize G2D_SCALE_FACTOR G layer.getImageRect.size.hori
    (scaleWindow H layer target_size).hori = X
  generalize G2D_SCALE_FACTOR G layer.getImageRect.size.vert
    (scaleWindow H layer target_size).vert = Y
  have hiff := or_eq_two_pow_iff X Y G.G2D_SCALEFACTOR_FRACBITS
  by_cases hne : X ||| Y ≠ 2 ^ G.G2D_SCALEFACTOR_FRACBITS
  · rw [if_pos hne]
    refine ⟨Or.inl rfl, fun _ _ => ⟨fun _ => ?_, fun _ => rfl⟩, fun h => ?_⟩
    · by_contra hboth
      push_neg at hboth
      exact hne (hiff.mpr (Or.inl hboth))
    · exact absurd (hiff.mpr (Or.inr h)) hne
  · rw [if_neg hne]
    have heq : X ||| Y = 2 ^ G.G2D_SCALEFACTOR_FRACBITS := by
      by_contra h
      exact hne h
    refine ⟨Or.inr rfl, fun n1 n2 => ⟨fun h => absurd h.symm hB, fun h => ?_⟩, fun _ => rfl⟩
    rcases hiff.mp heq with hb | hb | hb
    · rcases h with h | h
      · exact absurd hb.1 h
      · exact absurd hb.2 h
    · exact absurd hb n1
    · exact absurd hb n2

/-- Witness for C21: the sample bottom layer (crop 100x50 into a 50x50 window)
has `XSCALE` twice unity and gets the bilinear value. -/
theorem prepareSource_bilinear_iff_witness :
    sampleBottom.isSolidColor = false ∧
    toU32 (scaleWindow sampleHal sampleBottom ⟨100, 50⟩).hori ≠ 0 ∧
    toU32 (scaleWindow sampleHal sampleBottom ⟨100, 50⟩).vert ≠ 0 ∧
    (prepareSource sampleHal sampleG2D (halfmt_to_g2dfmt_tbl sampleHal sampleG2D false)
      (len_halfmt_to_g2dfmt_tbl sampleHal sampleG2D false) sampleBottom sampleImage
      sampleCmd ⟨100, 50⟩ 0).1 = true ∧
    (prepareSource sampleHal sampleG2D (halfmt_to_g2dfmt_tbl sampleHal sampleG2D false)
      (len_halfmt_to_g2dfmt_tbl sampleHal sampleG2D false) sampleBottom sampleImage
      sampleCmd ⟨100, 50⟩ 0).2.2 G2DSFR_SRC_XSCALE ≠ G2D_SCALE_FACTOR sampleG2D 1 1 ∧
    (prepareSource sampleHal sampleG2D (halfmt_to_g2dfmt_tbl sampleHal sampleG2D false)
      (len_halfmt_to_g2dfmt_tbl sampleHal sampleG2D false) sampleBottom sampleImage
      sampleCmd ⟨100, 50⟩ 0).2.2 G2DSFR_SRC_SCALECONTROL = sampleG2D.G2D_SCALECONTROL_BILINEAR :=
  ⟨by decide, by decide, by decide, by decide, by decide,
   ((prepareSource_bilinear_iff sampleHal sampleG2D
      (halfmt_to_g2dfmt_tbl sampleHal sampleG2D false)
      (len_halfmt_to_g2dfmt_tbl sampleHal sampleG2D false) sampleBottom sampleImage sampleCmd
      ⟨100, 50⟩ 0 (by decide) (by decide) (by decide) (by decide) (by decide)
      (by decide)).2.2.1 (by decide)
      (by decide)).mpr (Or.inl (by decide))⟩

set_option maxRecDepth 8000 in
theorem prepareSolidLayer_bounds (H : HalHeader) (G : G2DHeader) (layer : AcrylicLayer)
    (image : g2d_layer) (cmd : g2dsfr → Nat) (target_size : hw2d_coord_t) (index : Int) :
    (prepareSolidLayer H G layer image cmd target_size index).2.2 G2DSFR_IMG_LEFT =
      toU32 layer.getImageRect.pos.hori ∧
    (prepareSolidLayer H G layer image cmd target_size index).2.2 G2DSFR_IMG_TOP =
      toU32 layer.getImageRect.pos.vert ∧
    (prepareSolidLayer H G layer image cmd target_size index).2.2 G2DSFR_IMG_RIGHT =
      toU32 (layer.getImageRect.size.hori + layer.getImageRect.pos.hori) ∧
    (prepareSolidLayer H G layer image cmd target_size index).2.2 G2DSFR_IMG_BOTTOM =
      toU32 (layer.getImageRect.size.vert + layer.getImageRect.pos.vert) ∧
    (prepareSolidLayer H G layer image cmd target_size index).2.2 G2DSFR_IMG_WIDTH =
      toU32 layer.getImageDimension.hori ∧
    (prepareSolidLayer H G layer image cmd target_size index).2.2 G2DSFR_IMG_HEIGHT =
      toU32 layer.getImageDimension.vert := by
  unfold prepareSolidLayer setSolidLayer
  simp only [Function.update_apply, reduceCtorEq, if_false, if_true]
  refine ⟨?_, ?_, ?_, ?_, ?_, ?_⟩ <;> trivial

/-- Claim C25 (amended): for every source layer with crop rectangle
(x, y, w, h) that `prepareSource` encodes, solid-colour or buffer-backed,
compressed or not, the image bounds are `LEFT = x`, `TOP = y`, `RIGHT = x + w`
and `BOTTOM = y + h` (converted to 32 bits).  For a compressed buffer-backed
layer the registers decremented by one are the image width and height
(`IMG_WIDTH`, `IMG_HEIGHT`); for an uncompressed buffer-backed layer and for a
solid-colour layer they hold the image dimension. -/
theorem prepareSource_image_bounds (H : HalHeader) (G : G2DHeader) (tbl : List g2d_fmt)
    (tbl_len : Nat) (layer : AcrylicLayer) (image : g2d_layer) (cmd : g2dsfr → Nat)
    (target_size : hw2d_coord_t) (index : Int)
    (hok : (prepareSource H G tbl tbl_len layer image cmd target_size index).1 = true) :
    (prepareSource H G tbl tbl_len layer image cmd target_size index).2.2 G2DSFR_IMG_LEFT =
      toU32 layer.getImageRect.pos.hori ∧
    (prepareSource H G tbl tbl_len layer image cmd target_size index).2.2 G2DSFR_IMG_TOP =
      toU32 layer.getImageRect.pos.vert ∧
    (prepareSource H G tbl tbl_len layer image cmd target_size index).2.2 G2DSFR_IMG_RIGHT =
      toU32 (layer.getImageRect.pos.hori + layer.getImageRect.size.hori) ∧
    (prepareSource H G tbl tbl_len layer image cmd target_size index).2.2 G2DSFR_IMG_BOTTOM =
      toU32 (layer.getImageRect.pos.vert + layer.getImageRect.size.vert) ∧
    (layer.isSolidColor = false → layer.isCompressed = true →
      (prepareSource H G tbl tbl_len layer image cmd target_size index).2.2 G2DSFR_IMG_WIDTH =
        u32 (toU32 layer.getImageDimension.hori + (2 ^ 32 - 1)) ∧
      (prepareSource H G tbl tbl_len layer image cmd target_size index).2.2 G2DSFR_IMG_HEIGHT =
        u32 (toU32 layer.getImageDimension.vert + (2 ^ 32 - 1)) ∧
      (0 < layer.getImageDimension.hori → layer.getImageDimension.hori < 2 ^ 31 →
        (prepareSource H G tbl tbl_len layer image cmd target_size index).2.2 G2DSFR_IMG_WIDTH =
          (layer.getImageDimension.hori - 1).toNat) ∧
      (0 < layer.getImageDimension.vert → layer.getImageDimension.vert < 2 ^ 31 →
        (prepareSource H G tbl tbl_len layer image cmd target_size index).2.2 G2DSFR_IMG_HEIGHT =
          (layer.getImageDimension.vert - 1).toNat)) ∧
    ((layer.isSolidColor = true ∨ layer.isCompressed = false) →
      (prepareSource H G tbl tbl_len layer image cmd target_size index).2.2 G2DSFR_IMG_WIDTH =
        toU32 layer.getImageDimension.hori ∧
      (prepareSource H G tbl tbl_len layer image cmd target_size index).2.2 G2DSFR_IMG_HEIGHT =
        toU32 layer.getImageDimension.vert) := by
  by_cases hs : layer.isSolidColor = true
  · rw [prepareSource_solid_eq H G tbl tbl_len layer image cmd target_size index hs]
    obtain ⟨b1, b2, b3, b4, b5, b6⟩ := prepareSolidLayer_bounds H G layer image cmd target_size
      index
    refine ⟨b1, b2, ?_, ?_, fun hns => ?_, fun _ => ⟨b5, b6⟩⟩
    · rw [b3, add_comm]
    · rw [b4, add_comm]
    · rw [hs] at hns
      exact absurd hns (by simp)
  · have hs : layer.isSolidColor = false := by simpa using hs
    have hg := prepareSource_geometry H G tbl tbl_len layer image cmd target_size index hs hok
    have himg := prepareImage_ok_of_prepareSource_ok H G tbl tbl_len layer image cmd target_size
      index hs hok
    obtain ⟨e, he, _⟩ := (prepareImage_ok_iff H G tbl tbl_len layer.toAcrylicCanvas image cmd
      index).mp himg
    obtain ⟨hw, hh, _⟩ := prepareSource_image_regs H G tbl tbl_len layer image cmd target_size
      index e hs he hok
    have hdec : ∀ v : Int, 0 < v → v < 2 ^ 31 →
        u32 (toU32 v + (2 ^ 32 - 1)) = (v - 1).toNat := by
      intro v h0 h1
      rw [toU32_of_nonneg_lt v (by omega) (by omega)]
      unfold u32
      have h32 : (2 : Nat) ^ 32 = 4294967296 := by norm_num
      have h31 : (2 : Int) ^ 31 = 2147483648 := by norm_num
      rw [h32]
      rw [h31] at h1
      omega
    refine ⟨hg.1, hg.2.1, ?_, ?_, fun _ hc => ?_, fun hc => ?_⟩
    · rw [hg.2.2.1, add_comm]
    · rw [hg.2.2.2.1, add_comm]
    · rw [hw, hh]
      simp only [hc, if_true]
      exact ⟨trivial, trivial, fun h0 h1 => hdec _ h0 h1, fun h0 h1 => hdec _ h0 h1⟩
    · have hc : layer.isCompressed = false := by
        rcases hc with hc | hc
        · rw [hs] at hc
          exact absurd hc (by simp)
        · exact hc
      rw [hw, hh]
      simp only [hc, Bool.false_eq_true, if_false]
      exact ⟨trivial, trivial⟩

/-- Witness for C25: the sample compressed layer (crop (10, 20, 100, 50)) gets
`RIGHT = 110`, and the sample solid-colour layer keeps its image width. -/
theorem prepareSource_image_bounds_witness :
    (prepareSource sampleHal sampleG2D (halfmt_to_g2dfmt_tbl sampleHal sampleG2D false)
      (len_halfmt_to_g2dfmt_tbl sampleHal sampleG2D false) sampleCompressedLayer sampleImage
      sampleCmd ⟨100, 50⟩ 0).1 = true ∧
    (prepareSource sampleHal sampleG2D (halfmt_to_g2dfmt_tbl sampleHal sampleG2D false)
      (len_halfmt_to_g2dfmt_tbl sampleHal sampleG2D false) sampleCompressedLayer sampleImage
      sampleCmd ⟨100, 50⟩ 0).2.2 G2DSFR_IMG_RIGHT = toU32 (10 + 100) ∧
    (prepareSource sampleHal sampleG2D (halfmt_to_g2dfmt_tbl sampleHal sampleG2D false)
      (len_halfmt_to_g2dfmt_tbl sampleHal sampleG2D false) sampleSolidLayer sampleImage
      sampleCmd ⟨100, 50⟩ 0).2.2 G2DSFR_IMG_WIDTH = toU32 sampleSolidLayer.getImageDimension.hori :=
  ⟨by decide,
    (prepareSource_image_bounds sampleHal sampleG2D
      (halfmt_to_g2dfmt_tbl sampleHal sampleG2D false)
      (len_halfmt_to_g2dfmt_tbl sampleHal sampleG2D false) sampleCompressedLayer sampleImage
      sampleCmd ⟨100, 50⟩ 0 (by decide)).2.2.1,
    ((prepareSource_image_bounds sampleHal sampleG2D
      (halfmt_to_g2dfmt_tbl sampleHal sampleG2D false)
      (len_halfmt_to_g2dfmt_tbl sampleHal sampleG2D false) sampleSolidLayer sampleImage
      sampleCmd ⟨100, 50⟩ 0 (by decide)).2.2.2.2.2 (Or.inl rfl)).1⟩

/-- Claim C11: each `execute` overload returns what its `executeG2D` call
returns (`executeG2D(fence, num_fences, true)` and
`executeG2D(NULL, 0, handle != NULL)`), so it returns `false` for every cause
that makes `executeG2D` fail; and whenever it returns `false`, the canvas
afterwards is the canvas of before with its acquire fence set to -1, and the
layers afterwards are the layers of before (in their old order or in the order
of `sortLayers`), each with its acquire fence set to -1; so every layer fence
and the canvas fence read -1. -/
theorem execute_failure_clears_fences (H : HalHeader) (G : G2DHeader) (T : G2DTaskHeader)
    (env : ExecEnv) (c : AcrylicCompositorG2D9810) (fence : Nat → Int) (num_fences : Nat)
    (handle : Option Int) :
    ((execute H G T env c fence num_fences).ok =
        (executeG2D H G T env c fence num_fences true).ok ∧
      ((execute H G T env c fence num_fences).ok = false →
        (execute H G T env c fence num_fences).self.mCanvas = c.mCanvas.setFence (-1) ∧
        (∃ ls, (ls = c.mLayers ∨ ls = env.sortLayers c.mLayers) ∧
          (execute H G T env c fence num_fences).self.mLayers =
            ls.map (fun l => l.setFence (-1))) ∧
        (execute H G T env c fence num_fences).self.mCanvas.getFence = -1 ∧
        (∀ l ∈ (execute H G T env c fence num_fences).self.mLayers, l.getFence = -1))) ∧
    ((execute_handle H G T env c handle).1.ok =
        (executeG2D H G T env c (fun _ => 0) 0 handle.isSome).ok ∧
      ((execute_handle H G T env c handle).1.ok = false →
        (execute_handle H G T env c handle).1.self.mCanvas = c.mCanvas.setFence (-1) ∧
        (∃ ls, (ls = c.mLayers ∨ ls = env.sortLayers c.mLayers) ∧
          (execute_handle H G T env c handle).1.self.mLayers =
            ls.map (fun l => l.setFence (-1))) ∧
        (execute_handle H G T env c handle).1.self.mCanvas.getFence = -1 ∧
        (∀ l ∈ (execute_handle H G T env c handle).1.self.mLayers, l.getFence = -1) ∧
        (execute_handle H G T env c handle).2 = handle)) := by
  constructor
  · unfold execute
    simp only
    by_cases hr : (executeG2D H G T env c fence num_fences true).ok = true
    · simp only [hr, Bool.not_true, Bool.false_eq_true, if_false, true_and]
      intro h
      exact absurd h (by simp)
    · have hr0 : (executeG2D H G T env c fence num_fences true).ok = false := by simpa using hr
      have hs := executeG2D_settings H G T env c fence num_fences true hr0
      simp only [hr0, Bool.not_false, if_true, true_and]
      intro _
      exact execute_clearFences_spec c _ _ hs.1 hs.2
  · unfold execute_handle
    simp only
    by_cases hr : (executeG2D H G T env c (fun _ => 0) 0 handle.isSome).ok = true
    · simp only [hr, Bool.not_true, Bool.false_eq_true, if_false, true_and]
      intro h
      exact absurd h (by simp)
    · have hr0 : (executeG2D H G T env c (fun _ => 0) 0 handle.isSome).ok = false := by
        simpa using hr
      have hs := executeG2D_settings H G T env c (fun _ => 0) 0 handle.isSome hr0
      simp only [hr0, Bool.not_false, if_true, true_and]
      intro _
      obtain ⟨a1, a2, a3, a4⟩ := execute_clearFences_spec c _ _ hs.1 hs.2
      exact ⟨a1, a2, a3, a4, trivial⟩

/-- Witness for C11: the device sets the error flag for the sample compositor
whose fences are 5, 7 and 8; both `execute` overloads return `false` and all
fences read -1 afterwards. -/
theorem execute_failure_clears_fences_witness :
    sampleFencedCompositor.mCanvas.getFence = 5 ∧
    sampleFencedCompositor.mLayers.map (fun l => l.getFence) = [7, 8] ∧
    (execute sampleHal sampleG2D sampleTaskHeader sampleEnvDeviceError sampleFencedCompositor
      (fun _ => 0) 3).ok = false ∧
    (execute sampleHal sampleG2D sampleTaskHeader sampleEnvDeviceError sampleFencedCompositor
      (fun _ => 0) 3).self.mCanvas.getFence = -1 ∧
    (∀ l ∈ (execute sampleHal sampleG2D sampleTaskHeader sampleEnvDeviceError
      sampleFencedCompositor (fun _ => 0) 3).self.mLayers, l.getFence = -1) ∧
    (execute_handle sampleHal sampleG2D sampleTaskHeader sampleEnvDeviceError
      sampleFencedCompositor (some 0)).1.ok = false ∧
    (execute_handle sampleHal sampleG2D sampleTaskHeader sampleEnvDeviceError
      sampleFencedCompositor (some 0)).1.self.mCanvas.getFence = -1 ∧
    (∀ l ∈ (execute_handle sampleHal sampleG2D sampleTaskHeader sampleEnvDeviceError
      sampleFencedCompositor (some 0)).1.self.mLayers, l.getFence = -1) ∧
    (execute_handle sampleHal sampleG2D sampleTaskHeader sampleEnvDeviceError
      sampleFencedCompositor (some 0)).1.self.mLayers.length = 2 :=
  have h := execute_failure_clears_fences sampleHal sampleG2D sampleTaskHeader
    sampleEnvDeviceError sampleFencedCompositor (fun _ => 0) 3 (some 0)
  have h1 : (execute sampleHal sampleG2D sampleTaskHeader sampleEnvDeviceError
      sampleFencedCompositor (fun _ => 0) 3).ok = false := h.1.1.trans (by decide)
  have h2 : (execute_handle sampleHal sampleG2D sampleTaskHeader sampleEnvDeviceError
      sampleFencedCompositor (some 0)).1.ok = false := h.2.1.trans (by decide)
  ⟨rfl, rfl, h1, (h.1.2 h1).2.2.1, (h.1.2 h1).2.2.2, h2, (h.2.2 h2).2.2.1, (h.2.2 h2).2.2.2.1,
    by decide⟩

/-- Claim C10 (amended): let `executeG2D` hand a task to the device for a
compositor with two layers, in composition order a bottom layer with full plane
alpha (255) and a top layer (of any plane alpha, 50% included).  With `b` the
number of the first user descriptor (1 when a background layer was synthesized,
else 0), the task has `b + 2` sources; the command register of the bottom layer
(source `b`) carries the opaque flag and no bit of the premultiplied-global-alpha
flag, and the command register of the top layer (source `b + 1`) carries the
alpha-blend flag.  The header flags are parameters: the
premultiplied-global-alpha flag is taken to be non-zero and to share no bit
with the valid, opaque and premultiplied-alpha flags. -/
theorem executeG2D_two_layer_flags (H : HalHeader) (G : G2DHeader) (T : G2DTaskHeader)
    (env : ExecEnv) (c : AcrylicCompositorG2D9810) (fence : Nat → Int) (num_fences : Nat)
    (nonblocking : Bool) (t : g2d_task) (bottom top : AcrylicLayer)
    (hv : c.buffersValid)
    (hhdr : ∀ t, (env.hdrGetLayerHdrMode t).source = t.source ∧
      ∀ i r, r ≠ G2DSFR_SRC_HDRMODE →
        (env.hdrGetLayerHdrMode t).sourceRegs i r = t.sourceRegs i r)
    (hlen : c.mLayers.length = 2)
    (hlayers : env.sortLayers c.mLayers = [bottom, top])
    (hB : bottom.getPlaneAlpha = 255)
    (hVP : G.G2D_LAYERCMD_VALID &&& G.G2D_LAYERCMD_PREMULT_GLOBALALPHA = 0)
    (hOP : G.G2D_LAYERCMD_OPAQUE &&& G.G2D_LAYERCMD_PREMULT_GLOBALALPHA = 0)
    (hAP : T.G2D_LAYERCMD_PREMULT_ALPHA &&& G.G2D_LAYERCMD_PREMULT_GLOBALALPHA = 0)
    (hP : G.G2D_LAYERCMD_PREMULT_GLOBALALPHA ≠ 0)
    (hsub : (executeG2D H G T env c fence num_fences nonblocking).submitted = some t) :
    t.num_source = (if executeG2D_hasBackground G c then 1 else 0) + 2 ∧
    t.sourceRegs (if executeG2D_hasBackground G c then 1 else 0) G2DSFR_SRC_COMMAND &&&
        G.G2D_LAYERCMD_OPAQUE = G.G2D_LAYERCMD_OPAQUE ∧
    t.sourceRegs (if executeG2D_hasBackground G c then 1 else 0) G2DSFR_SRC_COMMAND &&&
        G.G2D_LAYERCMD_PREMULT_GLOBALALPHA = 0 ∧
    t.sourceRegs (if executeG2D_hasBackground G c then 1 else 0) G2DSFR_SRC_COMMAND &&&
        G.G2D_LAYERCMD_PREMULT_GLOBALALPHA ≠ G.G2D_LAYERCMD_PREMULT_GLOBALALPHA ∧
    t.sourceRegs ((if executeG2D_hasBackground G c then 1 else 0) + 1) G2DSFR_SRC_COMMAND &&&
        G.G2D_LAYERCMD_ALPHABLEND = G.G2D_LAYERCMD_ALPHABLEND := by
  obtain ⟨hok, hsrc, hnum, _, _, hregs⟩ := executeG2D_submitted_layers H G T env c fence
    num_fences nonblocking t hv hhdr hsub
  obtain ⟨_, _, _, _, hsort, _, _, _, hbg, hcount⟩ :=
    executeG2D_setup_settings G env c fence num_fences
  have hsort := hsort hok
  have hcount := hcount hok
  -- the layers the loop visits
  have htake : (executeG2D_setup G env c fence num_fences).self.mLayers.take
      ((executeG2D_setup G env c fence num_fences).layercount -
        (if (executeG2D_setup G env c fence num_fences).hasBackground then 1 else 0)) =
      [bottom, top] := by
    rw [hsort, hlayers, hcount, hbg, hlen]
    by_cases hb : executeG2D_hasBackground G c = true
    · simp [hb]
    · have hb0 : executeG2D_hasBackground G c = false := by simpa using hb
      simp [hb0]
  have hloop : ∀ (n : Nat) (layer : AcrylicLayer), [bottom, top][n]? = some layer →
      (executeG2D_sources H G T env (executeG2D_setup G env c fence num_fences)
        (executeG2D_target H G (executeG2D_setup G env c fence num_fences).self).2).2.commands_source
          ((if executeG2D_hasBackground G c then 1 else 0) + n) G2DSFR_SRC_COMMAND =
        commandOf G G.G2D_LAYERCMD_VALID (layer.getPlaneAlpha % 256) ((n : Nat) : Int) := by
    intro n layer hn
    unfold executeG2D_sources at hsrc ⊢
    simp only at hsrc ⊢
    rw [htake] at hsrc ⊢
    rw [hbg] at hsrc ⊢
    have h := executeG2D_sourceLoop_command H G env.charIsSigned _ _ _ _ [bottom, top] 0 _ hsrc
      n layer hn
    rw [Nat.zero_add] at h
    exact h
  have h0 := hloop 0 bottom rfl
  have h1 := hloop 1 top rfl
  have e0 : commandOf G G.G2D_LAYERCMD_VALID (bottom.getPlaneAlpha % 256) ((0 : Nat) : Int) =
      G.G2D_LAYERCMD_VALID ||| G.G2D_LAYERCMD_OPAQUE := by
    rw [hB]
    simp [commandOf]
  have e1 : commandOf G G.G2D_LAYERCMD_VALID (top.getPlaneAlpha % 256) ((1 : Nat) : Int) =
      G.G2D_LAYERCMD_VALID ||| G.G2D_LAYERCMD_ALPHABLEND := by
    simp [commandOf]
  rw [e0, Nat.add_zero] at h0
  rw [e1] at h1
  have hlc : (executeG2D_setup G env c fence num_fences).layercount =
      (if executeG2D_hasBackground G c then 1 else 0) + 2 := by
    rw [hcount, hlen]
    split <;> rfl
  have r0 := (hregs (if executeG2D_hasBackground G c then 1 else 0) (by rw [hlc]; omega)).2.2
  have r1 := (hregs ((if executeG2D_hasBackground G c then 1 else 0) + 1)
    (by rw [hlc]; omega)).2.2
  rw [h0] at r0
  rw [h1] at r1
  have hzero : ∀ x, (x = G.G2D_LAYERCMD_VALID ||| G.G2D_LAYERCMD_OPAQUE ∨
      x = G.G2D_LAYERCMD_VALID ||| G.G2D_LAYERCMD_OPAQUE ||| T.G2D_LAYERCMD_PREMULT_ALPHA) →
      x &&& G.G2D_LAYERCMD_PREMULT_GLOBALALPHA = 0 := by
    intro x hx
    rcases hx with hx | hx
    · rw [hx, and_or_distrib_right, hVP, hOP]
      rfl
    · rw [hx, and_or_distrib_right, and_or_distrib_right, hVP, hOP, hAP]
      rfl
  refine ⟨hnum.trans hlc, ?_, hzero _ r0, ?_, ?_⟩
  · rcases r0 with r0 | r0
    · rw [r0]; exact or_and_right_self _ _
    · rw [r0]; exact or3_and_second _ _ _
  · rw [hzero _ r0]
    exact fun h => hP h.symm
  · rcases r1 with r1 | r1
    · rw [r1]; exact or_and_right_self _ _
    · rw [r1]; exact or3_and_second _ _ _

/-- Witness of the amended C10: the sample compositor with the layers
`sampleBottom` (plane alpha 255) and `sampleTop` (plane alpha 128) on the sample
device: the task is handed to the device with two sources, the command register
of source 0 carries the opaque flag and not the premultiplied-global-alpha
flag, that of source 1 the alpha-blend flag. -/
theorem executeG2D_two_layer_flags_witness :
    sampleCompositor.buffersValid ∧
    sampleEnv.sortLayers sampleCompositor.mLayers = [sampleBottom, sampleTop] ∧
    sampleBottom.getPlaneAlpha = 255 ∧ sampleTop.getPlaneAlpha = 128 ∧
    (executeG2D sampleHal sampleG2D sampleTaskHeader sampleEnv sampleCompositor
      (fun _ => 0) 3 true).submitted.isSome = true ∧
    ∀ t, (executeG2D sampleHal sampleG2D sampleTaskHeader sampleEnv sampleCompositor
        (fun _ => 0) 3 true).submitted = some t →
      t.num_source = 2 ∧
      t.sourceRegs 0 G2DSFR_SRC_COMMAND &&& sampleG2D.G2D_LAYERCMD_OPAQUE =
        sampleG2D.G2D_LAYERCMD_OPAQUE ∧
      t.sourceRegs 0 G2DSFR_SRC_COMMAND &&& sampleG2D.G2D_LAYERCMD_PREMULT_GLOBALALPHA = 0 ∧
      t.sourceRegs 1 G2DSFR_SRC_COMMAND &&& sampleG2D.G2D_LAYERCMD_ALPHABLEND =
        sampleG2D.G2D_LAYERCMD_ALPHABLEND :=
  have hv : sampleCompositor.buffersValid :=
    ⟨fun h => absurd h (by decide), fun i h => absurd h (Nat.not_lt_zero i)⟩
  ⟨hv, rfl, rfl, rfl, by decide, fun t ht =>
    have h := executeG2D_two_layer_flags sampleHal sampleG2D sampleTaskHeader sampleEnv
      sampleCompositor (fun _ => 0) 3 true t sampleBottom sampleTop hv
      (fun _ => ⟨rfl, fun _ _ _ => rfl⟩) rfl rfl rfl (by decide) (by decide) (by decide)
      (by decide) ht
    ⟨h.1, h.2.1, h.2.2.1, h.2.2.2.2⟩⟩

theorem executeG2D_sourceLoop_append (H : HalHeader) (G : G2DHeader) (charIsSigned : Bool)
    (tbl : List g2d_fmt) (tbl_len : Nat) (dim : hw2d_coord_t) (baseidx : Nat) :
    ∀ (l1 l2 : List AcrylicLayer) (k : Nat) (st : EncodeState),
    (executeG2D_sourceLoop H G charIsSigned tbl tbl_len dim baseidx k l1 st).1 = true →
    executeG2D_sourceLoop H G charIsSigned tbl tbl_len dim baseidx k (l1 ++ l2) st =
      executeG2D_sourceLoop H G charIsSigned tbl tbl_len dim baseidx (k + l1.length) l2
        (executeG2D_sourceLoop H G charIsSigned tbl tbl_len dim baseidx k l1 st).2
  | [], l2, k, st, _ => by
    simp only [List.nil_append, List.length_nil, Nat.add_zero]
    rfl
  | l0 :: rest, l2, k, st, hok => by
    obtain ⟨hs, heq⟩ := executeG2D_sourceLoop_head H G charIsSigned tbl tbl_len dim baseidx k l0
      rest st hok
    rw [heq] at hok ⊢
    have ih := executeG2D_sourceLoop_append H G charIsSigned tbl tbl_len dim baseidx rest l2
      (k + 1) _ hok
    rw [List.cons_append]
    conv_lhs => unfold executeG2D_sourceLoop
    simp only [hs, Bool.not_true, Bool.false_eq_true, if_false]
    rw [ih, List.length_cons]
    congr 1
    omega

theorem executeG2D_sourceStep_csc_fails (H : HalHeader) (G : G2DHeader) (charIsSigned : Bool)
    (tbl : List g2d_fmt) (tbl_len : Nat) (dim : hw2d_coord_t) (baseidx k : Nat)
    (layer : AcrylicLayer) (st : EncodeState)
    (hcfg : (st.cscMatrixWriter.configure H G charIsSigned
        ((prepareSource H G tbl tbl_len layer (st.source (baseidx + k))
          (st.commands_source (baseidx + k)) dim (k : Int)).2.2 G2DSFR_IMG_COLORMODE)
        layer.getDataspace
        ((prepareSource H G tbl tbl_len layer (st.source (baseidx + k))
          (st.commands_source (baseidx + k)) dim (k : Int)).2.2 G2DSFR_SRC_YCBCRMODE)).1 = false) :
    (executeG2D_sourceStep H G charIsSigned tbl tbl_len dim baseidx k layer st).1 = false := by
  unfold executeG2D_sourceStep
  simp only [Function.update_same]
  split
  · rfl
  · rw [hcfg]
    rfl

theorem executeG2D_sourceLoop_csc_fails (H : HalHeader) (G : G2DHeader) (charIsSigned : Bool)
    (tbl : List g2d_fmt) (tbl_len : Nat) (dim : hw2d_coord_t) (baseidx : Nat)
    (L : List AcrylicLayer) (k : Nat) (layer : AcrylicLayer) (st0 : EncodeState)
    (hk : L[k]? = some layer)
    (hpre : (executeG2D_sourceLoop H G charIsSigned tbl tbl_len dim baseidx 0 (L.take k) st0).1
      = true)
    (hstep : (executeG2D_sourceStep H G charIsSigned tbl tbl_len dim baseidx k layer
      (executeG2D_sourceLoop H G charIsSigned tbl tbl_len dim baseidx 0 (L.take k) st0).2).1
        = false) :
    (executeG2D_sourceLoop H G charIsSigned tbl tbl_len dim baseidx 0 L st0).1 = false := by
  have hklt : k < L.length := by
    by_contra hge
    rw [List.getElem?_eq_none (by omega)] at hk
    exact absurd hk (by simp)
  have hsplit : L.take k ++ layer :: L.drop (k + 1) = L := by
    have hget : L[k] = layer := by
      rw [List.getElem?_eq_getElem hklt] at hk
      exact Option.some.inj hk
    rw [← hget, List.getElem_cons_drop L k hklt, List.take_append_drop]
  have hlen : (L.take k).length = k := by
    rw [List.length_take]
    omega
  have e : executeG2D_sourceLoop H G charIsSigned tbl tbl_len dim baseidx 0 L st0 =
      executeG2D_sourceLoop H G charIsSigned tbl tbl_len dim baseidx 0
        (L.take k ++ layer :: L.drop (k + 1)) st0 := by
    rw [hsplit]
  rw [e, executeG2D_sourceLoop_append H G charIsSigned tbl tbl_len dim baseidx (L.take k) _ 0 st0
    hpre, hlen, Nat.zero_add]
  unfold executeG2D_sourceLoop
  simp only [hstep, Bool.not_false, if_true]

theorem executeG2D_cscFails_sources (H : HalHeader) (G : G2DHeader) (T : G2DTaskHeader)
    (env : ExecEnv) (s : ExecSetup) (k : Nat) (h : executeG2D_cscFails H G T env s k) :
    (executeG2D_sources H G T env s (executeG2D_target H G s.self).2).1 = false := by
  obtain ⟨layer, hk, hpre, hcfg⟩ := h
  have hcfg := (hcfg _ rfl).2
  unfold executeG2D_sources
  simp only
  exact executeG2D_sourceLoop_csc_fails H G env.charIsSigned _ _ _ _ _ k layer _ hk hpre
    (executeG2D_sourceStep_csc_fails H G env.charIsSigned _ _ _ _ k layer _ hcfg)

/-- Claim C13 (amended): `executeG2D` returns `false` without calling the device
when the format of the target is not in the catalog, or the target has a buffer
type other than `MT_EMPTY` and fewer buffers than its format has planes, or one
of the layers encoded by the source loop is not a solid colour and its format is
not in the catalog or it has a buffer type other than `MT_EMPTY` and fewer
buffers than its format has planes, or the CSC configuration of one of these
layers fails (`CSCMatrixWriter::configure` returns `false` for it), or a
background layer is needed and the layer count plus one exceeds
`maxLayerCount()`. -/
theorem executeG2D_configuration_error_not_submitted (H : HalHeader) (G : G2DHeader)
    (T : G2DTaskHeader) (env : ExecEnv) (c : AcrylicCompositorG2D9810) (fence : Nat → Int)
    (num_fences : Nat) (nonblocking : Bool)
    (hcause :
      (halfmt_to_g2dfmt c.halfmt_to_g2dfmt_tbl c.len_halfmt_to_g2dfmt_tbl c.mCanvas.getFormat = none ∨
        (c.mCanvas.getBufferType ≠ memory_type.MT_EMPTY ∧
          ∃ e, halfmt_to_g2dfmt c.halfmt_to_g2dfmt_tbl c.len_halfmt_to_g2dfmt_tbl
              c.mCanvas.getFormat = some e ∧ c.mCanvas.getBufferCount < e.num_bufs)) ∨
      (∃ l ∈ (env.sortLayers c.mLayers).take c.mLayers.length, l.isSolidColor = false ∧
        (halfmt_to_g2dfmt c.halfmt_to_g2dfmt_tbl c.len_halfmt_to_g2dfmt_tbl l.getFormat = none ∨
          (l.getBufferType ≠ memory_type.MT_EMPTY ∧
            ∃ e, halfmt_to_g2dfmt c.halfmt_to_g2dfmt_tbl c.len_halfmt_to_g2dfmt_tbl
                l.getFormat = some e ∧ l.getBufferCount < e.num_bufs))) ∨
      (∃ k, executeG2D_cscFails H G T env (executeG2D_setup G env c fence num_fences) k) ∨
      (executeG2D_hasBackground G c = true ∧ c.maxLayerCount < c.mLayers.length + 1)) :
    (executeG2D H G T env c fence num_fences nonblocking).ok = false ∧
    (executeG2D H G T env c fence num_fences nonblocking).submitted = none := by
  apply executeG2D_not_submitted
  intro hok
  have hs := executeG2D_setup_settings G env c fence num_fences
  obtain ⟨hcan, _, htbl, hlen, hsort, _, _, _, hbg, hcount⟩ := hs
  have hsort := hsort hok
  have hcount := hcount hok
  rcases hcause with h | h | h | h
  · apply executeG2D_encode_none
    left
    unfold executeG2D_target
    simp only
    rw [htbl, hlen, hcan]
    exact prepareImage_fails H G _ _ c.mCanvas h _ _ _
  · apply executeG2D_encode_none
    right
    obtain ⟨l, hl, hsolid, hl2⟩ := h
    unfold executeG2D_sources
    simp only
    rw [htbl, hlen, hsort, hbg, hcount]
    apply executeG2D_sourceLoop_fails
    refine ⟨l, ?_, fun image cmd index =>
      prepareSource_fails H G _ _ l hsolid hl2 image cmd _ index⟩
    by_cases hb : executeG2D_hasBackground G c = true
    · simpa [hb] using hl
    · have hb0 : executeG2D_hasBackground G c = false := by simpa using hb
      simpa [hb0] using hl
  · obtain ⟨k, hk⟩ := h
    exact executeG2D_encode_none H G T env _
      (Or.inr (executeG2D_cscFails_sources H G T env _ k hk))
  · exact absurd h (executeG2D_setup_validated G env c fence num_fences hok).2

/-- Witness for C13: a layer whose format is not in the catalog; an NV12 layer
whose dataspace has no matrix, so that its CSC configuration fails; and five
NV12 layers that need five different matrices, so that the CSC configuration of
the fifth fails.  In each case `executeG2D` returns `false` and the device is
not called. -/
theorem executeG2D_configuration_error_not_submitted_witness :
    ((executeG2D sampleHal sampleG2D sampleTaskHeader sampleEnv sampleUnmappedCompositor
        (fun _ => 0) 2 true).ok = false ∧
      (executeG2D sampleHal sampleG2D sampleTaskHeader sampleEnv sampleUnmappedCompositor
        (fun _ => 0) 2 true).submitted = none) ∧
    (executeG2D_cscFails sampleHal sampleG2D sampleTaskHeader sampleEnv
        (executeG2D_setup sampleG2D sampleEnv sampleUnsupportedDataspaceCompositor
          (fun _ => 0) 2) 0 ∧
      (executeG2D sampleHal sampleG2D sampleTaskHeader sampleEnv
        sampleUnsupportedDataspaceCompositor (fun _ => 0) 2 true).ok = false ∧
      (executeG2D sampleHal sampleG2D sampleTaskHeader sampleEnv
        sampleUnsupportedDataspaceCompositor (fun _ => 0) 2 true).submitted = none) ∧
    (executeG2D_cscFails sampleHal sampleG2D sampleTaskHeader sampleEnv
        (executeG2D_setup sampleG2D sampleEnv sampleFiveMatrixCompositor (fun _ => 0) 2) 4 ∧
      (executeG2D sampleHal sampleG2D sampleTaskHeader sampleEnv
        sampleFiveMatrixCompositor (fun _ => 0) 2 true).ok = false ∧
      (executeG2D sampleHal sampleG2D sampleTaskHeader sampleEnv
        sampleFiveMatrixCompositor (fun _ => 0) 2 true).submitted = none) :=
  have h1 : executeG2D_cscFails sampleHal sampleG2D sampleTaskHeader sampleEnv
      (executeG2D_setup sampleG2D sampleEnv sampleUnsupportedDataspaceCompositor
        (fun _ => 0) 2) 0 :=
    ⟨sampleUnsupportedDataspaceLayer, rfl, by decide,
      fun st hst => by subst hst; exact ⟨by decide, by decide⟩⟩
  have h2 : executeG2D_cscFails sampleHal sampleG2D sampleTaskHeader sampleEnv
      (executeG2D_setup sampleG2D sampleEnv sampleFiveMatrixCompositor (fun _ => 0) 2) 4 :=
    ⟨{ sampleBottom with getFormat := 0x105, getBufferCount := 2, getDataspace := 0x60000 },
      rfl, by decide, fun st hst => by subst hst; exact ⟨by decide, by decide⟩⟩
  ⟨executeG2D_configuration_error_not_submitted sampleHal sampleG2D sampleTaskHeader sampleEnv
      sampleUnmappedCompositor (fun _ => 0) 2 true
      (Or.inr (Or.inl ⟨sampleUnmappedLayer, List.mem_cons_self _ _, rfl, Or.inl (by decide)⟩)),
    ⟨h1, executeG2D_configuration_error_not_submitted sampleHal sampleG2D sampleTaskHeader
      sampleEnv sampleUnsupportedDataspaceCompositor (fun _ => 0) 2 true
      (Or.inr (Or.inr (Or.inl ⟨0, h1⟩)))⟩,
    ⟨h2, executeG2D_configuration_error_not_submitted sampleHal sampleG2D sampleTaskHeader
      sampleEnv sampleFiveMatrixCompositor (fun _ => 0) 2 true
      (Or.inr (Or.inr (Or.inl ⟨4, h2⟩)))⟩⟩

end Acryl
